import Mathlib

/-!
The mysqlnd authentication driver (`ext/mysqlnd/mysqlnd_auth.c`).

A shallow embedding of the client-side authentication driver of mysqlnd and
theorems about it.

Conventions of the embedding.

* A byte is a natural number; a buffer is a `List Nat`; a length that the C
  code passes beside a pointer is the length of the list, or an explicit `Nat`
  where the code passes a number that may differ from it.
* The connection, together with the transport behind it, is one value of
  `MYSQLND_CONN_DATA` that every function takes and returns.  The transport is a
  script: `incoming` holds the decoded packets the server will send, in order,
  `write_results` the outcome of each packet write, and `trace` records every
  packet written and read, in order.
* The hash functions are parameters (`SHA1`, `SHA256`: the streaming
  `Init`/`Update`/`Final` calls of the source hash the concatenation of the
  updates).
* Memory allocation is assumed to succeed; debug output (`DBG_*`) and PHP
  warnings are not modelled.
* A buffer that the C code holds as a string (`user`, `passwd`) is the list of its
  bytes, which may contain NUL bytes, and is followed in memory by a terminating
  NUL.  Lengths of type `size_t` are natural numbers, since no buffer comes near
  the range of `size_t`; the `unsigned int` counter of `mysqlnd_xor_string` is taken
  modulo `UINT_RANGE`, since a buffer can be longer than its range.
* A salt buffer that is allocated to its exact length (the copy in
  `conn->authentication_plugin_data.s`, the salt of an auth switch request) holds
  no terminating NUL.  A function that reads such a buffer as a C string takes the
  memory behind the buffer as a parameter and has no result when no NUL is found.
* A dereference of a pointer that is `NULL` has no result (`none`): `conn->charset`
  in `mysqlnd_auth_change_user`.
* A packet write that fails records the server-gone error and the state
  `CONN_QUIT_SENT` on the connection, as the specification has it for a write
  failure; the writer itself is not part of the source file.
* The RSA key handling is that of the build that is not for Windows; the crypto
  library, the key file and the INI setting are the parameters `CryptoEnv`.
* The SASL library is the parameter `SaslEnv`; its calls are recorded in `sasl_calls`.
  A loop whose end depends on the library or on the server takes a bound on its rounds
  and has no result when the bound is used up.  `php_error` with `E_ERROR` ends the
  call without a return to the caller (`SaslOutcome.fatal_error`).
* `PHP_SHA1` is SHA-1 itself, for the one theorem on a concrete vector; everywhere else
  the hash is a parameter.
-/

namespace MysqlndAuth

/-! ## Constants -/

/-- Length of the scramble (salt) the SHA based mechanisms hash. -/
def SCRAMBLE_LENGTH : Nat := 20

/-- Digest length of SHA-1. -/
def SHA1_MAX_LENGTH : Nat := 20

/-- Digest length of SHA-256 (`#define SHA256_LENGTH 32`). -/
def SHA256_LENGTH : Nat := 32

/-- Modelled from the spec: client error code of mysqlnd's headers (not part of the
source file), used for the legacy-password advisory and "password is too long". -/
def CR_UNKNOWN_ERROR : Nat := 2000

/-- Modelled from the spec: client error code for a failed packet write
("server-gone error"); the header that defines it is not part of the source file. -/
def CR_SERVER_GONE_ERROR : Nat := 2006

/-- Modelled from the spec: client error code for "wrong length for scramble"; the
header that defines it is not part of the source file. -/
def CR_MALFORMED_PACKET : Nat := 2027

/-- Modelled from the spec: client error code `CR_NOT_IMPLEMENTED` for an unknown
mechanism; the header that defines it is not part of the source file. -/
def CR_NOT_IMPLEMENTED : Nat := 2054

/-- Modelled from the spec: the SQLSTATE given to client-side errors; the header that
defines it is not part of the source file. -/
def UNKNOWN_SQLSTATE : String := "HY000"

/-- Modelled from the spec: the compile-time default mechanism name
(`mysql_native_password`); the header that defines it is not part of the source file. -/
def MYSQLND_DEFAULT_AUTH_PROTOCOL : String := "mysql_native_password"

/-- Modelled from the spec: the message of the server-gone error; the definition of
`mysqlnd_server_gone` is not part of the source file. -/
def mysqlnd_server_gone : String := "MySQL server has gone away"

/-- The fixed advisory message for a server that asks for the pre-4.1 authentication. -/
def mysqlnd_old_passwd : String :=
  "mysqlnd cannot connect to MySQL 4.1+ using the old insecure authentication. " ++
  "Please use an administration tool to reset your password with the command SET PASSWORD = PASSWORD('your_existing_password'). This will " ++
  "store a new, and more secure, hash value in mysql.user. If this user is used in other scripts executed by PHP 5.2 or earlier you might need to remove the old-passwords " ++
  "flag from your my.cnf file"

/-- Capability bit `CLIENT_CONNECT_ATTRS` of the MySQL protocol (bit 20); the header
that defines it is not part of the source file. -/
def CLIENT_CONNECT_ATTRS : Nat := 1048576

/-! ## Data model -/

/-- Result of the functions that return `PASS` or `FAIL`. -/
inductive enum_func_status where
  | PASS
  | FAIL
deriving DecidableEq, Repr

/-- Error number, SQLSTATE and message recorded on a connection or carried by a
packet. -/
structure MYSQLND_ERROR_INFO where
  error_no : Nat := 0
  sqlstate : String := "00000"
  error : String := ""
deriving DecidableEq, Repr

/-- Connection states the authentication code sets. -/
inductive mysqlnd_connection_state where
  | CONN_ALLOCED
  | CONN_READY
  | CONN_QUIT_SENT
deriving DecidableEq, Repr

/-- A character set: its number and its name. -/
structure MYSQLND_CHARSET where
  nr : Nat := 0
  name : String := ""
deriving DecidableEq, Repr

/-- Session options read by the authentication code. -/
structure MYSQLND_SESSION_OPTIONS where
  max_allowed_packet : Nat := 0
  charset_name : Option String := none
deriving DecidableEq, Repr

/-- The counters `UPSERT_STATUS_RESET` clears. -/
structure MYSQLND_UPSERT_STATUS where
  warning_count : Nat := 0
  server_status : Nat := 0
  affected_rows : Nat := 0
  last_insert_id : Nat := 0
deriving DecidableEq, Repr

/-- The full authentication packet (`MYSQLND_PACKET_AUTH`): the HandshakeResponse on
connect, the full ChangeUser packet when `is_change_user_packet` is set.  The
default values are those `init_auth_packet` leaves. -/
structure MYSQLND_PACKET_AUTH where
  client_flags : Nat := 0
  max_packet_size : Nat := 0
  charset_no : Nat := 0
  send_auth_data : Bool := false
  is_change_user_packet : Bool := false
  silent : Bool := false
  user : List Nat := []
  db : Option (List Nat) := none
  db_len : Nat := 0
  auth_data : Option (List Nat) := none
  auth_data_len : Nat := 0
  auth_plugin_name : Option String := none
  connect_attr : Option (List (String × String)) := none
deriving DecidableEq, Repr

/-- A packet the client writes. -/
inductive ClientPacket where
  /-- Structure `MYSQLND_PACKET_AUTH`: HandshakeResponse or full ChangeUser packet. -/
  | auth (p : MYSQLND_PACKET_AUTH)
  /-- Structure `MYSQLND_PACKET_CHANGE_AUTH_RESPONSE`: the bare AuthSwitchResponse. -/
  | change_auth_response (auth_data : Option (List Nat)) (auth_data_len : Nat)
  /-- Structure `MYSQLND_PACKET_SHA256_PK_REQUEST`: the public key request of `sha256_password`. -/
  | sha256_pk_request
  /-- Structure `MYSQLND_PACKET_CACHED_SHA2_RESULT` as written by `caching_sha2_password`. -/
  | cached_sha2_result (request : Nat) (password : Option (List Nat)) (password_len : Nat)
  /-- Structure `MYSQLND_PACKET_SASL_PK_REQUEST`: a SASL blob. -/
  | sasl_pk_request (data : Option (List Nat)) (data_len : Nat)
  /-- The `SET NAMES` query of `set_charset`. -/
  | set_names (charset_name : String)
deriving DecidableEq, Repr

/-- The packet structures a read decodes into. -/
inductive PacketKind where
  | auth_response
  | chg_user_response
  | ok
  | sha256_pk_request_response
  | cached_sha2_result
  | sasl_pk_request_response
  | query_response
deriving DecidableEq, Repr

/-- One element of the server script: the outcome of one `PACKET_READ` (`status`)
and the fields the decoder leaves in the packet structure.  The default values
are those the `init_*_packet` functions leave. -/
structure ServerPacket where
  status : enum_func_status := enum_func_status.FAIL
  response_code : Nat := 0
  new_auth_protocol : Option String := none
  new_auth_protocol_data : Option (List Nat) := none
  error_info : MYSQLND_ERROR_INFO := { error_no := 0, sqlstate := "", error := "" }
  message : Option String := none
  server_asked_323_auth : Bool := false
  public_key : Option (List Nat) := none
  data : Option (List Nat) := none
deriving DecidableEq, Repr

/-- One entry of the conversation record: a packet write with its outcome, or a
packet read with the structure it was decoded into. -/
inductive WireEvent where
  | wrote (pkt : ClientPacket) (ok : Bool)
  | read (kind : PacketKind) (pkt : ServerPacket)
deriving DecidableEq, Repr

/-- A session of the SASL library (`sasl_conn_t`), which only the library reads and
changes: `state` stands for all of it. -/
structure sasl_conn_t where
  state : Nat := 0
deriving DecidableEq, Repr

/-- One entry of a list of prompts of the SASL library (`sasl_interact_t`): the prompt
`id` and the answer with its length, as `handle_comm` fills them in. -/
structure sasl_interact_t where
  id : Nat
  result : Option (List Nat) := none
  len : Nat := 0
deriving DecidableEq, Repr

/-- One entry of the record of calls of the SASL library, with the arguments that the
source file chooses. -/
inductive SaslCall where
  | client_init
  | client_new (service : String)
  | setprop
  | client_start (mechanism : List Nat) (interactions : List sasl_interact_t)
  | client_step (server_in : Option (List Nat)) (server_in_length : Nat)
      (interactions : List sasl_interact_t)
  | dispose
deriving DecidableEq, Repr

/-- The connection, with the transport behind it. -/
structure MYSQLND_CONN_DATA where
  /-- Field `conn->error_info`. -/
  error_info : MYSQLND_ERROR_INFO := {}
  /-- Field `conn->state`. -/
  state : mysqlnd_connection_state := mysqlnd_connection_state.CONN_ALLOCED
  /-- Field `conn->authentication_plugin_data`. -/
  authentication_plugin_data : List Nat := []
  /-- Field `conn->options->auth_protocol`, set by `set_client_option`. -/
  auth_protocol : Option String := none
  /-- Field `conn->options->connect_attr`. -/
  connect_attr : Option (List (String × String)) := none
  /-- Field `conn->server_capabilities`. -/
  server_capabilities : Nat := 0
  /-- The value of `conn->m->get_server_version(conn)`. -/
  server_version : Nat := 0
  /-- Field `conn->charset`. -/
  charset : Option MYSQLND_CHARSET := none
  /-- Field `conn->username`. -/
  username : Option (List Nat) := none
  /-- Field `conn->password`. -/
  password : Option (List Nat) := none
  /-- Field `conn->last_message`. -/
  last_message : Option String := none
  /-- Field `conn->upsert_status`. -/
  upsert_status : MYSQLND_UPSERT_STATUS := {}
  /-- Field `conn->vio->data->ssl`. -/
  ssl : Bool := false
  /-- Field `conn->vio->data->stream->ops->label`. -/
  stream_label : String := "tcp_socket"
  /-- Field `conn->protocol_frame_codec->data->sha256_server_public_key`. -/
  sha256_server_public_key : Option String := none
  /-- Field `conn->sasl_connection`. -/
  sasl_connection : Option sasl_conn_t := none
  /-- Every call of the SASL library so far, in order. -/
  sasl_calls : List SaslCall := []
  /-- Packets the server will send, in order. -/
  incoming : List ServerPacket := []
  /-- Outcome of the packet writes to come, in order (success once exhausted). -/
  write_results : List Bool := []
  /-- Every packet written and read so far, in order. -/
  trace : List WireEvent := []
deriving DecidableEq, Repr

/-! ## Collaborators of the source file -/

/-- Modelled from the spec: the `SET_CLIENT_ERROR` macro (defined in a header that is
not part of the source file).  It records error number, SQLSTATE and message on the
connection; an error number of zero clears the recorded error. -/
def SET_CLIENT_ERROR (conn : MYSQLND_CONN_DATA) (err_no : Nat) (sqlstate : String)
    (error : String) : MYSQLND_CONN_DATA :=
  if err_no ≠ 0 then
    { conn with error_info := { error_no := err_no, sqlstate := sqlstate, error := error } }
  else
    { conn with error_info := { error_no := 0, sqlstate := "00000", error := "" } }

/-- Modelled from the spec: the `COPY_CLIENT_ERROR` macro (defined in a header that is
not part of the source file): `SET_CLIENT_ERROR` with the fields of `source`. -/
def COPY_CLIENT_ERROR (conn : MYSQLND_CONN_DATA) (source : MYSQLND_ERROR_INFO) :
    MYSQLND_CONN_DATA :=
  SET_CLIENT_ERROR conn source.error_no source.sqlstate source.error

/-- Modelled from the spec: the `SET_CONNECTION_STATE` macro (state → QUIT on a
transport failure); its definition is not part of the source file. -/
def SET_CONNECTION_STATE (conn : MYSQLND_CONN_DATA) (s : mysqlnd_connection_state) :
    MYSQLND_CONN_DATA :=
  { conn with state := s }

/-- Modelled from the spec: `write_packet` of the framing layer (`PACKET_WRITE`).  The
packet and the outcome are appended to the trace; the outcome is the next entry
of `write_results`, success when none is left.  A write that fails leaves what the
spec gives for a write failure ("server-gone error, state → QUIT"): the error
`CR_SERVER_GONE_ERROR` with the server-gone message is recorded and the connection
state becomes `CONN_QUIT_SENT`. -/
def PACKET_WRITE (conn : MYSQLND_CONN_DATA) (pkt : ClientPacket) :
    Bool × MYSQLND_CONN_DATA :=
  let ok := conn.write_results.headD true
  let c : MYSQLND_CONN_DATA :=
    { conn with write_results := conn.write_results.tail,
                trace := conn.trace ++ [WireEvent.wrote pkt ok] }
  if ok = true then (true, c)
  else
    (false, SET_CLIENT_ERROR (SET_CONNECTION_STATE c mysqlnd_connection_state.CONN_QUIT_SENT)
              CR_SERVER_GONE_ERROR UNKNOWN_SQLSTATE mysqlnd_server_gone)

/-- Modelled from the spec: `read_packet` of the framing layer (`PACKET_READ`) into a
packet structure of the given kind.  The next element of the server script is
consumed and recorded; once the script is exhausted the read fails and leaves
the packet structure as initialised. -/
def PACKET_READ (conn : MYSQLND_CONN_DATA) (kind : PacketKind) :
    enum_func_status × ServerPacket × MYSQLND_CONN_DATA :=
  match conn.incoming with
  | [] => (enum_func_status.FAIL, {}, { conn with trace := conn.trace ++ [WireEvent.read kind {}] })
  | p :: rest =>
    (p.status, p, { conn with incoming := rest, trace := conn.trace ++ [WireEvent.read kind p] })

/-- Function `strlen`: the number of bytes before the first NUL. -/
def strlen (s : List Nat) : Nat :=
  (s.takeWhile (fun b => b != 0)).length

/-- Function `mnd_pestrdup`: a copy of the bytes before the first NUL. -/
def mnd_pestrdup (s : List Nat) : List Nat :=
  s.takeWhile (fun b => b != 0)

/-- Function `mnd_pestrndup`: a copy of the first `len` bytes. -/
def mnd_pestrndup (s : List Nat) (len : Nat) : List Nat :=
  s.take len

/-! ## MySQL Native Password -/

/-- Function `php_mysqlnd_crypt`: `*buffer++ = *s1++ ^ *s2++` for `len` bytes.  The result is
what the loop writes to `buffer`.  Each step reads `s1` and `s2` at the position
it writes, so the result is the same when `buffer` is `s1` or `s2` (as in both
callers). -/
def php_mysqlnd_crypt : List Nat → List Nat → Nat → List Nat
  | _, _, 0 => []
  | s1, s2, len + 1 => (s1.headD 0 ^^^ s2.headD 0) :: php_mysqlnd_crypt s1.tail s2.tail len

/-- Function `php_mysqlnd_scramble`: the bytes written to `buffer`. -/
def php_mysqlnd_scramble (SHA1 : List Nat → List Nat) (scramble : List Nat)
    (password : List Nat) (password_len : Nat) : List Nat :=
  -- Phase 1: hash password
  let sha1 := SHA1 (password.take password_len)
  -- Phase 2: hash sha1
  let sha2 := SHA1 (sha1.take SHA1_MAX_LENGTH)
  -- Phase 3: hash scramble + sha2
  let buffer := SHA1 (scramble.take SCRAMBLE_LENGTH ++ sha2.take SHA1_MAX_LENGTH)
  -- let's crypt buffer now
  php_mysqlnd_crypt buffer sha1 SHA1_MAX_LENGTH

/-- What a mechanism's `get_auth_data` leaves: the returned buffer (`none` for
`NULL`), `*auth_data_len` (zero when the function does not set it) and the
connection. -/
structure AuthData where
  ret : Option (List Nat)
  auth_data_len : Nat
  conn : MYSQLND_CONN_DATA
deriving DecidableEq, Repr

/-- Function `mysqlnd_native_auth_get_auth_data`. -/
def mysqlnd_native_auth_get_auth_data (SHA1 : List Nat → List Nat)
    (conn : MYSQLND_CONN_DATA) (passwd : List Nat) (passwd_len : Nat)
    (auth_plugin_data : List Nat) (auth_plugin_data_len : Nat) : AuthData :=
  -- 5.5.x reports 21 as scramble length
  if auth_plugin_data_len < SCRAMBLE_LENGTH then
    -- mysql_native_password only works with SCRAMBLE_LENGTH scramble
    { ret := none, auth_data_len := 0,
      conn := SET_CLIENT_ERROR conn CR_MALFORMED_PACKET UNKNOWN_SQLSTATE
                "The server sent wrong length for scramble" }
  else if passwd_len ≠ 0 then
    -- copy scrambled pass
    { ret := some (php_mysqlnd_scramble SHA1 auth_plugin_data passwd passwd_len),
      auth_data_len := SCRAMBLE_LENGTH, conn := conn }
  else
    { ret := none, auth_data_len := 0, conn := conn }

/-! ## Caching SHA2 Password -/

/-- Function `php_mysqlnd_scramble_sha2`: the bytes written to `buffer`. -/
def php_mysqlnd_scramble_sha2 (SHA256 : List Nat → List Nat) (scramble : List Nat)
    (password : List Nat) (password_len : Nat) : List Nat :=
  -- Phase 1: hash password
  let sha1 := SHA256 (password.take password_len)
  -- Phase 2: hash sha1
  let sha2 := SHA256 (sha1.take SHA256_LENGTH)
  -- Phase 3: hash scramble + sha2
  let buffer := SHA256 (sha2.take SHA256_LENGTH ++ scramble.take SCRAMBLE_LENGTH)
  -- let's crypt buffer now
  php_mysqlnd_crypt sha1 buffer SHA256_LENGTH

/-- Function `mysqlnd_caching_sha2_get_auth_data`.  The returned buffer has `SHA256_LENGTH + 1`
bytes, the last one NUL; `auth_data_len` is `SHA256_LENGTH`. -/
def mysqlnd_caching_sha2_get_auth_data (SHA256 : List Nat → List Nat)
    (conn : MYSQLND_CONN_DATA) (passwd : List Nat) (passwd_len : Nat)
    (auth_plugin_data : List Nat) (auth_plugin_data_len : Nat) : AuthData :=
  if auth_plugin_data_len < SCRAMBLE_LENGTH then
    { ret := none, auth_data_len := 0,
      conn := SET_CLIENT_ERROR conn CR_MALFORMED_PACKET UNKNOWN_SQLSTATE
                "The server sent wrong length for scramble" }
  else if passwd_len ≠ 0 then
    -- First auth step: send hashed password
    { ret := some (php_mysqlnd_scramble_sha2 SHA256 auth_plugin_data passwd passwd_len ++ [0]),
      auth_data_len := SHA256_LENGTH, conn := conn }
  else
    { ret := none, auth_data_len := 0, conn := conn }

/-! ## Mechanisms and the registry -/

/-- What a mechanism's `handle_server_response` leaves: its result, the values it
stored through `new_auth_protocol` and `new_auth_protocol_data` (with its length;
`none` and the empty buffer when it stored nothing, as the engine passes them in)
and the connection. -/
structure ServerResponse where
  ret : enum_func_status
  new_auth_protocol : Option String
  new_auth_protocol_data : List Nat
  conn : MYSQLND_CONN_DATA
deriving DecidableEq, Repr

/-- The `methods` of `struct st_mysqlnd_authentication_plugin`, with the name the
plugin is registered under.  The engine calls both methods through the
structure, whatever mechanism it is; `none` as a method's result stands for a
call that does not return.  Arguments of `get_auth_data`: connection, user,
password and its length, salt and its length, session options, client flags.
Arguments of `handle_server_response`: connection, salt and its length, user,
password and its length. -/
structure st_mysqlnd_authentication_plugin where
  plugin_name : String
  get_auth_data : MYSQLND_CONN_DATA → List Nat → List Nat → Nat → List Nat → Nat →
    MYSQLND_SESSION_OPTIONS → Nat → Option AuthData
  handle_server_response : Option (MYSQLND_CONN_DATA → List Nat → Nat → List Nat →
    List Nat → Nat → Option ServerResponse)

/-- Plugin `mysqlnd_native_auth_plugin`: `get_auth_data` and no `handle_server_response`. -/
def mysqlnd_native_auth_plugin (SHA1 : List Nat → List Nat) :
    st_mysqlnd_authentication_plugin where
  plugin_name := "auth_plugin_mysql_native_password"
  get_auth_data := fun conn _user passwd passwd_len auth_plugin_data auth_plugin_data_len _ _ =>
    some (mysqlnd_native_auth_get_auth_data SHA1 conn passwd passwd_len auth_plugin_data
      auth_plugin_data_len)
  handle_server_response := none

/-- Functions of other files of mysqlnd that the engine calls: the registry lookup
`conn->m->fetch_auth_plugin_by_name` and the character set tables.  They are
parameters of the engine. -/
structure AuthEnv where
  fetch_auth_plugin_by_name : String → Option st_mysqlnd_authentication_plugin
  mysqlnd_find_charset_name : String → Option MYSQLND_CHARSET
  mysqlnd_find_charset_nr : Nat → Option MYSQLND_CHARSET

/-- Modelled from the spec: `conn->m->set_client_option` for
`MYSQLND_OPT_AUTH_PROTOCOL` (another file of mysqlnd): it records the final
mechanism name on the connection. -/
def set_client_option_auth_protocol (conn : MYSQLND_CONN_DATA) (value : String) :
    MYSQLND_CONN_DATA :=
  { conn with auth_protocol := some value }

/-- Modelled from the spec: `conn->m->set_charset` (another file of mysqlnd), which
"re-issues a SET NAMES to restore the previous client charset": one query is
written and its response read; on success the character set is recorded. -/
def set_charset (env : AuthEnv) (conn : MYSQLND_CONN_DATA) (csname : String) :
    enum_func_status × MYSQLND_CONN_DATA :=
  let w := PACKET_WRITE conn (ClientPacket.set_names csname)
  if w.1 = false then (enum_func_status.FAIL, w.2)
  else
    let rd := PACKET_READ w.2 PacketKind.query_response
    if rd.1 = enum_func_status.FAIL then (enum_func_status.FAIL, rd.2.2)
    else (enum_func_status.PASS, { rd.2.2 with charset := env.mysqlnd_find_charset_name csname })

/-! ## The negotiation engine -/

/-- What `mysqlnd_auth_handshake` and `mysqlnd_auth_change_user` leave: the result,
the values stored through `switch_to_auth_protocol` and
`switch_to_auth_protocol_data` (with its length) and the connection. -/
structure AuthExchange where
  ret : enum_func_status
  switch_to_auth_protocol : Option String
  switch_to_auth_protocol_data : List Nat
  conn : MYSQLND_CONN_DATA
deriving DecidableEq, Repr

/-- The call of `auth_plugin->methods.get_auth_data`, made when there is a plugin
(`if (auth_plugin) { … }`); otherwise `scrambled_data` stays `NULL` and
`scrambled_data_len` stays 0. -/
def call_get_auth_data (auth_plugin : Option st_mysqlnd_authentication_plugin)
    (conn : MYSQLND_CONN_DATA) (user passwd : List Nat) (passwd_len : Nat)
    (plugin_data : List Nat) (plugin_data_len : Nat)
    (session_options : MYSQLND_SESSION_OPTIONS) (mysql_flags : Nat) : Option AuthData :=
  match auth_plugin with
  | some p =>
    p.get_auth_data conn user passwd passwd_len plugin_data plugin_data_len session_options
      mysql_flags
  | none => some { ret := none, auth_data_len := 0, conn := conn }

/-- The call of `auth_plugin->methods.handle_server_response`, made when there is a
plugin and it has the method; otherwise nothing happens, which is written as a
`PASS` that stored nothing. -/
def call_handle_server_response (auth_plugin : Option st_mysqlnd_authentication_plugin)
    (conn : MYSQLND_CONN_DATA) (orig_auth_plugin_data : List Nat)
    (orig_auth_plugin_data_len : Nat) (user passwd : List Nat) (passwd_len : Nat) :
    Option ServerResponse :=
  match auth_plugin with
  | none =>
    some { ret := enum_func_status.PASS, new_auth_protocol := none,
           new_auth_protocol_data := [], conn := conn }
  | some p =>
    match p.handle_server_response with
    | none =>
      some { ret := enum_func_status.PASS, new_auth_protocol := none,
             new_auth_protocol_data := [], conn := conn }
    | some h => h conn orig_auth_plugin_data orig_auth_plugin_data_len user passwd passwd_len

/-- The last part of `mysqlnd_auth_handshake`, from the read of the response on
(`PACKET_READ(conn, &auth_resp_packet)` to the end).  `r` holds the connection
and the values of `*switch_to_auth_protocol` and `*switch_to_auth_protocol_data`
as `handle_server_response` left them. -/
def auth_handshake_read_response (r : ServerResponse) : AuthExchange :=
  let rd := PACKET_READ r.conn PacketKind.auth_response
  let auth_resp_packet := rd.2.1
  if rd.1 = enum_func_status.FAIL ∨ auth_resp_packet.response_code ≥ 0xFE then
    if auth_resp_packet.response_code = 0xFE then
      -- old authentication with new server !
      match auth_resp_packet.new_auth_protocol with
      | none =>
        { ret := enum_func_status.FAIL, switch_to_auth_protocol := r.new_auth_protocol,
          switch_to_auth_protocol_data := r.new_auth_protocol_data,
          conn := SET_CLIENT_ERROR rd.2.2 CR_UNKNOWN_ERROR UNKNOWN_SQLSTATE mysqlnd_old_passwd }
      | some new_auth_protocol =>
        { ret := enum_func_status.FAIL,
          switch_to_auth_protocol := some new_auth_protocol,
          switch_to_auth_protocol_data :=
            match auth_resp_packet.new_auth_protocol_data with
            | some d => d
            | none => [],
          conn := rd.2.2 }
    else if auth_resp_packet.response_code = 0xFF then
      let c : MYSQLND_CONN_DATA :=
        if auth_resp_packet.error_info.sqlstate ≠ "" then
          { rd.2.2 with error_info :=
              { rd.2.2.error_info with sqlstate := auth_resp_packet.error_info.sqlstate } }
        else rd.2.2
      { ret := enum_func_status.FAIL, switch_to_auth_protocol := r.new_auth_protocol,
        switch_to_auth_protocol_data := r.new_auth_protocol_data,
        conn := SET_CLIENT_ERROR c auth_resp_packet.error_info.error_no
                  UNKNOWN_SQLSTATE auth_resp_packet.error_info.error }
    else
      { ret := enum_func_status.FAIL, switch_to_auth_protocol := r.new_auth_protocol,
        switch_to_auth_protocol_data := r.new_auth_protocol_data, conn := rd.2.2 }
  else
    { ret := enum_func_status.PASS, switch_to_auth_protocol := r.new_auth_protocol,
      switch_to_auth_protocol_data := r.new_auth_protocol_data,
      conn := { rd.2.2 with last_message := auth_resp_packet.message } }

/-- The auth payload `mysqlnd_auth_handshake` writes: the bare AuthSwitchResponse
unless `use_full_blown_auth_packet` is `TRUE`, else the HandshakeResponse. -/
def auth_handshake_payload (env : AuthEnv) (conn : MYSQLND_CONN_DATA) (user : List Nat)
    (db : Option (List Nat)) (db_len : Nat) (session_options : MYSQLND_SESSION_OPTIONS)
    (mysql_flags server_charset_no : Nat) (use_full_blown_auth_packet : Bool)
    (auth_protocol : String) (auth_plugin_data : Option (List Nat))
    (auth_plugin_data_len : Nat) : ClientPacket :=
  if use_full_blown_auth_packet ≠ true then
    ClientPacket.change_auth_response auth_plugin_data auth_plugin_data_len
  else
    ClientPacket.auth
      { client_flags := mysql_flags
        max_packet_size := session_options.max_allowed_packet
        charset_no :=
          match session_options.charset_name.bind env.mysqlnd_find_charset_name with
          | some charset => charset.nr
          | none => server_charset_no
        send_auth_data := true
        user := user
        db := db
        db_len := db_len
        auth_data := auth_plugin_data
        auth_data_len := auth_plugin_data_len
        auth_plugin_name := some auth_protocol
        connect_attr :=
          if conn.server_capabilities &&& CLIENT_CONNECT_ATTRS ≠ 0 then conn.connect_attr
          else none }

/-- Function `mysqlnd_auth_handshake`. -/
def mysqlnd_auth_handshake (env : AuthEnv) (conn : MYSQLND_CONN_DATA)
    (user passwd : List Nat) (passwd_len : Nat) (db : Option (List Nat)) (db_len : Nat)
    (session_options : MYSQLND_SESSION_OPTIONS) (mysql_flags server_charset_no : Nat)
    (use_full_blown_auth_packet : Bool) (auth_protocol : String)
    (auth_plugin : Option st_mysqlnd_authentication_plugin)
    (orig_auth_plugin_data : List Nat) (orig_auth_plugin_data_len : Nat)
    (auth_plugin_data : Option (List Nat)) (auth_plugin_data_len : Nat) :
    Option AuthExchange :=
  let w := PACKET_WRITE conn
    (auth_handshake_payload env conn user db db_len session_options mysql_flags
      server_charset_no use_full_blown_auth_packet auth_protocol auth_plugin_data
      auth_plugin_data_len)
  if w.1 = false then
    if use_full_blown_auth_packet ≠ true then
      some { ret := enum_func_status.FAIL, switch_to_auth_protocol := none,
             switch_to_auth_protocol_data := [],
             conn := SET_CLIENT_ERROR
               (SET_CONNECTION_STATE w.2 mysqlnd_connection_state.CONN_QUIT_SENT)
               CR_SERVER_GONE_ERROR UNKNOWN_SQLSTATE mysqlnd_server_gone }
    else
      some { ret := enum_func_status.FAIL, switch_to_auth_protocol := none,
             switch_to_auth_protocol_data := [], conn := w.2 }
  else
    let sent : MYSQLND_CONN_DATA :=
      if use_full_blown_auth_packet = true then
        match auth_handshake_payload env conn user db db_len session_options mysql_flags
            server_charset_no use_full_blown_auth_packet auth_protocol auth_plugin_data
            auth_plugin_data_len with
        | ClientPacket.auth auth_packet =>
          { w.2 with charset := env.mysqlnd_find_charset_nr auth_packet.charset_no }
        | _ => w.2
      else w.2
    match call_handle_server_response auth_plugin sent orig_auth_plugin_data
        orig_auth_plugin_data_len user passwd passwd_len with
    | none => none
    | some r =>
      if r.ret = enum_func_status.FAIL then
        some { ret := enum_func_status.FAIL, switch_to_auth_protocol := r.new_auth_protocol,
               switch_to_auth_protocol_data := r.new_auth_protocol_data, conn := r.conn }
      else
        some (auth_handshake_read_response r)

/-- The statement `if (0xFE == chg_user_resp.response_code) { … }` of
`mysqlnd_auth_change_user`, with the `COPY_CLIENT_ERROR` before it.  `rd` is what
`PACKET_READ(conn, &chg_user_resp)` returned (result, packet, connection); `r`
holds the values of `*switch_to_auth_protocol` and `*switch_to_auth_protocol_data`
as `handle_server_response` left them. -/
def auth_change_user_switch (r : ServerResponse)
    (rd : enum_func_status × ServerPacket × MYSQLND_CONN_DATA) : AuthExchange :=
  let chg_user_resp := rd.2.1
  let c1 := COPY_CLIENT_ERROR rd.2.2 chg_user_resp.error_info
  if chg_user_resp.response_code = 0xFE then
    match chg_user_resp.new_auth_protocol with
    | none =>
      { ret := enum_func_status.FAIL, switch_to_auth_protocol := r.new_auth_protocol,
        switch_to_auth_protocol_data := r.new_auth_protocol_data,
        conn := SET_CLIENT_ERROR c1 CR_UNKNOWN_ERROR UNKNOWN_SQLSTATE mysqlnd_old_passwd }
    | some new_auth_protocol =>
      { ret := enum_func_status.FAIL, switch_to_auth_protocol := some new_auth_protocol,
        switch_to_auth_protocol_data :=
          match chg_user_resp.new_auth_protocol_data with
          | some d => d
          | none => [],
        conn := c1 }
  else
    { ret := rd.1, switch_to_auth_protocol := r.new_auth_protocol,
      switch_to_auth_protocol_data := r.new_auth_protocol_data, conn := c1 }

/-- The statement `if (conn->error_info->error_no) { … }` of
`mysqlnd_auth_change_user`: the result becomes `FAIL`, and for a server version
strictly between 50113 and 50118 one more packet is read and dropped. -/
def auth_change_user_error_check (s1 : AuthExchange) : AuthExchange :=
  if s1.conn.error_info.error_no ≠ 0 then
    -- COM_CHANGE_USER is broken in 5.1. At least in 5.1.15 and 5.1.14, 5.1.11 is immune.
    if s1.conn.server_version > 50113 ∧ s1.conn.server_version < 50118 then
      { s1 with ret := enum_func_status.FAIL,
                conn := (PACKET_READ s1.conn PacketKind.ok).2.2 }
    else
      { s1 with ret := enum_func_status.FAIL }
  else s1

/-- The statement `if (ret == PASS) { … } else if (…) { … }` that ends
`mysqlnd_auth_change_user`.  `old_cs` is `conn->charset` as it was on entry, `none` for
`NULL`.  The call `set_charset(conn, old_cs->name)` dereferences `old_cs` without a
check: with `old_cs` being `NULL` there is no result. -/
def auth_change_user_finish (env : AuthEnv) (user : List Nat) (user_len : Nat)
    (passwd : List Nat) (old_cs : Option MYSQLND_CHARSET) (server_asked_323_auth : Bool)
    (s2 : AuthExchange) : Option AuthExchange :=
  if s2.ret = enum_func_status.PASS then
    -- if we get conn->username as parameter and then we first free it, then estrndup it,
    -- we will crash
    let c2 : MYSQLND_CONN_DATA :=
      { s2.conn with username := some (mnd_pestrndup user user_len)
                     password := some (mnd_pestrdup passwd)
                     last_message := none
                     upsert_status := {} }
    -- set charset for old servers
    if c2.server_version < 50123 then
      match old_cs with
      | none => none
      | some cs =>
        let sc := set_charset env c2 cs.name
        some { s2 with ret := sc.1, conn := sc.2 }
    else
      some { s2 with conn := c2 }
  else if server_asked_323_auth = true then
    -- old authentication with new server !
    some { s2 with conn := SET_CLIENT_ERROR s2.conn CR_UNKNOWN_ERROR UNKNOWN_SQLSTATE
                             mysqlnd_old_passwd }
  else
    some s2

/-- The last part of `mysqlnd_auth_change_user`, from the read of the response on
(`PACKET_READ(conn, &chg_user_resp)` to the end): its three statements in order.
There is no result when the last statement dereferences `old_cs` being `NULL`. -/
def auth_change_user_read_response (env : AuthEnv) (user : List Nat) (user_len : Nat)
    (passwd : List Nat) (old_cs : Option MYSQLND_CHARSET) (r : ServerResponse) :
    Option AuthExchange :=
  let rd := PACKET_READ r.conn PacketKind.chg_user_response
  auth_change_user_finish env user user_len passwd old_cs rd.2.1.server_asked_323_auth
    (auth_change_user_error_check (auth_change_user_switch r rd))

/-- The auth payload `mysqlnd_auth_change_user` writes: the bare AuthSwitchResponse
unless `use_full_blown_auth_packet` is `TRUE`, else the full ChangeUser packet.  For a
server version of at least 50123 the full packet takes `conn->charset->nr`, which
dereferences `conn->charset` without a check: with `conn->charset` being `NULL` there
is no packet (and no result of the function). -/
def auth_change_user_payload (conn : MYSQLND_CONN_DATA) (user : List Nat)
    (db : Option (List Nat)) (db_len : Nat) (silent : Bool)
    (use_full_blown_auth_packet : Bool) (auth_protocol : String)
    (auth_plugin_data : Option (List Nat)) (auth_plugin_data_len : Nat) :
    Option ClientPacket :=
  if use_full_blown_auth_packet ≠ true then
    some (ClientPacket.change_auth_response auth_plugin_data auth_plugin_data_len)
  else
    let charset_no : Option Nat :=
      if conn.server_version ≥ 50123 then conn.charset.map (fun cs => cs.nr) else some 0
    charset_no.map (fun nr =>
      ClientPacket.auth
        { is_change_user_packet := true
          user := user
          db := db
          db_len := db_len
          silent := silent
          auth_data := auth_plugin_data
          auth_data_len := auth_plugin_data_len
          auth_plugin_name := some auth_protocol
          connect_attr :=
            if conn.server_capabilities &&& CLIENT_CONNECT_ATTRS ≠ 0 then conn.connect_attr
            else none
          charset_no := nr })

/-- Function `mysqlnd_auth_change_user`.  There is no result when a mechanism's
`handle_server_response` does not return, or when `conn->charset` or `old_cs` is
dereferenced being `NULL`. -/
def mysqlnd_auth_change_user (env : AuthEnv) (conn : MYSQLND_CONN_DATA)
    (user : List Nat) (user_len : Nat) (passwd : List Nat) (passwd_len : Nat)
    (db : Option (List Nat)) (db_len : Nat) (silent : Bool)
    (use_full_blown_auth_packet : Bool) (auth_protocol : String)
    (auth_plugin : Option st_mysqlnd_authentication_plugin)
    (orig_auth_plugin_data : List Nat) (orig_auth_plugin_data_len : Nat)
    (auth_plugin_data : Option (List Nat)) (auth_plugin_data_len : Nat) :
    Option AuthExchange :=
  let old_cs := conn.charset
  match auth_change_user_payload conn user db db_len silent use_full_blown_auth_packet
      auth_protocol auth_plugin_data auth_plugin_data_len with
  | none => none
  | some payload =>
    let w := PACKET_WRITE conn payload
    if w.1 = false then
      some { ret := enum_func_status.FAIL, switch_to_auth_protocol := none,
             switch_to_auth_protocol_data := [],
             conn := SET_CLIENT_ERROR
               (SET_CONNECTION_STATE w.2 mysqlnd_connection_state.CONN_QUIT_SENT)
               CR_SERVER_GONE_ERROR UNKNOWN_SQLSTATE mysqlnd_server_gone }
    else
      match call_handle_server_response auth_plugin w.2 orig_auth_plugin_data
          orig_auth_plugin_data_len user passwd passwd_len with
      | none => none
      | some r =>
        if r.ret = enum_func_status.FAIL then
          some { ret := enum_func_status.FAIL, switch_to_auth_protocol := r.new_auth_protocol,
                 switch_to_auth_protocol_data := r.new_auth_protocol_data, conn := r.conn }
        else
          auth_change_user_read_response env user user_len passwd old_cs r

/-- The local variables of `mysqlnd_run_authentication` that live across the
iterations of its `do … while` loop, with the connection.  `plugin_data` stands
for the buffer and `plugin_data_len`. -/
structure AuthLoop where
  conn : MYSQLND_CONN_DATA
  ret : enum_func_status
  first_call : Bool
  requested_protocol : String
  plugin_data : List Nat
  switch_to_auth_protocol : Option String
deriving DecidableEq, Repr

/-- The arguments of `mysqlnd_run_authentication` that stay fixed during the call. -/
structure AuthArgs where
  user : List Nat := []
  passwd : List Nat := []
  passwd_len : Nat := 0
  db : Option (List Nat) := none
  db_len : Nat := 0
  charset_no : Nat := 0
  session_options : MYSQLND_SESSION_OPTIONS := {}
  mysql_flags : Nat := 0
  silent : Bool := false
  is_change_user : Bool := false
deriving DecidableEq, Repr

/-- The variables of `mysqlnd_run_authentication` when the loop is entered: `ret` is
`FAIL`, `first_call` is `TRUE`, `plugin_data` is a copy of the salt of the
greeting and `requested_protocol` is the requested name, or the default when it
is `NULL`. -/
def run_authentication_entry (conn : MYSQLND_CONN_DATA) (auth_plugin_data : List Nat)
    (auth_protocol : Option String) : AuthLoop :=
  { conn := conn
    ret := enum_func_status.FAIL
    first_call := true
    requested_protocol :=
      match auth_protocol with
      | some n => n
      | none => MYSQLND_DEFAULT_AUTH_PROTOCOL
    plugin_data := auth_plugin_data
    switch_to_auth_protocol := none }

/-- One pass through the body of the `do … while` loop of `mysqlnd_run_authentication`.
The result is `none` when a mechanism's method or `mysqlnd_auth_change_user` has no
result; otherwise the flag tells whether the body left through `goto end`. -/
def run_authentication_body (env : AuthEnv) (a : AuthArgs) (st : AuthLoop) :
    Option (Bool × AuthLoop) :=
  let auth_plugin := env.fetch_auth_plugin_by_name st.requested_protocol
  if auth_plugin.isNone ∧ st.first_call = false then
    some (true,
      { st with
        conn := SET_CLIENT_ERROR st.conn CR_NOT_IMPLEMENTED UNKNOWN_SQLSTATE
                  "The server requested authentication method unknown to the client" })
  else
    let requested_protocol :=
      if auth_plugin.isNone then MYSQLND_DEFAULT_AUTH_PROTOCOL else st.requested_protocol
    let conn1 : MYSQLND_CONN_DATA :=
      { st.conn with authentication_plugin_data := st.plugin_data }
    -- The data should be allocated with malloc()
    match call_get_auth_data auth_plugin conn1 a.user a.passwd a.passwd_len st.plugin_data
        st.plugin_data.length a.session_options a.mysql_flags with
    | none => none
    | some sd =>
      if sd.conn.error_info.error_no ≠ 0 then
        some (true, { st with conn := sd.conn, requested_protocol := requested_protocol,
                              switch_to_auth_protocol := none })
      else
        let exchange : Option AuthExchange :=
          if a.is_change_user = false then
            mysqlnd_auth_handshake env sd.conn a.user a.passwd a.passwd_len a.db a.db_len
              a.session_options a.mysql_flags a.charset_no st.first_call requested_protocol
              auth_plugin st.plugin_data st.plugin_data.length sd.ret sd.auth_data_len
          else
            mysqlnd_auth_change_user env sd.conn a.user (strlen a.user) a.passwd a.passwd_len
              a.db a.db_len a.silent st.first_call requested_protocol
              auth_plugin st.plugin_data st.plugin_data.length sd.ret sd.auth_data_len
        match exchange with
        | none => none
        | some x =>
          some (false,
            { conn := x.conn
              ret := x.ret
              first_call := false
              requested_protocol :=
                match x.switch_to_auth_protocol with
                | some n => n
                | none => requested_protocol
              plugin_data := x.switch_to_auth_protocol_data
              switch_to_auth_protocol := x.switch_to_auth_protocol })

/-- The `do … while` loop of `mysqlnd_run_authentication`, started at the loop head
with the variables `st`.  `fuel` bounds the number of iterations: the result
is `none` when it is used up, or when a mechanism's method does not return. -/
def run_authentication_loop (env : AuthEnv) (a : AuthArgs) :
    Nat → AuthLoop → Option (Bool × AuthLoop)
  | 0, _ => none
  | fuel + 1, st =>
    match run_authentication_body env a st with
    | none => none
    | some (true, st1) => some (true, st1)
    | some (false, st1) =>
      if st1.ret = enum_func_status.FAIL ∧ st1.conn.error_info.error_no = 0 ∧
          st1.switch_to_auth_protocol ≠ none then
        run_authentication_loop env a fuel st1
      else some (false, st1)

/-- The function `mysqlnd_run_authentication` from the head of its loop on: the loop,
then the recording of the mechanism name when the loop was left with `PASS`
(and not through `goto end`), then the return of `ret` with the connection. -/
def run_authentication_from (env : AuthEnv) (a : AuthArgs) (fuel : Nat) (st : AuthLoop) :
    Option (enum_func_status × MYSQLND_CONN_DATA) :=
  match run_authentication_loop env a fuel st with
  | none => none
  | some (goto_end, st1) =>
    if goto_end = false ∧ st1.ret = enum_func_status.PASS then
      some (st1.ret, set_client_option_auth_protocol st1.conn st1.requested_protocol)
    else
      some (st1.ret, st1.conn)

/-- Function `mysqlnd_run_authentication`: `auth_plugin_data` is the salt of the
greeting, `auth_protocol` the requested mechanism name (`none` for `NULL`). -/
def mysqlnd_run_authentication (env : AuthEnv) (fuel : Nat) (conn : MYSQLND_CONN_DATA)
    (a : AuthArgs) (auth_plugin_data : List Nat) (auth_protocol : Option String) :
    Option (enum_func_status × MYSQLND_CONN_DATA) :=
  run_authentication_from env a fuel (run_authentication_entry conn auth_plugin_data auth_protocol)

/-- Byte-wise XOR of two byte strings, as the spec writes `a XOR b`. -/
def xor_bytes (a b : List Nat) : List Nat :=
  List.zipWith (fun x y => x ^^^ y) a b

/-- A total function with 20-byte results, standing in for SHA-1 where a theorem is
instantiated at concrete data. -/
def sample_hash20 (x : List Nat) : List Nat :=
  List.replicate 20 ((x.foldl (fun acc b => acc + b) x.length) % 256)

/-- A total function with 32-byte results, standing in for SHA-256 where a theorem is
instantiated at concrete data. -/
def sample_hash32 (x : List Nat) : List Nat :=
  List.replicate 32 ((x.foldl (fun acc b => acc + 3 * b) x.length) % 256)

/-! ## Observations on the conversation record -/

/-- A client auth payload: the full packet or the bare AuthSwitchResponse. -/
def is_auth_packet : ClientPacket → Bool
  | ClientPacket.auth _ => true
  | ClientPacket.change_auth_response _ _ => true
  | _ => false

/-- A full packet: the HandshakeResponse or the full ChangeUser packet. -/
def is_full_packet : ClientPacket → Bool
  | ClientPacket.auth _ => true
  | _ => false

/-- The client auth payloads written, in order. -/
def auth_packets : List WireEvent → List ClientPacket
  | [] => []
  | WireEvent.wrote p _ :: evs => if is_auth_packet p then p :: auth_packets evs else auth_packets evs
  | WireEvent.read _ _ :: evs => auth_packets evs

/-- A packet write. -/
def is_write : WireEvent → Bool
  | WireEvent.wrote _ _ => true
  | WireEvent.read _ _ => false

/-- A read of the response to a client auth payload by the engine itself, which reads
it into an `auth_response` packet (`mysqlnd_auth_handshake`) or a
`chg_user_response` packet (`mysqlnd_auth_change_user`). -/
def is_engine_read : WireEvent → Bool
  | WireEvent.read PacketKind.auth_response _ => true
  | WireEvent.read PacketKind.chg_user_response _ => true
  | _ => false

/-- A mechanism-internal event: neither a client auth payload nor a read of the
engine's response packets. -/
def mechanism_internal : WireEvent → Bool
  | WireEvent.wrote p _ => !is_auth_packet p
  | WireEvent.read PacketKind.auth_response _ => false
  | WireEvent.read PacketKind.chg_user_response _ => false
  | WireEvent.read _ _ => true

/-- The auth switch request an event carries, if any: a packet with response code
`0xFE` and a plugin name, read as `auth_response` or `chg_user_response` (the engine
looks at the packet structure whatever the read returned) or read with success as
`cached_sha2_result` (the handler of `caching_sha2_password` looks at the packet only
after a read that did not fail); with the name comes the salt of the packet, empty
when the packet carries none. -/
def switch_of : WireEvent → Option (String × List Nat)
  | WireEvent.wrote _ _ => none
  | WireEvent.read k pkt =>
    if (k = PacketKind.auth_response ∨ k = PacketKind.chg_user_response ∨
        (k = PacketKind.cached_sha2_result ∧ pkt.status ≠ enum_func_status.FAIL)) ∧
        pkt.response_code = 0xFE then
      match pkt.new_auth_protocol with
      | some n =>
        some (n, match pkt.new_auth_protocol_data with
                 | some d => d
                 | none => [])
      | none => none
    else none

/-- The last auth switch request of a stretch of the record, if any. -/
def last_switch : List WireEvent → Option (String × List Nat)
  | [] => none
  | e :: evs =>
    match last_switch evs with
    | some s => some s
    | none => switch_of e

/-- What the theorems about the packets written assume of a registered mechanism:
every event its methods add to the record is mechanism-internal. -/
structure MechanismInternal (p : st_mysqlnd_authentication_plugin) : Prop where
  get_auth_data : ∀ conn user passwd passwd_len salt salt_len so fl r,
    p.get_auth_data conn user passwd passwd_len salt salt_len so fl = some r →
    ∃ evs, r.conn.trace = conn.trace ++ evs ∧ ∀ e ∈ evs, mechanism_internal e = true
  handle_server_response : ∀ h, p.handle_server_response = some h →
    ∀ conn salt salt_len user passwd passwd_len r,
    h conn salt salt_len user passwd passwd_len = some r →
    ∃ evs, r.conn.trace = conn.trace ++ evs ∧ ∀ e ∈ evs, mechanism_internal e = true

/-- What the theorems about auth switches assume of a registered mechanism:
`get_auth_data` reads no auth switch request, and the switch that
`handle_server_response` stores (name and salt) is the last auth switch request it
read, stored only together with the result `FAIL`. -/
structure SwitchFromWire (p : st_mysqlnd_authentication_plugin) : Prop where
  get_auth_data : ∀ conn user passwd passwd_len salt salt_len so fl r,
    p.get_auth_data conn user passwd passwd_len salt salt_len so fl = some r →
    ∃ evs, r.conn.trace = conn.trace ++ evs ∧ last_switch evs = none
  handle_server_response : ∀ h, p.handle_server_response = some h →
    ∀ conn salt salt_len user passwd passwd_len r,
    h conn salt salt_len user passwd passwd_len = some r →
    ∃ evs, r.conn.trace = conn.trace ++ evs ∧
      (match r.new_auth_protocol with
       | some n => last_switch evs = some (n, r.new_auth_protocol_data) ∧
                   r.ret = enum_func_status.FAIL
       | none => last_switch evs = none)

/-- Two mechanisms behave alike at the salt `salt`: both have a
`handle_server_response` or neither has, and their methods return the same
result whenever they are called with this salt (`get_auth_data` on a connection
whose `authentication_plugin_data` is this salt). -/
def plugins_agree_at (salt : List Nat) (p q : st_mysqlnd_authentication_plugin) : Prop :=
  (∀ conn user passwd passwd_len so fl, conn.authentication_plugin_data = salt →
    p.get_auth_data conn user passwd passwd_len salt salt.length so fl
      = q.get_auth_data conn user passwd passwd_len salt salt.length so fl) ∧
  (match p.handle_server_response, q.handle_server_response with
   | some h, some g => ∀ conn user passwd passwd_len,
       h conn salt salt.length user passwd passwd_len
         = g conn salt salt.length user passwd passwd_len
   | none, none => True
   | _, _ => False)

/-- Two registries behave alike at the salt `salt`: the same names are registered,
and under each name the mechanisms behave alike at this salt. -/
def registries_agree_at (salt : List Nat)
    (fetch fetch2 : String → Option st_mysqlnd_authentication_plugin) : Prop :=
  ∀ name,
    match fetch name, fetch2 name with
    | some p, some q => plugins_agree_at salt p q
    | none, none => True
    | _, _ => False

/-- The name the loop body works under: the requested name when it is registered, the
default name when it is not. -/
def used_protocol (env : AuthEnv) (requested_protocol : String) : String :=
  if (env.fetch_auth_plugin_by_name requested_protocol).isNone then
    MYSQLND_DEFAULT_AUTH_PROTOCOL
  else requested_protocol

/-- An environment whose registry holds `mysql_native_password` only (over the
stand-in hash) and whose character set tables are empty. -/
def native_only_env : AuthEnv where
  fetch_auth_plugin_by_name := fun name =>
    if name = "mysql_native_password" then some (mysqlnd_native_auth_plugin sample_hash20)
    else none
  mysqlnd_find_charset_name := fun _ => none
  mysqlnd_find_charset_nr := fun _ => none

/-- An OK packet (response code 0), read successfully. -/
def ok_packet : ServerPacket :=
  { status := enum_func_status.PASS, response_code := 0 }

/-- An auth switch request (response code `0xFE`) naming `name` and carrying the salt
`data`, read successfully. -/
def switch_packet (name : String) (data : Option (List Nat)) : ServerPacket :=
  { status := enum_func_status.PASS, response_code := 0xFE,
    new_auth_protocol := some name, new_auth_protocol_data := data }

/-- The pre-4.1 authentication request: response code `0xFE` and no plugin name. -/
def old_auth_packet : ServerPacket :=
  { status := enum_func_status.PASS, response_code := 0xFE }

/-- The variables after one pass through the loop body (those before it when a
mechanism's method does not return). -/
def loop_body_result (env : AuthEnv) (a : AuthArgs) (st : AuthLoop) : AuthLoop :=
  match run_authentication_body env a st with
  | some r => r.2
  | none => st

/-- The result of `mysqlnd_run_authentication` when it returns one (`FAIL` and the
connection as it was otherwise). -/
def run_authentication_result (env : AuthEnv) (fuel : Nat) (conn : MYSQLND_CONN_DATA)
    (a : AuthArgs) (auth_plugin_data : List Nat) (auth_protocol : Option String) :
    enum_func_status × MYSQLND_CONN_DATA :=
  match mysqlnd_run_authentication env fuel conn a auth_plugin_data auth_protocol with
  | some r => r
  | none => (enum_func_status.FAIL, conn)

/-! ## Values the theorems name -/

/-- The client error for a salt shorter than `SCRAMBLE_LENGTH`: `CR_MALFORMED_PACKET`
with the message "The server sent wrong length for scramble". -/
def scramble_length_error : MYSQLND_ERROR_INFO :=
  { error_no := CR_MALFORMED_PACKET, sqlstate := UNKNOWN_SQLSTATE,
    error := "The server sent wrong length for scramble" }

/-- The client error for a server that asks for the pre-4.1 authentication:
`CR_UNKNOWN_ERROR` with the advisory message `mysqlnd_old_passwd`. -/
def old_passwd_error : MYSQLND_ERROR_INFO :=
  { error_no := CR_UNKNOWN_ERROR, sqlstate := UNKNOWN_SQLSTATE, error := mysqlnd_old_passwd }

/-- The client error for an auth switch to a mechanism that is not registered:
`CR_NOT_IMPLEMENTED` with its message. -/
def not_implemented_error : MYSQLND_ERROR_INFO :=
  { error_no := CR_NOT_IMPLEMENTED, sqlstate := UNKNOWN_SQLSTATE,
    error := "The server requested authentication method unknown to the client" }

/-! ## Shapes of one exchange and of one pass through the loop body -/

/-- What the last part of `mysqlnd_auth_handshake` and of `mysqlnd_auth_change_user`
does, as far as the record and the outputs are concerned: the response is read
as the packet `pkt` of kind `k`, followed by the events `tail`, and leaves `x`. -/
structure ResponseFacts (r : ServerResponse) (k : PacketKind) (pkt : ServerPacket)
    (tail : List WireEvent) (x : AuthExchange) : Prop where
  kind : k = PacketKind.auth_response ∨ k = PacketKind.chg_user_response
  trace : x.conn.trace = r.conn.trace ++ WireEvent.read k pkt :: tail
  tail_internal : ∀ e ∈ tail, mechanism_internal e = true ∧ switch_of e = none
  switch_fails : pkt.response_code = 0xFE →
    x.ret = enum_func_status.FAIL ∧ ∀ e ∈ tail, is_write e = false
  old_auth : pkt.response_code = 0xFE → pkt.new_auth_protocol = none →
    x.conn.error_info = old_passwd_error
  switch : ∀ n, pkt.response_code = 0xFE → pkt.new_auth_protocol = some n →
    x.switch_to_auth_protocol = some n ∧
    x.switch_to_auth_protocol_data =
      match pkt.new_auth_protocol_data with
      | some d => d
      | none => []
  keep : ¬ (pkt.response_code = 0xFE ∧ pkt.new_auth_protocol ≠ none) →
    x.switch_to_auth_protocol = r.new_auth_protocol ∧
    x.switch_to_auth_protocol_data = r.new_auth_protocol_data

/-- The three ways `mysqlnd_auth_handshake` and `mysqlnd_auth_change_user` proceed
once they are called with the auth payload `w`: the write of `w` fails; or the
mechanism's `handle_server_response` fails; or the response is read. -/
inductive ExchangeShape (auth_plugin : Option st_mysqlnd_authentication_plugin)
    (w : ClientPacket) (salt : List Nat) (salt_len : Nat) (user passwd : List Nat)
    (passwd_len : Nat) (conn : MYSQLND_CONN_DATA) (x : AuthExchange) : Prop where
  | write_failed :
      x.conn.trace = conn.trace ++ [WireEvent.wrote w false] →
      x.ret = enum_func_status.FAIL →
      x.switch_to_auth_protocol = none →
      ExchangeShape auth_plugin w salt salt_len user passwd passwd_len conn x
  | handler_failed (c0 : MYSQLND_CONN_DATA) (r : ServerResponse) :
      c0.trace = conn.trace ++ [WireEvent.wrote w true] →
      call_handle_server_response auth_plugin c0 salt salt_len user passwd passwd_len = some r →
      r.ret = enum_func_status.FAIL →
      x = { ret := enum_func_status.FAIL, switch_to_auth_protocol := r.new_auth_protocol,
            switch_to_auth_protocol_data := r.new_auth_protocol_data, conn := r.conn } →
      ExchangeShape auth_plugin w salt salt_len user passwd passwd_len conn x
  | response_read (c0 : MYSQLND_CONN_DATA) (r : ServerResponse) (k : PacketKind)
      (pkt : ServerPacket) (tail : List WireEvent) :
      c0.trace = conn.trace ++ [WireEvent.wrote w true] →
      call_handle_server_response auth_plugin c0 salt salt_len user passwd passwd_len = some r →
      r.ret = enum_func_status.PASS →
      ResponseFacts r k pkt tail x →
      ExchangeShape auth_plugin w salt salt_len user passwd passwd_len conn x

/-- The auth payload one pass through the loop body writes, for the scrambled data
`auth_data` of length `auth_data_len`: that of `mysqlnd_auth_handshake` on
connect, that of `mysqlnd_auth_change_user` on change-user. -/
def auth_payload (env : AuthEnv) (a : AuthArgs) (conn : MYSQLND_CONN_DATA)
    (first_call : Bool) (auth_protocol : String) (auth_data : Option (List Nat))
    (auth_data_len : Nat) : Option ClientPacket :=
  if a.is_change_user = false then
    some (auth_handshake_payload env conn a.user a.db a.db_len a.session_options a.mysql_flags
      a.charset_no first_call auth_protocol auth_data auth_data_len)
  else
    auth_change_user_payload conn a.user a.db a.db_len a.silent first_call auth_protocol
      auth_data auth_data_len

/-- The three ways one pass through the loop body of `mysqlnd_run_authentication`
proceeds: the requested mechanism is unknown on a pass that is not the first;
or an error is recorded after `get_auth_data`; or the auth payload is handed to
`mysqlnd_auth_handshake` or `mysqlnd_auth_change_user`. -/
inductive BodyShape (env : AuthEnv) (a : AuthArgs) (st : AuthLoop) (b : Bool)
    (st1 : AuthLoop) : Prop where
  | unknown :
      env.fetch_auth_plugin_by_name st.requested_protocol = none →
      st.first_call = false →
      b = true →
      st1 = { st with conn := SET_CLIENT_ERROR st.conn CR_NOT_IMPLEMENTED UNKNOWN_SQLSTATE
                                not_implemented_error.error } →
      BodyShape env a st b st1
  | error (sd : AuthData) :
      call_get_auth_data (env.fetch_auth_plugin_by_name st.requested_protocol)
        { st.conn with authentication_plugin_data := st.plugin_data } a.user a.passwd
        a.passwd_len st.plugin_data st.plugin_data.length a.session_options a.mysql_flags
        = some sd →
      sd.conn.error_info.error_no ≠ 0 →
      b = true →
      st1 = { st with conn := sd.conn,
                      requested_protocol := used_protocol env st.requested_protocol,
                      switch_to_auth_protocol := none } →
      BodyShape env a st b st1
  | exchange (sd : AuthData) (w : ClientPacket) (x : AuthExchange) :
      (st.first_call = false →
        env.fetch_auth_plugin_by_name st.requested_protocol ≠ none) →
      call_get_auth_data (env.fetch_auth_plugin_by_name st.requested_protocol)
        { st.conn with authentication_plugin_data := st.plugin_data } a.user a.passwd
        a.passwd_len st.plugin_data st.plugin_data.length a.session_options a.mysql_flags
        = some sd →
      sd.conn.error_info.error_no = 0 →
      auth_payload env a sd.conn st.first_call (used_protocol env st.requested_protocol)
        sd.ret sd.auth_data_len = some w →
      ExchangeShape (env.fetch_auth_plugin_by_name st.requested_protocol) w
        st.plugin_data st.plugin_data.length a.user a.passwd a.passwd_len sd.conn x →
      b = false →
      st1 = { conn := x.conn
              ret := x.ret
              first_call := false
              requested_protocol :=
                match x.switch_to_auth_protocol with
                | some n => n
                | none => used_protocol env st.requested_protocol
              plugin_data := x.switch_to_auth_protocol_data
              switch_to_auth_protocol := x.switch_to_auth_protocol } →
      BodyShape env a st b st1

/-! ## SHA256 Password -/

/-- One more than the largest value of an `unsigned int` (32 bits). -/
def UINT_RANGE : Nat := 4294967296

/-- The loop of `mysqlnd_xor_string`, `for (i = 0; i <= dst_len; ++i) dst[i] ^= xor_str[i % xor_str_len]`,
from the test of its condition with the counter at `i` on.  The counter is an
`unsigned int`, so `++i` wraps at `UINT_RANGE`; `i % xor_str_len` with
`xor_str_len = 0` is a division by zero, after which the call does not return.
The first argument bounds the number of rounds; the result is `none` when it is
used up.  A byte outside the list reads as 0 and a write outside it is dropped. -/
def mysqlnd_xor_string_loop (dst_len : Nat) (xor_str : List Nat) (xor_str_len : Nat) :
    Nat → Nat → List Nat → Option (List Nat)
  | 0, _, _ => none
  | fuel + 1, i, dst =>
    if i ≤ dst_len then
      if xor_str_len = 0 then none
      else
        mysqlnd_xor_string_loop dst_len xor_str xor_str_len fuel ((i + 1) % UINT_RANGE)
          (dst.set i (dst.getD i 0 ^^^ xor_str.getD (i % xor_str_len) 0))
    else some dst

/-- Function `mysqlnd_xor_string`: the contents of `dst` after the call, `none` when the
call does not return.  The loop is given `dst_len + 2` rounds; it needs no more
when it ends, and more rounds do not make it end (`mysqlnd_xor_string_rounds`). -/
def mysqlnd_xor_string (dst : List Nat) (dst_len : Nat) (xor_str : List Nat)
    (xor_str_len : Nat) : Option (List Nat) :=
  mysqlnd_xor_string_loop dst_len xor_str xor_str_len (dst_len + 2) 0 dst

/-- Type `mysqlnd_rsa_t`, an RSA public key as the crypto library holds it: `size` is
what `RSA_size` returns for it (the modulus size in bytes), `material` stands for
the key itself. -/
structure mysqlnd_rsa_t where
  size : Nat
  material : List Nat
deriving DecidableEq, Repr

/-- Settings and library functions that the RSA based mechanisms use and that are not
part of the source file.  They are parameters of the mechanisms. -/
structure CryptoEnv where
  /-- The INI setting `MYSQLND_G(sha256_server_public_key)`. -/
  sha256_server_public_key : Option String
  /-- Function `php_stream_open_wrapper` followed by `php_stream_copy_to_mem`: the contents
  of the file, `none` when either fails. -/
  php_stream_copy_to_mem : String → Option (List Nat)
  /-- Function `PEM_read_bio_RSA_PUBKEY` over a memory buffer. -/
  PEM_read_bio_RSA_PUBKEY : List Nat → Option mysqlnd_rsa_t
  /-- Function `RSA_public_encrypt(flen, from, to, rsa, RSA_PKCS1_OAEP_PADDING)`: the contents
  of the buffer `to` after the call, for the key and the `flen` bytes at `from`. -/
  RSA_public_encrypt : mysqlnd_rsa_t → List Nat → List Nat

/-- Function `mysqlnd_sha256_get_rsa_from_pem` (the variant that is not for Windows). -/
def mysqlnd_sha256_get_rsa_from_pem (env : CryptoEnv) (buf : List Nat) (len : Nat) :
    Option mysqlnd_rsa_t :=
  env.PEM_read_bio_RSA_PUBKEY (buf.take len)

/-- The client error "password is too long": `CR_UNKNOWN_ERROR` with that message. -/
def password_too_long_error : MYSQLND_ERROR_INFO :=
  { error_no := CR_UNKNOWN_ERROR, sqlstate := UNKNOWN_SQLSTATE, error := "password is too long" }

/-- Function `mysqlnd_sha256_public_encrypt` (the variant that is not for Windows).
`auth_data_len` is the value of `*auth_data_len` on entry; `xor_str` is the buffer of
which `passwd_len + 1` bytes are encrypted. -/
def mysqlnd_sha256_public_encrypt (env : CryptoEnv) (conn : MYSQLND_CONN_DATA)
    (server_public_key : mysqlnd_rsa_t) (passwd_len : Nat) (auth_data_len : Nat)
    (xor_str : List Nat) : AuthData :=
  let server_public_key_len := server_public_key.size
  -- Because RSA_PKCS1_OAEP_PADDING is used there is a restriction on the passwd_len.
  if server_public_key_len ≤ passwd_len + 41 then
    -- password message is to long
    { ret := none, auth_data_len := auth_data_len,
      conn := SET_CLIENT_ERROR conn CR_UNKNOWN_ERROR UNKNOWN_SQLSTATE
                password_too_long_error.error }
  else
    { ret := some (env.RSA_public_encrypt server_public_key (xor_str.take (passwd_len + 1))),
      auth_data_len := server_public_key_len, conn := conn }

/-- The variable `fname` of `mysqlnd_sha256_get_rsa_key` and of
`mysqlnd_caching_sha2_get_key`: the connection's `sha256_server_public_key` when it is
set and not empty, else the INI setting. -/
def server_public_key_fname (env : CryptoEnv) (conn : MYSQLND_CONN_DATA) : Option String :=
  match conn.sha256_server_public_key with
  | some f => if f ≠ "" then some f else env.sha256_server_public_key
  | none => env.sha256_server_public_key

/-- The block `do { … } while (0)` of `mysqlnd_sha256_get_rsa_key` and of
`mysqlnd_caching_sha2_get_key` that requests the public key from the server; the two
differ in the request packet `req` only.  The result is the key (`none` for `NULL`)
and the connection. -/
def request_server_public_key (env : CryptoEnv) (conn : MYSQLND_CONN_DATA)
    (req : ClientPacket) : Option mysqlnd_rsa_t × MYSQLND_CONN_DATA :=
  let w := PACKET_WRITE conn req
  if w.1 = false then
    -- Error while sending public key request packet
    (none, SET_CONNECTION_STATE w.2 mysqlnd_connection_state.CONN_QUIT_SENT)
  else
    let rd := PACKET_READ w.2 PacketKind.sha256_pk_request_response
    if rd.1 = enum_func_status.FAIL ∨ rd.2.1.public_key.isNone then
      -- Error while receiving public key
      (none, SET_CONNECTION_STATE rd.2.2 mysqlnd_connection_state.CONN_QUIT_SENT)
    else
      -- now extract the public key
      (mysqlnd_sha256_get_rsa_from_pem env (rd.2.1.public_key.getD [])
        (rd.2.1.public_key.getD []).length, rd.2.2)

/-- The branch `else { … }` of `mysqlnd_sha256_get_rsa_key` and of
`mysqlnd_caching_sha2_get_key` that loads the key from the file `fname`. -/
def load_server_public_key (env : CryptoEnv) (fname : String) : Option mysqlnd_rsa_t :=
  match env.php_stream_copy_to_mem fname with
  | some key_str => mysqlnd_sha256_get_rsa_from_pem env key_str key_str.length
  | none => none

/-- Function `mysqlnd_sha256_get_rsa_key`: the key (`none` for `NULL`) and the
connection. -/
def mysqlnd_sha256_get_rsa_key (env : CryptoEnv) (conn : MYSQLND_CONN_DATA) :
    Option mysqlnd_rsa_t × MYSQLND_CONN_DATA :=
  match server_public_key_fname env conn with
  | none => request_server_public_key env conn ClientPacket.sha256_pk_request
  | some fname =>
    if fname = "" then request_server_public_key env conn ClientPacket.sha256_pk_request
    else (load_server_public_key env fname, conn)

/-- Function `mysqlnd_sha256_auth_get_auth_data`; `none` when the call does not return. -/
def mysqlnd_sha256_auth_get_auth_data (env : CryptoEnv) (conn : MYSQLND_CONN_DATA)
    (passwd : List Nat) (passwd_len : Nat) (auth_plugin_data : List Nat)
    (auth_plugin_data_len : Nat) : Option AuthData :=
  if conn.ssl = true then
    -- clear text under SSL
    some { ret := some (passwd.take passwd_len), auth_data_len := passwd_len, conn := conn }
  else
    let k := mysqlnd_sha256_get_rsa_key env conn
    match k.1 with
    | some server_public_key =>
      match mysqlnd_xor_string (passwd.take passwd_len ++ [0]) passwd_len auth_plugin_data
          auth_plugin_data_len with
      | none => none
      | some xor_str =>
        some (mysqlnd_sha256_public_encrypt env k.2 server_public_key passwd_len 0 xor_str)
    | none => some { ret := none, auth_data_len := 0, conn := k.2 }

/-- Plugin `mysqlnd_sha256_authentication_plugin`: `get_auth_data` and no
`handle_server_response`. -/
def mysqlnd_sha256_authentication_plugin (env : CryptoEnv) :
    st_mysqlnd_authentication_plugin where
  plugin_name := "auth_plugin_sha256_password"
  get_auth_data := fun conn _user passwd passwd_len auth_plugin_data auth_plugin_data_len _ _ =>
    mysqlnd_sha256_auth_get_auth_data env conn passwd passwd_len auth_plugin_data
      auth_plugin_data_len
  handle_server_response := none

/-! ## Caching SHA2 Password: the full authentication -/

/-- What `mysqlnd_caching_sha2_public_encrypt` and `mysqlnd_caching_sha2_get_and_use_key`
leave: the returned length, the buffer stored through `crypted` (`none` when nothing
was stored) and the connection. -/
structure CryptedPassword where
  len : Nat
  crypted : Option (List Nat)
  conn : MYSQLND_CONN_DATA
deriving DecidableEq, Repr

/-- Function `mysqlnd_caching_sha2_public_encrypt` (the variant that is not for Windows). -/
def mysqlnd_caching_sha2_public_encrypt (env : CryptoEnv) (conn : MYSQLND_CONN_DATA)
    (server_public_key : mysqlnd_rsa_t) (passwd_len : Nat) (crypted : Option (List Nat))
    (xor_str : List Nat) : CryptedPassword :=
  let server_public_key_len := server_public_key.size
  -- Because RSA_PKCS1_OAEP_PADDING is used there is a restriction on the passwd_len.
  if server_public_key_len ≤ passwd_len + 41 then
    -- password message is to long
    { len := 0, crypted := crypted,
      conn := SET_CLIENT_ERROR conn CR_UNKNOWN_ERROR UNKNOWN_SQLSTATE
                password_too_long_error.error }
  else
    { len := server_public_key_len,
      crypted := some (env.RSA_public_encrypt server_public_key (xor_str.take (passwd_len + 1))),
      conn := conn }

/-- Function `mysqlnd_caching_sha2_get_key`: the key (`none` for `NULL`) and the
connection.  The request packet is a `MYSQLND_PACKET_CACHED_SHA2_RESULT` with
`request = 1`. -/
def mysqlnd_caching_sha2_get_key (env : CryptoEnv) (conn : MYSQLND_CONN_DATA) :
    Option mysqlnd_rsa_t × MYSQLND_CONN_DATA :=
  match server_public_key_fname env conn with
  | none => request_server_public_key env conn (ClientPacket.cached_sha2_result 1 none 0)
  | some fname =>
    if fname = "" then
      request_server_public_key env conn (ClientPacket.cached_sha2_result 1 none 0)
    else (load_server_public_key env fname, conn)

/-- Function `mysqlnd_caching_sha2_get_and_use_key`; `none` when the call does not return.
`crypted` is the value of `*crypted` on entry. -/
def mysqlnd_caching_sha2_get_and_use_key (env : CryptoEnv) (conn : MYSQLND_CONN_DATA)
    (auth_plugin_data : List Nat) (_auth_plugin_data_len : Nat)
    (crypted : Option (List Nat)) (passwd : List Nat) (passwd_len : Nat) :
    Option CryptedPassword :=
  let k := mysqlnd_caching_sha2_get_key env conn
  match k.1 with
  | some server_public_key =>
    match mysqlnd_xor_string (passwd.take passwd_len ++ [0]) passwd_len auth_plugin_data
        SCRAMBLE_LENGTH with
    | none => none
    | some xor_str =>
      some (mysqlnd_caching_sha2_public_encrypt env k.2 server_public_key passwd_len crypted
        xor_str)
  | none => some { len := 0, crypted := crypted, conn := k.2 }

/-- Function `is_secure_transport`. -/
def is_secure_transport (conn : MYSQLND_CONN_DATA) : Bool :=
  if conn.ssl = true then true
  else conn.stream_label == "unix_socket"

/-- Function `mysqlnd_caching_sha2_handle_server_response`; `none` when the call does not
return.  The packet structure `result_packet` is the one the read filled; its fields
`request` and `password` are as `init_cached_sha2_result_packet` left them (zero and
`NULL`) where the function does not set them. -/
def mysqlnd_caching_sha2_handle_server_response (env : CryptoEnv)
    (conn : MYSQLND_CONN_DATA) (auth_plugin_data : List Nat) (auth_plugin_data_len : Nat)
    (_user : List Nat) (passwd : List Nat) (passwd_len : Nat) : Option ServerResponse :=
  if passwd_len = 0 then
    -- empty password fast path
    some { ret := enum_func_status.PASS, new_auth_protocol := none,
           new_auth_protocol_data := [], conn := conn }
  else
    let rd := PACKET_READ conn PacketKind.cached_sha2_result
    let result_packet := rd.2.1
    if rd.1 = enum_func_status.FAIL then
      some { ret := enum_func_status.PASS, new_auth_protocol := none,
             new_auth_protocol_data := [], conn := rd.2.2 }
    else if result_packet.response_code = 0xFF then
      let c : MYSQLND_CONN_DATA :=
        if result_packet.error_info.sqlstate ≠ "" then
          { rd.2.2 with error_info :=
              { rd.2.2.error_info with sqlstate := result_packet.error_info.sqlstate } }
        else rd.2.2
      some { ret := enum_func_status.FAIL, new_auth_protocol := none,
             new_auth_protocol_data := [],
             conn := SET_CLIENT_ERROR c result_packet.error_info.error_no UNKNOWN_SQLSTATE
                       result_packet.error_info.error }
    else if result_packet.response_code = 0xFE then
      -- auth switch response
      some { ret := enum_func_status.FAIL,
             new_auth_protocol := result_packet.new_auth_protocol,
             new_auth_protocol_data := result_packet.new_auth_protocol_data.getD [],
             conn := rd.2.2 }
    else if result_packet.response_code = 3 then
      -- fast path succeeded
      some { ret := enum_func_status.PASS, new_auth_protocol := none,
             new_auth_protocol_data := [], conn := rd.2.2 }
    else if result_packet.response_code = 4 then
      if is_secure_transport rd.2.2 = true then
        -- fast path failed, doing full auth via secure transport
        some { ret := enum_func_status.PASS, new_auth_protocol := none,
               new_auth_protocol_data := [],
               conn := (PACKET_WRITE rd.2.2
                 (ClientPacket.cached_sha2_result 0 (some passwd) (passwd_len + 1))).2 }
      else
        -- fast path failed, doing full auth via insecure transport
        match mysqlnd_caching_sha2_get_and_use_key env rd.2.2 auth_plugin_data
            auth_plugin_data_len none passwd passwd_len with
        | none => none
        | some u =>
          some { ret := enum_func_status.PASS, new_auth_protocol := none,
                 new_auth_protocol_data := [],
                 conn := (PACKET_WRITE u.conn
                   (ClientPacket.cached_sha2_result 0 u.crypted u.len)).2 }
    else
      -- The server tried to send a key, which we didn't expect
      some { ret := enum_func_status.PASS, new_auth_protocol := none,
             new_auth_protocol_data := [], conn := rd.2.2 }

/-- Plugin `mysqlnd_caching_sha2_auth_plugin`: both methods. -/
def mysqlnd_caching_sha2_auth_plugin (SHA256 : List Nat → List Nat) (env : CryptoEnv) :
    st_mysqlnd_authentication_plugin where
  plugin_name := "auth_plugin_caching_sha2_password"
  get_auth_data := fun conn _user passwd passwd_len auth_plugin_data auth_plugin_data_len _ _ =>
    some (mysqlnd_caching_sha2_get_auth_data SHA256 conn passwd passwd_len auth_plugin_data
      auth_plugin_data_len)
  handle_server_response := some (mysqlnd_caching_sha2_handle_server_response env)

/-- Modelled from the spec: the bytes the packet writer (not part of the source file)
sends for a `MYSQLND_PACKET_CACHED_SHA2_RESULT`: for a public key request the one byte 2,
else `password_len` bytes from `password`.  A buffer given as a C string is followed in
memory by its terminating NUL, so a read of one byte more than the list holds
yields that NUL. -/
def cached_sha2_result_payload (request : Nat) (password : Option (List Nat))
    (password_len : Nat) : List Nat :=
  if request = 1 then [2]
  else (password.getD [] ++ [0]).take password_len

/-! ## More values the theorems name -/

/-- The first `k` rounds of the loop of `mysqlnd_xor_string` from the counter `i` on, with a
counter that does not wrap. -/
def xor_string_rounds (xor_str : List Nat) (xor_str_len : Nat) :
    Nat → Nat → List Nat → List Nat
  | 0, _, dst => dst
  | k + 1, i, dst =>
    xor_string_rounds xor_str xor_str_len k (i + 1)
      (dst.set i (dst.getD i 0 ^^^ xor_str.getD (i % xor_str_len) 0))

/-- An event of `set_charset`: the write of its `SET NAMES` query or the read of the
response to it. -/
def is_set_charset_event : WireEvent → Bool
  | WireEvent.wrote (ClientPacket.set_names _) _ => true
  | WireEvent.read PacketKind.query_response _ => true
  | _ => false

/-- An RSA key of 64 bytes (512 bits), for the theorems that are instantiated at concrete
data. -/
def sample_key : mysqlnd_rsa_t :=
  { size := 64, material := [48, 130] }

/-- A total function whose results have the size of the key, standing in for
`RSA_public_encrypt` where a theorem is instantiated at concrete data. -/
def sample_encrypt (key : mysqlnd_rsa_t) (m : List Nat) : List Nat :=
  List.replicate key.size ((m.foldl (fun acc b => acc + 7 * b) (m.length + key.material.length)) % 256)

/-- A crypto environment for the theorems that are instantiated at concrete data: no INI
setting, one key file `server.pem`, a PEM reader that knows the contents of that
file only, and the stand-in encryption. -/
def sample_crypto_env : CryptoEnv where
  sha256_server_public_key := none
  php_stream_copy_to_mem := fun fname => if fname = "server.pem" then some [45, 45] else none
  PEM_read_bio_RSA_PUBKEY := fun buf => if buf = [45, 45] then some sample_key else none
  RSA_public_encrypt := sample_encrypt

/-- An AuthMoreData packet of `caching_sha2_password` with the result byte `b`, read
successfully. -/
def cached_sha2_result_packet (b : Nat) : ServerPacket :=
  { status := enum_func_status.PASS, response_code := b }

/-- A public key response carrying the PEM text `pem`, read successfully. -/
def public_key_packet (pem : List Nat) : ServerPacket :=
  { status := enum_func_status.PASS, public_key := some pem }

/-- An environment whose registry holds `caching_sha2_password` only (over the stand-in
hash and the sample crypto environment) and whose character set tables are
empty. -/
def caching_sha2_only_env : AuthEnv where
  fetch_auth_plugin_by_name := fun name =>
    if name = "caching_sha2_password" then
      some (mysqlnd_caching_sha2_auth_plugin sample_hash32 sample_crypto_env)
    else none
  mysqlnd_find_charset_name := fun _ => none
  mysqlnd_find_charset_nr := fun _ => none

/-- A connection whose `sha256_server_public_key` names the key file of
`sample_crypto_env`, with the server script `incoming`. -/
def key_file_conn (incoming : List ServerPacket) : MYSQLND_CONN_DATA :=
  { sha256_server_public_key := some "server.pem", incoming := incoming }

/-- A TLS-protected connection with the server script `incoming`. -/
def tls_conn (incoming : List ServerPacket) : MYSQLND_CONN_DATA :=
  { ssl := true, incoming := incoming }

/-- An ERR packet (response code `0xFF`) with the error number 1045, read with the
result `FAIL`. -/
def err_packet : ServerPacket :=
  { status := enum_func_status.FAIL, response_code := 0xFF,
    error_info := { error_no := 1045, sqlstate := "28000", error := "Access denied" } }

/-! ## PAM Authentication -/

/-- Function `mysqlnd_pam_auth_get_auth_data`.  The returned buffer is that of `zend_strndup`:
the first `passwd_len` bytes of the password and a NUL; `auth_data_len` is
`passwd_len`. -/
def mysqlnd_pam_auth_get_auth_data (conn : MYSQLND_CONN_DATA) (passwd : List Nat)
    (passwd_len : Nat) : AuthData :=
  -- copy pass
  { ret := if passwd_len ≠ 0 then some (passwd.take passwd_len ++ [0]) else none,
    auth_data_len := passwd_len, conn := conn }

/-- Plugin `mysqlnd_pam_authentication_plugin`: `get_auth_data` and no
`handle_server_response`. -/
def mysqlnd_pam_authentication_plugin : st_mysqlnd_authentication_plugin where
  plugin_name := "auth_plugin_mysql_clear_password"
  get_auth_data := fun conn _user passwd passwd_len _auth_plugin_data _auth_plugin_data_len _ _ =>
    some (mysqlnd_pam_auth_get_auth_data conn passwd passwd_len)
  handle_server_response := none

/-! ## Values the theorems on errors name -/

/-- An ERR packet as the server sends it for a wrong password: response code `0xFF`,
error number 1045, SQLSTATE `28000` and a message; read successfully. -/
def access_denied_packet : ServerPacket :=
  { status := enum_func_status.PASS, response_code := 0xFF,
    error_info := { error_no := 1045, sqlstate := "28000", error := "Access denied" } }

/-- A public key response that carries no key, read successfully. -/
def no_key_packet : ServerPacket :=
  { status := enum_func_status.PASS, public_key := none }

/-- A crypto environment in which no key file is configured: no INI setting, no
file, the PEM reader and the encryption of `sample_crypto_env`. -/
def no_key_file_env : CryptoEnv where
  sha256_server_public_key := none
  php_stream_copy_to_mem := fun _ => none
  PEM_read_bio_RSA_PUBKEY := sample_crypto_env.PEM_read_bio_RSA_PUBKEY
  RSA_public_encrypt := sample_encrypt

/-- An environment whose registry holds `mysql_native_password` and `sha256_password`
(over the stand-in hash and `crypto`) and whose character set tables are empty. -/
def native_sha256_env (crypto : CryptoEnv) : AuthEnv where
  fetch_auth_plugin_by_name := fun name =>
    if name = "mysql_native_password" then some (mysqlnd_native_auth_plugin sample_hash20)
    else if name = "sha256_password" then some (mysqlnd_sha256_authentication_plugin crypto)
    else none
  mysqlnd_find_charset_name := fun _ => none
  mysqlnd_find_charset_nr := fun _ => none

/-- What the theorem on the recorded credentials assumes of a mechanism: its
`handle_server_response` leaves the recorded username and password and the server
version as they are. -/
structure KeepsCredentials (p : st_mysqlnd_authentication_plugin) : Prop where
  handle_server_response : ∀ h, p.handle_server_response = some h →
    ∀ conn salt salt_len user passwd passwd_len r,
    h conn salt salt_len user passwd passwd_len = some r →
    r.conn.username = conn.username ∧ r.conn.password = conn.password ∧
    r.conn.server_version = conn.server_version

/-- A connection on which the character set number 33 (`utf8`) is in use, to a server
of the version `server_version`, with the server script `incoming`. -/
def utf8_conn (server_version : Nat) (incoming : List ServerPacket) : MYSQLND_CONN_DATA :=
  { incoming := incoming, server_version := server_version,
    charset := some { nr := 33, name := "utf8" } }

/-- A connection of a server of version 5.1.0 that records the user `o` and the password
`p` and has the character set number 33 (`utf8`) in use, with the server script
`incoming`. -/
def old_server_conn (incoming : List ServerPacket) : MYSQLND_CONN_DATA :=
  { incoming := incoming, server_version := 50100, username := some [111],
    password := some [112], charset := some { nr := 33, name := "utf8" } }

/-- The result of `mysqlnd_auth_change_user` when it has one (`FAIL` and the connection
as it was otherwise), for the user `u` and the password `s` under
`caching_sha2_password` (over the stand-in hash and the sample crypto environment) with
the full packet. -/
def change_user_result (conn : MYSQLND_CONN_DATA) : AuthExchange :=
  match mysqlnd_auth_change_user caching_sha2_only_env conn [117] 1 [115] 1 none 0 false true
      "caching_sha2_password"
      (some (mysqlnd_caching_sha2_auth_plugin sample_hash32 sample_crypto_env)) (List.range 20)
      20 (some (php_mysqlnd_scramble_sha2 sample_hash32 (List.range 20) [115] 1)) 32 with
  | some x => x
  | none => { ret := enum_func_status.FAIL, switch_to_auth_protocol := none,
              switch_to_auth_protocol_data := [], conn := conn }

/-! ## SHA-1

The functions `PHP_SHA1Init`, `PHP_SHA1Update` and `PHP_SHA1Final` are not part of the
source file.  The spec names what they compute: `sha1(bytes) → 20 bytes`, the
SHA-1 digest (FIPS 180) of the bytes given to the updates, in their order. -/

/-- Rotation of a 32-bit word `x` to the left by `n` bits (`0 < n < 32`). -/
def sha1_rotl (n x : Nat) : Nat :=
  ((x <<< n) ||| (x >>> (32 - n))) % 4294967296

/-- The round function of SHA-1 for round `t`. -/
def sha1_f (t b c d : Nat) : Nat :=
  if t < 20 then (b &&& c) ||| ((b ^^^ 4294967295) &&& d)
  else if t < 40 then b ^^^ c ^^^ d
  else if t < 60 then (b &&& c) ||| (b &&& d) ||| (c &&& d)
  else b ^^^ c ^^^ d

/-- The round constant of SHA-1 for round `t`. -/
def sha1_k (t : Nat) : Nat :=
  if t < 20 then 0x5A827999
  else if t < 40 then 0x6ED9EBA1
  else if t < 60 then 0x8F1BBCDC
  else 0xCA62C1D6

/-- The five 32-bit words of the SHA-1 state. -/
structure sha1_state where
  a : Nat
  b : Nat
  c : Nat
  d : Nat
  e : Nat
deriving DecidableEq, Repr

/-- The last `n` of the 80 rounds of SHA-1 on one block, from round `t` on.  `w` holds
the sixteen words of the message schedule from `W[t]` on; the next word is
`rotl 1 (W[t+13] xor W[t+8] xor W[t+2] xor W[t])`. -/
def sha1_rounds : Nat → Nat → List Nat → sha1_state → sha1_state
  | 0, _, _, s => s
  | n + 1, t, w, s =>
    sha1_rounds n (t + 1)
      (w.tail ++ [sha1_rotl 1 (w.getD 13 0 ^^^ w.getD 8 0 ^^^ w.getD 2 0 ^^^ w.headD 0)])
      { a := (sha1_rotl 5 s.a + sha1_f t s.b s.c s.d + s.e + sha1_k t + w.headD 0) % 4294967296
        b := s.a
        c := sha1_rotl 30 s.b
        d := s.c
        e := s.d }

/-- The first `n` big-endian 32-bit words of a byte string. -/
def sha1_words : Nat → List Nat → List Nat
  | 0, _ => []
  | n + 1, m =>
    (m.getD 0 0 * 16777216 + m.getD 1 0 * 65536 + m.getD 2 0 * 256 + m.getD 3 0)
      :: sha1_words n (m.drop 4)

/-- The SHA-1 compression of the first `n` blocks of 64 bytes of `m` into the state. -/
def sha1_blocks : Nat → List Nat → sha1_state → sha1_state
  | 0, _, h => h
  | n + 1, m, h =>
    let s := sha1_rounds 80 0 (sha1_words 16 (m.take 64)) h
    sha1_blocks n (m.drop 64)
      { a := (h.a + s.a) % 4294967296
        b := (h.b + s.b) % 4294967296
        c := (h.c + s.c) % 4294967296
        d := (h.d + s.d) % 4294967296
        e := (h.e + s.e) % 4294967296 }

/-- The `n` bytes of `x` in big-endian order. -/
def sha1_bytes (n x : Nat) : List Nat :=
  (List.range n).map (fun i => (x >>> (8 * (n - 1 - i))) % 256)

/-- The SHA-1 padding: the byte `0x80`, zero bytes up to 56 modulo 64, and the length of
the message in bits as 8 bytes. -/
def sha1_pad (m : List Nat) : List Nat :=
  m ++ [128] ++ List.replicate ((119 - m.length % 64) % 64) 0 ++ sha1_bytes 8 (8 * m.length)

/-- Modelled from the spec: `sha1(bytes) → 20 bytes`, what `PHP_SHA1Init`, `PHP_SHA1Update`
with the bytes `m` and `PHP_SHA1Final` (not part of the source file) leave in the
digest buffer: the SHA-1 digest of `m`. -/
def PHP_SHA1 (m : List Nat) : List Nat :=
  let h := sha1_blocks ((sha1_pad m).length / 64) (sha1_pad m)
    { a := 0x67452301, b := 0xEFCDAB89, c := 0x98BADCFE, d := 0x10325476, e := 0xC3D2E1F0 }
  sha1_bytes 4 h.a ++ sha1_bytes 4 h.b ++ sha1_bytes 4 h.c ++ sha1_bytes 4 h.d
    ++ sha1_bytes 4 h.e

/-- The salt of the concrete vector: the bytes `01 02 … 14` (hexadecimal). -/
def vector_salt : List Nat :=
  [1, 2, 3, 4, 5, 6, 7, 8, 9, 10, 11, 12, 13, 14, 15, 16, 17, 18, 19, 20]

/-- The password of the concrete vector: the six bytes of `secret`. -/
def vector_password : List Nat := [115, 101, 99, 114, 101, 116]

/-! ## LDAP SASL

The SASL library (`sasl_client_init`, `sasl_client_new`, `sasl_setprop`,
`sasl_client_start`, `sasl_client_step`, `sasl_dispose`) is not part of the repository:
its functions are parameters of the mechanism, and its result codes and prompt
identifiers are those of its header `sasl.h`.  A library session is changed in place by
the library; the model passes it on as a value.  Every library call is added to the
record `sasl_calls` of the connection. -/

/-- Result code `SASL_CONTINUE` of the SASL library: another step is needed. -/
def SASL_CONTINUE : Int := 1

/-- Result code `SASL_OK` of the SASL library. -/
def SASL_OK : Int := 0

/-- Result code `SASL_FAIL` of the SASL library. -/
def SASL_FAIL : Int := -1

/-- Result code `SASL_NOMECH` of the SASL library: mechanism not supported. -/
def SASL_NOMECH : Int := -4

/-- Result code `SASL_INTERACT` of the SASL library: prompts are to be answered. -/
def SASL_INTERACT : Int := 2

/-- Prompt identifier `SASL_CB_USER` of the SASL library. -/
def SASL_CB_USER : Nat := 0x4001

/-- Prompt identifier `SASL_CB_AUTHNAME` of the SASL library. -/
def SASL_CB_AUTHNAME : Nat := 0x4002

/-- Prompt identifier `SASL_CB_PASS` of the SASL library. -/
def SASL_CB_PASS : Nat := 0x4004

/-- The value of `FAIL` of `enum_func_status` as an `int` (`PASS` is 0, `FAIL` is 1). -/
def FAIL_int : Int := 1

/-- The constant `SASL_SERVICE_NAME`. -/
def SASL_SERVICE_NAME : String := "ldap"

/-- The constant `SASL_MAX_PKT_SIZE`. -/
def SASL_MAX_PKT_SIZE : Nat := 1518

/-- The constant `SASL_GSSAPI`: the bytes of `GSSAPI`. -/
def SASL_GSSAPI : List Nat := [71, 83, 83, 65, 80, 73]

/-- The constant `SASL_SCRAM_SHA1`: the bytes of `SCRAM-SHA-1`. -/
def SASL_SCRAM_SHA1 : List Nat := [83, 67, 82, 65, 77, 45, 83, 72, 65, 45, 49]

/-- The constant `SASL_SCRAM_SHA256`: the bytes of `SCRAM-SHA-256`. -/
def SASL_SCRAM_SHA256 : List Nat := [83, 67, 82, 65, 77, 45, 83, 72, 65, 45, 50, 53, 54]

/-- The C string read at an address where the memory holds the bytes `mem` (a buffer and
what follows it in memory, as far as it can be read): the bytes before the first NUL.
There is no result when `mem` holds no NUL: the read runs beyond the memory that can be
read.  (A pointer that is `NULL` has nothing that can be read: `mem` is empty.) -/
def c_string (mem : List Nat) : Option (List Nat) :=
  if 0 ∈ mem then some (mem.takeWhile (fun b => b != 0)) else none

/-- Function `strcmp` of the string at an address where the memory holds the bytes `mem`
with a string constant of the source file, given by its bytes `s2` (the NUL that ends
it is not among them).  The bytes are compared in order up to the first difference or
the end of both strings: the result is 0 when the strings are equal and a value other
than 0 (here 1) when they differ; there is no result when the comparison reads beyond
`mem`. -/
def strcmp : List Nat → List Nat → Option Int
  | [], _ => none
  | a :: _, [] => some (if a = 0 then 0 else 1)
  | a :: mem, b :: s2 =>
    if a ≠ b then some 1
    else if a = 0 then some 0
    else strcmp mem s2

/-- The condition `strcmp(auth_plugin_data, SASL_SCRAM_SHA1) &&
strcmp(auth_plugin_data, SASL_SCRAM_SHA256)` of `mysqlnd_ldap_sasl__get_auth_data`, for
the memory `mem` at `auth_plugin_data`; the second comparison is made only when the
first gave a value other than 0. -/
def sasl_method_not_supported (mem : List Nat) : Option Bool :=
  match strcmp mem SASL_SCRAM_SHA1 with
  | none => none
  | some r1 =>
    if r1 ≠ 0 then
      match strcmp mem SASL_SCRAM_SHA256 with
      | none => none
      | some r2 => some (decide (r2 ≠ 0))
    else some false

/-- What a call of `sasl_client_start` or `sasl_client_step` leaves: the result code, the
session, the list of prompts (the entries before `SASL_CB_LIST_END`) and the values of
the output parameters (the client blob and its length). -/
structure SaslResult where
  rc : Int
  connection : sasl_conn_t
  interactions : List sasl_interact_t := []
  output : Option (List Nat) := none
  output_len : Nat := 0
deriving DecidableEq, Repr

/-- The functions of the SASL library that the mechanism calls.  `sasl_client_new` gets
the service name; `sasl_client_start` the session, the mechanism name and the list of
prompts as it stands; `sasl_client_step` the session, the server blob with its
length and the list of prompts as it stands. -/
structure SaslEnv where
  sasl_client_init : Int
  sasl_client_new : String → Int × sasl_conn_t
  sasl_setprop : sasl_conn_t → sasl_conn_t
  sasl_client_start : sasl_conn_t → List Nat → List sasl_interact_t → SaslResult
  sasl_client_step : sasl_conn_t → Option (List Nat) → Nat → List sasl_interact_t → SaslResult

/-- How a function of the LDAP SASL mechanism ends. -/
inductive SaslOutcome (α : Type) where
  /-- The function returns. -/
  | returned (r : α)
  /-- Modelled from the spec: `php_error` with `E_ERROR` (not part of the source file) is
  a fatal error, after which control does not come back to the caller; `conn` is the
  connection at that point. -/
  | fatal_error (conn : MYSQLND_CONN_DATA)
  /-- The function neither returns nor raises a fatal error: a loop that does not end, a
  copy of a negative number of bytes, or a read beyond the memory that can be read. -/
  | no_return

/-- What the caller of a method gets: the result when the method returns. -/
def SaslOutcome.result {α : Type} : SaslOutcome α → Option α
  | SaslOutcome.returned r => some r
  | SaslOutcome.fatal_error _ => none
  | SaslOutcome.no_return => none

/-- The connection at the end of a function, when it returns or raises a fatal error. -/
def SaslOutcome.conn_of {α : Type} (f : α → MYSQLND_CONN_DATA) :
    SaslOutcome α → Option MYSQLND_CONN_DATA
  | SaslOutcome.returned r => some (f r)
  | SaslOutcome.fatal_error c => some c
  | SaslOutcome.no_return => none

/-- Function `handle_comm`: the answers to the prompts of the library, the user for
`SASL_CB_USER` and `SASL_CB_AUTHNAME`, the password for `SASL_CB_PASS` (each with its
`strlen`), nothing for another prompt. -/
def handle_comm (ilist : List sasl_interact_t) (user passwd : List Nat) :
    List sasl_interact_t :=
  ilist.map (fun i =>
    if i.id = SASL_CB_USER then { i with result := some user, len := strlen user }
    else if i.id = SASL_CB_AUTHNAME then { i with result := some user, len := strlen user }
    else if i.id = SASL_CB_PASS then { i with result := some passwd, len := strlen passwd }
    else { i with result := none, len := 0 })

/-- The loop of `sasl_run`: `sasl_client_start` is called until its result is not
`SASL_INTERACT`, with the prompts answered by `handle_comm` in between.  The first
argument bounds the number of rounds (`none` when it is used up).  The result is
the last answer of the library and the record of calls. -/
def sasl_run_loop (sasl : SaslEnv) (auth_mechanism user passwd : List Nat) :
    Nat → sasl_conn_t → List sasl_interact_t → List SaslCall →
    Option (SaslResult × List SaslCall)
  | 0, _, _, _ => none
  | fuel + 1, connection, interactions, calls =>
    let r := sasl.sasl_client_start connection auth_mechanism interactions
    let calls1 := calls ++ [SaslCall.client_start auth_mechanism interactions]
    if r.rc = SASL_INTERACT then
      sasl_run_loop sasl auth_mechanism user passwd fuel r.connection
        (handle_comm r.interactions user passwd) calls1
    else some (r, calls1)

/-- Function `sasl_run`: the result code, what `*client_output` and
`*client_output_length` hold afterwards, the session and the record of calls.
`client_output_length` is handed to the library as it is; `*client_output` is set
only when the result is not `SASL_NOMECH`, for which the function returns `FAIL`. -/
def sasl_run (sasl : SaslEnv) (fuel : Nat) (connection : sasl_conn_t)
    (auth_mechanism user passwd : List Nat) (calls : List SaslCall) :
    Option (SaslResult × List SaslCall) :=
  match sasl_run_loop sasl auth_mechanism user passwd fuel connection [] calls with
  | none => none
  | some (r, calls1) =>
    if r.rc = SASL_NOMECH then some ({ r with rc := FAIL_int, output := none }, calls1)
    else some (r, calls1)

/-- Function `mysqlnd_ldap_sasl__get_auth_data`.  `fuel` bounds the rounds of the loop of
`sasl_run`.  The function reads two buffers as C strings although neither is known to
hold a NUL: `auth_plugin_data` (in `strcmp` and in the message of the fatal error) and
`conn->authentication_plugin_data.s` (the mechanism name for `sasl_client_start`).  What
such a read finds depends on the memory behind the buffer: `salt_after` holds the bytes
that follow `auth_plugin_data` in memory and `conn_salt_after` those that follow
`conn->authentication_plugin_data.s`, as far as they can be read. -/
def mysqlnd_ldap_sasl__get_auth_data (sasl : SaslEnv) (fuel : Nat)
    (salt_after conn_salt_after : List Nat) (conn : MYSQLND_CONN_DATA)
    (user passwd : List Nat) (_passwd_len : Nat) (auth_plugin_data : List Nat)
    (_auth_plugin_data_len : Nat) : SaslOutcome AuthData :=
  match sasl_method_not_supported (auth_plugin_data ++ salt_after) with
  | none => SaslOutcome.no_return
  | some true =>
    -- Not supported SASL method: %s
    match c_string (auth_plugin_data ++ salt_after) with
    | none => SaslOutcome.no_return
    | some _ => SaslOutcome.fatal_error conn
  | some false =>
    let c1 : MYSQLND_CONN_DATA :=
      { conn with sasl_calls := conn.sasl_calls ++ [SaslCall.client_init] }
    if sasl.sasl_client_init ≠ SASL_OK then
      -- Error while configuring the SASL client
      SaslOutcome.fatal_error c1
    else
      let n := sasl.sasl_client_new SASL_SERVICE_NAME
      let c2 : MYSQLND_CONN_DATA :=
        { c1 with sasl_calls := c1.sasl_calls ++ [SaslCall.client_new SASL_SERVICE_NAME] }
      if n.1 ≠ SASL_OK then
        -- Error while configuring the SASL client
        SaslOutcome.fatal_error c2
      else
        let connection := sasl.sasl_setprop n.2
        let c3 : MYSQLND_CONN_DATA :=
          { c2 with sasl_connection := some connection,
                    sasl_calls := c2.sasl_calls ++ [SaslCall.setprop] }
        match c_string (c3.authentication_plugin_data ++ conn_salt_after) with
        | none => SaslOutcome.no_return
        | some auth_mechanism =>
          match sasl_run sasl fuel connection auth_mechanism user passwd c3.sasl_calls with
          | none => SaslOutcome.no_return
          | some (r, calls) =>
            let c4 : MYSQLND_CONN_DATA :=
              { c3 with sasl_connection := some r.connection, sasl_calls := calls }
            if r.rc ≠ SASL_OK ∧ r.rc ≠ SASL_CONTINUE then
              -- Error while starting up the SASL authentication
              SaslOutcome.fatal_error c4
            else
              SaslOutcome.returned
                { ret := some ((r.output.getD []).take r.output_len),
                  auth_data_len := r.output_len, conn := c4 }

/-- The loop of `sasl_step`: `sasl_client_step` is called until its result is not
`SASL_INTERACT`, with the prompts answered by `handle_comm` in between; a server blob
whose first byte is 0 is handed on as no blob.  The first argument bounds the number
of rounds (`none` when it is used up). -/
def sasl_step_loop (sasl : SaslEnv) (user passwd : List Nat) :
    Nat → sasl_conn_t → Option (List Nat) → Nat → List sasl_interact_t → List SaslCall →
    Option (SaslResult × List SaslCall)
  | 0, _, _, _, _, _ => none
  | fuel + 1, connection, server_in, server_in_length, interactions, calls =>
    let empty : Bool :=
      match server_in with
      | some b => b.headD 0 == 0
      | none => false
    let server_in1 : Option (List Nat) := if empty then none else server_in
    let server_in_length1 : Nat := if empty then 0 else server_in_length
    let len : Nat := if server_in1 = none then 0 else server_in_length1
    let r := sasl.sasl_client_step connection server_in1 len interactions
    let calls1 := calls ++ [SaslCall.client_step server_in1 len interactions]
    if r.rc = SASL_INTERACT then
      sasl_step_loop sasl user passwd fuel r.connection server_in1 server_in_length1
        (handle_comm r.interactions user passwd) calls1
    else some (r, calls1)

/-- Function `sasl_step` for a session that is not `NULL`. -/
def sasl_step (sasl : SaslEnv) (fuel : Nat) (connection : sasl_conn_t)
    (user passwd : List Nat) (server_in : Option (List Nat)) (server_in_length : Nat)
    (calls : List SaslCall) : Option (SaslResult × List SaslCall) :=
  sasl_step_loop sasl user passwd fuel connection server_in server_in_length [] calls

/-- What `sasl_server_comm` leaves: its result, the contents of the buffer `response` and
the connection. -/
structure SaslComm where
  rc : Int
  response : List Nat
  conn : MYSQLND_CONN_DATA
deriving DecidableEq, Repr

/-- Function `sasl_server_comm`: unless `only_resp` is set, the blob `request` is
written as a SASL packet; then one SASL packet is read into the buffer `response`.
The result is the length of the data read, or `SASL_FAIL` after a failed write or
read (the state is then `CONN_QUIT_SENT`). -/
def sasl_server_comm (conn : MYSQLND_CONN_DATA) (request : Option (List Nat))
    (request_len : Nat) (response : List Nat) (_response_len : Nat) (only_resp : Bool) :
    SaslComm :=
  let w : Bool × MYSQLND_CONN_DATA :=
    if only_resp = false then PACKET_WRITE conn (ClientPacket.sasl_pk_request request request_len)
    else (true, conn)
  if w.1 = false then
    -- Error while sending a sasl packet
    { rc := SASL_FAIL, response := response,
      conn := SET_CONNECTION_STATE w.2 mysqlnd_connection_state.CONN_QUIT_SENT }
  else
    let rd := PACKET_READ w.2 PacketKind.sasl_pk_request_response
    match rd.2.1.data with
    | some data =>
      if rd.1 = enum_func_status.FAIL then
        -- Error while receiving a SASL response
        { rc := SASL_FAIL, response := response,
          conn := SET_CONNECTION_STATE rd.2.2 mysqlnd_connection_state.CONN_QUIT_SENT }
      else { rc := (data.length : Int), response := data, conn := rd.2.2 }
    | none =>
      -- Error while receiving a SASL response
      { rc := SASL_FAIL, response := response,
        conn := SET_CONNECTION_STATE rd.2.2 mysqlnd_connection_state.CONN_QUIT_SENT }

/-- What `sasl_auth_exchange` leaves: its result and the connection. -/
structure SaslExchange where
  rc : Int
  conn : MYSQLND_CONN_DATA
deriving DecidableEq, Repr

/-- The `do … while (rc_sasl == SASL_CONTINUE)` loop of `sasl_auth_exchange`, from the
top of its body with the variables `second_step`, `sasl_client_output`,
`sasl_client_output_len`, `server_packet`, `pkt_len` and `rc_sasl` as given; the
session is the one the connection holds.  `fuel_step` bounds the rounds of the loop of
`sasl_step`, the argument after it those of this loop. -/
def sasl_auth_exchange_loop (sasl : SaslEnv) (user passwd : List Nat) (fuel_step : Nat) :
    Nat → Bool → Option (List Nat) → Nat → List Nat → Int → Int → MYSQLND_CONN_DATA →
    sasl_conn_t → SaslOutcome SaslExchange
  | 0, _, _, _, _, _, _, _, _ => SaslOutcome.no_return
  | fuel + 1, second_step, sasl_client_output, sasl_client_output_len, server_packet, pkt_len,
      rc_sasl, conn, connection =>
    let c : SaslComm :=
      if second_step = false ∧ sasl_client_output_len > 0 then
        sasl_server_comm conn sasl_client_output sasl_client_output_len server_packet
          SASL_MAX_PKT_SIZE false
      else { rc := pkt_len, response := server_packet, conn := conn }
    if (second_step = false ∧ sasl_client_output_len > 0) ∧ c.rc < 0 then
      -- Error while communicating with the SASL server
      SaslOutcome.fatal_error c.conn
    else if c.rc > 0 then
      match sasl_step sasl fuel_step connection user passwd (some c.response) c.rc.toNat
          c.conn.sasl_calls with
      | none => SaslOutcome.no_return
      | some (r, calls) =>
        let conn1 : MYSQLND_CONN_DATA :=
          { c.conn with sasl_connection := some r.connection, sasl_calls := calls }
        if r.rc = SASL_CONTINUE then
          sasl_auth_exchange_loop sasl user passwd fuel_step fuel false r.output r.output_len
            c.response c.rc r.rc conn1 r.connection
        else SaslOutcome.returned { rc := r.rc, conn := conn1 }
    else if rc_sasl = SASL_CONTINUE then
      sasl_auth_exchange_loop sasl user passwd fuel_step fuel false none 0 c.response c.rc
        rc_sasl c.conn connection
    else SaslOutcome.returned { rc := rc_sasl, conn := c.conn }

/-- Function `sasl_auth_exchange`.  With `second_step` set, `request_len` bytes of
`request` are copied to the packet buffer first: for a negative `request_len` the
copy runs over the buffers, and the function has no result. -/
def sasl_auth_exchange (sasl : SaslEnv) (fuel : Nat) (conn : MYSQLND_CONN_DATA)
    (connection : sasl_conn_t) (user passwd : List Nat) (request : List Nat)
    (request_len : Int) (second_step : Bool) : SaslOutcome SaslExchange :=
  if second_step = true then
    if request_len < 0 then SaslOutcome.no_return
    else
      sasl_auth_exchange_loop sasl user passwd fuel fuel second_step (some request)
        request_len.toNat (request.take request_len.toNat) request_len SASL_FAIL conn connection
  else
    sasl_auth_exchange_loop sasl user passwd fuel fuel second_step (some request)
      request_len.toNat [] 0 SASL_FAIL conn connection

/-- Function `mysqlnd_ldap_sasl__handle_server_response`.  `fuel` bounds the rounds of
each loop below it. -/
def mysqlnd_ldap_sasl__handle_server_response (sasl : SaslEnv) (fuel : Nat)
    (conn : MYSQLND_CONN_DATA) (_auth_plugin_data : List Nat) (_auth_plugin_data_len : Nat)
    (user passwd : List Nat) (_passwd_len : Nat) : SaslOutcome ServerResponse :=
  let c := sasl_server_comm conn none 0 [] SASL_MAX_PKT_SIZE true
  match c.conn.sasl_connection with
  | some connection =>
    match sasl_auth_exchange sasl fuel c.conn connection user passwd c.response c.rc true with
    | SaslOutcome.returned x =>
      SaslOutcome.returned
        { ret := if x.rc = SASL_OK then enum_func_status.PASS else enum_func_status.FAIL,
          new_auth_protocol := none, new_auth_protocol_data := [],
          conn := { x.conn with sasl_connection := none,
                                sasl_calls := x.conn.sasl_calls ++ [SaslCall.dispose] } }
    | SaslOutcome.fatal_error c1 => SaslOutcome.fatal_error c1
    | SaslOutcome.no_return => SaslOutcome.no_return
  | none =>
    SaslOutcome.returned
      { ret := enum_func_status.FAIL, new_auth_protocol := none, new_auth_protocol_data := [],
        conn := c.conn }

/-- Plugin `mysqlnd_ldap_sasl_auth_plugin`: both methods; a method that raises a fatal
error or does not return has no result.  `salt_after` and `conn_salt_after` are the
memory behind the two salt buffers that `mysqlnd_ldap_sasl__get_auth_data` reads as C
strings. -/
def mysqlnd_ldap_sasl_auth_plugin (sasl : SaslEnv) (fuel : Nat)
    (salt_after conn_salt_after : List Nat) : st_mysqlnd_authentication_plugin where
  plugin_name := "auth_plugin_authentication_ldap_sasl_client"
  get_auth_data := fun conn user passwd passwd_len auth_plugin_data auth_plugin_data_len _ _ =>
    (mysqlnd_ldap_sasl__get_auth_data sasl fuel salt_after conn_salt_after conn user passwd
      passwd_len auth_plugin_data auth_plugin_data_len).result
  handle_server_response := some (fun conn auth_plugin_data auth_plugin_data_len user passwd
      passwd_len =>
    (mysqlnd_ldap_sasl__handle_server_response sasl fuel conn auth_plugin_data
      auth_plugin_data_len user passwd passwd_len).result)

/-- A SASL library that behaves as a SCRAM client does: the start gives the first client
message and asks to continue; the step on the first server message gives the final
client message and asks to continue; the step on the final server message ends with
`SASL_OK`; a further step fails. -/
def sample_sasl : SaslEnv where
  sasl_client_init := SASL_OK
  sasl_client_new := fun _ => (SASL_OK, { state := 0 })
  sasl_setprop := fun c => c
  sasl_client_start := fun _ _ _ =>
    { rc := SASL_CONTINUE, connection := { state := 1 }, output := some [110, 44, 44],
      output_len := 3 }
  sasl_client_step := fun c _ _ _ =>
    if c.state = 1 then
      { rc := SASL_CONTINUE, connection := { state := 2 }, output := some [99, 61],
        output_len := 2 }
    else if c.state = 2 then { rc := SASL_OK, connection := { state := 3 } }
    else { rc := SASL_FAIL, connection := c }

/-- An environment whose registry holds `authentication_ldap_sasl_client` only (over
`sample_sasl`, with `fuel` rounds for the loops of the mechanism, in a memory where a
NUL follows each of the two salt buffers) and whose character set tables are empty. -/
def ldap_sasl_env (fuel : Nat) : AuthEnv where
  fetch_auth_plugin_by_name := fun name =>
    if name = "authentication_ldap_sasl_client" then
      some (mysqlnd_ldap_sasl_auth_plugin sample_sasl fuel [0] [0])
    else none
  mysqlnd_find_charset_name := fun _ => none
  mysqlnd_find_charset_nr := fun _ => none

/-- The same registry in a memory where the bytes `salt_after` follow the salt buffer
that is handed to the mechanism and the bytes `conn_salt_after` follow the copy in
`conn->authentication_plugin_data.s`. -/
def ldap_sasl_env_at (fuel : Nat) (salt_after conn_salt_after : List Nat) : AuthEnv where
  fetch_auth_plugin_by_name := fun name =>
    if name = "authentication_ldap_sasl_client" then
      some (mysqlnd_ldap_sasl_auth_plugin sample_sasl fuel salt_after conn_salt_after)
    else none
  mysqlnd_find_charset_name := fun _ => none
  mysqlnd_find_charset_nr := fun _ => none

/-- A SASL packet of the server with the blob `data`. -/
def sasl_packet (data : List Nat) : ServerPacket :=
  { status := enum_func_status.PASS, data := some data }

/-- A connection to a server that answers the first SASL message with a SASL packet of
two bytes and the second one with an empty SASL packet. -/
def empty_answer_conn : MYSQLND_CONN_DATA :=
  { incoming := [sasl_packet [114, 61], sasl_packet []] }

/-- The arguments of a connect as the user `u` with the password `s`. -/
def sample_args : AuthArgs :=
  { user := [117], passwd := [115], passwd_len := 1 }

/-- The fields of the connection that `mysqlnd_auth_change_user` writes or tests at its
end: the recorded username and password, and the server version. -/
def recorded_credentials (c : MYSQLND_CONN_DATA) :
    Option (List Nat) × Option (List Nat) × Nat :=
  (c.username, c.password, c.server_version)

/-- The number of auth switch requests among the events. -/
def switch_count (evs : List WireEvent) : Nat :=
  (evs.filter (fun e => (switch_of e).isSome)).length

/-- What the termination theorem assumes of a registered mechanism: its methods return,
they add no packet to the server script (they can only take packets from it), they
leave `conn->charset` alone, and a `handle_server_response` that stores a switch has
taken one packet at least. -/
structure ReadsScript (p : st_mysqlnd_authentication_plugin) : Prop where
  get_auth_data : ∀ conn user passwd passwd_len salt salt_len so fl,
    ∃ r, p.get_auth_data conn user passwd passwd_len salt salt_len so fl = some r ∧
      r.conn.incoming.length ≤ conn.incoming.length ∧ r.conn.charset = conn.charset
  handle_server_response : ∀ h, p.handle_server_response = some h →
    ∀ conn salt salt_len user passwd passwd_len,
    ∃ r, h conn salt salt_len user passwd passwd_len = some r ∧
      r.conn.incoming.length ≤ conn.incoming.length ∧
      (r.new_auth_protocol ≠ none → r.conn.incoming.length < conn.incoming.length) ∧
      r.conn.charset = conn.charset

/-- The connection `c1` comes from `c` by events that are all mechanism-internal and
carry no auth switch request (and by changes that leave the record alone). -/
def QuietExtension (c c1 : MYSQLND_CONN_DATA) : Prop :=
  ∃ evs, c1.trace = c.trace ++ evs ∧
    ∀ e ∈ evs, mechanism_internal e = true ∧ switch_of e = none

/-- A mechanism of the source file: one of the five plugins that
`mysqlnd_register_builtin_authentication_plugins` registers, over any hash functions,
crypto library, SASL library, bounds for its loops and memory behind the salt
buffers. -/
inductive SourceMechanism : st_mysqlnd_authentication_plugin → Prop where
  | native (SHA1 : List Nat → List Nat) : SourceMechanism (mysqlnd_native_auth_plugin SHA1)
  | pam : SourceMechanism mysqlnd_pam_authentication_plugin
  | ldap_sasl (sasl : SaslEnv) (fuel : Nat) (salt_after conn_salt_after : List Nat) :
      SourceMechanism (mysqlnd_ldap_sasl_auth_plugin sasl fuel salt_after conn_salt_after)
  | caching_sha2 (SHA256 : List Nat → List Nat) (env : CryptoEnv) :
      SourceMechanism (mysqlnd_caching_sha2_auth_plugin SHA256 env)
  | sha256 (env : CryptoEnv) : SourceMechanism (mysqlnd_sha256_authentication_plugin env)

/-- An environment whose registry holds the five mechanisms of the source file under
their names on the wire (over the stand-in hashes, the sample crypto environment and
`sample_sasl` with 5 rounds for its loops, in a memory where a NUL follows each salt
buffer) and whose character set tables are empty. -/
def all_mechanisms_env : AuthEnv where
  fetch_auth_plugin_by_name := fun name =>
    if name = "mysql_native_password" then some (mysqlnd_native_auth_plugin sample_hash20)
    else if name = "mysql_clear_password" then some mysqlnd_pam_authentication_plugin
    else if name = "authentication_ldap_sasl_client" then
      some (mysqlnd_ldap_sasl_auth_plugin sample_sasl 5 [0] [0])
    else if name = "caching_sha2_password" then
      some (mysqlnd_caching_sha2_auth_plugin sample_hash32 sample_crypto_env)
    else if name = "sha256_password" then
      some (mysqlnd_sha256_authentication_plugin sample_crypto_env)
    else none
  mysqlnd_find_charset_name := fun _ => none
  mysqlnd_find_charset_nr := fun _ => none

/-! ## Theorems -/

theorem php_mysqlnd_crypt_length (s1 s2 : List Nat) (len : Nat) :
    (php_mysqlnd_crypt s1 s2 len).length = len := by
  induction len generalizing s1 s2 with
  | zero => simp [php_mysqlnd_crypt]
  | succ n ih => simp [php_mysqlnd_crypt, ih]

theorem php_mysqlnd_crypt_eq_xor_bytes (s1 s2 : List Nat) (len : Nat)
    (h1 : s1.length = len) (h2 : s2.length = len) :
    php_mysqlnd_crypt s1 s2 len = xor_bytes s1 s2 := by
  induction len generalizing s1 s2 with
  | zero =>
    have e1 : s1 = [] := List.length_eq_zero.mp h1
    subst e1
    simp [php_mysqlnd_crypt, xor_bytes]
  | succ n ih =>
    cases s1 with
    | nil => simp at h1
    | cons a as =>
      cases s2 with
      | nil => simp at h2
      | cons b bs =>
        simp only [List.length_cons, Nat.add_right_cancel_iff] at h1 h2
        have := ih as bs h1 h2
        simp [php_mysqlnd_crypt, xor_bytes] at this ⊢
        exact this

theorem xor_bytes_length (a b : List Nat) (h : a.length = b.length) :
    (xor_bytes a b).length = a.length := by
  simp [xor_bytes, h]

theorem xor_bytes_cancel_right (a b : List Nat) (h : a.length = b.length) :
    xor_bytes (xor_bytes a b) b = a := by
  induction a generalizing b with
  | nil => simp [xor_bytes]
  | cons x xs ih =>
    cases b with
    | nil => simp at h
    | cons y ys =>
      simp only [List.length_cons, Nat.add_right_cancel_iff] at h
      have := ih ys h
      simp only [xor_bytes, List.zipWith_cons_cons] at this ⊢
      rw [this, Nat.xor_cancel_right]

theorem xor_bytes_cancel_left (a b : List Nat) (h : a.length = b.length) :
    xor_bytes (xor_bytes a b) a = b := by
  induction a generalizing b with
  | nil =>
    have : b = [] := List.length_eq_zero.mp h.symm
    simp [xor_bytes, this]
  | cons x xs ih =>
    cases b with
    | nil => simp at h
    | cons y ys =>
      simp only [List.length_cons, Nat.add_right_cancel_iff] at h
      have := ih ys h
      simp only [xor_bytes, List.zipWith_cons_cons] at this ⊢
      rw [this, Nat.xor_comm x y, Nat.xor_cancel_right]

theorem sample_hash20_length (x : List Nat) : (sample_hash20 x).length = 20 := by
  simp [sample_hash20]

theorem sample_hash32_length (x : List Nat) : (sample_hash32 x).length = 32 := by
  simp [sample_hash32]

/-! ### C1: the native scramble -/

/-- C1. `php_mysqlnd_scramble`: for every password and every salt `s ++ rest` whose
first 20 bytes are `s`, the function writes exactly 20 bytes
`R = SHA1(s || SHA1(SHA1(password))) XOR SHA1(password)`, and
`R XOR SHA1(password) = SHA1(s || SHA1(SHA1(password)))`; `SHA1` is any function
with 20-byte results, and only the first 20 salt bytes are hashed. -/
theorem php_mysqlnd_scramble_correct (SHA1 : List Nat → List Nat)
    (hSHA1 : ∀ x, (SHA1 x).length = 20) (password s rest : List Nat) (hs : s.length = 20) :
    (php_mysqlnd_scramble SHA1 (s ++ rest) password password.length).length = 20 ∧
    php_mysqlnd_scramble SHA1 (s ++ rest) password password.length
      = xor_bytes (SHA1 (s ++ SHA1 (SHA1 password))) (SHA1 password) ∧
    xor_bytes (php_mysqlnd_scramble SHA1 (s ++ rest) password password.length) (SHA1 password)
      = SHA1 (s ++ SHA1 (SHA1 password)) := by
  have htake : (s ++ rest).take SCRAMBLE_LENGTH = s := by
    simp [SCRAMBLE_LENGTH, List.take_append_eq_append_take, hs]
  have h1 : (SHA1 password).take SHA1_MAX_LENGTH = SHA1 password := by
    apply List.take_of_length_le; simp [SHA1_MAX_LENGTH, hSHA1]
  have h2 : (SHA1 (SHA1 password)).take SHA1_MAX_LENGTH = SHA1 (SHA1 password) := by
    apply List.take_of_length_le; simp [SHA1_MAX_LENGTH, hSHA1]
  have hR : php_mysqlnd_scramble SHA1 (s ++ rest) password password.length
      = xor_bytes (SHA1 (s ++ SHA1 (SHA1 password))) (SHA1 password) := by
    simp only [php_mysqlnd_scramble, List.take_length, htake, h1, h2]
    exact php_mysqlnd_crypt_eq_xor_bytes _ _ _ (hSHA1 _) (hSHA1 _)
  refine ⟨?_, hR, ?_⟩
  · rw [hR, xor_bytes_length _ _ (by rw [hSHA1, hSHA1]), hSHA1]
  · rw [hR]
    exact xor_bytes_cancel_right _ _ (by rw [hSHA1, hSHA1])

/-- Instance of C1: password "se", salt 0,1,…,19 followed by one more byte. -/
theorem php_mysqlnd_scramble_correct_witness :
    (List.range 20).length = 20 ∧
    (php_mysqlnd_scramble sample_hash20 (List.range 20 ++ [7]) [115, 101] 2).length = 20 ∧
    xor_bytes (php_mysqlnd_scramble sample_hash20 (List.range 20 ++ [7]) [115, 101] 2)
        (sample_hash20 [115, 101])
      = sample_hash20 (List.range 20 ++ sample_hash20 (sample_hash20 [115, 101])) :=
  ⟨by simp,
   (php_mysqlnd_scramble_correct sample_hash20 sample_hash20_length [115, 101]
      (List.range 20) [7] (by simp)).1,
   (php_mysqlnd_scramble_correct sample_hash20 sample_hash20_length [115, 101]
      (List.range 20) [7] (by simp)).2.2⟩

/-! ### C2: the caching_sha2 scramble -/

/-- C2. `php_mysqlnd_scramble_sha2`: for every password and every salt `s ++ rest`
whose first 20 bytes are `s`, the function writes exactly 32 bytes `R` with
`R XOR SHA256(password) = SHA256(SHA256(SHA256(password)) || s)`: the doubly
hashed password comes first and the salt second; `SHA256` is any function with
32-byte results. -/
theorem php_mysqlnd_scramble_sha2_correct (SHA256 : List Nat → List Nat)
    (hSHA256 : ∀ x, (SHA256 x).length = 32) (password s rest : List Nat)
    (hs : s.length = 20) :
    (php_mysqlnd_scramble_sha2 SHA256 (s ++ rest) password password.length).length = 32 ∧
    php_mysqlnd_scramble_sha2 SHA256 (s ++ rest) password password.length
      = xor_bytes (SHA256 password) (SHA256 (SHA256 (SHA256 password) ++ s)) ∧
    xor_bytes (php_mysqlnd_scramble_sha2 SHA256 (s ++ rest) password password.length)
        (SHA256 password)
      = SHA256 (SHA256 (SHA256 password) ++ s) := by
  have htake : (s ++ rest).take SCRAMBLE_LENGTH = s := by
    simp [SCRAMBLE_LENGTH, List.take_append_eq_append_take, hs]
  have h1 : (SHA256 password).take SHA256_LENGTH = SHA256 password := by
    apply List.take_of_length_le; simp [SHA256_LENGTH, hSHA256]
  have h2 : (SHA256 (SHA256 password)).take SHA256_LENGTH = SHA256 (SHA256 password) := by
    apply List.take_of_length_le; simp [SHA256_LENGTH, hSHA256]
  have hR : php_mysqlnd_scramble_sha2 SHA256 (s ++ rest) password password.length
      = xor_bytes (SHA256 password) (SHA256 (SHA256 (SHA256 password) ++ s)) := by
    simp only [php_mysqlnd_scramble_sha2, List.take_length, htake, h1, h2]
    exact php_mysqlnd_crypt_eq_xor_bytes _ _ _ (hSHA256 _) (hSHA256 _)
  refine ⟨?_, hR, ?_⟩
  · rw [hR, xor_bytes_length _ _ (by rw [hSHA256, hSHA256]), hSHA256]
  · rw [hR]
    exact xor_bytes_cancel_left _ _ (by rw [hSHA256, hSHA256])

/-- Instance of C2: password "se", salt 0,1,…,19 followed by one more byte. -/
theorem php_mysqlnd_scramble_sha2_correct_witness :
    (List.range 20).length = 20 ∧
    (php_mysqlnd_scramble_sha2 sample_hash32 (List.range 20 ++ [7]) [115, 101] 2).length = 32 ∧
    xor_bytes (php_mysqlnd_scramble_sha2 sample_hash32 (List.range 20 ++ [7]) [115, 101] 2)
        (sample_hash32 [115, 101])
      = sample_hash32 (sample_hash32 (sample_hash32 [115, 101]) ++ List.range 20) :=
  ⟨by simp,
   (php_mysqlnd_scramble_sha2_correct sample_hash32 sample_hash32_length [115, 101]
      (List.range 20) [7] (by simp)).1,
   (php_mysqlnd_scramble_sha2_correct sample_hash32 sample_hash32_length [115, 101]
      (List.range 20) [7] (by simp)).2.2⟩

/-! ### C3 and C4: the initial response of the SHA based mechanisms -/

/-- C3. For `mysqlnd_native_auth_get_auth_data` and `mysqlnd_caching_sha2_get_auth_data`,
for every password and connection: when the salt length is below 20 the call
records `CR_MALFORMED_PACKET` with the message "The server sent wrong length for
scramble" and returns no data with length 0; when the salt length is 20 or more
(21 included) the call leaves the connection as it was, so it records no error;
and on a connection without a pending error, "the error is recorded and no data
is returned" holds if and only if the salt length is below 20. -/
theorem scramble_length_check (SHA1 SHA256 : List Nat → List Nat) (conn : MYSQLND_CONN_DATA)
    (passwd salt : List Nat) :
    (salt.length < 20 →
      mysqlnd_native_auth_get_auth_data SHA1 conn passwd passwd.length salt salt.length
        = { ret := none, auth_data_len := 0,
            conn := { conn with error_info := scramble_length_error } } ∧
      mysqlnd_caching_sha2_get_auth_data SHA256 conn passwd passwd.length salt salt.length
        = { ret := none, auth_data_len := 0,
            conn := { conn with error_info := scramble_length_error } }) ∧
    (20 ≤ salt.length →
      (mysqlnd_native_auth_get_auth_data SHA1 conn passwd passwd.length salt salt.length).conn
        = conn ∧
      (mysqlnd_caching_sha2_get_auth_data SHA256 conn passwd passwd.length salt salt.length).conn
        = conn) ∧
    (conn.error_info.error_no = 0 →
      (((mysqlnd_native_auth_get_auth_data SHA1 conn passwd passwd.length salt
            salt.length).conn.error_info = scramble_length_error ∧
        (mysqlnd_native_auth_get_auth_data SHA1 conn passwd passwd.length salt
            salt.length).ret = none ∧
        (mysqlnd_native_auth_get_auth_data SHA1 conn passwd passwd.length salt
            salt.length).auth_data_len = 0)
        ↔ salt.length < 20) ∧
      (((mysqlnd_caching_sha2_get_auth_data SHA256 conn passwd passwd.length salt
            salt.length).conn.error_info = scramble_length_error ∧
        (mysqlnd_caching_sha2_get_auth_data SHA256 conn passwd passwd.length salt
            salt.length).ret = none ∧
        (mysqlnd_caching_sha2_get_auth_data SHA256 conn passwd passwd.length salt
            salt.length).auth_data_len = 0)
        ↔ salt.length < 20)) := by
  have hne : CR_MALFORMED_PACKET ≠ 0 := by decide
  refine ⟨?_, ?_, ?_⟩
  · intro h
    simp [mysqlnd_native_auth_get_auth_data, mysqlnd_caching_sha2_get_auth_data,
      SCRAMBLE_LENGTH, h, SET_CLIENT_ERROR, hne, scramble_length_error]
  · intro h
    have h' : ¬ salt.length < 20 := by omega
    constructor
    · simp only [mysqlnd_native_auth_get_auth_data, SCRAMBLE_LENGTH, h', if_false]
      split <;> rfl
    · simp only [mysqlnd_caching_sha2_get_auth_data, SCRAMBLE_LENGTH, h', if_false]
      split <;> rfl
  · intro h0
    by_cases h : salt.length < 20
    · simp [mysqlnd_native_auth_get_auth_data, mysqlnd_caching_sha2_get_auth_data,
        SCRAMBLE_LENGTH, h, SET_CLIENT_ERROR, hne, scramble_length_error]
    · have hx : conn.error_info ≠ scramble_length_error := by
        intro hc
        rw [hc] at h0
        exact hne h0
      constructor
      · simp only [mysqlnd_native_auth_get_auth_data, SCRAMBLE_LENGTH, h, if_false]
        split <;> simp [hx, h]
      · simp only [mysqlnd_caching_sha2_get_auth_data, SCRAMBLE_LENGTH, h, if_false]
        split <;> simp [hx, h]

/-- C4. For every salt of length 20 or more: with an empty password both
`mysqlnd_native_auth_get_auth_data` and `mysqlnd_caching_sha2_get_auth_data`
return the empty response (no buffer, length 0) and leave the connection as it
was; with a non-empty password they return exactly 20 and exactly 32 bytes, the
corresponding scramble of the password over the salt. -/
theorem get_auth_data_response (SHA1 SHA256 : List Nat → List Nat) (conn : MYSQLND_CONN_DATA)
    (passwd salt : List Nat) (hsalt : 20 ≤ salt.length) :
    (passwd.length = 0 →
      mysqlnd_native_auth_get_auth_data SHA1 conn passwd passwd.length salt salt.length
        = { ret := none, auth_data_len := 0, conn := conn } ∧
      mysqlnd_caching_sha2_get_auth_data SHA256 conn passwd passwd.length salt salt.length
        = { ret := none, auth_data_len := 0, conn := conn }) ∧
    (passwd.length ≠ 0 →
      mysqlnd_native_auth_get_auth_data SHA1 conn passwd passwd.length salt salt.length
        = { ret := some (php_mysqlnd_scramble SHA1 salt passwd passwd.length),
            auth_data_len := 20, conn := conn } ∧
      (php_mysqlnd_scramble SHA1 salt passwd passwd.length).length = 20 ∧
      (mysqlnd_caching_sha2_get_auth_data SHA256 conn passwd passwd.length salt salt.length).conn
        = conn ∧
      (mysqlnd_caching_sha2_get_auth_data SHA256 conn passwd passwd.length salt
        salt.length).auth_data_len = 32 ∧
      (mysqlnd_caching_sha2_get_auth_data SHA256 conn passwd passwd.length salt
        salt.length).ret.map (fun buf => buf.take 32)
        = some (php_mysqlnd_scramble_sha2 SHA256 salt passwd passwd.length) ∧
      (php_mysqlnd_scramble_sha2 SHA256 salt passwd passwd.length).length = 32) := by
  have h' : ¬ salt.length < 20 := by omega
  constructor
  · intro h0
    simp [mysqlnd_native_auth_get_auth_data, mysqlnd_caching_sha2_get_auth_data,
      SCRAMBLE_LENGTH, h', h0]
  · intro h0
    have hl1 : (php_mysqlnd_scramble SHA1 salt passwd passwd.length).length = 20 := by
      simp [php_mysqlnd_scramble, php_mysqlnd_crypt_length, SHA1_MAX_LENGTH]
    have hl2 : (php_mysqlnd_scramble_sha2 SHA256 salt passwd passwd.length).length = 32 := by
      simp [php_mysqlnd_scramble_sha2, php_mysqlnd_crypt_length, SHA256_LENGTH]
    refine ⟨?_, hl1, ?_, ?_, ?_, hl2⟩
    · simp [mysqlnd_native_auth_get_auth_data, SCRAMBLE_LENGTH, h', h0]
    · simp [mysqlnd_caching_sha2_get_auth_data, SCRAMBLE_LENGTH, h', h0]
    · simp [mysqlnd_caching_sha2_get_auth_data, SCRAMBLE_LENGTH, SHA256_LENGTH, h', h0]
    · simp only [mysqlnd_caching_sha2_get_auth_data, SCRAMBLE_LENGTH, h', h0, if_false,
        ne_eq, not_false_eq_true, if_true, Option.map_some']
      rw [List.take_append_of_le_length (by rw [hl2])]
      rw [List.take_of_length_le (by rw [hl2])]

/-- Instance of C4: a salt of 21 bytes, the empty password and the password "s". -/
theorem get_auth_data_response_witness :
    20 ≤ (List.range 21).length ∧
    mysqlnd_native_auth_get_auth_data sample_hash20 {} [] 0 (List.range 21) 21
      = { ret := none, auth_data_len := 0, conn := {} } ∧
    (mysqlnd_caching_sha2_get_auth_data sample_hash32 {} [115] 1 (List.range 21)
      21).auth_data_len = 32 :=
  ⟨by simp,
   ((get_auth_data_response sample_hash20 sample_hash32 {} [] (List.range 21)
      (by simp)).1 rfl).1,
   ((get_auth_data_response sample_hash20 sample_hash32 {} [115] (List.range 21)
      (by simp)).2 (by simp)).2.2.2.1⟩

/-! ### The conversation record of the engine -/

@[simp] theorem SET_CLIENT_ERROR_trace (c : MYSQLND_CONN_DATA) (n : Nat) (s e : String) :
    (SET_CLIENT_ERROR c n s e).trace = c.trace := by
  unfold SET_CLIENT_ERROR; split <;> rfl

@[simp] theorem COPY_CLIENT_ERROR_trace (c : MYSQLND_CONN_DATA) (e : MYSQLND_ERROR_INFO) :
    (COPY_CLIENT_ERROR c e).trace = c.trace := by
  simp [COPY_CLIENT_ERROR]

@[simp] theorem SET_CONNECTION_STATE_trace (c : MYSQLND_CONN_DATA) (s : mysqlnd_connection_state) :
    (SET_CONNECTION_STATE c s).trace = c.trace := rfl

@[simp] theorem SET_CLIENT_ERROR_server_version (c : MYSQLND_CONN_DATA) (n : Nat) (s e : String) :
    (SET_CLIENT_ERROR c n s e).server_version = c.server_version := by
  unfold SET_CLIENT_ERROR; split <;> rfl

@[simp] theorem PACKET_WRITE_trace (c : MYSQLND_CONN_DATA) (p : ClientPacket) :
    (PACKET_WRITE c p).2.trace = c.trace ++ [WireEvent.wrote p (PACKET_WRITE c p).1] := by
  unfold PACKET_WRITE
  cases c.write_results.headD true <;> rfl

@[simp] theorem PACKET_WRITE_username (c : MYSQLND_CONN_DATA) (p : ClientPacket) :
    (PACKET_WRITE c p).2.username = c.username := by
  unfold PACKET_WRITE
  cases c.write_results.headD true <;> rfl

@[simp] theorem PACKET_WRITE_password (c : MYSQLND_CONN_DATA) (p : ClientPacket) :
    (PACKET_WRITE c p).2.password = c.password := by
  unfold PACKET_WRITE
  cases c.write_results.headD true <;> rfl

@[simp] theorem PACKET_WRITE_server_version (c : MYSQLND_CONN_DATA) (p : ClientPacket) :
    (PACKET_WRITE c p).2.server_version = c.server_version := by
  unfold PACKET_WRITE
  cases c.write_results.headD true <;> rfl

@[simp] theorem PACKET_WRITE_charset (c : MYSQLND_CONN_DATA) (p : ClientPacket) :
    (PACKET_WRITE c p).2.charset = c.charset := by
  unfold PACKET_WRITE
  cases c.write_results.headD true <;> rfl

@[simp] theorem PACKET_READ_trace (c : MYSQLND_CONN_DATA) (k : PacketKind) :
    (PACKET_READ c k).2.2.trace = c.trace ++ [WireEvent.read k (PACKET_READ c k).2.1] := by
  unfold PACKET_READ; split <;> rfl

theorem SET_CLIENT_ERROR_error_info (c : MYSQLND_CONN_DATA) (n : Nat) (s e : String)
    (hn : n ≠ 0) :
    (SET_CLIENT_ERROR c n s e).error_info = { error_no := n, sqlstate := s, error := e } := by
  simp [SET_CLIENT_ERROR, hn]

theorem SET_CLIENT_ERROR_old_passwd (c : MYSQLND_CONN_DATA) :
    (SET_CLIENT_ERROR c CR_UNKNOWN_ERROR UNKNOWN_SQLSTATE mysqlnd_old_passwd).error_info
      = old_passwd_error :=
  SET_CLIENT_ERROR_error_info c _ _ _ (by decide)

theorem auth_handshake_read_response_facts (r : ServerResponse) :
    ResponseFacts r PacketKind.auth_response
      (PACKET_READ r.conn PacketKind.auth_response).2.1 []
      (auth_handshake_read_response r) := by
  refine ⟨Or.inl rfl, ?_, by simp, ?_, ?_, ?_, ?_⟩
  · unfold auth_handshake_read_response
    simp only []
    split
    · split
      · split <;> simp
      · split
        · simp only [SET_CLIENT_ERROR_trace]
          split <;> simp
        · simp
    · simp
  · intro h
    simp [auth_handshake_read_response, h]
    split <;> rfl
  · intro h hn
    simp [auth_handshake_read_response, h, hn, SET_CLIENT_ERROR_old_passwd]
  · intro n h hn
    simp [auth_handshake_read_response, h, hn]
  · intro h
    unfold auth_handshake_read_response
    simp only []
    split
    · split
      · rename_i hc
        split
        · simp
        · rename_i hn
          exact absurd ⟨hc, by simp [hn]⟩ h
      · split <;> simp
    · simp

theorem set_charset_trace (env : AuthEnv) (c : MYSQLND_CONN_DATA) (n : String) :
    ∃ evs, (set_charset env c n).2.trace = c.trace ++ evs ∧
      ∀ e ∈ evs, mechanism_internal e = true ∧ switch_of e = none := by
  unfold set_charset
  simp only []
  split
  · exact ⟨_, PACKET_WRITE_trace _ _, by simp [mechanism_internal, is_auth_packet, switch_of]⟩
  · split
    · refine ⟨[WireEvent.wrote (ClientPacket.set_names n) (PACKET_WRITE c (ClientPacket.set_names n)).1,
        WireEvent.read PacketKind.query_response (PACKET_READ (PACKET_WRITE c (ClientPacket.set_names n)).2 PacketKind.query_response).2.1], by simp, ?_⟩
      simp [mechanism_internal, is_auth_packet, switch_of]
    · refine ⟨[WireEvent.wrote (ClientPacket.set_names n) (PACKET_WRITE c (ClientPacket.set_names n)).1,
        WireEvent.read PacketKind.query_response (PACKET_READ (PACKET_WRITE c (ClientPacket.set_names n)).2 PacketKind.query_response).2.1], by simp, ?_⟩
      simp [mechanism_internal, is_auth_packet, switch_of]

@[simp] theorem PACKET_READ_error_info (c : MYSQLND_CONN_DATA) (k : PacketKind) :
    (PACKET_READ c k).2.2.error_info = c.error_info := by
  unfold PACKET_READ; split <;> rfl

theorem auth_change_user_switch_facts (r : ServerResponse)
    (rd : enum_func_status × ServerPacket × MYSQLND_CONN_DATA) :
    (auth_change_user_switch r rd).conn.trace = rd.2.2.trace ∧
    (rd.2.1.response_code = 0xFE →
      (auth_change_user_switch r rd).ret = enum_func_status.FAIL) ∧
    (rd.2.1.response_code = 0xFE → rd.2.1.new_auth_protocol = none →
      (auth_change_user_switch r rd).conn.error_info = old_passwd_error) ∧
    (∀ n, rd.2.1.response_code = 0xFE → rd.2.1.new_auth_protocol = some n →
      (auth_change_user_switch r rd).switch_to_auth_protocol = some n ∧
      (auth_change_user_switch r rd).switch_to_auth_protocol_data =
        match rd.2.1.new_auth_protocol_data with
        | some d => d
        | none => []) ∧
    (¬ (rd.2.1.response_code = 0xFE ∧ rd.2.1.new_auth_protocol ≠ none) →
      (auth_change_user_switch r rd).switch_to_auth_protocol = r.new_auth_protocol ∧
      (auth_change_user_switch r rd).switch_to_auth_protocol_data
        = r.new_auth_protocol_data) := by
  refine ⟨?_, ?_, ?_, ?_, ?_⟩
  · unfold auth_change_user_switch
    simp only []
    split
    · split <;> simp
    · simp
  · intro h
    simp only [auth_change_user_switch, h, if_true]
    split <;> rfl
  · intro h hn
    simp [auth_change_user_switch, h, hn, SET_CLIENT_ERROR_old_passwd]
  · intro n h hn
    simp [auth_change_user_switch, h, hn]
  · intro h
    unfold auth_change_user_switch
    simp only []
    split
    · rename_i hc
      split
      · simp
      · rename_i hn
        exact absurd ⟨hc, by simp [hn]⟩ h
    · simp

theorem auth_change_user_error_check_facts (s1 : AuthExchange) :
    (auth_change_user_error_check s1).switch_to_auth_protocol = s1.switch_to_auth_protocol ∧
    (auth_change_user_error_check s1).switch_to_auth_protocol_data
      = s1.switch_to_auth_protocol_data ∧
    (auth_change_user_error_check s1).conn.error_info = s1.conn.error_info ∧
    (s1.ret = enum_func_status.FAIL →
      (auth_change_user_error_check s1).ret = enum_func_status.FAIL) ∧
    (s1.conn.error_info.error_no ≠ 0 →
      (auth_change_user_error_check s1).ret = enum_func_status.FAIL) ∧
    ∃ evs, (auth_change_user_error_check s1).conn.trace = s1.conn.trace ++ evs ∧
      ∀ e ∈ evs, mechanism_internal e = true ∧ switch_of e = none ∧ is_write e = false := by
  unfold auth_change_user_error_check
  split
  · split
    · refine ⟨rfl, rfl, by simp, fun _ => rfl, fun _ => rfl, _, PACKET_READ_trace _ _, ?_⟩
      simp [mechanism_internal, switch_of, is_write]
    · exact ⟨rfl, rfl, rfl, fun _ => rfl, fun _ => rfl, [], by simp, by simp⟩
  · rename_i h
    exact ⟨rfl, rfl, rfl, fun h => h, fun h' => absurd h' h, [], by simp, by simp⟩

theorem auth_change_user_finish_facts (env : AuthEnv) (user : List Nat) (user_len : Nat)
    (passwd : List Nat) (old_cs : Option MYSQLND_CHARSET) (b : Bool) (s2 x : AuthExchange)
    (hx : auth_change_user_finish env user user_len passwd old_cs b s2 = some x) :
    x.switch_to_auth_protocol = s2.switch_to_auth_protocol ∧
    x.switch_to_auth_protocol_data = s2.switch_to_auth_protocol_data ∧
    (s2.ret = enum_func_status.FAIL →
      x.ret = enum_func_status.FAIL ∧
      x.conn.trace = s2.conn.trace ∧
      (s2.conn.error_info = old_passwd_error → x.conn.error_info = old_passwd_error)) ∧
    ∃ evs, x.conn.trace = s2.conn.trace ++ evs ∧
      ∀ e ∈ evs, mechanism_internal e = true ∧ switch_of e = none := by
  unfold auth_change_user_finish at hx
  split at hx
  · rename_i hp
    simp only [] at hx
    split at hx
    · cases old_cs with
      | none => cases hx
      | some cs =>
        simp only [Option.some.injEq] at hx
        subst hx
        obtain ⟨evs, h1, h2⟩ := set_charset_trace env
          { s2.conn with username := some (mnd_pestrndup user user_len)
                         password := some (mnd_pestrdup passwd)
                         last_message := none
                         upsert_status := {} } cs.name
        refine ⟨rfl, rfl, ?_, evs, h1, h2⟩
        intro hf; rw [hp] at hf; cases hf
    · simp only [Option.some.injEq] at hx
      subst hx
      refine ⟨rfl, rfl, ?_, [], by simp, by simp⟩
      intro hf; rw [hp] at hf; cases hf
  · split at hx
    · simp only [Option.some.injEq] at hx
      subst hx
      exact ⟨rfl, rfl, fun hf => ⟨hf, by simp, fun _ => SET_CLIENT_ERROR_old_passwd _⟩,
        [], by simp, by simp⟩
    · simp only [Option.some.injEq] at hx
      subst hx
      exact ⟨rfl, rfl, fun hf => ⟨hf, rfl, fun h => h⟩, [], by simp, by simp⟩

/-- The last statement of `mysqlnd_auth_change_user` has a result unless it dereferences
`old_cs` being `NULL`: that is, unless the result so far is PASS, the server is older
than 5.1.23 and `old_cs` is `NULL`. -/
theorem auth_change_user_finish_isSome (env : AuthEnv) (user : List Nat) (user_len : Nat)
    (passwd : List Nat) (old_cs : Option MYSQLND_CHARSET) (b : Bool) (s2 : AuthExchange) :
    auth_change_user_finish env user user_len passwd old_cs b s2 = none ↔
      (s2.ret = enum_func_status.PASS ∧ s2.conn.server_version < 50123 ∧ old_cs = none) := by
  unfold auth_change_user_finish
  split
  · rename_i hp
    simp only []
    split
    · rename_i hv
      cases old_cs with
      | none => simp [hp, hv]
      | some cs => simp
    · rename_i hv
      simp [hv]
  · rename_i hp
    split <;> simp [hp]

theorem auth_change_user_read_response_facts (env : AuthEnv) (user : List Nat) (user_len : Nat)
    (passwd : List Nat) (old_cs : Option MYSQLND_CHARSET) (r : ServerResponse)
    (x : AuthExchange)
    (hx : auth_change_user_read_response env user user_len passwd old_cs r = some x) :
    ∃ tail, ResponseFacts r PacketKind.chg_user_response
      (PACKET_READ r.conn PacketKind.chg_user_response).2.1 tail x := by
  have htr := PACKET_READ_trace r.conn PacketKind.chg_user_response
  unfold auth_change_user_read_response at hx
  simp only [] at hx
  generalize PACKET_READ r.conn PacketKind.chg_user_response = rd at htr hx ⊢
  obtain ⟨h1t, h1f, h1o, h1s, h1k⟩ := auth_change_user_switch_facts r rd
  generalize auth_change_user_switch r rd = s1 at h1t h1f h1o h1s h1k hx
  obtain ⟨h2s, h2d, h2e, h2f, _, evs2, h2t, h2i⟩ := auth_change_user_error_check_facts s1
  generalize auth_change_user_error_check s1 = s2 at h2s h2d h2e h2f h2t h2i hx
  obtain ⟨h3s, h3d, h3f, evs3, h3t, h3i⟩ :=
    auth_change_user_finish_facts env user user_len passwd old_cs rd.2.1.server_asked_323_auth
      s2 x hx
  refine ⟨evs2 ++ evs3, Or.inr rfl, ?_, ?_, ?_, ?_, ?_, ?_⟩
  · rw [h3t, h2t, h1t, htr]; simp
  · intro e he
    rcases List.mem_append.mp he with he | he
    · exact ⟨(h2i e he).1, (h2i e he).2.1⟩
    · exact h3i e he
  · intro hfe
    have hf2 := h2f (h1f hfe)
    obtain ⟨hr, ht, _⟩ := h3f hf2
    refine ⟨hr, ?_⟩
    have : evs3 = [] := by
      rw [ht] at h3t
      exact (List.self_eq_append_right.mp h3t)
    intro e he
    rw [this, List.append_nil] at he
    exact (h2i e he).2.2
  · intro hfe hn
    have hf2 := h2f (h1f hfe)
    exact (h3f hf2).2.2 (by rw [h2e]; exact h1o hfe hn)
  · intro n hfe hn
    rw [h3s, h3d, h2s, h2d]
    exact h1s n hfe hn
  · intro h
    rw [h3s, h3d, h2s, h2d]
    exact h1k h

theorem auth_handshake_handled (auth_plugin : Option st_mysqlnd_authentication_plugin)
    (w : ClientPacket) (conn sent : MYSQLND_CONN_DATA) (user passwd : List Nat)
    (passwd_len : Nat) (salt : List Nat) (salt_len : Nat) (x : AuthExchange)
    (r : ServerResponse)
    (hr : call_handle_server_response auth_plugin sent salt salt_len user passwd
        passwd_len = some r)
    (hst : sent.trace = conn.trace ++ [WireEvent.wrote w true])
    (h : (if r.ret = enum_func_status.FAIL then
            some { ret := enum_func_status.FAIL, switch_to_auth_protocol := r.new_auth_protocol,
                   switch_to_auth_protocol_data := r.new_auth_protocol_data, conn := r.conn }
          else some (auth_handshake_read_response r)) = some x) :
    ExchangeShape auth_plugin w salt salt_len user passwd passwd_len conn x := by
  split at h
  · rename_i hf
    cases h
    exact ExchangeShape.handler_failed sent r hst hr hf rfl
  · rename_i hf
    cases h
    have hp : r.ret = enum_func_status.PASS := by
      cases hrr : r.ret
      · rfl
      · exact absurd hrr hf
    exact ExchangeShape.response_read sent r _ _ _ hst hr hp
      (auth_handshake_read_response_facts r)

theorem mysqlnd_auth_handshake_shape (env : AuthEnv) (conn : MYSQLND_CONN_DATA)
    (user passwd : List Nat) (passwd_len : Nat) (db : Option (List Nat)) (db_len : Nat)
    (so : MYSQLND_SESSION_OPTIONS) (mysql_flags server_charset_no : Nat)
    (use_full : Bool) (auth_protocol : String)
    (auth_plugin : Option st_mysqlnd_authentication_plugin)
    (salt : List Nat) (salt_len : Nat)
    (auth_data : Option (List Nat)) (auth_data_len : Nat) (x : AuthExchange)
    (h : mysqlnd_auth_handshake env conn user passwd passwd_len db db_len so mysql_flags
      server_charset_no use_full auth_protocol auth_plugin salt salt_len auth_data
      auth_data_len = some x) :
    ExchangeShape auth_plugin
      (auth_handshake_payload env conn user db db_len so mysql_flags server_charset_no use_full
        auth_protocol auth_data auth_data_len)
      salt salt_len user passwd passwd_len conn x := by
  unfold mysqlnd_auth_handshake at h
  simp only [] at h
  have htr := PACKET_WRITE_trace conn (auth_handshake_payload env conn user db db_len so
    mysql_flags server_charset_no use_full auth_protocol auth_data auth_data_len)
  generalize auth_handshake_payload env conn user db db_len so
    mysql_flags server_charset_no use_full auth_protocol auth_data auth_data_len = w at h htr ⊢
  generalize PACKET_WRITE conn w = wr at h htr
  obtain ⟨ok, c⟩ := wr
  simp only [] at h htr
  cases ok
  · simp only [if_true] at h
    split at h
    · cases h
      exact ExchangeShape.write_failed (by simp [htr]) rfl rfl
    · cases h
      exact ExchangeShape.write_failed (by simp [htr]) rfl rfl
  · simp only [Bool.true_eq_false, if_false] at h
    cases use_full
    · simp only [Bool.false_eq_true, if_false] at h
      split at h
      · cases h
      · rename_i r hr
        exact auth_handshake_handled auth_plugin w conn c user passwd passwd_len salt salt_len x
          r hr htr h
    · simp only [if_true] at h
      cases w <;> simp only [] at h <;> split at h <;> first
        | cases h
        | (rename_i r hr
           exact auth_handshake_handled auth_plugin _ conn _ user passwd passwd_len salt
             salt_len x r hr htr h)

theorem mysqlnd_auth_change_user_shape (env : AuthEnv) (conn : MYSQLND_CONN_DATA)
    (user : List Nat) (user_len : Nat) (passwd : List Nat) (passwd_len : Nat)
    (db : Option (List Nat)) (db_len : Nat) (silent : Bool)
    (use_full : Bool) (auth_protocol : String)
    (auth_plugin : Option st_mysqlnd_authentication_plugin)
    (salt : List Nat) (salt_len : Nat)
    (auth_data : Option (List Nat)) (auth_data_len : Nat) (x : AuthExchange)
    (h : mysqlnd_auth_change_user env conn user user_len passwd passwd_len db db_len silent
      use_full auth_protocol auth_plugin salt salt_len auth_data auth_data_len = some x) :
    ∃ w, auth_change_user_payload conn user db db_len silent use_full auth_protocol auth_data
        auth_data_len = some w ∧
      ExchangeShape auth_plugin w salt salt_len user passwd passwd_len conn x := by
  unfold mysqlnd_auth_change_user at h
  simp only [] at h
  cases hw : auth_change_user_payload conn user db db_len silent
    use_full auth_protocol auth_data auth_data_len with
  | none => rw [hw] at h; cases h
  | some w =>
  rw [hw] at h
  simp only [] at h
  refine ⟨w, rfl, ?_⟩
  have htr := PACKET_WRITE_trace conn w
  generalize PACKET_WRITE conn w = wr at h htr
  obtain ⟨ok, c⟩ := wr
  simp only [] at h htr
  cases ok
  · simp only [if_true] at h
    cases h
    exact ExchangeShape.write_failed (by simp [htr]) rfl rfl
  · simp only [Bool.true_eq_false, if_false] at h
    cases hr : call_handle_server_response auth_plugin c salt salt_len user passwd passwd_len with
    | none => rw [hr] at h; cases h
    | some r =>
      rw [hr] at h
      simp only [] at h
      split at h
      · rename_i hf
        cases h
        exact ExchangeShape.handler_failed c r htr hr hf rfl
      · rename_i hf
        have hp : r.ret = enum_func_status.PASS := by
          cases hrr : r.ret
          · rfl
          · exact absurd hrr hf
        obtain ⟨tail, hfacts⟩ :=
          auth_change_user_read_response_facts env user user_len passwd conn.charset r x h
        exact ExchangeShape.response_read c r _ _ tail htr hr hp hfacts

theorem run_authentication_body_shape (env : AuthEnv) (a : AuthArgs) (st : AuthLoop)
    (b : Bool) (st1 : AuthLoop) (h : run_authentication_body env a st = some (b, st1)) :
    BodyShape env a st b st1 := by
  unfold run_authentication_body at h
  simp only [] at h
  split at h
  · rename_i hu
    simp only [Option.some.injEq, Prod.mk.injEq] at h
    obtain ⟨hb, hs⟩ := h
    exact BodyShape.unknown (by simpa using hu.1) hu.2 hb.symm hs.symm
  · rename_i hu
    have hreg : st.first_call = false →
        env.fetch_auth_plugin_by_name st.requested_protocol ≠ none := by
      intro hf hn
      exact hu ⟨by simp [hn], hf⟩
    split at h
    · cases h
    · rename_i sd hsd
      split at h
      · rename_i he
        simp only [Option.some.injEq, Prod.mk.injEq] at h
        obtain ⟨hb, hs⟩ := h
        exact BodyShape.error sd hsd he hb.symm hs.symm
      · rename_i he
        have he0 : sd.conn.error_info.error_no = 0 := by
          by_contra hne
          exact he hne
        split at h
        · cases h
        · rename_i x hx
          simp only [Option.some.injEq, Prod.mk.injEq] at h
          obtain ⟨hb, hs⟩ := h
          split at hx
          · rename_i hc
            refine BodyShape.exchange sd
              (auth_handshake_payload env sd.conn a.user a.db a.db_len a.session_options
                a.mysql_flags a.charset_no st.first_call
                (used_protocol env st.requested_protocol) sd.ret sd.auth_data_len)
              x hreg hsd he0 ?_
              (mysqlnd_auth_handshake_shape _ _ _ _ _ _ _ _ _ _ _ _ _ _ _ _ _ _ hx)
              hb.symm hs.symm
            simp [auth_payload, hc]
          · rename_i hc
            obtain ⟨w, hw, hshape⟩ :=
              mysqlnd_auth_change_user_shape _ _ _ _ _ _ _ _ _ _ _ _ _ _ _ _ _ hx
            refine BodyShape.exchange sd w x hreg hsd he0 ?_ hshape hb.symm hs.symm
            unfold auth_payload
            rw [if_neg hc]
            exact hw

theorem run_authentication_body_next (env : AuthEnv) (a : AuthArgs) (st st1 : AuthLoop)
    (h : run_authentication_body env a st = some (false, st1)) :
    st1.first_call = false ∧
    st1.requested_protocol =
      (match st1.switch_to_auth_protocol with
       | some n => n
       | none => used_protocol env st.requested_protocol) := by
  have hs := run_authentication_body_shape env a st false st1 h
  cases hs with
  | unknown _ _ hb _ => cases hb
  | error _ _ _ hb _ => cases hb
  | exchange sd w x _ _ _ _ _ _ hst => subst hst; exact ⟨rfl, rfl⟩

/-- C10. Take a pass of the loop of `mysqlnd_run_authentication` that ends with the
result FAIL, no client error and an auth switch request naming `n`, where `n` is not
registered.  Then the next pass changes nothing on the connection but the client error:
it writes no packet, leaves the recorded auth-protocol name as it was, sets
`CR_NOT_IMPLEMENTED` with the message "The server requested authentication method
unknown to the client" and leaves the loop through `goto end`; the function returns FAIL
with that connection, whatever the number of passes still allowed. -/
theorem unknown_switch_target_fails (env : AuthEnv) (a : AuthArgs) (st st1 : AuthLoop)
    (n : String) (fuel : Nat)
    (hbody : run_authentication_body env a st = some (false, st1))
    (hret : st1.ret = enum_func_status.FAIL)
    (herr : st1.conn.error_info.error_no = 0)
    (hswitch : st1.switch_to_auth_protocol = some n)
    (hunknown : env.fetch_auth_plugin_by_name n = none) :
    run_authentication_body env a st1
      = some (true, { st1 with conn := { st1.conn with error_info := not_implemented_error } }) ∧
    run_authentication_from env a (fuel + 2) st
      = some (enum_func_status.FAIL,
              { st1.conn with error_info := not_implemented_error }) := by
  obtain ⟨hfirst, hname⟩ := run_authentication_body_next env a st st1 hbody
  rw [hswitch] at hname
  simp only [] at hname
  have hb1 : run_authentication_body env a st1
      = some (true, { st1 with conn := { st1.conn with error_info := not_implemented_error } }) := by
    unfold run_authentication_body
    simp [hname, hunknown, hfirst, SET_CLIENT_ERROR, CR_NOT_IMPLEMENTED, not_implemented_error]
  refine ⟨hb1, ?_⟩
  simp [run_authentication_from, run_authentication_loop, hbody, hret, herr, hswitch, hb1]

theorem auth_payload_full (env : AuthEnv) (a : AuthArgs) (conn : MYSQLND_CONN_DATA)
    (auth_protocol : String) (auth_data : Option (List Nat)) (auth_data_len : Nat)
    (w : ClientPacket)
    (hw : auth_payload env a conn true auth_protocol auth_data auth_data_len = some w) :
    ∃ p, w = ClientPacket.auth p ∧
      p.auth_plugin_name = some auth_protocol ∧ p.auth_data = auth_data ∧
      p.auth_data_len = auth_data_len ∧ p.is_change_user_packet = a.is_change_user := by
  unfold auth_payload auth_handshake_payload auth_change_user_payload at hw
  simp only [ne_eq, not_true_eq_false, if_false] at hw
  split at hw
  · rename_i hc
    simp only [Option.some.injEq] at hw
    subst hw
    exact ⟨_, rfl, rfl, rfl, rfl, hc.symm⟩
  · rename_i hc
    have hcu : a.is_change_user = true := by
      cases hcu : a.is_change_user
      · exact absurd hcu hc
      · rfl
    simp only [Option.map_eq_some'] at hw
    obtain ⟨nr, _, hw⟩ := hw
    subst hw
    exact ⟨_, rfl, rfl, rfl, rfl, hcu.symm⟩

/-- The full ChangeUser packet exists unless it takes `conn->charset->nr` from a
`conn->charset` that is `NULL`; the HandshakeResponse always exists. -/
theorem auth_payload_full_isSome (env : AuthEnv) (a : AuthArgs) (conn : MYSQLND_CONN_DATA)
    (auth_protocol : String) (auth_data : Option (List Nat)) (auth_data_len : Nat)
    (hcs : a.is_change_user = true → conn.server_version ≥ 50123 → conn.charset ≠ none) :
    ∃ w, auth_payload env a conn true auth_protocol auth_data auth_data_len = some w := by
  unfold auth_payload auth_change_user_payload
  by_cases hc : a.is_change_user = false
  · simp [hc]
  · have hcu : a.is_change_user = true := by
      cases hcu : a.is_change_user
      · exact absurd hcu hc
      · rfl
    by_cases hv : conn.server_version ≥ 50123
    · cases hch : conn.charset with
      | none => exact absurd hch (hcs hcu hv)
      | some cs => simp [hcu, hv]
    · simp [hcu, hv]

theorem auth_payload_bare (env : AuthEnv) (a : AuthArgs) (conn : MYSQLND_CONN_DATA)
    (auth_protocol : String) (auth_data : Option (List Nat)) (auth_data_len : Nat) :
    auth_payload env a conn false auth_protocol auth_data auth_data_len
      = some (ClientPacket.change_auth_response auth_data auth_data_len) := by
  unfold auth_payload
  split <;> simp [auth_handshake_payload, auth_change_user_payload]

theorem exchange_shape_no_plugin_trace (w : ClientPacket) (salt : List Nat) (salt_len : Nat)
    (user passwd : List Nat) (passwd_len : Nat) (conn : MYSQLND_CONN_DATA) (x : AuthExchange)
    (h : ExchangeShape none w salt salt_len user passwd passwd_len conn x) :
    ∃ ok rest, x.conn.trace = conn.trace ++ WireEvent.wrote w ok :: rest := by
  cases h with
  | write_failed ht _ _ => exact ⟨false, [], ht⟩
  | handler_failed c0 r hc hr _ hx =>
    simp only [call_handle_server_response, Option.some.injEq] at hr
    subst hr
    subst hx
    exact ⟨true, [], hc⟩
  | response_read c0 r k pkt tail hc hr _ hf =>
    simp only [call_handle_server_response, Option.some.injEq] at hr
    subst hr
    refine ⟨true, WireEvent.read k pkt :: tail, ?_⟩
    rw [hf.trace]
    simp only [] 
    rw [hc]
    simp

theorem mysqlnd_auth_handshake_no_plugin (env : AuthEnv) (conn : MYSQLND_CONN_DATA)
    (user passwd : List Nat) (passwd_len : Nat) (db : Option (List Nat)) (db_len : Nat)
    (so : MYSQLND_SESSION_OPTIONS) (mysql_flags server_charset_no : Nat)
    (use_full : Bool) (auth_protocol : String) (salt : List Nat) (salt_len : Nat)
    (auth_data : Option (List Nat)) (auth_data_len : Nat) :
    ∃ x, mysqlnd_auth_handshake env conn user passwd passwd_len db db_len so mysql_flags
      server_charset_no use_full auth_protocol none salt salt_len auth_data
      auth_data_len = some x := by
  unfold mysqlnd_auth_handshake
  simp only [call_handle_server_response]
  split
  · split <;> exact ⟨_, rfl⟩
  · exact ⟨_, rfl⟩

/-- With a character set on the connection the auth payload of
`mysqlnd_auth_change_user` exists. -/
theorem auth_change_user_payload_isSome (conn : MYSQLND_CONN_DATA) (user : List Nat)
    (db : Option (List Nat)) (db_len : Nat) (silent use_full : Bool) (auth_protocol : String)
    (auth_data : Option (List Nat)) (auth_data_len : Nat)
    (hcs : use_full = true → conn.server_version ≥ 50123 → conn.charset ≠ none) :
    ∃ w, auth_change_user_payload conn user db db_len silent use_full auth_protocol auth_data
      auth_data_len = some w := by
  unfold auth_change_user_payload
  cases use_full
  · simp
  · by_cases hv : conn.server_version ≥ 50123
    · cases hch : conn.charset with
      | none => exact absurd hch (hcs rfl hv)
      | some cs => simp [hv]
    · simp [hv]

/-- With a character set on the connection at entry the last part of
`mysqlnd_auth_change_user` has a result. -/
theorem auth_change_user_read_response_isSome (env : AuthEnv) (user : List Nat)
    (user_len : Nat) (passwd : List Nat) (old_cs : Option MYSQLND_CHARSET)
    (r : ServerResponse) (hcs : old_cs ≠ none) :
    ∃ x, auth_change_user_read_response env user user_len passwd old_cs r = some x := by
  cases h : auth_change_user_read_response env user user_len passwd old_cs r with
  | some x => exact ⟨x, rfl⟩
  | none =>
    unfold auth_change_user_read_response at h
    exact absurd ((auth_change_user_finish_isSome _ _ _ _ _ _ _).mp h).2.2 hcs

theorem mysqlnd_auth_change_user_no_plugin (env : AuthEnv) (conn : MYSQLND_CONN_DATA)
    (user : List Nat) (user_len : Nat) (passwd : List Nat) (passwd_len : Nat)
    (db : Option (List Nat)) (db_len : Nat) (silent : Bool)
    (use_full : Bool) (auth_protocol : String) (salt : List Nat) (salt_len : Nat)
    (auth_data : Option (List Nat)) (auth_data_len : Nat)
    (hcs : conn.charset ≠ none) :
    ∃ x, mysqlnd_auth_change_user env conn user user_len passwd passwd_len db db_len silent
      use_full auth_protocol none salt salt_len auth_data auth_data_len = some x := by
  obtain ⟨w, hw⟩ := auth_change_user_payload_isSome conn user db db_len silent use_full
    auth_protocol auth_data auth_data_len (fun _ _ => hcs)
  unfold mysqlnd_auth_change_user
  simp only [call_handle_server_response, hw]
  split
  · exact ⟨_, rfl⟩
  · exact auth_change_user_read_response_isSome env user user_len passwd conn.charset _ hcs

theorem run_authentication_body_unregistered (env : AuthEnv) (a : AuthArgs) (st : AuthLoop)
    (hunknown : env.fetch_auth_plugin_by_name st.requested_protocol = none)
    (hfirst : st.first_call = true) (herr : st.conn.error_info.error_no = 0)
    (hcs : a.is_change_user = true → st.conn.charset ≠ none) :
    ∃ st1, run_authentication_body env a st = some (false, st1) := by
  unfold run_authentication_body
  simp only [hunknown, hfirst, Option.isNone_none, call_get_auth_data, herr,
    Bool.true_eq_false, and_false, if_false, ne_eq, not_true_eq_false, if_true]
  by_cases hc : a.is_change_user = false
  · simp only [hc, if_true]
    obtain ⟨x, hx⟩ := mysqlnd_auth_handshake_no_plugin env
      { st.conn with authentication_plugin_data := st.plugin_data } a.user a.passwd
      a.passwd_len a.db a.db_len a.session_options a.mysql_flags a.charset_no true
      MYSQLND_DEFAULT_AUTH_PROTOCOL st.plugin_data st.plugin_data.length none 0
    rw [hx]
    exact ⟨_, rfl⟩
  · simp only [hc, if_false]
    have hcu : a.is_change_user = true := by
      cases hcu : a.is_change_user
      · exact absurd hcu hc
      · rfl
    obtain ⟨x, hx⟩ := mysqlnd_auth_change_user_no_plugin env
      { st.conn with authentication_plugin_data := st.plugin_data } a.user (strlen a.user)
      a.passwd a.passwd_len a.db a.db_len a.silent true
      MYSQLND_DEFAULT_AUTH_PROTOCOL st.plugin_data st.plugin_data.length none 0 (hcs hcu)
    rw [hx]
    exact ⟨_, rfl⟩

/-- C9, amended. When the initially requested name is not registered and the connection
carries no client error, the first pass of `mysqlnd_run_authentication` is performed
under the default name with no mechanism at all: whenever the pass has a result it has
completed, the first packet it writes is the full packet, which names
`mysql_native_password` as the auth plugin and carries no auth response (`auth_data`
absent, length 0); the pass has a result on the connect path and, on the change-user
path, whenever the connection has a character set (`mysqlnd_auth_change_user`
dereferences `conn->charset`, whatever the mechanism); and the whole pass is the one an
empty registry gives, so that no method of any mechanism is called. -/
theorem unregistered_initial_mechanism (env : AuthEnv) (a : AuthArgs)
    (conn : MYSQLND_CONN_DATA) (salt : List Nat) (name : String)
    (hunknown : env.fetch_auth_plugin_by_name name = none)
    (herr : conn.error_info.error_no = 0) :
    (∀ b st1,
      run_authentication_body env a (run_authentication_entry conn salt (some name))
        = some (b, st1) →
      b = false ∧
      ∃ p ok rest,
        st1.conn.trace = conn.trace ++ WireEvent.wrote (ClientPacket.auth p) ok :: rest ∧
        p.auth_plugin_name = some MYSQLND_DEFAULT_AUTH_PROTOCOL ∧
        p.auth_data = none ∧ p.auth_data_len = 0 ∧
        p.is_change_user_packet = a.is_change_user) ∧
    ((a.is_change_user = true → conn.charset ≠ none) →
      ∃ st1, run_authentication_body env a (run_authentication_entry conn salt (some name))
        = some (false, st1)) ∧
    run_authentication_body env a (run_authentication_entry conn salt (some name))
      = run_authentication_body { env with fetch_auth_plugin_by_name := fun _ => none } a
          (run_authentication_entry conn salt (some name)) := by
  refine ⟨?_, ?_, ?_⟩
  · intro b st1 hb
    have hs := run_authentication_body_shape env a _ b st1 hb
    cases hs with
    | unknown _ hf _ _ => simp [run_authentication_entry] at hf
    | error sd hsd hne _ _ =>
      simp only [run_authentication_entry, hunknown, call_get_auth_data,
        Option.some.injEq] at hsd
      subst hsd
      exact absurd herr hne
    | exchange sd w x _ hsd _ hw hx hbf hst =>
      simp only [run_authentication_entry, hunknown, call_get_auth_data,
        Option.some.injEq] at hsd
      subst hsd
      simp only [run_authentication_entry, hunknown, used_protocol, Option.isNone_none,
        if_true] at hx hw
      obtain ⟨p, hp, h1, h2, h3, h4⟩ := auth_payload_full env a
        { conn with authentication_plugin_data := salt } MYSQLND_DEFAULT_AUTH_PROTOCOL none 0
        w hw
      rw [hp] at hx
      obtain ⟨ok, rest, ht⟩ := exchange_shape_no_plugin_trace _ _ _ _ _ _ _ _ hx
      exact ⟨hbf, p, ok, rest, by rw [hst]; exact ht, h1, h2, h3, h4⟩
  · intro hcs
    exact run_authentication_body_unregistered env a
      (run_authentication_entry conn salt (some name)) hunknown rfl herr hcs
  · unfold run_authentication_body
    simp [run_authentication_entry, hunknown, mysqlnd_auth_handshake,
      mysqlnd_auth_change_user, auth_handshake_payload, auth_change_user_payload,
      auth_change_user_read_response, auth_change_user_finish, set_charset]

/-- Counterexample to C9 as stated: `caching_sha2_password` is requested and is not
registered; the call returns PASS and the first packet written names
`mysql_native_password` but carries no auth response, while `mysql_native_password`
computes a 20-byte response from this salt and password. -/
theorem unregistered_initial_mechanism_counterexample :
    native_only_env.fetch_auth_plugin_by_name "caching_sha2_password" = none ∧
    (mysqlnd_run_authentication native_only_env 1 { incoming := [ok_packet] }
        { passwd := [115], passwd_len := 1 } (List.range 20)
        (some "caching_sha2_password")).map (fun r => (r.1, r.2.trace.head?))
      = some (enum_func_status.PASS, some (WireEvent.wrote (ClientPacket.auth
          { send_auth_data := true, auth_plugin_name := some "mysql_native_password",
            auth_data := none, auth_data_len := 0 }) true)) ∧
    (mysqlnd_native_auth_get_auth_data sample_hash20
        { authentication_plugin_data := List.range 20, incoming := [ok_packet] }
        [115] 1 (List.range 20) 20).auth_data_len = 20 :=
  ⟨rfl, by decide, by decide⟩

/-- The amended C9 at a concrete input: `caching_sha2_password` requested from a registry
holding `mysql_native_password` only. -/
theorem unregistered_initial_mechanism_witness :
    (∃ st1,
      run_authentication_body native_only_env {}
        (run_authentication_entry { incoming := [ok_packet] } (List.range 20)
          (some "caching_sha2_password"))
        = some (false, st1)) ∧
    ∃ p ok rest,
      (loop_body_result native_only_env {}
        (run_authentication_entry { incoming := [ok_packet] } (List.range 20)
          (some "caching_sha2_password"))).conn.trace
        = [] ++ WireEvent.wrote (ClientPacket.auth p) ok :: rest ∧
      p.auth_plugin_name = some MYSQLND_DEFAULT_AUTH_PROTOCOL ∧
      p.auth_data = none ∧ p.auth_data_len = 0 ∧
      p.is_change_user_packet = false :=
  ⟨(unregistered_initial_mechanism native_only_env {} { incoming := [ok_packet] }
    (List.range 20) "caching_sha2_password" rfl (by decide)).2.1 (by decide),
   ((unregistered_initial_mechanism native_only_env {} { incoming := [ok_packet] }
    (List.range 20) "caching_sha2_password" rfl (by decide)).1 false _ rfl).2⟩

/-- C10 at a concrete input: the server answers the first payload with a switch request
naming `sha256_password`, which is not registered. -/
theorem unknown_switch_target_fails_witness :
    run_authentication_from native_only_env { passwd := [115], passwd_len := 1 } 2
      (run_authentication_entry
        { incoming := [switch_packet "sha256_password" (some (List.range 20))] }
        (List.range 20) none)
      = some (enum_func_status.FAIL,
          { (loop_body_result native_only_env { passwd := [115], passwd_len := 1 }
              (run_authentication_entry
                { incoming := [switch_packet "sha256_password" (some (List.range 20))] }
                (List.range 20) none)).conn with error_info := not_implemented_error }) :=
  (unknown_switch_target_fails native_only_env { passwd := [115], passwd_len := 1 }
    (run_authentication_entry
      { incoming := [switch_packet "sha256_password" (some (List.range 20))] }
      (List.range 20) none)
    (loop_body_result native_only_env { passwd := [115], passwd_len := 1 }
      (run_authentication_entry
        { incoming := [switch_packet "sha256_password" (some (List.range 20))] }
        (List.range 20) none))
    "sha256_password" 0 (by decide) (by decide) (by decide) (by decide) rfl).2

theorem auth_packets_append (l1 l2 : List WireEvent) :
    auth_packets (l1 ++ l2) = auth_packets l1 ++ auth_packets l2 := by
  induction l1 with
  | nil => rfl
  | cons e l ih =>
    cases e with
    | wrote p ok =>
      simp only [List.cons_append, auth_packets]
      split <;> simp [ih]
    | read k pkt => simpa [auth_packets] using ih

theorem auth_packets_internal (l : List WireEvent)
    (h : ∀ e ∈ l, mechanism_internal e = true) : auth_packets l = [] := by
  induction l with
  | nil => rfl
  | cons e l ih =>
    have he := h e (List.mem_cons_self _ _)
    have hl := ih (fun e' he' => h e' (List.mem_cons_of_mem _ he'))
    cases e with
    | wrote p ok =>
      simp only [mechanism_internal, Bool.not_eq_true'] at he
      simp [auth_packets, he, hl]
    | read k pkt => simp [auth_packets, hl]

theorem auth_packets_no_engine_or_internal (l : List WireEvent)
    (h : ∀ e ∈ l, mechanism_internal e = true ∨ is_write e = false) : auth_packets l = [] := by
  induction l with
  | nil => rfl
  | cons e l ih =>
    have he := h e (List.mem_cons_self _ _)
    have hl := ih (fun e' he' => h e' (List.mem_cons_of_mem _ he'))
    cases e with
    | wrote p ok =>
      simp only [mechanism_internal, Bool.not_eq_true', is_write, Bool.true_eq_false,
        or_false] at he
      simp [auth_packets, he, hl]
    | read k pkt => simp [auth_packets, hl]

theorem internal_not_engine_read (e : WireEvent) (h : mechanism_internal e = true) :
    is_engine_read e = false := by
  cases e with
  | wrote p ok => rfl
  | read k pkt => cases k <;> simp_all [mechanism_internal, is_engine_read]

theorem engine_read_unique (A B l1 l2 : List WireEvent) (x y : WireEvent)
    (hA : ∀ e ∈ A, is_engine_read e = false) (hB : ∀ e ∈ B, is_engine_read e = false)
    (hx : is_engine_read x = true) (h : l1 ++ x :: l2 = A ++ y :: B) :
    l1 = A ∧ x = y ∧ l2 = B := by
  induction A generalizing l1 with
  | nil =>
    cases l1 with
    | nil =>
      simp only [List.nil_append, List.cons.injEq] at h
      exact ⟨rfl, h.1, h.2⟩
    | cons a l1 =>
      simp only [List.cons_append, List.nil_append, List.cons.injEq] at h
      have hm : x ∈ B := by rw [← h.2]; simp
      rw [hB x hm] at hx
      cases hx
  | cons a A ih =>
    cases l1 with
    | nil =>
      simp only [List.nil_append, List.cons_append, List.cons.injEq] at h
      have := hA a (List.mem_cons_self _ _)
      rw [← h.1, hx] at this
      cases this
    | cons b l1 =>
      simp only [List.cons_append, List.cons.injEq] at h
      obtain ⟨h1, h2, h3⟩ := ih l1 (fun e he => hA e (List.mem_cons_of_mem _ he)) h.2
      exact ⟨by rw [h.1, h1], h2, h3⟩

theorem no_engine_read_split (L l1 l2 : List WireEvent) (x : WireEvent)
    (hL : ∀ e ∈ L, is_engine_read e = false) (hx : is_engine_read x = true)
    (h : l1 ++ x :: l2 = L) : False := by
  have hm : x ∈ L := by rw [← h]; simp
  rw [hL x hm] at hx
  cases hx

theorem call_get_auth_data_internal (auth_plugin : Option st_mysqlnd_authentication_plugin)
    (hp : ∀ p, auth_plugin = some p → MechanismInternal p)
    (conn : MYSQLND_CONN_DATA) (user passwd : List Nat) (passwd_len : Nat)
    (salt : List Nat) (salt_len : Nat) (so : MYSQLND_SESSION_OPTIONS) (fl : Nat)
    (sd : AuthData)
    (h : call_get_auth_data auth_plugin conn user passwd passwd_len salt salt_len so fl
      = some sd) :
    ∃ evs, sd.conn.trace = conn.trace ++ evs ∧ ∀ e ∈ evs, mechanism_internal e = true := by
  cases auth_plugin with
  | none =>
    simp only [call_get_auth_data, Option.some.injEq] at h
    subst h
    exact ⟨[], by simp, by simp⟩
  | some p => exact (hp p rfl).get_auth_data _ _ _ _ _ _ _ _ _ h

theorem call_handle_server_response_internal
    (auth_plugin : Option st_mysqlnd_authentication_plugin)
    (hp : ∀ p, auth_plugin = some p → MechanismInternal p)
    (conn : MYSQLND_CONN_DATA) (salt : List Nat) (salt_len : Nat)
    (user passwd : List Nat) (passwd_len : Nat) (r : ServerResponse)
    (h : call_handle_server_response auth_plugin conn salt salt_len user passwd passwd_len
      = some r) :
    ∃ evs, r.conn.trace = conn.trace ++ evs ∧ ∀ e ∈ evs, mechanism_internal e = true := by
  cases auth_plugin with
  | none =>
    simp only [call_handle_server_response, Option.some.injEq] at h
    subst h
    exact ⟨[], by simp, by simp⟩
  | some p =>
    cases hh : p.handle_server_response with
    | none =>
      simp only [call_handle_server_response, hh, Option.some.injEq] at h
      subst h
      exact ⟨[], by simp, by simp⟩
    | some f =>
      simp only [call_handle_server_response, hh] at h
      exact (hp p rfl).handle_server_response f hh _ _ _ _ _ _ _ h

/-- The events of one exchange, for a mechanism whose events are mechanism-internal:
the write of the payload, then mechanism-internal events, then possibly the read
of the response and what follows it. -/
theorem exchange_shape_events (auth_plugin : Option st_mysqlnd_authentication_plugin)
    (hp : ∀ p, auth_plugin = some p → MechanismInternal p)
    (w : ClientPacket) (salt : List Nat) (salt_len : Nat)
    (user passwd : List Nat) (passwd_len : Nat) (conn : MYSQLND_CONN_DATA) (x : AuthExchange)
    (h : ExchangeShape auth_plugin w salt salt_len user passwd passwd_len conn x) :
    ∃ ok hevs, (∀ e ∈ hevs, mechanism_internal e = true) ∧
      (x.conn.trace = conn.trace ++ WireEvent.wrote w ok :: hevs ∨
       ∃ k pkt tail, (k = PacketKind.auth_response ∨ k = PacketKind.chg_user_response) ∧
         x.conn.trace = conn.trace ++ WireEvent.wrote w ok :: (hevs ++ WireEvent.read k pkt :: tail) ∧
         (∀ e ∈ tail, mechanism_internal e = true) ∧
         (pkt.response_code = 0xFE →
           x.ret = enum_func_status.FAIL ∧ ∀ e ∈ tail, is_write e = false) ∧
         (pkt.response_code = 0xFE → pkt.new_auth_protocol = none →
           x.conn.error_info = old_passwd_error)) := by
  cases h with
  | write_failed ht _ _ => exact ⟨false, [], by simp, Or.inl ht⟩
  | handler_failed c0 r hc hr _ hx =>
    obtain ⟨hevs, hrt, hint⟩ := call_handle_server_response_internal auth_plugin hp _ _ _ _ _ _ _ hr
    subst hx
    refine ⟨true, hevs, hint, Or.inl ?_⟩
    simp only []
    rw [hrt, hc]
    simp
  | response_read c0 r k pkt tail hc hr _ hf =>
    obtain ⟨hevs, hrt, hint⟩ := call_handle_server_response_internal auth_plugin hp _ _ _ _ _ _ _ hr
    refine ⟨true, hevs, hint, Or.inr ⟨k, pkt, tail, hf.kind, ?_, ?_, hf.switch_fails, hf.old_auth⟩⟩
    · rw [hf.trace, hrt, hc]
      simp
    · exact fun e he => (hf.tail_internal e he).1

theorem auth_payload_kind (env : AuthEnv) (a : AuthArgs) (conn : MYSQLND_CONN_DATA)
    (first_call : Bool) (auth_protocol : String) (auth_data : Option (List Nat))
    (auth_data_len : Nat) (w : ClientPacket)
    (hw : auth_payload env a conn first_call auth_protocol auth_data auth_data_len = some w) :
    is_auth_packet w = true ∧ is_full_packet w = first_call := by
  cases first_call
  · rw [auth_payload_bare] at hw
    cases hw
    exact ⟨rfl, rfl⟩
  · obtain ⟨p, hp, _⟩ := auth_payload_full env a conn auth_protocol auth_data auth_data_len
      w hw
    rw [hp]
    exact ⟨rfl, rfl⟩

/-- The events of one pass through the loop body, for a registry whose mechanisms add
mechanism-internal events only. -/
theorem run_authentication_body_events (env : AuthEnv)
    (henv : ∀ name p, env.fetch_auth_plugin_by_name name = some p → MechanismInternal p)
    (a : AuthArgs) (st : AuthLoop) (b : Bool) (st1 : AuthLoop)
    (hb : run_authentication_body env a st = some (b, st1)) :
    ∃ g, (∀ e ∈ g, mechanism_internal e = true) ∧
      ((b = true ∧ st1.conn.trace = st.conn.trace ++ g) ∨
       (b = false ∧ ∃ w ok hevs, is_auth_packet w = true ∧
          is_full_packet w = st.first_call ∧
          (∀ e ∈ hevs, mechanism_internal e = true) ∧
          (st1.conn.trace = st.conn.trace ++ g ++ WireEvent.wrote w ok :: hevs ∨
           ∃ k pkt tail, (k = PacketKind.auth_response ∨ k = PacketKind.chg_user_response) ∧
             st1.conn.trace
               = st.conn.trace ++ g ++ WireEvent.wrote w ok :: (hevs ++ WireEvent.read k pkt :: tail) ∧
             (∀ e ∈ tail, mechanism_internal e = true) ∧
             (pkt.response_code = 0xFE →
               st1.ret = enum_func_status.FAIL ∧ ∀ e ∈ tail, is_write e = false) ∧
             (pkt.response_code = 0xFE → pkt.new_auth_protocol = none →
               st1.conn.error_info = old_passwd_error)))) := by
  have hs := run_authentication_body_shape env a st b st1 hb
  cases hs with
  | unknown _ _ hbt hst =>
    subst hst
    exact ⟨[], by simp, Or.inl ⟨hbt, by simp⟩⟩
  | error sd hsd _ hbt hst =>
    obtain ⟨g, hg, hgi⟩ := call_get_auth_data_internal _ (henv _) _ _ _ _ _ _ _ _ _ hsd
    subst hst
    exact ⟨g, hgi, Or.inl ⟨hbt, hg⟩⟩
  | exchange sd w x _ hsd _ hw hx hbf hst =>
    obtain ⟨g, hg, hgi⟩ := call_get_auth_data_internal _ (henv _) _ _ _ _ _ _ _ _ _ hsd
    obtain ⟨ok, hevs, hhi, hcases⟩ := exchange_shape_events _ (henv _) _ _ _ _ _ _ _ _ hx
    obtain ⟨hk1, hk2⟩ := auth_payload_kind env a sd.conn st.first_call
      (used_protocol env st.requested_protocol) sd.ret sd.auth_data_len w hw
    subst hst
    refine ⟨g, hgi, Or.inr ⟨hbf, _, ok, hevs, hk1, hk2, hhi, ?_⟩⟩
    rcases hcases with ht | ⟨k, pkt, tail, hk, ht, hti, hfe, hold⟩
    · left
      simp only []
      rw [ht, hg]
    · right
      refine ⟨k, pkt, tail, hk, ?_, hti, hfe, hold⟩
      simp only []
      rw [ht, hg]

theorem is_engine_read_of_kind (k : PacketKind) (pkt : ServerPacket)
    (hk : k = PacketKind.auth_response ∨ k = PacketKind.chg_user_response) :
    is_engine_read (WireEvent.read k pkt) = true := by
  rcases hk with hk | hk <;> subst hk <;> rfl

/-- The packets the engine reads itself.  Under a registry whose mechanisms add only
mechanism-internal events to the record: when a pass of the loop of
`mysqlnd_run_authentication`, on the connect path or on the change-user path, reads as
its response packet (`auth_response` or `chg_user_response`) a packet with response
code `0xFE` and no plugin name, the function returns FAIL with the connection as that
pass left it, for every number of passes still allowed (the loop does not iterate
again), the client error is `CR_UNKNOWN_ERROR` with the message `mysqlnd_old_passwd`,
and nothing is written after that packet was read. -/
theorem engine_read_old_password_request (env : AuthEnv)
    (henv : ∀ name p, env.fetch_auth_plugin_by_name name = some p → MechanismInternal p)
    (a : AuthArgs) (st st1 : AuthLoop) (b : Bool) (fuel : Nat)
    (pre post : List WireEvent) (k : PacketKind) (pkt : ServerPacket)
    (hbody : run_authentication_body env a st = some (b, st1))
    (htrace : st1.conn.trace = st.conn.trace ++ pre ++ WireEvent.read k pkt :: post)
    (hk : k = PacketKind.auth_response ∨ k = PacketKind.chg_user_response)
    (hcode : pkt.response_code = 0xFE) (hname : pkt.new_auth_protocol = none) :
    run_authentication_from env a (fuel + 1) st = some (enum_func_status.FAIL, st1.conn) ∧
    st1.conn.error_info = old_passwd_error ∧
    (∀ e ∈ post, is_write e = false) := by
  have hread := is_engine_read_of_kind k pkt hk
  obtain ⟨g, hgi, hcases⟩ := run_authentication_body_events env henv a st b st1 hbody
  have hg : ∀ e ∈ g, is_engine_read e = false :=
    fun e he => internal_not_engine_read e (hgi e he)
  rcases hcases with ⟨_, ht⟩ | ⟨hbf, w, ok, hevs, _, _, hhi, hcases⟩
  · rw [htrace, List.append_assoc] at ht
    exact (no_engine_read_split g pre post _ hg hread (List.append_cancel_left ht)).elim
  · have hA : ∀ e ∈ g ++ WireEvent.wrote w ok :: hevs, is_engine_read e = false := by
      intro e he
      rcases List.mem_append.mp he with he | he
      · exact hg e he
      · rcases List.mem_cons.mp he with he | he
        · subst he; rfl
        · exact internal_not_engine_read e (hhi e he)
    rcases hcases with ht | ⟨k2, pkt2, tail, _, ht, hti, hfe, hold⟩
    · rw [htrace, List.append_assoc, List.append_assoc] at ht
      exact (no_engine_read_split _ pre post _ hA hread (List.append_cancel_left ht)).elim
    · have hB : ∀ e ∈ tail, is_engine_read e = false :=
        fun e he => internal_not_engine_read e (hti e he)
      rw [htrace, List.append_assoc, List.append_assoc] at ht
      have ht2 := List.append_cancel_left ht
      have ht3 : pre ++ WireEvent.read k pkt :: post
          = (g ++ WireEvent.wrote w ok :: hevs) ++ WireEvent.read k2 pkt2 :: tail := by
        rw [ht2]; simp
      obtain ⟨_, hx, hpost⟩ := engine_read_unique _ _ _ _ _ _ hA hB hread ht3
      simp only [WireEvent.read.injEq] at hx
      obtain ⟨_, hpk⟩ := hx
      subst hpk
      subst hpost
      subst hbf
      obtain ⟨hret, hnw⟩ := hfe hcode
      have herr := hold hcode hname
      refine ⟨?_, herr, hnw⟩
      have hne : st1.conn.error_info.error_no ≠ 0 := by
        rw [herr]; decide
      simp [run_authentication_from, run_authentication_loop, hbody, hret, hne]

/-- The auth payloads of one pass through the loop body: none when the body leaves
through `goto end`, else exactly one, a full packet exactly on the first pass. -/
theorem run_authentication_body_auth_packets (env : AuthEnv)
    (henv : ∀ name p, env.fetch_auth_plugin_by_name name = some p → MechanismInternal p)
    (a : AuthArgs) (st : AuthLoop) (b : Bool) (st1 : AuthLoop)
    (hb : run_authentication_body env a st = some (b, st1)) :
    ∃ evs, st1.conn.trace = st.conn.trace ++ evs ∧
      (b = true → auth_packets evs = []) ∧
      (b = false → ∃ w, auth_packets evs = [w] ∧ is_full_packet w = st.first_call) := by
  obtain ⟨g, hgi, hcases⟩ := run_authentication_body_events env henv a st b st1 hb
  have hg := auth_packets_internal g hgi
  rcases hcases with ⟨hbt, ht⟩ | ⟨hbf, w, ok, hevs, hw1, hw2, hhi, hcases⟩
  · subst hbt
    refine ⟨g, ht, fun _ => hg, ?_⟩
    intro h
    cases h
  · subst hbf
    have hh := auth_packets_internal hevs hhi
    rcases hcases with ht | ⟨k, pkt, tail, _, ht, hti, _, _⟩
    · refine ⟨g ++ WireEvent.wrote w ok :: hevs, ?_, ?_, ?_⟩
      · rw [ht, List.append_assoc]
      · intro h
        cases h
      · intro _
        refine ⟨w, ?_, hw2⟩
        rw [auth_packets_append, hg]
        simp [auth_packets, hw1, hh]
    · refine ⟨g ++ WireEvent.wrote w ok :: (hevs ++ WireEvent.read k pkt :: tail), ?_, ?_, ?_⟩
      · rw [ht, List.append_assoc]
      · intro h
        cases h
      · intro _
        refine ⟨w, ?_, hw2⟩
        rw [auth_packets_append, hg]
        simp [auth_packets, hw1, auth_packets_append, hh, auth_packets_internal tail hti]

theorem run_authentication_loop_auth_packets (env : AuthEnv)
    (henv : ∀ name p, env.fetch_auth_plugin_by_name name = some p → MechanismInternal p)
    (a : AuthArgs) (fuel : Nat) (st : AuthLoop) (b : Bool) (st1 : AuthLoop)
    (h : run_authentication_loop env a fuel st = some (b, st1)) :
    ∃ evs, st1.conn.trace = st.conn.trace ++ evs ∧
      (∀ i p, (auth_packets evs)[i]? = some p →
        (is_full_packet p = true ↔ (st.first_call = true ∧ i = 0))) ∧
      (auth_packets evs = [] ↔ ∃ st2, run_authentication_body env a st = some (true, st2)) := by
  induction fuel generalizing st with
  | zero => simp [run_authentication_loop] at h
  | succ fuel ih =>
    unfold run_authentication_loop at h
    split at h
    · cases h
    · rename_i st2 hbody
      simp only [Option.some.injEq, Prod.mk.injEq] at h
      obtain ⟨hb, hst⟩ := h
      subst hb; subst hst
      obtain ⟨evs, ht, hp, _⟩ := run_authentication_body_auth_packets env henv a st true _ hbody
      refine ⟨evs, ht, ?_, ?_⟩
      · intro i p hi
        rw [hp rfl] at hi
        simp at hi
      · exact ⟨fun _ => ⟨_, hbody⟩, fun _ => hp rfl⟩
    · rename_i st2 hbody
      obtain ⟨evs1, ht1, _, hp1⟩ :=
        run_authentication_body_auth_packets env henv a st false st2 hbody
      obtain ⟨w, hw, hfull⟩ := hp1 rfl
      have hnot : ¬ ∃ st3, run_authentication_body env a st = some (true, st3) := by
        rintro ⟨st3, h3⟩
        rw [hbody] at h3
        cases h3
      split at h
      · obtain ⟨evs2, ht2, hp2, _⟩ := ih st2 h
        have hfc := (run_authentication_body_next env a st st2 hbody).1
        refine ⟨evs1 ++ evs2, by rw [ht2, ht1, List.append_assoc], ?_, ?_⟩
        · intro i p hi
          rw [auth_packets_append, hw] at hi
          cases i with
          | zero =>
            simp only [List.singleton_append, List.getElem?_cons_zero, Option.some.injEq] at hi
            subst hi
            rw [hfull]
            simp
          | succ j =>
            simp only [List.singleton_append, List.getElem?_cons_succ] at hi
            have := hp2 j p hi
            rw [hfc] at this
            simp only [Bool.false_eq_true, false_and, iff_false] at this
            simp [this]
        · rw [auth_packets_append, hw]
          simp [hnot]
      · simp only [Option.some.injEq, Prod.mk.injEq] at h
        obtain ⟨hb, hst⟩ := h
        subst hb; subst hst
        refine ⟨evs1, ht1, ?_, ?_⟩
        · intro i p hi
          rw [hw] at hi
          cases i with
          | zero =>
            simp only [List.getElem?_cons_zero, Option.some.injEq] at hi
            subst hi
            rw [hfull]
            simp
          | succ j => simp at hi
        · rw [hw]
          simp [hnot]

/-- C7, amended. Under a registry whose mechanisms add only mechanism-internal events to
the record, for every call of `mysqlnd_run_authentication` that returns, on the connect
path or on the change-user path: among the auth payloads written during the call, in
the order written, the one at position `i` is a full packet exactly when `i = 0`, every
later one being a bare change-auth-response packet; and no auth payload is written at
all exactly when the first pass of the loop leaves through `goto end`, which it does
when `get_auth_data` of the mechanism sets a client error. -/
theorem one_full_packet_first (env : AuthEnv)
    (henv : ∀ name p, env.fetch_auth_plugin_by_name name = some p → MechanismInternal p)
    (a : AuthArgs) (fuel : Nat) (conn : MYSQLND_CONN_DATA) (salt : List Nat)
    (auth_protocol : Option String) (r : enum_func_status × MYSQLND_CONN_DATA)
    (hrun : mysqlnd_run_authentication env fuel conn a salt auth_protocol = some r) :
    ∃ evs, r.2.trace = conn.trace ++ evs ∧
      (∀ i p, (auth_packets evs)[i]? = some p → (is_full_packet p = true ↔ i = 0)) ∧
      (auth_packets evs = [] ↔
        ∃ st1, run_authentication_body env a (run_authentication_entry conn salt auth_protocol)
          = some (true, st1)) := by
  unfold mysqlnd_run_authentication run_authentication_from at hrun
  split at hrun
  · cases hrun
  · rename_i b st1 hloop
    obtain ⟨evs, ht, hp, hiff⟩ := run_authentication_loop_auth_packets env henv a fuel _ b st1 hloop
    refine ⟨evs, ?_, ?_, hiff⟩
    · split at hrun <;> cases hrun <;> simpa [set_client_option_auth_protocol] using ht
    · intro i p hi
      have := hp i p hi
      simpa [run_authentication_entry] using this

theorem mysqlnd_native_auth_get_auth_data_trace (SHA1 : List Nat → List Nat)
    (conn : MYSQLND_CONN_DATA) (passwd : List Nat) (passwd_len : Nat) (salt : List Nat)
    (salt_len : Nat) :
    (mysqlnd_native_auth_get_auth_data SHA1 conn passwd passwd_len salt salt_len).conn.trace
      = conn.trace := by
  unfold mysqlnd_native_auth_get_auth_data
  split
  · simp
  · split <;> rfl

theorem native_only_env_plugin (name : String) (p : st_mysqlnd_authentication_plugin)
    (h : native_only_env.fetch_auth_plugin_by_name name = some p) :
    p = mysqlnd_native_auth_plugin sample_hash20 := by
  simp only [native_only_env] at h
  split at h
  · exact (Option.some.inj h).symm
  · cases h

theorem native_only_env_internal (name : String) (p : st_mysqlnd_authentication_plugin)
    (h : native_only_env.fetch_auth_plugin_by_name name = some p) : MechanismInternal p := by
  rw [native_only_env_plugin name p h]
  constructor
  · intro conn user passwd passwd_len salt salt_len so fl r hr
    simp only [mysqlnd_native_auth_plugin, Option.some.injEq] at hr
    subst hr
    exact ⟨[], by simp [mysqlnd_native_auth_get_auth_data_trace], by simp⟩
  · intro f hf
    simp [mysqlnd_native_auth_plugin] at hf

/-- Counterexample to C7 as stated: with an empty salt and a non-empty password,
`mysql_native_password` sets the scramble-length error; the call returns FAIL and has
written no packet at all. -/
theorem one_full_packet_first_counterexample :
    (mysqlnd_run_authentication native_only_env 1 {} { passwd := [115], passwd_len := 1 } []
        (some "mysql_native_password")).map (fun r => (r.1, r.2.error_info, r.2.trace))
      = some (enum_func_status.FAIL, scramble_length_error, []) := by
  decide

/-- The amended C7 at a concrete input: one auth switch request, then OK. -/
theorem one_full_packet_first_witness :
    ∃ evs,
      (run_authentication_result native_only_env 2
        { incoming := [switch_packet "mysql_native_password" (some (List.range 20)), ok_packet] }
        { passwd := [115], passwd_len := 1 } (List.range 20)
        (some "caching_sha2_password")).2.trace = [] ++ evs ∧
      (∀ i p, (auth_packets evs)[i]? = some p → (is_full_packet p = true ↔ i = 0)) ∧
      (auth_packets evs = [] ↔
        ∃ st1, run_authentication_body native_only_env { passwd := [115], passwd_len := 1 }
          (run_authentication_entry
            { incoming := [switch_packet "mysql_native_password" (some (List.range 20)),
                           ok_packet] }
            (List.range 20) (some "caching_sha2_password"))
          = some (true, st1)) :=
  one_full_packet_first native_only_env native_only_env_internal
    { passwd := [115], passwd_len := 1 } 2
    { incoming := [switch_packet "mysql_native_password" (some (List.range 20)), ok_packet] }
    (List.range 20) (some "caching_sha2_password") _ (by decide)

/-- C8. The claim fails where a mechanism reads the packet itself: under
`caching_sha2_password` with a password, the packet that follows the first payload is
read by `mysqlnd_caching_sha2_handle_server_response`, which stores the absent plugin
name of a `0xFE` packet and returns FAIL without the test for the pre-4.1 request that
`mysqlnd_auth_handshake` and `mysqlnd_auth_change_user` make on the packets they read.
On the connect path and on the change-user path alike, with the registry of the five
mechanisms of the source file and a server that answers the payload with `0xFE` and no
plugin name: one auth payload is written, the packet is read, and
`mysqlnd_run_authentication` returns FAIL with no client error at all (error number 0
and an empty message, not `CR_UNKNOWN_ERROR` with `mysqlnd_old_passwd`).  The same
server under `mysql_native_password` gets the advisory. -/
theorem caching_sha2_old_password_request :
    (mysqlnd_run_authentication all_mechanisms_env 2 (utf8_conn 80000 [old_auth_packet])
        { passwd := [115], passwd_len := 1 } (List.range 20)
        (some "caching_sha2_password")).map
          (fun r => (r.1, r.2.error_info, (auth_packets r.2.trace).length, r.2.trace.drop 1))
      = some (enum_func_status.FAIL, { error_no := 0, sqlstate := "00000", error := "" }, 1,
          [WireEvent.read PacketKind.cached_sha2_result old_auth_packet]) ∧
    (mysqlnd_run_authentication all_mechanisms_env 2 (utf8_conn 80000 [old_auth_packet])
        { passwd := [115], passwd_len := 1, is_change_user := true } (List.range 20)
        (some "caching_sha2_password")).map
          (fun r => (r.1, r.2.error_info, (auth_packets r.2.trace).length, r.2.trace.drop 1))
      = some (enum_func_status.FAIL, { error_no := 0, sqlstate := "00000", error := "" }, 1,
          [WireEvent.read PacketKind.cached_sha2_result old_auth_packet]) ∧
    (mysqlnd_run_authentication all_mechanisms_env 2 (utf8_conn 80000 [old_auth_packet])
        { passwd := [115], passwd_len := 1 } (List.range 20)
        (some "mysql_native_password")).map
          (fun r => (r.1, r.2.error_info, (auth_packets r.2.trace).length, r.2.trace.drop 1))
      = some (enum_func_status.FAIL, old_passwd_error, 1,
          [WireEvent.read PacketKind.auth_response old_auth_packet]) ∧
    old_passwd_error.error_no = CR_UNKNOWN_ERROR ∧
    old_passwd_error.error = mysqlnd_old_passwd :=
  ⟨by decide, by decide, rfl, rfl, rfl⟩

theorem last_switch_append (l1 l2 : List WireEvent) :
    last_switch (l1 ++ l2)
      = (match last_switch l2 with
         | some s => some s
         | none => last_switch l1) := by
  induction l1 with
  | nil => cases h : last_switch l2 <;> simp [last_switch, h]
  | cons e l ih =>
    simp only [List.cons_append, last_switch]
    have ih2 : last_switch (l.append l2)
        = (match last_switch l2 with
           | some s => some s
           | none => last_switch l) := ih
    rw [ih2]
    cases last_switch l2 <;> cases last_switch l <;> rfl

theorem last_switch_none_of (l : List WireEvent) (h : ∀ e ∈ l, switch_of e = none) :
    last_switch l = none := by
  induction l with
  | nil => rfl
  | cons e l ih =>
    simp only [last_switch, ih (fun e' he' => h e' (List.mem_cons_of_mem _ he')),
      h e (List.mem_cons_self _ _)]

theorem last_switch_some (l : List WireEvent) (s : String × List Nat)
    (h : last_switch l = some s) :
    ∃ pre e post, l = pre ++ e :: post ∧ switch_of e = some s ∧ last_switch post = none := by
  induction l with
  | nil => simp [last_switch] at h
  | cons e l ih =>
    simp only [last_switch] at h
    cases hl : last_switch l with
    | none =>
      rw [hl] at h
      exact ⟨[], e, l, rfl, h, hl⟩
    | some s2 =>
      rw [hl] at h
      simp only [Option.some.injEq] at h
      subst h
      obtain ⟨pre, e2, post, h1, h2, h3⟩ := ih hl
      exact ⟨e :: pre, e2, post, by rw [h1]; rfl, h2, h3⟩

theorem switch_of_some (e : WireEvent) (n : String) (d : List Nat)
    (h : switch_of e = some (n, d)) :
    ∃ k pkt, e = WireEvent.read k pkt ∧ pkt.response_code = 0xFE ∧
      pkt.new_auth_protocol = some n ∧
      d = (match pkt.new_auth_protocol_data with
           | some d2 => d2
           | none => []) := by
  cases e with
  | wrote p ok => simp [switch_of] at h
  | read k pkt =>
    simp only [switch_of] at h
    split at h
    · rename_i hc
      cases hn : pkt.new_auth_protocol with
      | none => rw [hn] at h; simp at h
      | some n2 =>
        rw [hn] at h
        simp only [Option.some.injEq, Prod.mk.injEq] at h
        exact ⟨k, pkt, rfl, hc.2, by rw [hn, h.1], h.2.symm⟩
    · cases h

theorem switch_of_engine_read (k : PacketKind) (pkt : ServerPacket)
    (hk : k = PacketKind.auth_response ∨ k = PacketKind.chg_user_response) :
    switch_of (WireEvent.read k pkt)
      = (if pkt.response_code = 0xFE then
          match pkt.new_auth_protocol with
          | some n =>
            some (n, match pkt.new_auth_protocol_data with
                     | some d => d
                     | none => [])
          | none => none
        else none) := by
  rcases hk with hk | hk <;> subst hk <;> simp [switch_of]

theorem call_get_auth_data_switch (auth_plugin : Option st_mysqlnd_authentication_plugin)
    (hp : ∀ p, auth_plugin = some p → SwitchFromWire p)
    (conn : MYSQLND_CONN_DATA) (user passwd : List Nat) (passwd_len : Nat)
    (salt : List Nat) (salt_len : Nat) (so : MYSQLND_SESSION_OPTIONS) (fl : Nat)
    (sd : AuthData)
    (h : call_get_auth_data auth_plugin conn user passwd passwd_len salt salt_len so fl
      = some sd) :
    ∃ evs, sd.conn.trace = conn.trace ++ evs ∧ last_switch evs = none := by
  cases auth_plugin with
  | none =>
    simp only [call_get_auth_data, Option.some.injEq] at h
    subst h
    exact ⟨[], by simp, rfl⟩
  | some p => exact (hp p rfl).get_auth_data _ _ _ _ _ _ _ _ _ h

theorem call_handle_server_response_switch
    (auth_plugin : Option st_mysqlnd_authentication_plugin)
    (hp : ∀ p, auth_plugin = some p → SwitchFromWire p)
    (conn : MYSQLND_CONN_DATA) (salt : List Nat) (salt_len : Nat)
    (user passwd : List Nat) (passwd_len : Nat) (r : ServerResponse)
    (h : call_handle_server_response auth_plugin conn salt salt_len user passwd passwd_len
      = some r) :
    ∃ evs, r.conn.trace = conn.trace ++ evs ∧
      (match r.new_auth_protocol with
       | some n => last_switch evs = some (n, r.new_auth_protocol_data) ∧
                   r.ret = enum_func_status.FAIL
       | none => last_switch evs = none) := by
  cases auth_plugin with
  | none =>
    simp only [call_handle_server_response, Option.some.injEq] at h
    subst h
    exact ⟨[], by simp, rfl⟩
  | some p =>
    cases hh : p.handle_server_response with
    | none =>
      simp only [call_handle_server_response, hh, Option.some.injEq] at h
      subst h
      exact ⟨[], by simp, rfl⟩
    | some f =>
      simp only [call_handle_server_response, hh] at h
      exact (hp p rfl).handle_server_response f hh _ _ _ _ _ _ _ h

/-- The switch one exchange stores is the last auth switch request among its events. -/
theorem exchange_shape_switch (auth_plugin : Option st_mysqlnd_authentication_plugin)
    (hp : ∀ p, auth_plugin = some p → SwitchFromWire p)
    (w : ClientPacket) (salt : List Nat) (salt_len : Nat)
    (user passwd : List Nat) (passwd_len : Nat) (conn : MYSQLND_CONN_DATA) (x : AuthExchange)
    (h : ExchangeShape auth_plugin w salt salt_len user passwd passwd_len conn x) :
    ∃ evs, x.conn.trace = conn.trace ++ evs ∧
      (match x.switch_to_auth_protocol with
       | some n => last_switch evs = some (n, x.switch_to_auth_protocol_data) ∧
                   x.ret = enum_func_status.FAIL
       | none => last_switch evs = none) := by
  cases h with
  | write_failed ht _ hs =>
    refine ⟨_, ht, ?_⟩
    rw [hs]
    rfl
  | handler_failed c0 r hc hr _ hx =>
    obtain ⟨hevs, hrt, hsw⟩ := call_handle_server_response_switch auth_plugin hp _ _ _ _ _ _ _ hr
    subst hx
    refine ⟨WireEvent.wrote w true :: hevs, by simp only []; rw [hrt, hc]; simp, ?_⟩
    have hl : last_switch (WireEvent.wrote w true :: hevs) = last_switch hevs := by
      simp only [last_switch, switch_of]
      cases last_switch hevs <;> rfl
    simp only []
    rw [hl]
    cases hn : r.new_auth_protocol with
    | none =>
      rw [hn] at hsw
      exact hsw
    | some n =>
      rw [hn] at hsw
      exact ⟨hsw.1, trivial⟩
  | response_read c0 r k pkt tail hc hr hpass hf =>
    obtain ⟨hevs, hrt, hsw⟩ := call_handle_server_response_switch auth_plugin hp _ _ _ _ _ _ _ hr
    have hrn : r.new_auth_protocol = none := by
      cases hn : r.new_auth_protocol with
      | none => rfl
      | some n =>
        rw [hn] at hsw
        rw [hsw.2] at hpass
        cases hpass
    rw [hrn] at hsw
    simp only [] at hsw
    have htail : last_switch tail = none :=
      last_switch_none_of tail (fun e he => (hf.tail_internal e he).2)
    have hl : last_switch (WireEvent.wrote w true :: (hevs ++ WireEvent.read k pkt :: tail))
        = switch_of (WireEvent.read k pkt) := by
      have h1 : last_switch (WireEvent.read k pkt :: tail) = switch_of (WireEvent.read k pkt) := by
        simp only [last_switch, htail]
      have h2 : last_switch (hevs ++ WireEvent.read k pkt :: tail)
          = switch_of (WireEvent.read k pkt) := by
        rw [last_switch_append, h1, hsw]
        cases switch_of (WireEvent.read k pkt) <;> rfl
      simp only [last_switch, h2]
      cases switch_of (WireEvent.read k pkt) <;> rfl
    refine ⟨WireEvent.wrote w true :: (hevs ++ WireEvent.read k pkt :: tail),
      by rw [hf.trace, hrt, hc]; simp, ?_⟩
    rw [hl, switch_of_engine_read k pkt hf.kind]
    by_cases hfe : pkt.response_code = 0xFE
    · cases hn : pkt.new_auth_protocol with
      | none =>
        have hk := hf.keep (by rw [hn]; simp)
        rw [hk.1, hrn]
        simp [hfe]
      | some n =>
        obtain ⟨h1, h2⟩ := hf.switch n hfe hn
        rw [h1, h2]
        simp [hfe, (hf.switch_fails hfe).1]
    · have hk := hf.keep (by simp [hfe])
      rw [hk.1, hrn]
      simp [hfe]

/-- The switch one pass through the loop body leaves is the last auth switch request
among its events; a pass that leaves through `goto end` reads none. -/
theorem run_authentication_body_switch (env : AuthEnv)
    (henv : ∀ name p, env.fetch_auth_plugin_by_name name = some p → SwitchFromWire p)
    (a : AuthArgs) (st : AuthLoop) (b : Bool) (st1 : AuthLoop)
    (hb : run_authentication_body env a st = some (b, st1)) :
    ∃ evs, st1.conn.trace = st.conn.trace ++ evs ∧
      (b = true → last_switch evs = none) ∧
      (b = false →
        match st1.switch_to_auth_protocol with
        | some n => last_switch evs = some (n, st1.plugin_data) ∧
                    st1.ret = enum_func_status.FAIL
        | none => last_switch evs = none) := by
  have hs := run_authentication_body_shape env a st b st1 hb
  cases hs with
  | unknown _ _ hbt hst =>
    subst hst; subst hbt
    refine ⟨[], by simp, fun _ => rfl, ?_⟩
    intro h
    cases h
  | error sd hsd _ hbt hst =>
    obtain ⟨g, hg, hgs⟩ := call_get_auth_data_switch _ (henv _) _ _ _ _ _ _ _ _ _ hsd
    subst hst; subst hbt
    refine ⟨g, hg, fun _ => hgs, ?_⟩
    intro h
    cases h
  | exchange sd w x _ hsd _ _ hx hbf hst =>
    obtain ⟨g, hg, hgs⟩ := call_get_auth_data_switch _ (henv _) _ _ _ _ _ _ _ _ _ hsd
    obtain ⟨evs, ht, hsw⟩ := exchange_shape_switch _ (henv _) _ _ _ _ _ _ _ _ hx
    subst hst; subst hbf
    refine ⟨g ++ evs, ?_, ?_, ?_⟩
    · simp only []
      rw [ht, hg, List.append_assoc]
    · intro h
      cases h
    intro _
    simp only []
    rw [last_switch_append, hgs]
    cases hn : x.switch_to_auth_protocol with
    | none =>
      rw [hn] at hsw
      simp only [] at hsw ⊢
      rw [hsw]
    | some n =>
      rw [hn] at hsw
      simp only [] at hsw ⊢
      rw [hsw.1]
      exact ⟨rfl, hsw.2⟩

theorem run_authentication_loop_registered (env : AuthEnv) (a : AuthArgs) (fuel : Nat)
    (st st1 : AuthLoop) (h : run_authentication_loop env a fuel st = some (false, st1))
    (hfirst : st.first_call = false) :
    env.fetch_auth_plugin_by_name st.requested_protocol ≠ none := by
  intro hn
  cases fuel with
  | zero => simp [run_authentication_loop] at h
  | succ fuel =>
    unfold run_authentication_loop run_authentication_body at h
    simp [hn, hfirst] at h

theorem run_authentication_loop_goto_end (env : AuthEnv) (a : AuthArgs) (fuel : Nat)
    (st st1 : AuthLoop) (h : run_authentication_loop env a fuel st = some (true, st1))
    (hret : st.ret = enum_func_status.FAIL) : st1.ret = enum_func_status.FAIL := by
  induction fuel generalizing st with
  | zero => simp [run_authentication_loop] at h
  | succ fuel ih =>
    unfold run_authentication_loop at h
    split at h
    · cases h
    · rename_i st2 hbody
      simp only [Option.some.injEq, Prod.mk.injEq, true_and] at h
      subst h
      have hs := run_authentication_body_shape env a st true st2 hbody
      cases hs with
      | unknown _ _ _ hst => subst hst; exact hret
      | error sd _ _ _ hst => subst hst; exact hret
      | exchange sd w x _ _ _ _ _ hb _ => cases hb
    · rename_i st2 hbody
      split at h
      · rename_i hc
        exact ih st2 h hc.1
      · simp at h

/-- When the loop is left with `PASS`, `requested_protocol` is the name of the last auth
switch request read since the loop head, or, when none was read, the name the
first pass worked under. -/
theorem run_authentication_loop_protocol (env : AuthEnv)
    (henv : ∀ name p, env.fetch_auth_plugin_by_name name = some p → SwitchFromWire p)
    (a : AuthArgs) (fuel : Nat) (st st1 : AuthLoop)
    (h : run_authentication_loop env a fuel st = some (false, st1))
    (hpass : st1.ret = enum_func_status.PASS) :
    ∃ evs, st1.conn.trace = st.conn.trace ++ evs ∧
      st1.requested_protocol =
        (match last_switch evs with
         | some s => s.1
         | none => used_protocol env st.requested_protocol) := by
  induction fuel generalizing st with
  | zero => simp [run_authentication_loop] at h
  | succ fuel ih =>
    unfold run_authentication_loop at h
    split at h
    · cases h
    · simp at h
    · rename_i st2 hbody
      obtain ⟨evs1, ht1, _, hsw⟩ := run_authentication_body_switch env henv a st false st2 hbody
      have hsw := hsw rfl
      obtain ⟨hfc, hname⟩ := run_authentication_body_next env a st st2 hbody
      split at h
      · rename_i hc
        obtain ⟨evs2, ht2, hreq⟩ := ih st2 h
        have hreg := run_authentication_loop_registered env a fuel st2 st1 h hfc
        refine ⟨evs1 ++ evs2, by rw [ht2, ht1, List.append_assoc], ?_⟩
        rw [hreq, last_switch_append]
        cases hl2 : last_switch evs2 with
        | some s => rfl
        | none =>
          simp only []
          cases hn : st2.switch_to_auth_protocol with
          | none => exact absurd hn hc.2.2
          | some n =>
            rw [hn] at hsw hname
            simp only [] at hsw hname
            rw [hsw.1]
            simp only []
            rw [used_protocol, hname]
            rw [hname] at hreg
            cases hf : env.fetch_auth_plugin_by_name n with
            | none => exact absurd hf hreg
            | some p => simp
      · simp only [Option.some.injEq, Prod.mk.injEq, true_and] at h
        subst h
        refine ⟨evs1, ht1, ?_⟩
        cases hn : st2.switch_to_auth_protocol with
        | none =>
          rw [hn] at hsw hname
          simp only [] at hsw hname
          rw [hsw]
          exact hname
        | some n =>
          rw [hn] at hsw
          simp only [] at hsw
          rw [hsw.2] at hpass
          cases hpass

/-! ### The mechanisms of the source file store only the switch they read -/

theorem QuietExtension.refl (c : MYSQLND_CONN_DATA) : QuietExtension c c :=
  ⟨[], by simp, by simp⟩

theorem QuietExtension.of_trace_eq (c c1 : MYSQLND_CONN_DATA) (h : c1.trace = c.trace) :
    QuietExtension c c1 :=
  ⟨[], by simp [h], by simp⟩

theorem QuietExtension.trans (c c1 c2 : MYSQLND_CONN_DATA) (h1 : QuietExtension c c1)
    (h2 : QuietExtension c1 c2) : QuietExtension c c2 := by
  obtain ⟨e1, ht1, hq1⟩ := h1
  obtain ⟨e2, ht2, hq2⟩ := h2
  refine ⟨e1 ++ e2, by rw [ht2, ht1, List.append_assoc], ?_⟩
  intro e he
  rcases List.mem_append.mp he with he | he
  · exact hq1 e he
  · exact hq2 e he

theorem QuietExtension.last_switch (c c1 : MYSQLND_CONN_DATA) (h : QuietExtension c c1) :
    ∃ evs, c1.trace = c.trace ++ evs ∧ last_switch evs = none := by
  obtain ⟨evs, ht, hq⟩ := h
  exact ⟨evs, ht, last_switch_none_of evs (fun e he => (hq e he).2)⟩

theorem QuietExtension.internal (c c1 : MYSQLND_CONN_DATA) (h : QuietExtension c c1) :
    ∃ evs, c1.trace = c.trace ++ evs ∧ ∀ e ∈ evs, mechanism_internal e = true := by
  obtain ⟨evs, ht, hq⟩ := h
  exact ⟨evs, ht, fun e he => (hq e he).1⟩

theorem quiet_SET_CLIENT_ERROR (c : MYSQLND_CONN_DATA) (n : Nat) (s e : String) :
    QuietExtension c (SET_CLIENT_ERROR c n s e) :=
  QuietExtension.of_trace_eq _ _ (by simp)

theorem quiet_PACKET_WRITE (c : MYSQLND_CONN_DATA) (p : ClientPacket)
    (hp : is_auth_packet p = false) : QuietExtension c (PACKET_WRITE c p).2 :=
  ⟨[WireEvent.wrote p (PACKET_WRITE c p).1], PACKET_WRITE_trace c p, by
    intro e he
    rw [List.mem_singleton.mp he]
    simp [mechanism_internal, switch_of, hp]⟩

theorem quiet_PACKET_READ (c : MYSQLND_CONN_DATA) (k : PacketKind)
    (hk : k = PacketKind.sha256_pk_request_response ∨ k = PacketKind.sasl_pk_request_response) :
    QuietExtension c (PACKET_READ c k).2.2 :=
  ⟨[WireEvent.read k (PACKET_READ c k).2.1], PACKET_READ_trace c k, by
    intro e he
    rw [List.mem_singleton.mp he]
    rcases hk with hk | hk <;> subst hk <;> simp [mechanism_internal, switch_of]⟩

theorem quiet_request_server_public_key (env : CryptoEnv) (c : MYSQLND_CONN_DATA)
    (req : ClientPacket) (hp : is_auth_packet req = false) :
    QuietExtension c (request_server_public_key env c req).2 := by
  unfold request_server_public_key
  simp only []
  split
  · exact (quiet_PACKET_WRITE c req hp).trans _ _ _ (QuietExtension.of_trace_eq _ _ rfl)
  · split
    · exact ((quiet_PACKET_WRITE c req hp).trans _ _ _
        (quiet_PACKET_READ _ _ (Or.inl rfl))).trans _ _ _ (QuietExtension.of_trace_eq _ _ rfl)
    · exact (quiet_PACKET_WRITE c req hp).trans _ _ _ (quiet_PACKET_READ _ _ (Or.inl rfl))

theorem quiet_caching_sha2_get_key (env : CryptoEnv) (c : MYSQLND_CONN_DATA) :
    QuietExtension c (mysqlnd_caching_sha2_get_key env c).2 := by
  unfold mysqlnd_caching_sha2_get_key
  split
  · exact quiet_request_server_public_key env c _ rfl
  · split
    · exact quiet_request_server_public_key env c _ rfl
    · exact QuietExtension.refl c

theorem quiet_sha256_get_rsa_key (env : CryptoEnv) (c : MYSQLND_CONN_DATA) :
    QuietExtension c (mysqlnd_sha256_get_rsa_key env c).2 := by
  unfold mysqlnd_sha256_get_rsa_key
  split
  · exact quiet_request_server_public_key env c _ rfl
  · split
    · exact quiet_request_server_public_key env c _ rfl
    · exact QuietExtension.refl c

theorem quiet_sha256_auth_get_auth_data (env : CryptoEnv) (c : MYSQLND_CONN_DATA)
    (passwd : List Nat) (passwd_len : Nat) (salt : List Nat) (salt_len : Nat) (r : AuthData)
    (h : mysqlnd_sha256_auth_get_auth_data env c passwd passwd_len salt salt_len = some r) :
    QuietExtension c r.conn := by
  unfold mysqlnd_sha256_auth_get_auth_data at h
  split at h
  · simp only [Option.some.injEq] at h; subst h; exact QuietExtension.refl c
  · simp only [] at h
    split at h
    · split at h
      · cases h
      · simp only [Option.some.injEq] at h; subst h
        unfold mysqlnd_sha256_public_encrypt
        simp only []
        split
        · exact (quiet_sha256_get_rsa_key env c).trans _ _ _ (quiet_SET_CLIENT_ERROR _ _ _ _)
        · exact quiet_sha256_get_rsa_key env c
    · simp only [Option.some.injEq] at h; subst h
      exact quiet_sha256_get_rsa_key env c

theorem quiet_caching_sha2_get_and_use_key (env : CryptoEnv)
    (c : MYSQLND_CONN_DATA) (salt : List Nat) (salt_len : Nat) (crypted : Option (List Nat))
    (passwd : List Nat) (passwd_len : Nat) (u : CryptedPassword)
    (h : mysqlnd_caching_sha2_get_and_use_key env c salt salt_len crypted passwd passwd_len
      = some u) :
    QuietExtension c u.conn := by
  unfold mysqlnd_caching_sha2_get_and_use_key at h
  simp only [] at h
  split at h
  · split at h
    · cases h
    · simp only [Option.some.injEq] at h
      subst h
      unfold mysqlnd_caching_sha2_public_encrypt
      simp only []
      split
      · exact (quiet_caching_sha2_get_key env c).trans _ _ _ (quiet_SET_CLIENT_ERROR _ _ _ _)
      · exact quiet_caching_sha2_get_key env c
  · simp only [Option.some.injEq] at h
    subst h
    exact quiet_caching_sha2_get_key env c

theorem switch_of_failed_read (c : MYSQLND_CONN_DATA)
    (h : (PACKET_READ c PacketKind.cached_sha2_result).1 = enum_func_status.FAIL) :
    switch_of (WireEvent.read PacketKind.cached_sha2_result
      (PACKET_READ c PacketKind.cached_sha2_result).2.1) = none := by
  unfold PACKET_READ at h ⊢
  split at h
  · rename_i hin
    simp only [hin]
    rfl
  · rename_i p rest hin
    simp only [hin] at h ⊢
    simp [switch_of, h]

theorem switch_of_cached_read (pkt : ServerPacket) (h : pkt.response_code ≠ 0xFE) :
    switch_of (WireEvent.read PacketKind.cached_sha2_result pkt) = none := by
  simp [switch_of, h]

theorem PACKET_READ_status (c : MYSQLND_CONN_DATA) (k : PacketKind)
    (h : (PACKET_READ c k).1 ≠ enum_func_status.FAIL) :
    (PACKET_READ c k).2.1.status ≠ enum_func_status.FAIL := by
  unfold PACKET_READ at h ⊢
  split
  · rename_i hin
    simp [hin] at h
  · rename_i p rest hin
    simpa [hin] using h

theorem last_switch_append_quiet (e : WireEvent) (evs : List WireEvent)
    (h : ∀ x ∈ evs, switch_of x = none) : last_switch (e :: evs) = switch_of e := by
  simp [last_switch, last_switch_none_of evs h]

/-- The record after the handler of `caching_sha2_password`: one read of a
`cached_sha2_result` packet and then events that carry no auth switch request, or
nothing at all. -/
theorem caching_sha2_handler_switch (env : CryptoEnv)
    (c : MYSQLND_CONN_DATA) (salt : List Nat) (salt_len : Nat) (user passwd : List Nat)
    (passwd_len : Nat) (r : ServerResponse)
    (h : mysqlnd_caching_sha2_handle_server_response env c salt salt_len user passwd passwd_len
      = some r) :
    ∃ evs, r.conn.trace = c.trace ++ evs ∧
      (match r.new_auth_protocol with
       | some n => last_switch evs = some (n, r.new_auth_protocol_data) ∧
                   r.ret = enum_func_status.FAIL
       | none => last_switch evs = none) := by
  unfold mysqlnd_caching_sha2_handle_server_response at h
  have key : ∀ c1 : MYSQLND_CONN_DATA,
      QuietExtension (PACKET_READ c PacketKind.cached_sha2_result).2.2 c1 →
      switch_of (WireEvent.read PacketKind.cached_sha2_result
        (PACKET_READ c PacketKind.cached_sha2_result).2.1) = none →
      ∃ evs, c1.trace = c.trace ++ evs ∧ last_switch evs = none := by
    intro c1 hq hs
    obtain ⟨evs, ht, hevs⟩ := hq
    refine ⟨WireEvent.read PacketKind.cached_sha2_result
      (PACKET_READ c PacketKind.cached_sha2_result).2.1 :: evs, ?_, ?_⟩
    · rw [ht, PACKET_READ_trace, List.append_assoc]; rfl
    · rw [last_switch_append_quiet _ _ (fun x hx => (hevs x hx).2)]; exact hs
  split at h
  · simp only [Option.some.injEq] at h; subst h
    exact ⟨[], by simp, rfl⟩
  · simp only [] at h
    split at h
    · rename_i hfail
      simp only [Option.some.injEq] at h; subst h
      exact key _ (QuietExtension.refl _) (switch_of_failed_read c hfail)
    · rename_i hok
      split at h
      · rename_i hff
        simp only [Option.some.injEq] at h; subst h
        refine key _ ?_ (switch_of_cached_read _ (by rw [hff]; decide))
        refine QuietExtension.trans _ _ _ ?_ (quiet_SET_CLIENT_ERROR _ _ _ _)
        split
        · exact QuietExtension.of_trace_eq _ _ rfl
        · exact QuietExtension.refl _
      · split at h
        · rename_i hfe
          simp only [Option.some.injEq] at h; subst h
          refine ⟨[WireEvent.read PacketKind.cached_sha2_result
            (PACKET_READ c PacketKind.cached_sha2_result).2.1], PACKET_READ_trace _ _, ?_⟩
          have hst := PACKET_READ_status c PacketKind.cached_sha2_result hok
          simp only []
          cases hn : (PACKET_READ c PacketKind.cached_sha2_result).2.1.new_auth_protocol with
          | none => simp [last_switch, switch_of, hn]
          | some n =>
            simp only [last_switch, switch_of, hn, hfe, hst]
            cases (PACKET_READ c PacketKind.cached_sha2_result).2.1.new_auth_protocol_data <;>
              simp [hst]
        · rename_i hfe
          have hs := switch_of_cached_read _ hfe
          split at h
          · simp only [Option.some.injEq] at h; subst h
            exact key _ (QuietExtension.refl _) hs
          · split at h
            · split at h
              · simp only [Option.some.injEq] at h; subst h
                exact key _ (quiet_PACKET_WRITE _ _ rfl) hs
              · split at h
                · cases h
                · rename_i u hu
                  simp only [Option.some.injEq] at h; subst h
                  exact key _ ((quiet_caching_sha2_get_and_use_key env _ _ _ _ _ _ u hu).trans
                    _ _ _ (quiet_PACKET_WRITE _ _ rfl)) hs
            · simp only [Option.some.injEq] at h; subst h
              exact key _ (QuietExtension.refl _) hs

theorem quiet_sasl_comm_read (w : MYSQLND_CONN_DATA) (response : List Nat) :
    QuietExtension w
      (match (PACKET_READ w PacketKind.sasl_pk_request_response).2.1.data with
       | some data =>
         if (PACKET_READ w PacketKind.sasl_pk_request_response).1 = enum_func_status.FAIL then
           ({ rc := SASL_FAIL, response := response,
              conn := SET_CONNECTION_STATE
                (PACKET_READ w PacketKind.sasl_pk_request_response).2.2
                mysqlnd_connection_state.CONN_QUIT_SENT } : SaslComm)
         else { rc := (data.length : Int), response := data,
                conn := (PACKET_READ w PacketKind.sasl_pk_request_response).2.2 }
       | none =>
         { rc := SASL_FAIL, response := response,
           conn := SET_CONNECTION_STATE (PACKET_READ w PacketKind.sasl_pk_request_response).2.2
             mysqlnd_connection_state.CONN_QUIT_SENT }).conn := by
  have hrd := quiet_PACKET_READ w PacketKind.sasl_pk_request_response (Or.inr rfl)
  split
  · split
    · exact hrd.trans _ _ _ (QuietExtension.of_trace_eq _ _ rfl)
    · exact hrd
  · exact hrd.trans _ _ _ (QuietExtension.of_trace_eq _ _ rfl)

theorem quiet_sasl_server_comm (c : MYSQLND_CONN_DATA)
    (request : Option (List Nat)) (request_len : Nat) (response : List Nat)
    (response_len : Nat) (only_resp : Bool) :
    QuietExtension c (sasl_server_comm c request request_len response response_len
      only_resp).conn := by
  unfold sasl_server_comm
  cases only_resp with
  | true =>
    simp only [Bool.true_eq_false, if_false]
    exact quiet_sasl_comm_read c response
  | false =>
    simp only [if_true]
    split
    · exact (quiet_PACKET_WRITE c (ClientPacket.sasl_pk_request request request_len) rfl).trans
        _ _ _ (QuietExtension.of_trace_eq _ _ rfl)
    · exact (quiet_PACKET_WRITE c (ClientPacket.sasl_pk_request request request_len) rfl).trans
        _ _ _ (quiet_sasl_comm_read _ response)

theorem quiet_sasl_auth_exchange_loop (sasl : SaslEnv) (user passwd : List Nat)
    (fuel_step : Nat) :
    ∀ (fuel : Nat) (second_step : Bool) (out : Option (List Nat)) (out_len : Nat)
      (server_packet : List Nat) (pkt_len rc_sasl : Int) (c : MYSQLND_CONN_DATA)
      (connection : sasl_conn_t) (x : SaslExchange),
      sasl_auth_exchange_loop sasl user passwd fuel_step fuel second_step out out_len
        server_packet pkt_len rc_sasl c connection = SaslOutcome.returned x →
      QuietExtension c x.conn := by
  intro fuel
  induction fuel with
  | zero =>
    intro second_step out out_len server_packet pkt_len rc_sasl c connection x h
    simp [sasl_auth_exchange_loop] at h
  | succ n ih =>
    intro second_step out out_len server_packet pkt_len rc_sasl c connection x h
    rw [sasl_auth_exchange_loop] at h
    have hc : QuietExtension c
        (if second_step = false ∧ out_len > 0 then
          sasl_server_comm c out out_len server_packet SASL_MAX_PKT_SIZE false
         else { rc := pkt_len, response := server_packet, conn := c }).conn := by
      split
      · exact quiet_sasl_server_comm _ _ _ _ _ _
      · exact QuietExtension.refl c
    simp only [] at h
    generalize (if second_step = false ∧ out_len > 0 then
          sasl_server_comm c out out_len server_packet SASL_MAX_PKT_SIZE false
         else { rc := pkt_len, response := server_packet, conn := c }) = cc at h hc
    split at h
    · cases h
    · split at h
      · split at h
        · cases h
        · split at h
          · have h2 := ih _ _ _ _ _ _ _ _ _ h
            exact hc.trans _ _ _ (QuietExtension.trans _ _ _
              (QuietExtension.of_trace_eq _ _ rfl) h2)
          · simp only [SaslOutcome.returned.injEq] at h
            subst h
            exact hc.trans _ _ _ (QuietExtension.of_trace_eq _ _ rfl)
      · split at h
        · exact hc.trans _ _ _ (ih _ _ _ _ _ _ _ _ _ h)
        · simp only [SaslOutcome.returned.injEq] at h
          subst h
          exact hc

theorem quiet_ldap_sasl_handler (sasl : SaslEnv) (fuel : Nat)
    (c : MYSQLND_CONN_DATA) (salt : List Nat) (salt_len : Nat) (user passwd : List Nat)
    (passwd_len : Nat) (r : ServerResponse)
    (h : (mysqlnd_ldap_sasl__handle_server_response sasl fuel c salt salt_len user passwd
      passwd_len).result = some r) :
    QuietExtension c r.conn ∧ r.new_auth_protocol = none := by
  unfold mysqlnd_ldap_sasl__handle_server_response at h
  have hc := quiet_sasl_server_comm c none 0 [] SASL_MAX_PKT_SIZE true
  simp only [] at h
  split at h
  · split at h
    · rename_i x hx
      simp only [SaslOutcome.result, Option.some.injEq] at h
      subst h
      unfold sasl_auth_exchange at hx
      have hx2 : QuietExtension (sasl_server_comm c none 0 [] SASL_MAX_PKT_SIZE true).conn
          x.conn := by
        simp only [if_true] at hx
        split at hx
        · cases hx
        · exact quiet_sasl_auth_exchange_loop _ _ _ _ _ _ _ _ _ _ _ _ _ x hx
      exact ⟨(hc.trans _ _ _ hx2).trans _ _ _ (QuietExtension.of_trace_eq _ _ rfl), rfl⟩
    · simp [SaslOutcome.result] at h
    · simp [SaslOutcome.result] at h
  · simp only [SaslOutcome.result, Option.some.injEq] at h
    subst h
    exact ⟨hc, rfl⟩

theorem ldap_sasl_get_auth_data_trace (sasl : SaslEnv) (fuel : Nat)
    (salt_after conn_salt_after : List Nat) (c : MYSQLND_CONN_DATA) (user passwd : List Nat)
    (passwd_len : Nat) (salt : List Nat) (salt_len : Nat) (r : AuthData)
    (h : (mysqlnd_ldap_sasl__get_auth_data sasl fuel salt_after conn_salt_after c user passwd
      passwd_len salt salt_len).result = some r) :
    r.conn.trace = c.trace := by
  unfold mysqlnd_ldap_sasl__get_auth_data at h
  split at h
  · simp [SaslOutcome.result] at h
  · split at h <;> simp [SaslOutcome.result] at h
  · simp only [] at h
    split at h
    · simp [SaslOutcome.result] at h
    · split at h
      · simp [SaslOutcome.result] at h
      · split at h
        · simp [SaslOutcome.result] at h
        · split at h
          · simp [SaslOutcome.result] at h
          · split at h
            · simp [SaslOutcome.result] at h
            · simp only [SaslOutcome.result, Option.some.injEq] at h
              subst h
              rfl

/-- Every mechanism of the source file satisfies `SwitchFromWire`: its `get_auth_data`
reads no auth switch request, and what its `handle_server_response` stores is the last
auth switch request it read. -/
theorem source_mechanism_switch (p : st_mysqlnd_authentication_plugin)
    (hp : SourceMechanism p) : SwitchFromWire p := by
  cases hp with
  | native SHA1 =>
    constructor
    · intro conn user passwd passwd_len salt salt_len so fl r hr
      simp only [mysqlnd_native_auth_plugin, Option.some.injEq] at hr
      subst hr
      exact ⟨[], by simp [mysqlnd_native_auth_get_auth_data_trace], rfl⟩
    · intro f hf
      simp [mysqlnd_native_auth_plugin] at hf
  | pam =>
    constructor
    · intro conn user passwd passwd_len salt salt_len so fl r hr
      simp only [mysqlnd_pam_authentication_plugin, Option.some.injEq] at hr
      subst hr
      exact ⟨[], by simp [mysqlnd_pam_auth_get_auth_data], rfl⟩
    · intro f hf
      simp [mysqlnd_pam_authentication_plugin] at hf
  | ldap_sasl sasl fuel salt_after conn_salt_after =>
    constructor
    · intro conn user passwd passwd_len salt salt_len so fl r hr
      simp only [mysqlnd_ldap_sasl_auth_plugin] at hr
      exact ⟨[], by simp [ldap_sasl_get_auth_data_trace _ _ _ _ _ _ _ _ _ _ r hr], rfl⟩
    · intro f hf conn salt salt_len user passwd passwd_len r hr
      simp only [mysqlnd_ldap_sasl_auth_plugin, Option.some.injEq] at hf
      subst hf
      obtain ⟨hq, hn⟩ := quiet_ldap_sasl_handler sasl fuel conn salt salt_len user passwd
        passwd_len r hr
      obtain ⟨evs, ht, hl⟩ := hq.last_switch
      exact ⟨evs, ht, by rw [hn]; exact hl⟩
  | caching_sha2 SHA256 env =>
    constructor
    · intro conn user passwd passwd_len salt salt_len so fl r hr
      simp only [mysqlnd_caching_sha2_auth_plugin, Option.some.injEq] at hr
      subst hr
      refine ⟨[], ?_, rfl⟩
      unfold mysqlnd_caching_sha2_get_auth_data
      split
      · simp
      · split <;> simp
    · intro f hf conn salt salt_len user passwd passwd_len r hr
      simp only [mysqlnd_caching_sha2_auth_plugin, Option.some.injEq] at hf
      subst hf
      exact caching_sha2_handler_switch env conn salt salt_len user passwd passwd_len r hr
  | sha256 env =>
    constructor
    · intro conn user passwd passwd_len salt salt_len so fl r hr
      simp only [mysqlnd_sha256_authentication_plugin] at hr
      exact (quiet_sha256_auth_get_auth_data env conn passwd passwd_len salt salt_len r
        hr).last_switch
    · intro f hf
      simp [mysqlnd_sha256_authentication_plugin] at hf

/-- C5, amended. Under a registry of mechanisms of the source file, for every call of
`mysqlnd_run_authentication` that returns PASS: the auth-protocol name recorded on the
connection is the plugin name of the last auth switch request read during the call;
when none was read it is the name the first pass worked under, which is the initially
requested name (the default name when none was given) if that name is registered and
`mysql_native_password` if it is not. -/
theorem recorded_protocol (env : AuthEnv)
    (henv : ∀ name p, env.fetch_auth_plugin_by_name name = some p → SourceMechanism p)
    (a : AuthArgs) (fuel : Nat) (conn : MYSQLND_CONN_DATA) (salt : List Nat)
    (auth_protocol : Option String) (conn1 : MYSQLND_CONN_DATA)
    (hrun : mysqlnd_run_authentication env fuel conn a salt auth_protocol
      = some (enum_func_status.PASS, conn1)) :
    ∃ evs, conn1.trace = conn.trace ++ evs ∧
      conn1.auth_protocol = some
        (match last_switch evs with
         | some s => s.1
         | none =>
           used_protocol env
             (run_authentication_entry conn salt auth_protocol).requested_protocol) := by
  have hsw : ∀ name p, env.fetch_auth_plugin_by_name name = some p → SwitchFromWire p :=
    fun name p h => source_mechanism_switch p (henv name p h)
  unfold mysqlnd_run_authentication run_authentication_from at hrun
  split at hrun
  · cases hrun
  · rename_i b st1 hloop
    split at hrun
    · rename_i hc
      simp only [Option.some.injEq, Prod.mk.injEq] at hrun
      obtain ⟨_, hconn⟩ := hrun
      have hb : b = false := hc.1
      subst hb
      obtain ⟨evs, ht, hreq⟩ :=
        run_authentication_loop_protocol env hsw a fuel _ st1 hloop hc.2
      subst hconn
      refine ⟨evs, by simpa [set_client_option_auth_protocol, run_authentication_entry] using ht, ?_⟩
      simp only [set_client_option_auth_protocol]
      exact congrArg some hreq
    · rename_i hc
      simp only [Option.some.injEq, Prod.mk.injEq] at hrun
      obtain ⟨hret, _⟩ := hrun
      cases b with
      | false => exact absurd ⟨rfl, hret⟩ hc
      | true =>
        have := run_authentication_loop_goto_end env a fuel _ st1 hloop rfl
        rw [hret] at this
        cases this

theorem call_handle_server_response_agree (salt : List Nat)
    (p q : st_mysqlnd_authentication_plugin) (h : plugins_agree_at salt p q)
    (conn : MYSQLND_CONN_DATA) (user passwd : List Nat) (passwd_len : Nat) :
    call_handle_server_response (some p) conn salt salt.length user passwd passwd_len
      = call_handle_server_response (some q) conn salt salt.length user passwd passwd_len := by
  have h2 := h.2
  simp only [call_handle_server_response]
  cases hp : p.handle_server_response <;> cases hq : q.handle_server_response <;>
    rw [hp, hq] at h2 <;> simp only [] at h2 ⊢
  · exact h2 conn user passwd passwd_len

theorem mysqlnd_auth_handshake_congr (env : AuthEnv)
    (fetch2 : String → Option st_mysqlnd_authentication_plugin)
    (conn : MYSQLND_CONN_DATA)
    (user passwd : List Nat) (passwd_len : Nat) (db : Option (List Nat)) (db_len : Nat)
    (so : MYSQLND_SESSION_OPTIONS) (mysql_flags server_charset_no : Nat)
    (use_full : Bool) (auth_protocol : String)
    (ap ap2 : Option st_mysqlnd_authentication_plugin)
    (salt : List Nat) (salt_len : Nat)
    (auth_data : Option (List Nat)) (auth_data_len : Nat)
    (h : ∀ c, call_handle_server_response ap c salt salt_len user passwd passwd_len
      = call_handle_server_response ap2 c salt salt_len user passwd passwd_len) :
    mysqlnd_auth_handshake { env with fetch_auth_plugin_by_name := fetch2 } conn user passwd
        passwd_len db db_len so mysql_flags server_charset_no use_full auth_protocol ap2 salt
        salt_len auth_data auth_data_len
      = mysqlnd_auth_handshake env conn user passwd passwd_len db db_len so mysql_flags
        server_charset_no use_full auth_protocol ap salt salt_len auth_data auth_data_len := by
  unfold mysqlnd_auth_handshake
  simp only [h]
  rfl

theorem mysqlnd_auth_change_user_congr (env : AuthEnv)
    (fetch2 : String → Option st_mysqlnd_authentication_plugin)
    (conn : MYSQLND_CONN_DATA)
    (user : List Nat) (user_len : Nat) (passwd : List Nat) (passwd_len : Nat)
    (db : Option (List Nat)) (db_len : Nat) (silent : Bool)
    (use_full : Bool) (auth_protocol : String)
    (ap ap2 : Option st_mysqlnd_authentication_plugin)
    (salt : List Nat) (salt_len : Nat)
    (auth_data : Option (List Nat)) (auth_data_len : Nat)
    (h : ∀ c, call_handle_server_response ap c salt salt_len user passwd passwd_len
      = call_handle_server_response ap2 c salt salt_len user passwd passwd_len) :
    mysqlnd_auth_change_user { env with fetch_auth_plugin_by_name := fetch2 } conn user
        user_len passwd passwd_len db db_len silent use_full auth_protocol ap2 salt salt_len
        auth_data auth_data_len
      = mysqlnd_auth_change_user env conn user user_len passwd passwd_len db db_len silent
        use_full auth_protocol ap salt salt_len auth_data auth_data_len := by
  unfold mysqlnd_auth_change_user
  simp only [h]
  rfl

/-- One pass through the loop body calls the mechanism's methods with the salt
`st.plugin_data` only (and `get_auth_data` on a connection that stores this salt):
it gives the same result for any two registries that behave alike at this salt. -/
theorem run_authentication_body_salt (env : AuthEnv) (a : AuthArgs) (st : AuthLoop)
    (fetch2 : String → Option st_mysqlnd_authentication_plugin)
    (h : registries_agree_at st.plugin_data env.fetch_auth_plugin_by_name fetch2) :
    run_authentication_body { env with fetch_auth_plugin_by_name := fetch2 } a st
      = run_authentication_body env a st := by
  have hn := h st.requested_protocol
  cases hp : env.fetch_auth_plugin_by_name st.requested_protocol with
  | none =>
    cases hq : fetch2 st.requested_protocol with
    | some q => rw [hp, hq] at hn; exact hn.elim
    | none =>
      unfold run_authentication_body
      simp only [hp, hq, Option.isNone_none, call_get_auth_data]
      rw [mysqlnd_auth_handshake_congr env fetch2 _ _ _ _ _ _ _ _ _ _ _ none none _ _ _ _
        (fun _ => rfl)]
      rw [mysqlnd_auth_change_user_congr env fetch2 _ _ _ _ _ _ _ _ _ _ none none _ _ _ _
        (fun _ => rfl)]
  | some p =>
    cases hq : fetch2 st.requested_protocol with
    | none => rw [hp, hq] at hn; exact hn.elim
    | some q =>
      rw [hp, hq] at hn
      simp only [] at hn
      have hg := hn.1 { st.conn with authentication_plugin_data := st.plugin_data } a.user
        a.passwd a.passwd_len a.session_options a.mysql_flags rfl
      unfold run_authentication_body
      simp only [hp, hq, Option.isNone_some, call_get_auth_data, hg]
      simp only [mysqlnd_auth_handshake_congr env fetch2 _ _ _ _ _ _ _ _ _ _ _ (some p) (some q)
        _ _ _ _ (fun c => call_handle_server_response_agree st.plugin_data p q hn c _ _ _),
        mysqlnd_auth_change_user_congr env fetch2 _ _ _ _ _ _ _ _ _ _ (some p) (some q)
        _ _ _ _ (fun c => call_handle_server_response_agree st.plugin_data p q hn c _ _ _)]

/-- C6. Under a registry of mechanisms of the source file: when a pass of the loop of
`mysqlnd_run_authentication` ends with an auth switch request naming `n`, that request
is the last one read during the pass, a packet with response code `0xFE` and plugin
name `n`, and the salt of the next pass is the salt this packet carries, the empty salt
when it carries none.  The next pass depends on the registered mechanisms only through
what their methods return at this salt (`get_auth_data` on a connection whose
`authentication_plugin_data` is this salt, `handle_server_response` with this salt):
replacing the registry by one that agrees with it there leaves the pass unchanged, so
the salt of the earlier pass is not handed to any method again. -/
theorem switch_salt_replaces (env : AuthEnv)
    (henv : ∀ name p, env.fetch_auth_plugin_by_name name = some p → SourceMechanism p)
    (a : AuthArgs) (st st1 : AuthLoop) (n : String)
    (hbody : run_authentication_body env a st = some (false, st1))
    (hswitch : st1.switch_to_auth_protocol = some n) :
    (∃ pre k pkt post,
      st1.conn.trace = st.conn.trace ++ pre ++ WireEvent.read k pkt :: post ∧
      pkt.response_code = 0xFE ∧ pkt.new_auth_protocol = some n ∧
      last_switch post = none ∧
      st1.plugin_data =
        (match pkt.new_auth_protocol_data with
         | some d => d
         | none => [])) ∧
    (∀ fetch2, registries_agree_at st1.plugin_data env.fetch_auth_plugin_by_name fetch2 →
      run_authentication_body { env with fetch_auth_plugin_by_name := fetch2 } a st1
        = run_authentication_body env a st1) := by
  refine ⟨?_, fun fetch2 h => run_authentication_body_salt env a st1 fetch2 h⟩
  obtain ⟨evs, ht, _, hsw⟩ := run_authentication_body_switch env
    (fun name p h => source_mechanism_switch p (henv name p h)) a st false st1 hbody
  have hsw := hsw rfl
  rw [hswitch] at hsw
  simp only [] at hsw
  obtain ⟨pre, e, post, he, hs, hpost⟩ := last_switch_some evs _ hsw.1
  obtain ⟨k, pkt, hek, hcode, hname, hdata⟩ := switch_of_some e n st1.plugin_data hs
  subst hek
  exact ⟨pre, k, pkt, post, by rw [ht, he, List.append_assoc], hcode, hname, hpost, hdata⟩

theorem all_mechanisms_env_source (name : String) (p : st_mysqlnd_authentication_plugin)
    (h : all_mechanisms_env.fetch_auth_plugin_by_name name = some p) : SourceMechanism p := by
  simp only [all_mechanisms_env] at h
  split at h
  · cases h; exact SourceMechanism.native _
  · split at h
    · cases h; exact SourceMechanism.pam
    · split at h
      · cases h; exact SourceMechanism.ldap_sasl _ _ _ _
      · split at h
        · cases h; exact SourceMechanism.caching_sha2 _ _
        · split at h
          · cases h; exact SourceMechanism.sha256 _
          · cases h

/-- Counterexample to C5 as stated: the mechanism `dialog` is requested, which the
registry of the five mechanisms of the source file does not hold; the server answers
OK and no auth switch request is read; the call returns PASS and the recorded name is
`mysql_native_password`, not the requested name. -/
theorem recorded_protocol_counterexample :
    all_mechanisms_env.fetch_auth_plugin_by_name "dialog" = none ∧
    (mysqlnd_run_authentication all_mechanisms_env 1 { incoming := [ok_packet] } {}
        (List.range 20) (some "dialog")).map
          (fun r => (r.1, r.2.auth_protocol, last_switch r.2.trace))
      = some (enum_func_status.PASS, some "mysql_native_password", none) :=
  ⟨rfl, by decide⟩

/-- The amended C5 at a concrete input: `caching_sha2_password` is requested, its
handler reads an auth switch request to `mysql_native_password`, and the server
answers the payload of that mechanism with OK. -/
theorem recorded_protocol_witness :
    ∃ evs,
      (run_authentication_result all_mechanisms_env 2
        { incoming := [switch_packet "mysql_native_password" (some (List.range 21)), ok_packet] }
        { passwd := [115], passwd_len := 1 } (List.range 20)
        (some "caching_sha2_password")).2.trace = [] ++ evs ∧
      (run_authentication_result all_mechanisms_env 2
        { incoming := [switch_packet "mysql_native_password" (some (List.range 21)), ok_packet] }
        { passwd := [115], passwd_len := 1 } (List.range 20)
        (some "caching_sha2_password")).2.auth_protocol = some
        (match last_switch evs with
         | some s => s.1
         | none =>
           used_protocol all_mechanisms_env
             (run_authentication_entry
               { incoming := [switch_packet "mysql_native_password" (some (List.range 21)),
                              ok_packet] }
               (List.range 20) (some "caching_sha2_password")).requested_protocol) :=
  recorded_protocol all_mechanisms_env all_mechanisms_env_source
    { passwd := [115], passwd_len := 1 } 2
    { incoming := [switch_packet "mysql_native_password" (some (List.range 21)), ok_packet] }
    (List.range 20) (some "caching_sha2_password") _ rfl

/-- C6 at a concrete input: `caching_sha2_password` is requested and its handler reads
a switch request to `mysql_native_password` that carries a salt of 21 bytes. -/
theorem switch_salt_replaces_witness :
    ∃ pre k pkt post,
      (loop_body_result all_mechanisms_env { passwd := [115], passwd_len := 1 }
        (run_authentication_entry
          { incoming := [switch_packet "mysql_native_password" (some (List.range 21))] }
          (List.range 20) (some "caching_sha2_password"))).conn.trace
        = [] ++ pre ++ WireEvent.read k pkt :: post ∧
      pkt.response_code = 0xFE ∧ pkt.new_auth_protocol = some "mysql_native_password" ∧
      last_switch post = none ∧
      (loop_body_result all_mechanisms_env { passwd := [115], passwd_len := 1 }
        (run_authentication_entry
          { incoming := [switch_packet "mysql_native_password" (some (List.range 21))] }
          (List.range 20) (some "caching_sha2_password"))).plugin_data =
        (match pkt.new_auth_protocol_data with
         | some d => d
         | none => []) :=
  (switch_salt_replaces all_mechanisms_env all_mechanisms_env_source
    { passwd := [115], passwd_len := 1 }
    (run_authentication_entry
      { incoming := [switch_packet "mysql_native_password" (some (List.range 21))] }
      (List.range 20) (some "caching_sha2_password"))
    (loop_body_result all_mechanisms_env { passwd := [115], passwd_len := 1 }
      (run_authentication_entry
        { incoming := [switch_packet "mysql_native_password" (some (List.range 21))] }
        (List.range 20) (some "caching_sha2_password")))
    "mysql_native_password" rfl rfl).1

/-! ### The XOR mask of the RSA based mechanisms -/

theorem xor_string_rounds_get (xor_str : List Nat) (n k i : Nat) (dst : List Nat)
    (j : Nat) :
    (xor_string_rounds xor_str n k i dst)[j]? =
      if i ≤ j ∧ j < i + k then dst[j]?.map (fun b => b ^^^ xor_str.getD (j % n) 0)
      else dst[j]? := by
  induction k generalizing i dst with
  | zero =>
    have : ¬ (i ≤ j ∧ j < i + 0) := by omega
    rw [xor_string_rounds, if_neg this]
  | succ k ih =>
    rw [xor_string_rounds, ih]
    by_cases hji : j = i
    · subst hji
      have h1 : ¬ (j + 1 ≤ j ∧ j < j + 1 + k) := by omega
      have h2 : j ≤ j ∧ j < j + (k + 1) := by omega
      rw [if_neg h1, if_pos h2, List.getElem?_set]
      by_cases hl : j < dst.length
      · simp [hl, List.getD_eq_getElem?_getD, List.getElem?_eq_getElem hl]
      · have : dst[j]? = none := List.getElem?_eq_none (by omega)
        simp [hl, this]
    · have hset : (dst.set i (dst.getD i 0 ^^^ xor_str.getD (i % n) 0))[j]? = dst[j]? := by
        rw [List.getElem?_set]
        simp [Ne.symm hji]
      rw [hset]
      by_cases hc : i + 1 ≤ j ∧ j < i + 1 + k
      · have : i ≤ j ∧ j < i + (k + 1) := by omega
        rw [if_pos hc, if_pos this]
      · have : ¬ (i ≤ j ∧ j < i + (k + 1)) := by omega
        rw [if_neg hc, if_neg this]

theorem xor_string_rounds_length (xor_str : List Nat) (n k i : Nat) (dst : List Nat) :
    (xor_string_rounds xor_str n k i dst).length = dst.length := by
  induction k generalizing i dst with
  | zero => rfl
  | succ k ih => rw [xor_string_rounds, ih, List.length_set]

theorem mysqlnd_xor_string_loop_ends (dst_len : Nat) (xor_str : List Nat) (n : Nat)
    (hn : n ≠ 0) (hlen : dst_len + 1 < UINT_RANGE) (k i fuel : Nat) (dst : List Nat)
    (hk : i + k = dst_len + 1) (hfuel : k + 1 ≤ fuel) :
    mysqlnd_xor_string_loop dst_len xor_str n fuel i dst
      = some (xor_string_rounds xor_str n k i dst) := by
  induction k generalizing i fuel dst with
  | zero =>
    cases fuel with
    | zero => omega
    | succ f =>
      have : ¬ i ≤ dst_len := by omega
      simp [mysqlnd_xor_string_loop, xor_string_rounds, this]
  | succ k ih =>
    cases fuel with
    | zero => omega
    | succ f =>
      have h1 : i ≤ dst_len := by omega
      have h2 : (i + 1) % UINT_RANGE = i + 1 := Nat.mod_eq_of_lt (by omega)
      rw [mysqlnd_xor_string_loop, if_pos h1, if_neg hn, h2, xor_string_rounds]
      exact ih (i + 1) f _ (by omega) (by omega)

theorem mysqlnd_xor_string_loop_never_ends (dst_len : Nat) (xor_str : List Nat) (n : Nat)
    (hlen : UINT_RANGE ≤ dst_len + 1) (fuel i : Nat) (dst : List Nat) (hi : i < UINT_RANGE) :
    mysqlnd_xor_string_loop dst_len xor_str n fuel i dst = none := by
  induction fuel generalizing i dst with
  | zero => rfl
  | succ f ih =>
    have h1 : i ≤ dst_len := by omega
    rw [mysqlnd_xor_string_loop, if_pos h1]
    split
    · rfl
    · exact ih _ _ (Nat.mod_lt _ (by decide))

theorem mysqlnd_xor_string_loop_zero_key (dst_len : Nat) (xor_str : List Nat)
    (fuel : Nat) (dst : List Nat) :
    mysqlnd_xor_string_loop dst_len xor_str 0 fuel 0 dst = none := by
  cases fuel with
  | zero => rfl
  | succ f => simp [mysqlnd_xor_string_loop]

/-- More rounds than `mysqlnd_xor_string` allows its loop do not change the result: where
the function gives `none`, the loop does not end. -/
theorem mysqlnd_xor_string_rounds (dst : List Nat) (dst_len : Nat) (xor_str : List Nat)
    (n fuel : Nat) (hfuel : dst_len + 2 ≤ fuel) :
    mysqlnd_xor_string_loop dst_len xor_str n fuel 0 dst
      = mysqlnd_xor_string dst dst_len xor_str n := by
  unfold mysqlnd_xor_string
  by_cases hn : n = 0
  · subst hn
    rw [mysqlnd_xor_string_loop_zero_key, mysqlnd_xor_string_loop_zero_key]
  · by_cases hlen : dst_len + 1 < UINT_RANGE
    · rw [mysqlnd_xor_string_loop_ends dst_len xor_str n hn hlen (dst_len + 1) 0 fuel dst
            (by omega) (by omega),
          mysqlnd_xor_string_loop_ends dst_len xor_str n hn hlen (dst_len + 1) 0 (dst_len + 2)
            dst (by omega) (by omega)]
    · rw [mysqlnd_xor_string_loop_never_ends dst_len xor_str n (by omega) fuel 0 dst
            (by decide),
          mysqlnd_xor_string_loop_never_ends dst_len xor_str n (by omega) (dst_len + 2) 0 dst
            (by decide)]

/-- The result of `mysqlnd_xor_string` for a key that is not empty and a counter that does
not wrap: the byte at each position `j ≤ dst_len` is XORed with
`xor_str[j % xor_str_len]`, the other bytes are as they were. -/
theorem mysqlnd_xor_string_masks (dst : List Nat) (dst_len : Nat) (xor_str : List Nat)
    (n : Nat) (hn : n ≠ 0) (hlen : dst_len + 1 < UINT_RANGE) :
    ∃ r, mysqlnd_xor_string dst dst_len xor_str n = some r ∧ r.length = dst.length ∧
      ∀ j, r[j]? = if j ≤ dst_len then dst[j]?.map (fun b => b ^^^ xor_str.getD (j % n) 0)
                   else dst[j]? := by
  refine ⟨xor_string_rounds xor_str n (dst_len + 1) 0 dst, ?_, ?_, ?_⟩
  · exact mysqlnd_xor_string_loop_ends dst_len xor_str n hn hlen (dst_len + 1) 0 _ dst
      (by omega) (by omega)
  · exact xor_string_rounds_length _ _ _ _ _
  · intro j
    rw [xor_string_rounds_get]
    by_cases hj : j ≤ dst_len
    · have : 0 ≤ j ∧ j < 0 + (dst_len + 1) := by omega
      rw [if_pos this, if_pos hj]
    · have : ¬ (0 ≤ j ∧ j < 0 + (dst_len + 1)) := by omega
      rw [if_neg this, if_neg hj]

/-- Applying `mysqlnd_xor_string` twice with the same key restores the buffer. -/
theorem mysqlnd_xor_string_twice (dst : List Nat) (dst_len : Nat) (xor_str : List Nat)
    (n : Nat) (hn : n ≠ 0) (hlen : dst_len + 1 < UINT_RANGE) :
    (mysqlnd_xor_string dst dst_len xor_str n).bind
      (fun r => mysqlnd_xor_string r dst_len xor_str n) = some dst := by
  obtain ⟨r, hr, hrl, hrj⟩ := mysqlnd_xor_string_masks dst dst_len xor_str n hn hlen
  obtain ⟨r2, hr2, hr2l, hr2j⟩ := mysqlnd_xor_string_masks r dst_len xor_str n hn hlen
  rw [hr, Option.some_bind, hr2]
  congr 1
  apply List.ext_getElem?
  intro j
  rw [hr2j, hrj]
  split
  · cases dst[j]? with
    | none => rfl
    | some b => simp [Nat.xor_cancel_right]
  · rfl

/-! ### C11 to C13: the server's result byte under `caching_sha2_password` -/

theorem PACKET_READ_eq (conn : MYSQLND_CONN_DATA) (kind : PacketKind) :
    PACKET_READ conn kind =
      ((conn.incoming.headD {}).status, conn.incoming.headD {},
        { conn with incoming := conn.incoming.tail,
                    trace := conn.trace ++ [WireEvent.read kind (conn.incoming.headD {})] }) := by
  unfold PACKET_READ
  cases h : conn.incoming with
  | nil => rfl
  | cons p rest => rfl

theorem PACKET_READ_ssl (conn : MYSQLND_CONN_DATA) (kind : PacketKind) :
    (PACKET_READ conn kind).2.2.ssl = conn.ssl ∧
    (PACKET_READ conn kind).2.2.stream_label = conn.stream_label := by
  rw [PACKET_READ_eq]
  exact ⟨rfl, rfl⟩

theorem is_secure_transport_iff (conn : MYSQLND_CONN_DATA) :
    is_secure_transport conn = true ↔ conn.ssl = true ∨ conn.stream_label = "unix_socket" := by
  unfold is_secure_transport
  split
  · rename_i h
    simp [h]
  · rename_i h
    simp [h]

theorem is_secure_transport_PACKET_READ (conn : MYSQLND_CONN_DATA) (kind : PacketKind) :
    is_secure_transport (PACKET_READ conn kind).2.2 = is_secure_transport conn := by
  unfold is_secure_transport
  rw [(PACKET_READ_ssl conn kind).1, (PACKET_READ_ssl conn kind).2]

/-- C11. `mysqlnd_caching_sha2_handle_server_response`: with an empty password
(`passwd_len = 0`) it returns PASS and leaves the connection untouched, so nothing is
read or written.  With a non-empty password it reads one packet; when that packet's
result byte is not `0x04`, or the read fails, the read is the only event it adds to the
record (no packet is written, no public key is requested); and when the read succeeds
with a result byte that is none of `0x04`, `0xFE` and `0xFF` (so for `0x03` and `0x02`),
or the read fails, it returns PASS with no auth switch stored, the connection being as
the read left it, so that the engine goes on to read the final OK or ERR. -/
theorem caching_sha2_result_byte (env : CryptoEnv) (conn : MYSQLND_CONN_DATA)
    (salt : List Nat) (salt_len : Nat) (user passwd : List Nat) (passwd_len : Nat) :
    (passwd_len = 0 →
      mysqlnd_caching_sha2_handle_server_response env conn salt salt_len user passwd passwd_len
        = some { ret := enum_func_status.PASS, new_auth_protocol := none,
                 new_auth_protocol_data := [], conn := conn }) ∧
    (passwd_len ≠ 0 →
      ((PACKET_READ conn PacketKind.cached_sha2_result).1 = enum_func_status.FAIL ∨
        (PACKET_READ conn PacketKind.cached_sha2_result).2.1.response_code ≠ 4) →
      ∃ r,
        mysqlnd_caching_sha2_handle_server_response env conn salt salt_len user passwd passwd_len
          = some r ∧
        r.conn.trace = conn.trace ++
          [WireEvent.read PacketKind.cached_sha2_result
            (PACKET_READ conn PacketKind.cached_sha2_result).2.1] ∧
        r.conn.incoming = conn.incoming.tail ∧
        r.conn.write_results = conn.write_results ∧
        (((PACKET_READ conn PacketKind.cached_sha2_result).1 = enum_func_status.FAIL ∨
          ((PACKET_READ conn PacketKind.cached_sha2_result).2.1.response_code ≠ 0xFE ∧
           (PACKET_READ conn PacketKind.cached_sha2_result).2.1.response_code ≠ 0xFF)) →
          r = { ret := enum_func_status.PASS, new_auth_protocol := none,
                new_auth_protocol_data := [],
                conn := (PACKET_READ conn PacketKind.cached_sha2_result).2.2 })) := by
  constructor
  · intro h
    simp [mysqlnd_caching_sha2_handle_server_response, h]
  · intro h hcode
    unfold mysqlnd_caching_sha2_handle_server_response
    simp only [h, if_false]
    split
    · rename_i hf
      refine ⟨_, rfl, ?_, ?_, ?_, fun _ => rfl⟩ <;> simp [PACKET_READ_eq]
    · rename_i hf
      have h4 : (PACKET_READ conn PacketKind.cached_sha2_result).2.1.response_code ≠ 4 := by
        rcases hcode with hcode | hcode
        · exact absurd hcode hf
        · exact hcode
      split
      · rename_i hff
        refine ⟨_, rfl, ?_, ?_, ?_, ?_⟩
        · split <;> simp [PACKET_READ_eq]
        · split <;> simp [PACKET_READ_eq, SET_CLIENT_ERROR] <;> split <;> rfl
        · split <;> simp [PACKET_READ_eq, SET_CLIENT_ERROR] <;> split <;> rfl
        · intro hx
          rcases hx with hx | hx
          · exact absurd hx hf
          · exact absurd hff hx.2
      · split
        · rename_i hfe
          refine ⟨_, rfl, ?_, ?_, ?_, ?_⟩
          · simp [PACKET_READ_eq]
          · simp [PACKET_READ_eq]
          · simp [PACKET_READ_eq]
          · intro hx
            rcases hx with hx | hx
            · exact absurd hx hf
            · exact absurd hfe hx.1
        · split
          · refine ⟨_, rfl, ?_, ?_, ?_, fun _ => rfl⟩ <;> simp [PACKET_READ_eq]
          · try rw [if_neg h4]
            refine ⟨_, rfl, ?_, ?_, ?_, fun _ => rfl⟩ <;> simp [PACKET_READ_eq]

theorem PACKET_WRITE_eq (conn : MYSQLND_CONN_DATA) (pkt : ClientPacket) :
    PACKET_WRITE conn pkt =
      (conn.write_results.headD true,
        if conn.write_results.headD true = true then
          { conn with write_results := conn.write_results.tail,
                      trace := conn.trace ++ [WireEvent.wrote pkt true] }
        else
          { conn with write_results := conn.write_results.tail,
                      trace := conn.trace ++ [WireEvent.wrote pkt false],
                      state := mysqlnd_connection_state.CONN_QUIT_SENT,
                      error_info := { error_no := CR_SERVER_GONE_ERROR, sqlstate := UNKNOWN_SQLSTATE,
                                      error := mysqlnd_server_gone } }) := by
  unfold PACKET_WRITE
  cases conn.write_results.headD true <;> rfl

theorem PACKET_WRITE_fst (conn : MYSQLND_CONN_DATA) (pkt : ClientPacket) :
    (PACKET_WRITE conn pkt).1 = conn.write_results.headD true := by
  rw [PACKET_WRITE_eq]

/-- A packet write that succeeds changes the transport only. -/
theorem PACKET_WRITE_ok (conn : MYSQLND_CONN_DATA) (pkt : ClientPacket)
    (h : (PACKET_WRITE conn pkt).1 ≠ false) :
    (PACKET_WRITE conn pkt).2 =
      { conn with write_results := conn.write_results.tail,
                  trace := conn.trace ++ [WireEvent.wrote pkt true] } := by
  rw [PACKET_WRITE_eq] at h ⊢
  have h2 : conn.write_results.headD true = true := by simpa using h
  simp only [h2, ↓reduceIte]

/-- The events `request_server_public_key` adds to the record: the write of the request
and, when it succeeded, the read of the response. -/
theorem request_server_public_key_trace (env : CryptoEnv) (conn : MYSQLND_CONN_DATA)
    (req : ClientPacket) :
    ∃ evs, (request_server_public_key env conn req).2.trace = conn.trace ++ evs ∧
      ∀ e ∈ evs, (∃ ok, e = WireEvent.wrote req ok) ∨
        (∃ p, e = WireEvent.read PacketKind.sha256_pk_request_response p) := by
  unfold request_server_public_key
  simp only []
  split
  · refine ⟨[WireEvent.wrote req (PACKET_WRITE conn req).1], by simp, ?_⟩
    intro e he
    simp only [List.mem_singleton] at he
    exact Or.inl ⟨_, he⟩
  · split
    · refine ⟨[WireEvent.wrote req (PACKET_WRITE conn req).1,
        WireEvent.read PacketKind.sha256_pk_request_response
          (PACKET_READ (PACKET_WRITE conn req).2 PacketKind.sha256_pk_request_response).2.1], ?_, ?_⟩
      · simp
      · intro e he
        simp only [List.mem_cons, List.mem_singleton, List.not_mem_nil, or_false] at he
        rcases he with he | he
        · exact Or.inl ⟨_, he⟩
        · exact Or.inr ⟨_, he⟩
    · refine ⟨[WireEvent.wrote req (PACKET_WRITE conn req).1,
        WireEvent.read PacketKind.sha256_pk_request_response
          (PACKET_READ (PACKET_WRITE conn req).2 PacketKind.sha256_pk_request_response).2.1], ?_, ?_⟩
      · simp
      · intro e he
        simp only [List.mem_cons, List.mem_singleton, List.not_mem_nil, or_false] at he
        rcases he with he | he
        · exact Or.inl ⟨_, he⟩
        · exact Or.inr ⟨_, he⟩

/-- The events `mysqlnd_caching_sha2_get_key` adds to the record: none when the key is
loaded from a file, else those of the public key request. -/
theorem mysqlnd_caching_sha2_get_key_trace (env : CryptoEnv) (conn : MYSQLND_CONN_DATA) :
    ∃ evs, (mysqlnd_caching_sha2_get_key env conn).2.trace = conn.trace ++ evs ∧
      ∀ e ∈ evs, (∃ ok, e = WireEvent.wrote (ClientPacket.cached_sha2_result 1 none 0) ok) ∨
        (∃ p, e = WireEvent.read PacketKind.sha256_pk_request_response p) := by
  unfold mysqlnd_caching_sha2_get_key
  split
  · exact request_server_public_key_trace env conn _
  · split
    · exact request_server_public_key_trace env conn _
    · exact ⟨[], by simp, by simp⟩

/-- The events `mysqlnd_sha256_get_rsa_key` adds to the record: none when the key is
loaded from a file, else those of the public key request. -/
theorem mysqlnd_sha256_get_rsa_key_trace (env : CryptoEnv) (conn : MYSQLND_CONN_DATA) :
    ∃ evs, (mysqlnd_sha256_get_rsa_key env conn).2.trace = conn.trace ++ evs ∧
      ∀ e ∈ evs, (∃ ok, e = WireEvent.wrote ClientPacket.sha256_pk_request ok) ∨
        (∃ p, e = WireEvent.read PacketKind.sha256_pk_request_response p) := by
  unfold mysqlnd_sha256_get_rsa_key
  split
  · exact request_server_public_key_trace env conn _
  · split
    · exact request_server_public_key_trace env conn _
    · exact ⟨[], by simp, by simp⟩

/-- The buffer `password || 0x00` after `mysqlnd_xor_string` with the key `salt` of length
`n`: `passwd_len + 1` bytes, the one at each position `i` being
`(password || 0x00)[i] XOR salt[i mod n]`. -/
theorem masked_password (passwd : List Nat) (passwd_len : Nat) (salt : List Nat) (n : Nat)
    (hn : n ≠ 0) (hlen : passwd.length = passwd_len) (hint : passwd_len + 1 < UINT_RANGE) :
    ∃ m, mysqlnd_xor_string (passwd.take passwd_len ++ [0]) passwd_len salt n = some m ∧
      m.length = passwd_len + 1 ∧
      ∀ i, i ≤ passwd_len →
        m[i]? = some ((passwd ++ [0]).getD i 0 ^^^ salt.getD (i % n) 0) := by
  obtain ⟨m, hm, hml, hmj⟩ :=
    mysqlnd_xor_string_masks (passwd.take passwd_len ++ [0]) passwd_len salt n hn hint
  have htake : passwd.take passwd_len = passwd := by
    rw [← hlen]; exact List.take_length passwd
  rw [htake] at hm hml hmj
  refine ⟨m, by rw [htake]; exact hm, by rw [hml]; simp [hlen], ?_⟩
  intro i hi
  rw [hmj, if_pos hi]
  have hil : i < (passwd ++ [0]).length := by simp [hlen]; omega
  simp [List.getElem?_eq_getElem hil, List.getD_eq_getElem?_getD]

/-- C12. `mysqlnd_caching_sha2_handle_server_response` with a non-empty password of
`passwd_len` bytes, when the packet it reads carries the result byte `0x04` and the
transport is secure: it returns PASS and stores no auth switch; the events it adds to the
record are the read and exactly one write, that of a packet with the password
buffer and the length `passwd_len + 1`, whose payload is `password || 0x00`; no public key
request is written and nothing is encrypted.  And `is_secure_transport` is true exactly
when TLS is active or the stream label is `unix_socket`. -/
theorem caching_sha2_full_auth_secure (env : CryptoEnv) (conn : MYSQLND_CONN_DATA)
    (salt : List Nat) (salt_len : Nat) (user passwd : List Nat) (passwd_len : Nat)
    (hp : passwd_len ≠ 0) (hlen : passwd.length = passwd_len)
    (hread : (PACKET_READ conn PacketKind.cached_sha2_result).1 = enum_func_status.PASS)
    (hcode : (PACKET_READ conn PacketKind.cached_sha2_result).2.1.response_code = 4)
    (hsec : is_secure_transport conn = true) :
    (∃ r,
      mysqlnd_caching_sha2_handle_server_response env conn salt salt_len user passwd passwd_len
        = some r ∧
      r.ret = enum_func_status.PASS ∧ r.new_auth_protocol = none ∧
      r.conn.trace = conn.trace ++
        [WireEvent.read PacketKind.cached_sha2_result
            (PACKET_READ conn PacketKind.cached_sha2_result).2.1,
         WireEvent.wrote (ClientPacket.cached_sha2_result 0 (some passwd) (passwd_len + 1))
            (conn.write_results.headD true)]) ∧
    cached_sha2_result_payload 0 (some passwd) (passwd_len + 1) = passwd ++ [0] ∧
    (passwd ++ [0]).length = passwd_len + 1 ∧
    (∀ c, is_secure_transport c = true ↔ c.ssl = true ∨ c.stream_label = "unix_socket") := by
  refine ⟨?_, ?_, by simp [hlen], is_secure_transport_iff⟩
  · unfold mysqlnd_caching_sha2_handle_server_response
    have hnf : (PACKET_READ conn PacketKind.cached_sha2_result).1 ≠ enum_func_status.FAIL := by
      rw [hread]; decide
    simp only [hp, if_false, hnf, hcode, is_secure_transport_PACKET_READ, hsec]
    refine ⟨_, rfl, rfl, rfl, ?_⟩
    simp [PACKET_READ_eq, PACKET_WRITE_fst]
  · unfold cached_sha2_result_payload
    have : (passwd ++ [0]).length = passwd_len + 1 := by simp [hlen]
    simp only [Nat.zero_ne_one, if_false, Option.getD_some]
    rw [← this]
    exact List.take_length _

/-- C13. `mysqlnd_caching_sha2_handle_server_response` with a non-empty password of
`passwd_len` bytes, when the packet it reads carries the result byte `0x04`, the
transport is not secure and `mysqlnd_caching_sha2_get_key` obtains a key of `key.size`
bytes that passes the length check (`RSA_size` returns an `int`): it returns PASS; after
the events of the key acquisition (nothing for a key file, else the public key
request and the read of its response) it writes exactly one more packet, which carries
the buffer `RSA_public_encrypt(key, m)` with the length `key.size`, where `m` has
`passwd_len + 1` bytes and `m[i] = (password || 0x00)[i] XOR salt[i mod 20]`. -/
theorem caching_sha2_full_auth_rsa (env : CryptoEnv) (conn : MYSQLND_CONN_DATA)
    (salt : List Nat) (salt_len : Nat) (user passwd : List Nat) (passwd_len : Nat)
    (key : mysqlnd_rsa_t) (conn2 : MYSQLND_CONN_DATA)
    (hp : passwd_len ≠ 0) (hlen : passwd.length = passwd_len)
    (hread : (PACKET_READ conn PacketKind.cached_sha2_result).1 = enum_func_status.PASS)
    (hcode : (PACKET_READ conn PacketKind.cached_sha2_result).2.1.response_code = 4)
    (hsec : is_secure_transport conn = false)
    (hkey : mysqlnd_caching_sha2_get_key env
      (PACKET_READ conn PacketKind.cached_sha2_result).2.2 = (some key, conn2))
    (hcheck : passwd_len + 41 < key.size) (hint : key.size < 2147483648) :
    ∃ m r kevs,
      mysqlnd_caching_sha2_handle_server_response env conn salt salt_len user passwd passwd_len
        = some r ∧
      r.ret = enum_func_status.PASS ∧ r.new_auth_protocol = none ∧
      r.conn.trace = conn.trace ++
        WireEvent.read PacketKind.cached_sha2_result
            (PACKET_READ conn PacketKind.cached_sha2_result).2.1 :: kevs ++
        [WireEvent.wrote
          (ClientPacket.cached_sha2_result 0 (some (env.RSA_public_encrypt key m)) key.size)
          (conn2.write_results.headD true)] ∧
      (∀ e ∈ kevs, (∃ ok, e = WireEvent.wrote (ClientPacket.cached_sha2_result 1 none 0) ok) ∨
        (∃ p, e = WireEvent.read PacketKind.sha256_pk_request_response p)) ∧
      m.length = passwd_len + 1 ∧
      (∀ i, i ≤ passwd_len →
        m[i]? = some ((passwd ++ [0]).getD i 0 ^^^ salt.getD (i % 20) 0)) ∧
      ((env.RSA_public_encrypt key m).length = key.size →
        cached_sha2_result_payload 0 (some (env.RSA_public_encrypt key m)) key.size
          = env.RSA_public_encrypt key m) := by
  obtain ⟨m, hm, hml, hmi⟩ := masked_password passwd passwd_len salt SCRAMBLE_LENGTH
    (by decide) hlen (by unfold UINT_RANGE; omega)
  obtain ⟨kevs, hkt, hke⟩ := mysqlnd_caching_sha2_get_key_trace env
    (PACKET_READ conn PacketKind.cached_sha2_result).2.2
  rw [hkey] at hkt
  simp only [] at hkt
  have hnf : (PACKET_READ conn PacketKind.cached_sha2_result).1 ≠ enum_func_status.FAIL := by
    rw [hread]; decide
  have hnc : ¬ key.size ≤ passwd_len + 41 := by omega
  have hml2 : m.take (passwd_len + 1) = m := by
    rw [← hml]; exact List.take_length m
  have hh : mysqlnd_caching_sha2_handle_server_response env conn salt salt_len user passwd
      passwd_len = some (ServerResponse.mk enum_func_status.PASS none []
        (PACKET_WRITE conn2 (ClientPacket.cached_sha2_result 0
          (some (env.RSA_public_encrypt key m)) key.size)).2) := by
    unfold mysqlnd_caching_sha2_handle_server_response
    simp only [hp, if_false, hnf, hcode, is_secure_transport_PACKET_READ, hsec]
    simp only [mysqlnd_caching_sha2_get_and_use_key, hkey, hm,
      mysqlnd_caching_sha2_public_encrypt, hnc, if_false, hml2]
    rfl
  refine ⟨m, _, kevs, hh, rfl, rfl, ?_, hke, hml, hmi, ?_⟩
  · simp only [PACKET_WRITE_trace, PACKET_WRITE_fst, hkt]
    simp [PACKET_READ_eq]
  · intro hl
    unfold cached_sha2_result_payload
    simp only [Nat.zero_ne_one, if_false, Option.getD_some]
    rw [List.take_append_of_le_length (by omega), ← hl]
    exact List.take_length _

/-! ### C14 to C17: `sha256_password` and the length check of the encryption -/

/-- The TLS branch of `mysqlnd_sha256_auth_get_auth_data`, for every password: the
response is the first `passwd_len` bytes of the password, with no trailing NUL byte, and
`auth_data_len = passwd_len`; the connection is left as it was, so no public key is
requested or loaded. -/
theorem sha256_tls_get_auth_data (env : CryptoEnv) (conn : MYSQLND_CONN_DATA)
    (passwd : List Nat) (passwd_len : Nat) (salt : List Nat) (salt_len : Nat)
    (hssl : conn.ssl = true) :
    mysqlnd_sha256_auth_get_auth_data env conn passwd passwd_len salt salt_len
      = some { ret := some (passwd.take passwd_len), auth_data_len := passwd_len,
               conn := conn } := by
  simp [mysqlnd_sha256_auth_get_auth_data, hssl]

/-- C14. The code falls short of the claim: the TLS branch of
`mysqlnd_sha256_auth_get_auth_data` sets `*auth_data_len = passwd_len` and copies
`passwd_len` bytes, so the trailing NUL is neither sent nor counted.  At the password
`s` on a TLS-protected connection the response is the one byte `s` with
`auth_data_len = 1`, where the claim has the two bytes `s`, NUL with
`auth_data_len = 2`; the connection is left as it was, so no key is requested or loaded.
The paths beside it send the NUL for the same password: the RSA branch of the same
function (no TLS, the server's key in a file) encrypts the two masked bytes of `s`, NUL,
and the secure path of `mysqlnd_caching_sha2_handle_server_response` writes the password
with the length `passwd_len + 1`, the payload `s`, NUL. -/
theorem sha256_tls_response_without_nul :
    mysqlnd_sha256_auth_get_auth_data sample_crypto_env (tls_conn []) [115] 1
        (List.range 20) 20
      = some { ret := some [115], auth_data_len := 1, conn := tls_conn [] } ∧
    mysqlnd_sha256_auth_get_auth_data sample_crypto_env (key_file_conn []) [115] 1
        (List.range 20) 20
      = some { ret := some (sample_encrypt sample_key [115 ^^^ 0, 0 ^^^ 1]),
               auth_data_len := 64, conn := key_file_conn [] } ∧
    (mysqlnd_caching_sha2_handle_server_response sample_crypto_env
        (tls_conn [cached_sha2_result_packet 4]) (List.range 20) 20 [] [115] 1).map
          (fun r => r.conn.trace.drop 1)
      = some [WireEvent.wrote (ClientPacket.cached_sha2_result 0 (some [115]) (1 + 1)) true] ∧
    cached_sha2_result_payload 0 (some [115]) (1 + 1) = [115, 0] :=
  ⟨by decide, by decide, by decide, by decide⟩

/-- C15. `mysqlnd_sha256_auth_get_auth_data` on a connection without TLS, for a salt that
is not empty, when `mysqlnd_sha256_get_rsa_key` obtains a key of `key.size` bytes that
passes the length check (`RSA_size` returns an `int`): the initial response is
`RSA_public_encrypt(key, m)` with `auth_data_len = key.size`, where `m` has
`passwd_len + 1` bytes and `m[i] = (password || 0x00)[i] XOR salt[i mod salt_len]`, the
index running over the whole salt. -/
theorem sha256_rsa_response (env : CryptoEnv) (conn : MYSQLND_CONN_DATA)
    (passwd : List Nat) (passwd_len : Nat) (salt : List Nat) (salt_len : Nat)
    (key : mysqlnd_rsa_t) (conn1 : MYSQLND_CONN_DATA)
    (hssl : conn.ssl = false)
    (hkey : mysqlnd_sha256_get_rsa_key env conn = (some key, conn1))
    (hcheck : passwd_len + 41 < key.size) (hint : key.size < 2147483648)
    (hlen : passwd.length = passwd_len)
    (hsalt : salt.length = salt_len) (hne : salt_len ≠ 0) :
    ∃ m,
      mysqlnd_sha256_auth_get_auth_data env conn passwd passwd_len salt salt_len
        = some { ret := some (env.RSA_public_encrypt key m), auth_data_len := key.size,
                 conn := conn1 } ∧
      m.length = passwd_len + 1 ∧
      ∀ i, i ≤ passwd_len →
        m[i]? = some ((passwd ++ [0]).getD i 0 ^^^ salt.getD (i % salt.length) 0) := by
  obtain ⟨m, hm, hml, hmi⟩ := masked_password passwd passwd_len salt salt_len hne hlen
    (by unfold UINT_RANGE; omega)
  have hnc : ¬ key.size ≤ passwd_len + 41 := by omega
  have hml2 : m.take (passwd_len + 1) = m := by
    rw [← hml]; exact List.take_length m
  refine ⟨m, ?_, hml, by rw [hsalt]; exact hmi⟩
  unfold mysqlnd_sha256_auth_get_auth_data
  simp only [hssl, Bool.false_eq_true, if_false, hkey, hm, mysqlnd_sha256_public_encrypt, hnc,
    hml2]

/-- The length check of `mysqlnd_sha256_public_encrypt`: the call fails, with the client
error "password is too long" and no buffer, exactly when
`RSA_size(key) <= passwd_len + 41`. -/
theorem mysqlnd_sha256_public_encrypt_check (env : CryptoEnv) (conn : MYSQLND_CONN_DATA)
    (key : mysqlnd_rsa_t) (passwd_len auth_data_len : Nat) (xor_str : List Nat) :
    (key.size ≤ passwd_len + 41 →
      mysqlnd_sha256_public_encrypt env conn key passwd_len auth_data_len xor_str
        = { ret := none, auth_data_len := auth_data_len,
            conn := { conn with error_info := password_too_long_error } }) ∧
    (passwd_len + 41 < key.size →
      mysqlnd_sha256_public_encrypt env conn key passwd_len auth_data_len xor_str
        = { ret := some (env.RSA_public_encrypt key (xor_str.take (passwd_len + 1))),
            auth_data_len := key.size, conn := conn }) := by
  constructor
  · intro h
    simp [mysqlnd_sha256_public_encrypt, h, SET_CLIENT_ERROR, CR_UNKNOWN_ERROR,
      password_too_long_error]
  · intro h
    have : ¬ key.size ≤ passwd_len + 41 := by omega
    simp [mysqlnd_sha256_public_encrypt, this]

/-- The length check of `mysqlnd_caching_sha2_public_encrypt`: the call fails, with the
client error "password is too long", the result 0 and no buffer stored, exactly when
`RSA_size(key) <= passwd_len + 41`. -/
theorem mysqlnd_caching_sha2_public_encrypt_check (env : CryptoEnv)
    (conn : MYSQLND_CONN_DATA) (key : mysqlnd_rsa_t) (passwd_len : Nat)
    (crypted : Option (List Nat)) (xor_str : List Nat) :
    (key.size ≤ passwd_len + 41 →
      mysqlnd_caching_sha2_public_encrypt env conn key passwd_len crypted xor_str
        = { len := 0, crypted := crypted,
            conn := { conn with error_info := password_too_long_error } }) ∧
    (passwd_len + 41 < key.size →
      mysqlnd_caching_sha2_public_encrypt env conn key passwd_len crypted xor_str
        = { len := key.size,
            crypted := some (env.RSA_public_encrypt key (xor_str.take (passwd_len + 1))),
            conn := conn }) := by
  constructor
  · intro h
    simp [mysqlnd_caching_sha2_public_encrypt, h, SET_CLIENT_ERROR, CR_UNKNOWN_ERROR,
      password_too_long_error]
  · intro h
    have : ¬ key.size ≤ passwd_len + 41 := by omega
    simp [mysqlnd_caching_sha2_public_encrypt, this]

/-- C16, the code at the failing input: a key of 64 bytes and a password of 22 bytes, so
a plaintext `password || 0x00` of 23 bytes.  Here `64 <= 23 + 41`, and 23 bytes are more
than the capacity `64 - 42`; yet both `mysqlnd_sha256_public_encrypt` and
`mysqlnd_caching_sha2_public_encrypt` pass their check, set no error and hand the 23 bytes
to `RSA_public_encrypt`. -/
theorem public_encrypt_check_off_by_one :
    sample_key.size = 64 ∧ (List.replicate 22 120 ++ [0]).length = 23 ∧
    sample_key.size ≤ (List.replicate 22 120 ++ [0]).length + 41 ∧
    sample_key.size - 42 < (List.replicate 22 120 ++ [0]).length ∧
    mysqlnd_sha256_public_encrypt sample_crypto_env {} sample_key 22 0
        (List.replicate 22 120 ++ [0])
      = { ret := some (sample_encrypt sample_key (List.replicate 22 120 ++ [0])),
          auth_data_len := 64, conn := {} } ∧
    mysqlnd_caching_sha2_public_encrypt sample_crypto_env {} sample_key 22 none
        (List.replicate 22 120 ++ [0])
      = { len := 64,
          crypted := some (sample_encrypt sample_key (List.replicate 22 120 ++ [0])),
          conn := {} } := by
  refine ⟨rfl, rfl, by decide, by decide, ?_, ?_⟩
  · exact ((mysqlnd_sha256_public_encrypt_check sample_crypto_env {} sample_key 22 0
      (List.replicate 22 120 ++ [0])).2 (by decide)).trans (by rfl)
  · exact ((mysqlnd_caching_sha2_public_encrypt_check sample_crypto_env {} sample_key 22 none
      (List.replicate 22 120 ++ [0])).2 (by decide)).trans (by rfl)

/-- The responses for no password (`passwd_len = 0`), for every connection and salt:
`mysql_native_password` and `caching_sha2_password` (salt of 20 bytes or more) give an
empty response, no buffer and `auth_data_len = 0`; `sha256_password` on a TLS-protected
connection gives an empty buffer with `auth_data_len = 0`; `sha256_password` on a
connection without TLS, when a key of more than 41 bytes is obtained and the salt is not
empty, gives the response `RSA_public_encrypt(key, [salt[0]])`, the encryption of the
masked terminating NUL, with `auth_data_len = key.size`. -/
theorem empty_password_get_auth_data (SHA1 SHA256 : List Nat → List Nat) (env : CryptoEnv)
    (conn : MYSQLND_CONN_DATA) (passwd : List Nat) (salt : List Nat) :
    (SCRAMBLE_LENGTH ≤ salt.length →
      mysqlnd_native_auth_get_auth_data SHA1 conn passwd 0 salt salt.length
        = { ret := none, auth_data_len := 0, conn := conn } ∧
      mysqlnd_caching_sha2_get_auth_data SHA256 conn passwd 0 salt salt.length
        = { ret := none, auth_data_len := 0, conn := conn }) ∧
    (conn.ssl = true →
      mysqlnd_sha256_auth_get_auth_data env conn passwd 0 salt salt.length
        = some { ret := some [], auth_data_len := 0, conn := conn }) ∧
    (conn.ssl = false → salt ≠ [] →
      ∀ key conn1, mysqlnd_sha256_get_rsa_key env conn = (some key, conn1) →
        41 < key.size →
        mysqlnd_sha256_auth_get_auth_data env conn passwd 0 salt salt.length
          = some { ret := some (env.RSA_public_encrypt key [salt.getD 0 0]),
                   auth_data_len := key.size, conn := conn1 }) := by
  refine ⟨?_, ?_, ?_⟩
  · intro h
    have : ¬ salt.length < SCRAMBLE_LENGTH := by omega
    simp [mysqlnd_native_auth_get_auth_data, mysqlnd_caching_sha2_get_auth_data, this]
  · intro h
    simp [mysqlnd_sha256_auth_get_auth_data, h]
  · intro hssl hne key conn1 hkey hsize
    have hl : salt.length ≠ 0 := by
      intro h0
      exact hne (List.length_eq_zero.mp h0)
    have hnc : ¬ key.size ≤ 0 + 41 := by omega
    have hx : mysqlnd_xor_string [0] 0 salt salt.length = some [salt.getD 0 0] := by
      simp [mysqlnd_xor_string, mysqlnd_xor_string_loop, hl, UINT_RANGE]
    unfold mysqlnd_sha256_auth_get_auth_data
    simp only [hssl, Bool.false_eq_true, if_false, hkey, List.take_zero, List.nil_append, hx,
      mysqlnd_sha256_public_encrypt, hnc]
    simp

/-- C17. The code falls short of the claim: `mysqlnd_sha256_auth_get_auth_data` has no
test of `passwd_len`.  Without TLS, with the server's key of 64 bytes in a file, the
salt 0, 1, …, 19 and no password (`passwd_len = 0`), the response is not empty: it is
the RSA encryption of the one masked byte `0x00 XOR salt[0]`, 64 bytes, with
`auth_data_len = 64`.  On the same input the functions beside it, which test
`passwd_len` first, give the empty response: `mysqlnd_native_auth_get_auth_data` and
`mysqlnd_caching_sha2_get_auth_data` return no buffer and `auth_data_len = 0`, and
`mysqlnd_caching_sha2_handle_server_response` returns PASS without reading the packet
that asks for the full authentication; and the TLS branch of the function itself gives
an empty buffer with `auth_data_len = 0`. -/
theorem sha256_empty_password_encrypted :
    mysqlnd_sha256_auth_get_auth_data sample_crypto_env (key_file_conn []) [] 0
        (List.range 20) 20
      = some { ret := some (sample_encrypt sample_key [0 ^^^ 0]), auth_data_len := 64,
               conn := key_file_conn [] } ∧
    (sample_encrypt sample_key [0 ^^^ 0]).length = 64 ∧
    mysqlnd_native_auth_get_auth_data sample_hash20 (key_file_conn []) [] 0 (List.range 20) 20
      = { ret := none, auth_data_len := 0, conn := key_file_conn [] } ∧
    mysqlnd_caching_sha2_get_auth_data sample_hash32 (key_file_conn []) [] 0 (List.range 20) 20
      = { ret := none, auth_data_len := 0, conn := key_file_conn [] } ∧
    mysqlnd_caching_sha2_handle_server_response sample_crypto_env
        (key_file_conn [cached_sha2_result_packet 4]) (List.range 20) 20 [] [] 0
      = some { ret := enum_func_status.PASS, new_auth_protocol := none,
               new_auth_protocol_data := [],
               conn := key_file_conn [cached_sha2_result_packet 4] } ∧
    mysqlnd_sha256_auth_get_auth_data sample_crypto_env (tls_conn []) [] 0 (List.range 20) 20
      = some { ret := some [], auth_data_len := 0, conn := tls_conn [] } :=
  ⟨by decide, by decide, by decide, by decide, by decide, by decide⟩

/-! ### C18: the counter of `mysqlnd_xor_string` -/

/-- C18, the code at the failing input: a buffer of 4294967296 bytes (`dst_len` is
4294967295) and the key of one byte.  The condition `i <= dst_len` holds for every value
of the `unsigned int` counter, which wraps to 0 after 4294967295: the loop does not end
for any number of rounds, and `mysqlnd_xor_string` does not return.  (For a buffer of
fewer than 4294967296 bytes the function does what C18 says, see
`mysqlnd_xor_string_masks` and `mysqlnd_xor_string_twice`.) -/
theorem mysqlnd_xor_string_counter_wraps :
    (List.replicate 4294967296 0).length = 4294967295 + 1 ∧
    mysqlnd_xor_string (List.replicate 4294967296 0) 4294967295 [1] 1 = none ∧
    (∀ fuel, mysqlnd_xor_string_loop 4294967295 [1] 1 fuel 0 (List.replicate 4294967296 0)
      = none) := by
  refine ⟨List.length_replicate _ _, ?_, ?_⟩
  · exact mysqlnd_xor_string_loop_never_ends 4294967295 [1] 1 (by decide) _ 0 _ (by decide)
  · intro fuel
    exact mysqlnd_xor_string_loop_never_ends 4294967295 [1] 1 (by decide) fuel 0 _ (by decide)

/-! ### C19 and C20: the end of `mysqlnd_auth_change_user` -/

/-- C19, the code at the failing input: a change-user on a connection with the character
set number 33 (`utf8`), with the user `u` and the password of the three bytes `a`, NUL,
`b` (`passwd_len = 3`), answered with OK by a server of version 8.0.0.
`mysqlnd_auth_change_user` returns PASS; the recorded username is the user argument, the
recorded password is the one byte `a`, the part of the password before its first NUL,
and not the three bytes of the argument.  The same through
`mysqlnd_run_authentication`. -/
theorem change_user_password_truncated :
    (mysqlnd_auth_change_user native_only_env (utf8_conn 80000 [ok_packet])
        [117] 1 [97, 0, 98] 3 none 0 false true "mysql_native_password"
        (some (mysqlnd_native_auth_plugin sample_hash20)) (List.range 20) 20
        (some (php_mysqlnd_scramble sample_hash20 (List.range 20) [97, 0, 98] 3)) 20).map
        (fun x => (x.ret, x.conn.username, x.conn.password))
      = some (enum_func_status.PASS, some [117], some [97]) ∧
    (mysqlnd_run_authentication native_only_env 1 (utf8_conn 80000 [ok_packet])
        { user := [117], passwd := [97, 0, 98], passwd_len := 3, is_change_user := true }
        (List.range 20) (some "mysql_native_password")).map
        (fun r => (r.1, r.2.username, r.2.password))
      = some (enum_func_status.PASS, some [117], some [97]) ∧
    (utf8_conn 80000 [ok_packet]).charset = some { nr := 33, name := "utf8" } ∧
    [97] ≠ [97, 0, 98] := by
  decide

theorem SET_CLIENT_ERROR_incoming (c : MYSQLND_CONN_DATA) (n : Nat) (s e : String) :
    (SET_CLIENT_ERROR c n s e).incoming = c.incoming := by
  unfold SET_CLIENT_ERROR; split <;> rfl

theorem SET_CLIENT_ERROR_error_no (c : MYSQLND_CONN_DATA) (n : Nat) (s e : String) :
    (SET_CLIENT_ERROR c n s e).error_info.error_no = n := by
  unfold SET_CLIENT_ERROR
  split
  · rfl
  · rename_i h
    simp only [ne_eq, not_not] at h
    exact h.symm

theorem auth_change_user_switch_conn (r : ServerResponse)
    (rd : enum_func_status × ServerPacket × MYSQLND_CONN_DATA) :
    (auth_change_user_switch r rd).conn.server_version = rd.2.2.server_version ∧
    (auth_change_user_switch r rd).conn.incoming = rd.2.2.incoming ∧
    ((auth_change_user_switch r rd).conn.error_info.error_no ≠ 0 ↔
      rd.2.1.error_info.error_no ≠ 0 ∨
        (rd.2.1.response_code = 0xFE ∧ rd.2.1.new_auth_protocol = none)) := by
  by_cases hfe : rd.2.1.response_code = 0xFE
  · cases hn : rd.2.1.new_auth_protocol with
    | none =>
      simp [auth_change_user_switch, COPY_CLIENT_ERROR, hfe, hn, SET_CLIENT_ERROR_incoming,
        SET_CLIENT_ERROR_error_no, CR_UNKNOWN_ERROR]
    | some n =>
      simp [auth_change_user_switch, COPY_CLIENT_ERROR, hfe, hn, SET_CLIENT_ERROR_incoming,
        SET_CLIENT_ERROR_error_no]
  · simp [auth_change_user_switch, COPY_CLIENT_ERROR, hfe, SET_CLIENT_ERROR_incoming,
      SET_CLIENT_ERROR_error_no]

theorem set_charset_events (env : AuthEnv) (c : MYSQLND_CONN_DATA) (n : String) :
    ∃ evs, (set_charset env c n).2.trace = c.trace ++ evs ∧
      ∀ e ∈ evs, is_set_charset_event e = true := by
  unfold set_charset
  simp only []
  split
  · exact ⟨_, PACKET_WRITE_trace _ _, by simp [is_set_charset_event]⟩
  · split
    · exact ⟨[WireEvent.wrote (ClientPacket.set_names n)
          (PACKET_WRITE c (ClientPacket.set_names n)).1,
        WireEvent.read PacketKind.query_response
          (PACKET_READ (PACKET_WRITE c (ClientPacket.set_names n)).2
            PacketKind.query_response).2.1], by simp, by simp [is_set_charset_event]⟩
    · exact ⟨[WireEvent.wrote (ClientPacket.set_names n)
          (PACKET_WRITE c (ClientPacket.set_names n)).1,
        WireEvent.read PacketKind.query_response
          (PACKET_READ (PACKET_WRITE c (ClientPacket.set_names n)).2
            PacketKind.query_response).2.1], by simp, by simp [is_set_charset_event]⟩

theorem auth_change_user_finish_events (env : AuthEnv) (user : List Nat) (user_len : Nat)
    (passwd : List Nat) (old_cs : Option MYSQLND_CHARSET) (b : Bool) (s2 x : AuthExchange)
    (hx : auth_change_user_finish env user user_len passwd old_cs b s2 = some x) :
    ∃ evs, x.conn.trace = s2.conn.trace ++ evs ∧
      (∀ e ∈ evs, is_set_charset_event e = true) ∧
      (s2.ret = enum_func_status.FAIL → evs = []) := by
  unfold auth_change_user_finish at hx
  split at hx
  · rename_i hp
    simp only [] at hx
    split at hx
    · cases old_cs with
      | none => cases hx
      | some cs =>
        simp only [Option.some.injEq] at hx
        subst hx
        obtain ⟨evs, ht, he⟩ := set_charset_events env
          { s2.conn with username := some (mnd_pestrndup user user_len)
                         password := some (mnd_pestrdup passwd)
                         last_message := none
                         upsert_status := {} } cs.name
        exact ⟨evs, ht, he, fun hf => by rw [hp] at hf; cases hf⟩
    · simp only [Option.some.injEq] at hx
      subst hx
      exact ⟨[], by simp, by simp, fun _ => rfl⟩
  · split at hx
    · simp only [Option.some.injEq] at hx
      subst hx
      exact ⟨[], by simp, by simp, fun _ => rfl⟩
    · simp only [Option.some.injEq] at hx
      subst hx
      exact ⟨[], by simp, by simp, fun _ => rfl⟩

/-- The result of `mysqlnd_auth_change_user` before its last statement is PASS exactly
when the response was read with success, is no auth switch request and left no error. -/
theorem auth_change_user_error_check_pass (r : ServerResponse)
    (rd : enum_func_status × ServerPacket × MYSQLND_CONN_DATA) :
    (auth_change_user_error_check (auth_change_user_switch r rd)).ret = enum_func_status.PASS ↔
      (rd.1 = enum_func_status.PASS ∧ rd.2.1.response_code ≠ 0xFE ∧
       (auth_change_user_switch r rd).conn.error_info.error_no = 0) := by
  unfold auth_change_user_error_check
  by_cases he : (auth_change_user_switch r rd).conn.error_info.error_no = 0
  · simp only [he, ne_eq, not_true_eq_false, if_false, and_true]
    by_cases hfe : rd.2.1.response_code = 0xFE
    · have hr : (auth_change_user_switch r rd).ret = enum_func_status.FAIL := by
        unfold auth_change_user_switch
        simp only []
        rw [if_pos hfe]
        split <;> rfl
      simp [hr, hfe]
    · have hr : (auth_change_user_switch r rd).ret = rd.1 := by
        unfold auth_change_user_switch
        simp only []
        rw [if_neg hfe]
      simp [hr, hfe]
  · simp only [ne_eq, he, not_false_eq_true, if_true, and_false, iff_false]
    split <;> simp

/-- C20. In `mysqlnd_auth_change_user`, from the read of the change-user response on (the
mechanism's `handle_server_response` having left `r`): after that read, one more packet
is read, as an OK packet, exactly when an error is recorded on the connection at that
point and the server version `v` satisfies `50113 < v < 50118`; otherwise no such read
is made.  The events `tail` that may follow are those of `set_charset` only, and there
are none when an error is recorded.  An error is recorded at that point exactly when
the response carries an error number other than 0, or has the response code `0xFE` and
no plugin name.  This part of the function has a result `x` unless its last statement
dereferences `old_cs` being `NULL`, which it does exactly when the response was accepted
(read with success, not an auth switch request, no error recorded) by a server older
than 5.1.23: never when an error is recorded. -/
theorem redundant_error_packet_read (env : AuthEnv) (user : List Nat) (user_len : Nat)
    (passwd : List Nat) (old_cs : Option MYSQLND_CHARSET) (r : ServerResponse) :
    (auth_change_user_read_response env user user_len passwd old_cs r = none ↔
      ((PACKET_READ r.conn PacketKind.chg_user_response).1 = enum_func_status.PASS ∧
       (PACKET_READ r.conn PacketKind.chg_user_response).2.1.response_code ≠ 0xFE ∧
       (auth_change_user_switch r
          (PACKET_READ r.conn PacketKind.chg_user_response)).conn.error_info.error_no = 0 ∧
       r.conn.server_version < 50123 ∧ old_cs = none)) ∧
    (∀ x, auth_change_user_read_response env user user_len passwd old_cs r = some x →
      ∃ tail,
        x.conn.trace
          = r.conn.trace ++
              WireEvent.read PacketKind.chg_user_response
                (PACKET_READ r.conn PacketKind.chg_user_response).2.1 ::
              ((if (auth_change_user_switch r
                      (PACKET_READ r.conn PacketKind.chg_user_response)).conn.error_info.error_no ≠ 0
                    ∧ 50113 < r.conn.server_version ∧ r.conn.server_version < 50118 then
                  [WireEvent.read PacketKind.ok (r.conn.incoming.tail.headD {})]
                else []) ++ tail) ∧
        (∀ e ∈ tail, is_set_charset_event e = true) ∧
        ((auth_change_user_switch r
            (PACKET_READ r.conn PacketKind.chg_user_response)).conn.error_info.error_no ≠ 0 →
          tail = [])) ∧
    ((auth_change_user_switch r
        (PACKET_READ r.conn PacketKind.chg_user_response)).conn.error_info.error_no ≠ 0 ↔
      (PACKET_READ r.conn PacketKind.chg_user_response).2.1.error_info.error_no ≠ 0 ∨
        ((PACKET_READ r.conn PacketKind.chg_user_response).2.1.response_code = 0xFE ∧
         (PACKET_READ r.conn PacketKind.chg_user_response).2.1.new_auth_protocol = none)) := by
  obtain ⟨hv, hi, herr⟩ := auth_change_user_switch_conn r
    (PACKET_READ r.conn PacketKind.chg_user_response)
  have ht := (auth_change_user_switch_facts r
    (PACKET_READ r.conn PacketKind.chg_user_response)).1
  have hv2 : (PACKET_READ r.conn PacketKind.chg_user_response).2.2.server_version
      = r.conn.server_version := by rw [PACKET_READ_eq]
  have hi2 : (PACKET_READ r.conn PacketKind.chg_user_response).2.2.incoming
      = r.conn.incoming.tail := by rw [PACKET_READ_eq]
  rw [hv2] at hv
  rw [hi2] at hi
  rw [PACKET_READ_trace] at ht
  refine ⟨?_, ?_, herr⟩
  · unfold auth_change_user_read_response
    simp only []
    rw [auth_change_user_finish_isSome, auth_change_user_error_check_pass]
    have hv3 : (auth_change_user_error_check (auth_change_user_switch r
        (PACKET_READ r.conn PacketKind.chg_user_response))).conn.server_version
        = r.conn.server_version := by
      unfold auth_change_user_error_check
      split
      · split
        · simp only []
          rw [PACKET_READ_eq]
          exact hv
        · exact hv
      · exact hv
    rw [hv3]
    constructor
    · rintro ⟨⟨h1, h2, h3⟩, h4, h5⟩
      exact ⟨h1, h2, h3, h4, h5⟩
    · rintro ⟨h1, h2, h3, h4, h5⟩
      exact ⟨⟨h1, h2, h3⟩, h4, h5⟩
  intro x hx
  unfold auth_change_user_read_response at hx
  simp only [] at hx
  obtain ⟨tail, hft, hfe, hff⟩ := auth_change_user_finish_events env user user_len passwd old_cs
    (PACKET_READ r.conn PacketKind.chg_user_response).2.1.server_asked_323_auth
    (auth_change_user_error_check
      (auth_change_user_switch r (PACKET_READ r.conn PacketKind.chg_user_response))) x hx
  refine ⟨tail, ?_, hfe, ?_⟩
  · rw [hft]
    unfold auth_change_user_error_check
    by_cases he : (auth_change_user_switch r
        (PACKET_READ r.conn PacketKind.chg_user_response)).conn.error_info.error_no ≠ 0
    · rw [if_pos he]
      by_cases hw : 50113 < r.conn.server_version ∧ r.conn.server_version < 50118
      · have hw2 : (auth_change_user_switch r
            (PACKET_READ r.conn PacketKind.chg_user_response)).conn.server_version > 50113 ∧
            (auth_change_user_switch r
              (PACKET_READ r.conn PacketKind.chg_user_response)).conn.server_version < 50118 := by
          rw [hv]; exact hw
        rw [if_pos hw2, if_pos ⟨he, hw⟩]
        simp only [PACKET_READ_trace, ht]
        rw [PACKET_READ_eq
          (auth_change_user_switch r (PACKET_READ r.conn PacketKind.chg_user_response)).conn, hi]
        simp
      · have hw2 : ¬ ((auth_change_user_switch r
            (PACKET_READ r.conn PacketKind.chg_user_response)).conn.server_version > 50113 ∧
            (auth_change_user_switch r
              (PACKET_READ r.conn PacketKind.chg_user_response)).conn.server_version < 50118) := by
          rw [hv]; exact hw
        have hc : ¬ ((auth_change_user_switch r
            (PACKET_READ r.conn PacketKind.chg_user_response)).conn.error_info.error_no ≠ 0 ∧
            50113 < r.conn.server_version ∧ r.conn.server_version < 50118) := fun h => hw h.2
        rw [if_neg hw2, if_neg hc]
        simp [ht]
    · have hc : ¬ ((auth_change_user_switch r
          (PACKET_READ r.conn PacketKind.chg_user_response)).conn.error_info.error_no ≠ 0 ∧
          50113 < r.conn.server_version ∧ r.conn.server_version < 50118) := fun h => he h.1
      rw [if_neg he, if_neg hc]
      simp [ht]
  · intro he
    exact hff ((auth_change_user_error_check_facts _).2.2.2.2.1 he)

/-! ### The theorems of C11 to C20 at concrete inputs -/

/-- C11 at a concrete input: the password `s`, the result byte `0x03`.  The handler
returns PASS after the one read; and a whole run of `mysqlnd_run_authentication` with
this answer followed by OK returns PASS after one write and two reads. -/
theorem caching_sha2_result_byte_witness :
    (∃ r,
      mysqlnd_caching_sha2_handle_server_response sample_crypto_env
          (key_file_conn [cached_sha2_result_packet 3]) (List.range 20) 20 [] [115] 1
        = some r ∧
      r.conn.trace = (key_file_conn [cached_sha2_result_packet 3]).trace ++
        [WireEvent.read PacketKind.cached_sha2_result
          (PACKET_READ (key_file_conn [cached_sha2_result_packet 3])
            PacketKind.cached_sha2_result).2.1] ∧
      r = { ret := enum_func_status.PASS, new_auth_protocol := none,
            new_auth_protocol_data := [],
            conn := (PACKET_READ (key_file_conn [cached_sha2_result_packet 3])
              PacketKind.cached_sha2_result).2.2 }) ∧
    (mysqlnd_run_authentication caching_sha2_only_env 1
        (key_file_conn [cached_sha2_result_packet 3, ok_packet])
        { passwd := [115], passwd_len := 1 } (List.range 20)
        (some "caching_sha2_password")).map
        (fun r => (r.1, r.2.auth_protocol, r.2.trace.map is_write))
      = some (enum_func_status.PASS, some "caching_sha2_password", [true, false, false]) :=
  And.intro
    (Exists.elim
      ((caching_sha2_result_byte sample_crypto_env (key_file_conn [cached_sha2_result_packet 3])
        (List.range 20) 20 [] [115] 1).2 (by decide) (Or.inr (by decide)))
      (fun r h => ⟨r, h.1, h.2.1, h.2.2.2.2 (Or.inr ⟨by decide, by decide⟩)⟩))
    (by decide)

/-- C12 at a concrete input: the password `s` over TLS, the result byte `0x04`. -/
theorem caching_sha2_full_auth_secure_witness :
    ∃ r,
      mysqlnd_caching_sha2_handle_server_response sample_crypto_env
          (tls_conn [cached_sha2_result_packet 4]) (List.range 20) 20 [] [115] 1 = some r ∧
      r.ret = enum_func_status.PASS ∧ r.new_auth_protocol = none ∧
      r.conn.trace = (tls_conn [cached_sha2_result_packet 4]).trace ++
        [WireEvent.read PacketKind.cached_sha2_result
            (PACKET_READ (tls_conn [cached_sha2_result_packet 4])
              PacketKind.cached_sha2_result).2.1,
         WireEvent.wrote (ClientPacket.cached_sha2_result 0 (some [115]) (1 + 1))
            ((tls_conn [cached_sha2_result_packet 4]).write_results.headD true)] :=
  (caching_sha2_full_auth_secure sample_crypto_env (tls_conn [cached_sha2_result_packet 4])
    (List.range 20) 20 [] [115] 1 (by decide) rfl rfl rfl rfl).1

/-- C13 at a concrete input: the password `s` without TLS, the result byte `0x04`, the
server's key of 64 bytes in a file. -/
theorem caching_sha2_full_auth_rsa_witness :
    ∃ m r kevs,
      mysqlnd_caching_sha2_handle_server_response sample_crypto_env
          (key_file_conn [cached_sha2_result_packet 4]) (List.range 20) 20 [] [115] 1
        = some r ∧
      r.ret = enum_func_status.PASS ∧
      r.conn.trace = (key_file_conn [cached_sha2_result_packet 4]).trace ++
        WireEvent.read PacketKind.cached_sha2_result
            (PACKET_READ (key_file_conn [cached_sha2_result_packet 4])
              PacketKind.cached_sha2_result).2.1 :: kevs ++
        [WireEvent.wrote
          (ClientPacket.cached_sha2_result 0
            (some (sample_crypto_env.RSA_public_encrypt sample_key m)) sample_key.size)
          ((PACKET_READ (key_file_conn [cached_sha2_result_packet 4])
              PacketKind.cached_sha2_result).2.2.write_results.headD true)] ∧
      m.length = 1 + 1 :=
  let ⟨m, r, kevs, h1, h2, _, h4, _, h6, _, _⟩ :=
    caching_sha2_full_auth_rsa sample_crypto_env (key_file_conn [cached_sha2_result_packet 4])
      (List.range 20) 20 [] [115] 1 sample_key
      (PACKET_READ (key_file_conn [cached_sha2_result_packet 4])
        PacketKind.cached_sha2_result).2.2
      (by decide) rfl rfl rfl rfl rfl (by decide) (by decide)
  ⟨m, r, kevs, h1, h2, h4, h6⟩

/-- C15 at a concrete input: the password `s` without TLS, the salt 0, 1, …, 19, the
server's key of 64 bytes in a file. -/
theorem sha256_rsa_response_witness :
    ∃ m,
      mysqlnd_sha256_auth_get_auth_data sample_crypto_env (key_file_conn []) [115] 1
          (List.range 20) 20
        = some { ret := some (sample_crypto_env.RSA_public_encrypt sample_key m),
                 auth_data_len := sample_key.size, conn := key_file_conn [] } ∧
      m.length = 1 + 1 ∧
      ∀ i, i ≤ 1 →
        m[i]? = some (([115] ++ [0]).getD i 0 ^^^
          (List.range 20).getD (i % (List.range 20).length) 0) :=
  sha256_rsa_response sample_crypto_env (key_file_conn []) [115] 1 (List.range 20) 20
    sample_key (key_file_conn []) rfl rfl (by decide) (by decide) rfl rfl (by decide)

/-- C20 at concrete inputs: an ERR answer to a change-user.  A server of version 5.1.15
gets one more read, of an OK packet structure; a server of version 5.1.18 does not. -/
theorem redundant_error_packet_read_witness :
    ((auth_change_user_read_response native_only_env [117] 1 [115] none
        { ret := enum_func_status.PASS, new_auth_protocol := none, new_auth_protocol_data := [],
          conn := { server_version := 50115, incoming := [err_packet, err_packet] } }
        ).map (fun x => x.conn.trace)
      = some [WireEvent.read PacketKind.chg_user_response err_packet,
         WireEvent.read PacketKind.ok err_packet]) ∧
    ((auth_change_user_read_response native_only_env [117] 1 [115] none
        { ret := enum_func_status.PASS, new_auth_protocol := none, new_auth_protocol_data := [],
          conn := { server_version := 50118, incoming := [err_packet, err_packet] } }
        ).map (fun x => x.conn.trace)
      = some [WireEvent.read PacketKind.chg_user_response err_packet]) := by
  decide

/-! ### C21 and C22: errors of `mysqlnd_auth_handshake` and failed writes -/

/-- The branch of `mysqlnd_auth_handshake` for an ERR packet: the result is FAIL, the
error number and the message are those of the packet, the SQLSTATE is
`UNKNOWN_SQLSTATE`, whatever SQLSTATE the packet carries. -/
theorem auth_handshake_server_error (r : ServerResponse)
    (hcode : (PACKET_READ r.conn PacketKind.auth_response).2.1.response_code = 0xFF)
    (he : (PACKET_READ r.conn PacketKind.auth_response).2.1.error_info.error_no ≠ 0) :
    (auth_handshake_read_response r).ret = enum_func_status.FAIL ∧
    (auth_handshake_read_response r).conn.error_info =
      { error_no := (PACKET_READ r.conn PacketKind.auth_response).2.1.error_info.error_no,
        sqlstate := UNKNOWN_SQLSTATE,
        error := (PACKET_READ r.conn PacketKind.auth_response).2.1.error_info.error } := by
  unfold auth_handshake_read_response
  simp only [hcode]
  simp [SET_CLIENT_ERROR_error_info _ _ _ _ he]

/-- C21, the code at the failing input: the server answers the client auth payload with
an ERR packet carrying the error number 1045, the SQLSTATE `28000` and the message
"Access denied".  `mysqlnd_run_authentication` returns FAIL after the one pass and the
recorded error holds 1045 and the message, but the SQLSTATE `HY000`, not `28000`.  The
same for an ERR packet read by `mysqlnd_caching_sha2_handle_server_response`. -/
theorem server_error_sqlstate_overwritten :
    (mysqlnd_run_authentication native_only_env 5 { incoming := [access_denied_packet] }
        { passwd := [115], passwd_len := 1 } (List.range 20)
        (some "mysql_native_password")).map (fun r => (r.1, r.2.error_info, r.2.trace.length))
      = some (enum_func_status.FAIL,
          { error_no := 1045, sqlstate := "HY000", error := "Access denied" }, 2) ∧
    (mysqlnd_caching_sha2_handle_server_response sample_crypto_env
        { incoming := [access_denied_packet] } (List.range 20) 20 [] [115] 1).map
        (fun r => (r.ret, r.conn.error_info))
      = some (enum_func_status.FAIL,
          { error_no := 1045, sqlstate := "HY000", error := "Access denied" }) ∧
    access_denied_packet.error_info.sqlstate = "28000" := by
  decide

/-- C22. Whenever the write of a client auth packet fails (the HandshakeResponse or the
AuthSwitchResponse in `mysqlnd_auth_handshake`, the full ChangeUser packet or the
AuthSwitchResponse in `mysqlnd_auth_change_user`), the function returns FAIL, the
recorded error is `CR_SERVER_GONE_ERROR` with the server-gone message, the connection
state is `CONN_QUIT_SENT`, and the failed write is the only event: no response packet
is read and no method of the mechanism is called.  After a failed write of the
HandshakeResponse the function records nothing itself: there the error and the state are
those the failed write left; on the other three paths the function sets both again.
(The full ChangeUser packet for a server of version 50123 or later takes
`conn->charset->nr`, so that the connection has a character set.) -/
theorem auth_packet_write_failure (env : AuthEnv) (conn : MYSQLND_CONN_DATA)
    (user passwd : List Nat) (user_len passwd_len : Nat) (db : Option (List Nat))
    (db_len : Nat) (so : MYSQLND_SESSION_OPTIONS) (mysql_flags server_charset_no : Nat)
    (silent use_full : Bool) (auth_protocol : String)
    (auth_plugin : Option st_mysqlnd_authentication_plugin)
    (salt : List Nat) (salt_len : Nat) (auth_data : Option (List Nat)) (auth_data_len : Nat)
    (hw : conn.write_results.headD true = false) :
    (mysqlnd_auth_handshake env conn user passwd passwd_len db db_len so mysql_flags
        server_charset_no use_full auth_protocol auth_plugin salt salt_len auth_data
        auth_data_len
      = some { ret := enum_func_status.FAIL, switch_to_auth_protocol := none,
               switch_to_auth_protocol_data := [],
               conn := { conn with
                 error_info := { error_no := CR_SERVER_GONE_ERROR, sqlstate := UNKNOWN_SQLSTATE,
                                 error := mysqlnd_server_gone }
                 state := mysqlnd_connection_state.CONN_QUIT_SENT
                 write_results := conn.write_results.tail
                 trace := conn.trace ++
                   [WireEvent.wrote (auth_handshake_payload env conn user db db_len so
                     mysql_flags server_charset_no use_full auth_protocol auth_data
                     auth_data_len) false] } }) ∧
    ((use_full = true → conn.server_version ≥ 50123 → conn.charset ≠ none) →
      ∃ w, auth_change_user_payload conn user db db_len silent use_full auth_protocol
          auth_data auth_data_len = some w ∧
        mysqlnd_auth_change_user env conn user user_len passwd passwd_len db db_len silent
          use_full auth_protocol auth_plugin salt salt_len auth_data auth_data_len
        = some { ret := enum_func_status.FAIL, switch_to_auth_protocol := none,
                 switch_to_auth_protocol_data := [],
                 conn := { conn with
                   error_info := { error_no := CR_SERVER_GONE_ERROR,
                                   sqlstate := UNKNOWN_SQLSTATE,
                                   error := mysqlnd_server_gone }
                   state := mysqlnd_connection_state.CONN_QUIT_SENT
                   write_results := conn.write_results.tail
                   trace := conn.trace ++ [WireEvent.wrote w false] } }) := by
  have hw2 : conn.write_results.head?.getD true = false := by
    rw [← List.headD_eq_head?_getD]; exact hw
  constructor
  · cases use_full
    · simp [mysqlnd_auth_handshake, PACKET_WRITE, hw2, auth_handshake_payload, SET_CLIENT_ERROR,
        SET_CONNECTION_STATE, CR_SERVER_GONE_ERROR]
    · simp [mysqlnd_auth_handshake, PACKET_WRITE, hw2, SET_CLIENT_ERROR,
        SET_CONNECTION_STATE, CR_SERVER_GONE_ERROR]
  · intro hcs
    obtain ⟨w, hp⟩ := auth_change_user_payload_isSome conn user db db_len silent use_full
      auth_protocol auth_data auth_data_len hcs
    refine ⟨w, hp, ?_⟩
    simp [mysqlnd_auth_change_user, hp, PACKET_WRITE, hw2, SET_CLIENT_ERROR,
      SET_CONNECTION_STATE, CR_SERVER_GONE_ERROR]

/-- C22 at a concrete input: the write of the HandshakeResponse fails on a connect under
`mysql_native_password` (salt 0, 1, …, 19, user `u`, password `s`). -/
theorem auth_packet_write_failure_witness :
    (mysqlnd_auth_handshake native_only_env { write_results := [false] } [117] [115] 1 none 0
        {} 0 0 true "mysql_native_password" (some (mysqlnd_native_auth_plugin sample_hash20))
        (List.range 20) 20 (some (php_mysqlnd_scramble sample_hash20 (List.range 20) [115] 1))
        20).map
        (fun x => (x.ret, x.conn.error_info, x.conn.state, x.conn.trace.map is_write))
      = some (enum_func_status.FAIL,
          { error_no := CR_SERVER_GONE_ERROR, sqlstate := UNKNOWN_SQLSTATE,
            error := mysqlnd_server_gone },
          mysqlnd_connection_state.CONN_QUIT_SENT, [true]) := by
  rw [(auth_packet_write_failure native_only_env { write_results := [false] } [117] [115] 1 1
    none 0 {} 0 0 false true "mysql_native_password"
    (some (mysqlnd_native_auth_plugin sample_hash20)) (List.range 20) 20
    (some (php_mysqlnd_scramble sample_hash20 (List.range 20) [115] 1)) 20 (by decide)).1]
  rfl

/-! ### C23: the acquisition of the server's public key -/

/-- With a key file configured (`fname` is set and not empty) neither key function
touches the connection: no key request is written and nothing is read.  The
connection's own path, when it is set and not empty, is the one used. -/
theorem key_file_no_request (env : CryptoEnv) (conn : MYSQLND_CONN_DATA) :
    (∀ fname, server_public_key_fname env conn = some fname → fname ≠ "" →
      mysqlnd_sha256_get_rsa_key env conn = (load_server_public_key env fname, conn) ∧
      mysqlnd_caching_sha2_get_key env conn = (load_server_public_key env fname, conn)) ∧
    (∀ f, conn.sha256_server_public_key = some f → f ≠ "" →
      server_public_key_fname env conn = some f) := by
  constructor
  · intro fname hf hne
    simp [mysqlnd_sha256_get_rsa_key, mysqlnd_caching_sha2_get_key, hf, hne]
  · intro f hf hne
    simp [server_public_key_fname, hf, hne]

/-- Without a key file (`fname` is `NULL` or empty) both key functions run the key
request: one request is written and, if the write succeeds, one response is read.
When this gives no key, the connection state becomes `CONN_QUIT_SENT`; the functions
record no error themselves (after a failed write the recorded error is the one the
write left, else it is left as it was). -/
theorem key_request_exchange (env : CryptoEnv) (conn : MYSQLND_CONN_DATA)
    (hf : server_public_key_fname env conn = none ∨ server_public_key_fname env conn = some "") :
    mysqlnd_sha256_get_rsa_key env conn
      = request_server_public_key env conn ClientPacket.sha256_pk_request ∧
    mysqlnd_caching_sha2_get_key env conn
      = request_server_public_key env conn (ClientPacket.cached_sha2_result 1 none 0) ∧
    (∀ req,
      (request_server_public_key env conn req).2.trace = conn.trace ++
        (if conn.write_results.headD true = false then [WireEvent.wrote req false]
         else [WireEvent.wrote req true,
               WireEvent.read PacketKind.sha256_pk_request_response
                 (conn.incoming.headD {})]) ∧
      (request_server_public_key env conn req).2.error_info =
        (if conn.write_results.headD true = false then
          { error_no := CR_SERVER_GONE_ERROR, sqlstate := UNKNOWN_SQLSTATE,
            error := mysqlnd_server_gone }
         else conn.error_info) ∧
      ((conn.write_results.headD true = false ∨
          (conn.incoming.headD {}).status = enum_func_status.FAIL ∨
          (conn.incoming.headD {}).public_key = none) →
        (request_server_public_key env conn req).1 = none ∧
        (request_server_public_key env conn req).2.state
          = mysqlnd_connection_state.CONN_QUIT_SENT)) := by
  refine ⟨?_, ?_, ?_⟩
  · rcases hf with hf | hf <;> simp [mysqlnd_sha256_get_rsa_key, hf]
  · rcases hf with hf | hf <;> simp [mysqlnd_caching_sha2_get_key, hf]
  · intro req
    unfold request_server_public_key
    simp only [PACKET_WRITE_eq, PACKET_READ_eq, List.headD_eq_head?_getD]
    by_cases hw : conn.write_results.head?.getD true = false
    · simp [hw, SET_CONNECTION_STATE]
    · have hw2 : conn.write_results.head?.getD true = true := by
        cases h : conn.write_results.head?.getD true
        · exact absurd h hw
        · rfl
      simp only [hw2, Bool.true_eq_false, if_false, false_or, ↓reduceIte]
      split
      · rename_i hc
        refine ⟨by simp [SET_CONNECTION_STATE], by simp [SET_CONNECTION_STATE], ?_⟩
        intro _
        exact ⟨rfl, rfl⟩
      · rename_i hc
        refine ⟨by simp, by simp, ?_⟩
        intro h
        exfalso
        apply hc
        rcases h with h | h
        · exact Or.inl h
        · exact Or.inr (by simp [h])

/-- C23, the code at the failing input: no key file is configured and the response to
the key request carries no key.  `mysqlnd_sha256_get_rsa_key` and
`mysqlnd_caching_sha2_get_key` return no key after the one request and the one read, and
the connection state becomes `CONN_QUIT_SENT`, but no client error is recorded
(`error_no` stays 0).  `mysqlnd_sha256_auth_get_auth_data` then returns no buffer and no
error, and `mysqlnd_run_authentication` goes on to write the HandshakeResponse. -/
theorem key_unavailable_no_error :
    (((mysqlnd_sha256_get_rsa_key no_key_file_env { incoming := [no_key_packet] }).1,
      (mysqlnd_sha256_get_rsa_key no_key_file_env { incoming := [no_key_packet] }).2.error_info.error_no,
      (mysqlnd_sha256_get_rsa_key no_key_file_env { incoming := [no_key_packet] }).2.state,
      (mysqlnd_sha256_get_rsa_key no_key_file_env
        { incoming := [no_key_packet] }).2.trace.map is_write)
      = (none, 0, mysqlnd_connection_state.CONN_QUIT_SENT, [true, false])) ∧
    (((mysqlnd_caching_sha2_get_key no_key_file_env { incoming := [no_key_packet] }).1,
      (mysqlnd_caching_sha2_get_key no_key_file_env { incoming := [no_key_packet] }).2.error_info.error_no,
      (mysqlnd_caching_sha2_get_key no_key_file_env
        { incoming := [no_key_packet] }).2.trace.map is_write)
      = (none, 0, [true, false])) ∧
    ((mysqlnd_sha256_auth_get_auth_data no_key_file_env { incoming := [no_key_packet] }
        [115] 1 (List.range 20) 20).map
        (fun r => (r.ret, r.auth_data_len, r.conn.error_info.error_no))
      = some (none, 0, 0)) ∧
    ((mysqlnd_run_authentication (native_sha256_env no_key_file_env) 5
        { incoming := [no_key_packet, ok_packet] } { passwd := [115], passwd_len := 1 }
        (List.range 20) (some "sha256_password")).map
        (fun r => (r.1, r.2.error_info.error_no, (auth_packets r.2.trace).length))
      = some (enum_func_status.PASS, 0, 1)) := by
  decide

/-! ### C25: `mysql_clear_password` -/

/-- C25. `mysqlnd_pam_auth_get_auth_data`, as the engine calls it through the plugin: for
every connection (with TLS or without, with any error state), user, password, salt,
session options and client flags the call returns, leaves the connection as it was
(no error is recorded), and sets `auth_data_len = passwd_len`; the buffer holds the
first `passwd_len` bytes of the password (followed by a NUL that is not counted), and
for `passwd_len = 0` there is no buffer.  The buffer and the length are the same
for any other connection, salt, options and flags. -/
theorem clear_password_response (conn : MYSQLND_CONN_DATA) (user passwd : List Nat)
    (passwd_len : Nat) (salt : List Nat) (salt_len : Nat) (so : MYSQLND_SESSION_OPTIONS)
    (flags : Nat) :
    ∃ r,
      mysqlnd_pam_authentication_plugin.get_auth_data conn user passwd passwd_len salt salt_len
        so flags = some r ∧
      r.conn = conn ∧ r.auth_data_len = passwd_len ∧
      (passwd_len = 0 → r.ret = none) ∧
      (passwd_len ≠ 0 → r.ret = some (passwd.take passwd_len ++ [0])) ∧
      (passwd.length = passwd_len → r.ret.map (List.take r.auth_data_len)
        = if passwd_len = 0 then none else some passwd) ∧
      (∀ conn2 salt2 salt_len2 so2 flags2,
        (mysqlnd_pam_authentication_plugin.get_auth_data conn2 user passwd passwd_len salt2
          salt_len2 so2 flags2).map (fun r2 => (r2.ret, r2.auth_data_len))
          = some (r.ret, r.auth_data_len)) := by
  refine ⟨mysqlnd_pam_auth_get_auth_data conn passwd passwd_len, rfl, rfl, rfl, ?_, ?_, ?_, ?_⟩
  · intro h
    simp [mysqlnd_pam_auth_get_auth_data, h]
  · intro h
    simp [mysqlnd_pam_auth_get_auth_data, h]
  · intro hl
    by_cases h0 : passwd_len = 0
    · simp [mysqlnd_pam_auth_get_auth_data, h0]
    · have : passwd.take passwd_len = passwd := by rw [← hl]; exact List.take_length passwd
      simp only [mysqlnd_pam_auth_get_auth_data, ne_eq, h0, not_false_eq_true, if_true,
        if_false, Option.map_some', this]
      rw [List.take_append_of_le_length (by omega), ← hl, List.take_length]
  · intro conn2 salt2 salt_len2 so2 flags2
    rfl

/-! ### The recorded credentials through the statements of `mysqlnd_auth_change_user` -/

theorem SET_CLIENT_ERROR_credentials (c : MYSQLND_CONN_DATA) (n : Nat) (s e : String) :
    (SET_CLIENT_ERROR c n s e).username = c.username ∧
    (SET_CLIENT_ERROR c n s e).password = c.password := by
  unfold SET_CLIENT_ERROR; split <;> exact ⟨rfl, rfl⟩

theorem set_charset_credentials (env : AuthEnv) (c : MYSQLND_CONN_DATA) (n : String) :
    (set_charset env c n).2.username = c.username ∧
    (set_charset env c n).2.password = c.password := by
  unfold set_charset
  simp only [PACKET_READ_eq]
  split
  · exact ⟨PACKET_WRITE_username _ _, PACKET_WRITE_password _ _⟩
  · split <;> exact ⟨PACKET_WRITE_username _ _, PACKET_WRITE_password _ _⟩

theorem auth_change_user_switch_credentials (r : ServerResponse)
    (rd : enum_func_status × ServerPacket × MYSQLND_CONN_DATA) :
    (auth_change_user_switch r rd).conn.username = rd.2.2.username ∧
    (auth_change_user_switch r rd).conn.password = rd.2.2.password := by
  by_cases hfe : rd.2.1.response_code = 0xFE
  · cases hn : rd.2.1.new_auth_protocol with
    | none =>
      simp [auth_change_user_switch, COPY_CLIENT_ERROR, hfe, hn, SET_CLIENT_ERROR_credentials]
    | some n =>
      simp [auth_change_user_switch, COPY_CLIENT_ERROR, hfe, hn, SET_CLIENT_ERROR_credentials]
  · simp [auth_change_user_switch, COPY_CLIENT_ERROR, hfe, SET_CLIENT_ERROR_credentials]

theorem auth_change_user_error_check_credentials (s1 : AuthExchange) :
    (auth_change_user_error_check s1).conn.username = s1.conn.username ∧
    (auth_change_user_error_check s1).conn.password = s1.conn.password ∧
    (auth_change_user_error_check s1).conn.server_version = s1.conn.server_version := by
  unfold auth_change_user_error_check
  split
  · split
    · simp [PACKET_READ_eq]
    · exact ⟨rfl, rfl, rfl⟩
  · exact ⟨rfl, rfl, rfl⟩

/-! ### C29: a `PASS` with a recorded client error -/

/-- C29, evaluated. A connect (`is_change_user` false) that starts with no error recorded,
under `caching_sha2_password` with a key of 64 bytes and a password of 30 bytes: the
server asks for full authentication (`0x04`) and then answers OK.  The RSA step records
`password is too long`; the handler still writes a packet (with no password bytes) and
returns `PASS`, and `mysqlnd_run_authentication` returns `PASS` with that error recorded. -/
theorem pass_with_recorded_error :
    (key_file_conn [cached_sha2_result_packet 4, ok_packet]).error_info.error_no = 0 ∧
    (mysqlnd_caching_sha2_get_and_use_key sample_crypto_env
        (key_file_conn []) (List.range 20) 20 none (List.replicate 30 120) 30).map
        (fun r => (r.len, r.conn.error_info))
      = some (0, password_too_long_error) ∧
    (mysqlnd_caching_sha2_handle_server_response sample_crypto_env
        (key_file_conn [cached_sha2_result_packet 4]) (List.range 20) 20 [117]
        (List.replicate 30 120) 30).map
        (fun r => (r.ret, r.conn.error_info, r.conn.trace.map is_write))
      = some (enum_func_status.PASS, password_too_long_error, [false, true]) ∧
    (mysqlnd_run_authentication caching_sha2_only_env 5
        (key_file_conn [cached_sha2_result_packet 4, ok_packet])
        { user := [117], passwd := List.replicate 30 120, passwd_len := 30 }
        (List.range 20) (some "caching_sha2_password")).map
        (fun r => (r.1, r.2.error_info))
      = some (enum_func_status.PASS, password_too_long_error) ∧
    password_too_long_error.error_no ≠ 0 := by
  decide

/-! ### C30: the modulus of the masking step -/

/-- Part (b) of C30: a pass of the loop of `mysqlnd_run_authentication` under
`caching_sha2_password` with a salt of fewer than `SCRAMBLE_LENGTH` bytes leaves through
`goto end` with the error of `mysqlnd_caching_sha2_get_auth_data`, before any packet is
written or read: the handler, and with it the masking, is not reached. -/
theorem caching_sha2_short_salt_no_exchange (SHA256 : List Nat → List Nat)
    (cenv : CryptoEnv) (env : AuthEnv) (a : AuthArgs) (st : AuthLoop)
    (hreg : env.fetch_auth_plugin_by_name st.requested_protocol
      = some (mysqlnd_caching_sha2_auth_plugin SHA256 cenv))
    (hs : st.plugin_data.length < SCRAMBLE_LENGTH) :
    ∃ st1, run_authentication_body env a st = some (true, st1) ∧
      st1.conn.error_info = scramble_length_error ∧ st1.conn.trace = st.conn.trace := by
  unfold run_authentication_body
  simp only [hreg, Option.isNone_some, Bool.false_eq_true, false_and, if_false,
    call_get_auth_data, mysqlnd_caching_sha2_auth_plugin, mysqlnd_caching_sha2_get_auth_data,
    if_pos hs]
  rw [if_pos (by rw [SET_CLIENT_ERROR_error_no]; decide)]
  exact ⟨_, rfl, by simp [SET_CLIENT_ERROR, scramble_length_error, CR_MALFORMED_PACKET],
    by rw [SET_CLIENT_ERROR_trace]⟩

/-- Part (b) of C30, the other way round: when a pass of the loop under
`caching_sha2_password` does not leave through `goto end`, the current salt has at
least `SCRAMBLE_LENGTH` bytes. -/
theorem caching_sha2_exchange_salt_length (SHA256 : List Nat → List Nat)
    (cenv : CryptoEnv) (env : AuthEnv) (a : AuthArgs) (st st1 : AuthLoop)
    (hreg : env.fetch_auth_plugin_by_name st.requested_protocol
      = some (mysqlnd_caching_sha2_auth_plugin SHA256 cenv))
    (hb : run_authentication_body env a st = some (false, st1)) :
    SCRAMBLE_LENGTH ≤ st.plugin_data.length := by
  by_contra hs
  obtain ⟨st2, h2, _⟩ := caching_sha2_short_salt_no_exchange SHA256 cenv env a st hreg
    (Nat.lt_of_not_le hs)
  rw [h2] at hb
  cases hb

/-- C30 (a), evaluated. With an empty salt, `mysqlnd_sha256_auth_get_auth_data` (key
available, password `s`, no TLS) calls `mysqlnd_xor_string` with the modulus 0: the
remainder `i % 0` is taken and the call does not return.  So does a pass of the loop
of `mysqlnd_run_authentication`, at connect with an empty salt in the greeting and after
a switch to `sha256_password` that carries no salt.  The sibling mechanism
`mysql_native_password` rejects the same salt with an error instead. -/
theorem sha256_empty_salt_modulus_zero :
    mysqlnd_xor_string [115, 0] 1 [] 0 = none ∧
    mysqlnd_sha256_auth_get_auth_data sample_crypto_env (key_file_conn []) [115] 1 [] 0 = none ∧
    run_authentication_body (native_sha256_env sample_crypto_env)
        { user := [117], passwd := [115], passwd_len := 1 }
        (run_authentication_entry (key_file_conn [ok_packet]) [] (some "sha256_password"))
      = none ∧
    mysqlnd_run_authentication (native_sha256_env sample_crypto_env) 5
        (key_file_conn [switch_packet "sha256_password" none, ok_packet])
        { user := [117], passwd := [115], passwd_len := 1 }
        (List.range 20) (some "mysql_native_password")
      = none ∧
    (mysqlnd_native_auth_get_auth_data sample_hash20 (key_file_conn []) [115] 1 [] 0).conn.error_info
      = scramble_length_error := by
  decide

/-! ### C26: the concrete vector of `mysql_native_password` -/

/-- The SHA-1 model on the test vectors of the standard: the digests of the empty
message and of `abc`. -/
theorem PHP_SHA1_test_vectors :
    PHP_SHA1 [] = [218, 57, 163, 238, 94, 107, 75, 13, 50, 85, 191, 239, 149, 96, 24, 144, 175,
      216, 7, 9] ∧
    PHP_SHA1 [97, 98, 99] = [169, 153, 62, 54, 71, 6, 129, 106, 186, 62, 37, 113, 120, 80, 194,
      108, 156, 208, 216, 157] := by
  decide!

/-- C26, amended. With SHA-1 for the hash, the salt bytes `01 02 03 … 14` (hexadecimal)
and the password `secret` (6 bytes), `mysqlnd_native_auth_get_auth_data` returns the
20 bytes `B32BB3A583E1340C0A1108D58B1BE49781AD8C2F`, with `*auth_data_len` 20 and no
error recorded. -/
theorem native_vector :
    (mysqlnd_native_auth_get_auth_data PHP_SHA1 {} vector_password 6 vector_salt 20).ret
      = some [0xB3, 0x2B, 0xB3, 0xA5, 0x83, 0xE1, 0x34, 0x0C, 0x0A, 0x11, 0x08, 0xD5, 0x8B, 0x1B,
          0xE4, 0x97, 0x81, 0xAD, 0x8C, 0x2F] ∧
    (mysqlnd_native_auth_get_auth_data PHP_SHA1 {} vector_password 6 vector_salt 20).auth_data_len
      = 20 ∧
    (mysqlnd_native_auth_get_auth_data PHP_SHA1 {} vector_password 6 vector_salt
      20).conn.error_info.error_no = 0 := by
  decide!

/-- Counterexample to C26 as stated: for that salt and password the function does not
return the bytes `14E65579D9EB9B7E9C0E1C06D9F75F7A3E3F07D9`. -/
theorem native_vector_counterexample :
    (mysqlnd_native_auth_get_auth_data PHP_SHA1 {} vector_password 6 vector_salt 20).ret
      ≠ some [0x14, 0xE6, 0x55, 0x79, 0xD9, 0xEB, 0x9B, 0x7E, 0x9C, 0x0E, 0x1C, 0x06, 0xD9, 0xF7,
          0x5F, 0x7A, 0x3E, 0x3F, 0x07, 0xD9] := by
  decide!

/-! ### C24: the SASL sub-mechanism check of `mysqlnd_ldap_sasl__get_auth_data` -/

theorem takeWhile_append_terminated (s after : List Nat) (h0 : 0 ∈ s) :
    (s ++ after).takeWhile (fun b => b != 0) = s.takeWhile (fun b => b != 0) := by
  induction s with
  | nil => cases h0
  | cons a t ih =>
    by_cases ha : a = 0
    · subst ha
      simp [List.takeWhile_cons]
    · have ht : 0 ∈ t := by
        rcases List.mem_cons.mp h0 with h | h
        · exact absurd h.symm ha
        · exact h
      simp only [List.cons_append, List.takeWhile_cons, bne_iff_ne, ne_eq, ha,
        not_false_eq_true, if_true]
      rw [ih ht]

/-- The C string at a buffer that holds a NUL is the part of the buffer before its first
NUL, whatever follows the buffer in memory. -/
theorem c_string_terminated (s after : List Nat) (h0 : 0 ∈ s) :
    c_string (s ++ after) = some (s.takeWhile (fun b => b != 0)) := by
  unfold c_string
  rw [if_pos (List.mem_append.mpr (Or.inl h0)), takeWhile_append_terminated s after h0]

/-- Function `strcmp` on a buffer that holds a NUL and a constant without a NUL: the
result is 0 exactly when the part of the buffer before its first NUL is the constant,
whatever follows the buffer in memory. -/
theorem strcmp_terminated (after : List Nat) :
    ∀ (s k : List Nat), 0 ∈ s → 0 ∉ k →
      strcmp (s ++ after) k = some (if s.takeWhile (fun b => b != 0) = k then 0 else 1) := by
  intro s
  induction s with
  | nil => intro k h0; cases h0
  | cons a t ih =>
    intro k h0 hk
    cases k with
    | nil =>
      by_cases ha : a = 0
      · subst ha
        simp [strcmp, List.takeWhile_cons]
      · simp [strcmp, List.takeWhile_cons, ha]
    | cons b k1 =>
      have hb : b ≠ 0 := fun h => hk (by rw [h]; exact List.mem_cons_self _ _)
      have hk1 : 0 ∉ k1 := fun h => hk (List.mem_cons_of_mem _ h)
      by_cases hab : a = b
      · subst hab
        have ht : 0 ∈ t := by
          rcases List.mem_cons.mp h0 with h | h
          · exact absurd h.symm hb
          · exact h
        have := ih k1 ht hk1
        simp only [List.cons_append, strcmp, ne_eq, not_true_eq_false, if_false, hb,
          List.takeWhile_cons, bne_iff_ne, not_false_eq_true, if_true, List.cons.injEq,
          true_and]
        exact this
      · by_cases ha : a = 0
        · subst ha
          simp [strcmp, List.takeWhile_cons, hab]
        · simp [strcmp, List.takeWhile_cons, hab, ha]
/-- The test at the head of `mysqlnd_ldap_sasl__get_auth_data` on a salt buffer that
holds a NUL: the method is not supported exactly when the part of the buffer before its
first NUL is neither of the two names. -/
theorem sasl_method_not_supported_terminated (s after : List Nat) (h0 : 0 ∈ s) :
    sasl_method_not_supported (s ++ after)
      = some (decide (s.takeWhile (fun b => b != 0) ≠ SASL_SCRAM_SHA1 ∧
          s.takeWhile (fun b => b != 0) ≠ SASL_SCRAM_SHA256)) := by
  unfold sasl_method_not_supported
  rw [strcmp_terminated after s SASL_SCRAM_SHA1 h0 (by decide),
    strcmp_terminated after s SASL_SCRAM_SHA256 h0 (by decide)]
  by_cases h1 : s.takeWhile (fun b => b != 0) = SASL_SCRAM_SHA1
  · simp [h1]
  · by_cases h2 : s.takeWhile (fun b => b != 0) = SASL_SCRAM_SHA256
    · simp [h1, h2]
    · simp [h1, h2]

/-- The calls that the loop of `sasl_run` adds to the record are calls of
`sasl_client_start` with the mechanism name it was given, and there is one at least. -/
theorem sasl_run_loop_calls (sasl : SaslEnv) (mech user passwd : List Nat) :
    ∀ (fuel : Nat) (connection : sasl_conn_t) (ints : List sasl_interact_t)
      (calls : List SaslCall) (r : SaslResult) (calls1 : List SaslCall),
      sasl_run_loop sasl mech user passwd fuel connection ints calls = some (r, calls1) →
      ∃ new, calls1 = calls ++ new ∧ new ≠ [] ∧
        ∀ e ∈ new, ∃ i, e = SaslCall.client_start mech i := by
  intro fuel
  induction fuel with
  | zero => intro connection ints calls r calls1 h; simp [sasl_run_loop] at h
  | succ n ih =>
    intro connection ints calls r calls1 h
    rw [sasl_run_loop] at h
    split at h
    · obtain ⟨new, h1, _, h3⟩ := ih _ _ _ _ _ h
      refine ⟨SaslCall.client_start mech ints :: new, ?_, by simp, ?_⟩
      · rw [h1]; simp
      · intro e he
        rcases List.mem_cons.mp he with he | he
        · exact ⟨ints, he⟩
        · exact h3 e he
    · simp only [Option.some.injEq, Prod.mk.injEq] at h
      refine ⟨[SaslCall.client_start mech ints], h.2.symm, by simp, ?_⟩
      intro e he
      exact ⟨ints, List.mem_singleton.mp he⟩

/-- The calls that `sasl_run` adds to the record are calls of `sasl_client_start` with
the mechanism name it was given, and there is one at least. -/
theorem sasl_run_calls (sasl : SaslEnv) (fuel : Nat) (connection : sasl_conn_t)
    (mech user passwd : List Nat) (calls : List SaslCall) (r : SaslResult)
    (calls1 : List SaslCall)
    (h : sasl_run sasl fuel connection mech user passwd calls = some (r, calls1)) :
    ∃ new, calls1 = calls ++ new ∧ new ≠ [] ∧
      ∀ e ∈ new, ∃ i, e = SaslCall.client_start mech i := by
  unfold sasl_run at h
  split at h
  · cases h
  · rename_i r0 c0 h0
    have hl := sasl_run_loop_calls sasl mech user passwd fuel connection [] calls r0 c0 h0
    split at h
    · simp only [Option.some.injEq, Prod.mk.injEq] at h
      rw [← h.2]; exact hl
    · simp only [Option.some.injEq, Prod.mk.injEq] at h
      rw [← h.2]; exact hl

/-- The function `mysqlnd_ldap_sasl__get_auth_data` on a salt buffer that holds a NUL of
its own, so that the salt string is the part of the buffer before its first NUL,
whatever the memory behind the buffers is.  For every such salt whose string is neither
`SCRAM-SHA-1` nor `SCRAM-SHA-256` the function ends in the fatal error with the
connection as it was: no initial response, no call of the SASL library, no session.
Whenever a call of the library is on record or the session of the connection has
changed at the end of the function, the salt string is one of the two names; and when
`conn->authentication_plugin_data` holds the salt, as it does when the engine calls the
function, every call of `sasl_client_start` has the salt string for its mechanism
name. -/
theorem ldap_sasl_terminated_salt (sasl : SaslEnv) (fuel : Nat)
    (salt_after conn_salt_after : List Nat) (conn : MYSQLND_CONN_DATA)
    (user passwd : List Nat) (passwd_len : Nat) (auth_plugin_data : List Nat)
    (auth_plugin_data_len : Nat) (h0 : 0 ∈ auth_plugin_data) :
    (auth_plugin_data.takeWhile (fun b => b != 0) ≠ SASL_SCRAM_SHA1 →
      auth_plugin_data.takeWhile (fun b => b != 0) ≠ SASL_SCRAM_SHA256 →
      mysqlnd_ldap_sasl__get_auth_data sasl fuel salt_after conn_salt_after conn user passwd
          passwd_len auth_plugin_data auth_plugin_data_len = SaslOutcome.fatal_error conn ∧
      (mysqlnd_ldap_sasl_auth_plugin sasl fuel salt_after conn_salt_after).get_auth_data conn
          user passwd passwd_len auth_plugin_data auth_plugin_data_len {} 0 = none) ∧
    (∀ c, (mysqlnd_ldap_sasl__get_auth_data sasl fuel salt_after conn_salt_after conn user
        passwd passwd_len auth_plugin_data auth_plugin_data_len).conn_of (fun r => r.conn)
        = some c →
      ∃ calls, c.sasl_calls = conn.sasl_calls ++ calls ∧
        ((calls ≠ [] ∨ c.sasl_connection ≠ conn.sasl_connection) →
          auth_plugin_data.takeWhile (fun b => b != 0) = SASL_SCRAM_SHA1 ∨
          auth_plugin_data.takeWhile (fun b => b != 0) = SASL_SCRAM_SHA256) ∧
        (conn.authentication_plugin_data = auth_plugin_data →
          ∀ m i, SaslCall.client_start m i ∈ calls →
            m = auth_plugin_data.takeWhile (fun b => b != 0))) := by
  have hns := sasl_method_not_supported_terminated auth_plugin_data salt_after h0
  have hcs := c_string_terminated auth_plugin_data salt_after h0
  constructor
  · intro h1 h2
    have hf : mysqlnd_ldap_sasl__get_auth_data sasl fuel salt_after conn_salt_after conn user
        passwd passwd_len auth_plugin_data auth_plugin_data_len
        = SaslOutcome.fatal_error conn := by
      unfold mysqlnd_ldap_sasl__get_auth_data
      rw [hns, hcs]
      simp [h1, h2]
    refine ⟨hf, ?_⟩
    simp only [mysqlnd_ldap_sasl_auth_plugin]
    rw [hf]
    rfl
  · intro c hc
    unfold mysqlnd_ldap_sasl__get_auth_data at hc
    rw [hns, hcs] at hc
    by_cases hname : auth_plugin_data.takeWhile (fun b => b != 0) ≠ SASL_SCRAM_SHA1 ∧
        auth_plugin_data.takeWhile (fun b => b != 0) ≠ SASL_SCRAM_SHA256
    · simp only [hname, ne_eq, not_false_eq_true, and_self, decide_True, SaslOutcome.conn_of,
        Option.some.injEq] at hc
      subst hc
      exact ⟨[], by simp, by simp, by simp⟩
    · have hn : auth_plugin_data.takeWhile (fun b => b != 0) = SASL_SCRAM_SHA1 ∨
          auth_plugin_data.takeWhile (fun b => b != 0) = SASL_SCRAM_SHA256 := by
        by_contra hc2
        simp only [not_or] at hc2
        exact hname ⟨hc2.1, hc2.2⟩
      have hd : decide (auth_plugin_data.takeWhile (fun b => b != 0) ≠ SASL_SCRAM_SHA1 ∧
          auth_plugin_data.takeWhile (fun b => b != 0) ≠ SASL_SCRAM_SHA256) = false := by
        simpa using hname
      rw [hd] at hc
      simp only [] at hc
      split at hc
      · simp only [SaslOutcome.conn_of, Option.some.injEq] at hc
        subst hc
        exact ⟨[SaslCall.client_init], rfl, fun _ => hn, by simp⟩
      · split at hc
        · simp only [SaslOutcome.conn_of, Option.some.injEq] at hc
          subst hc
          refine ⟨[SaslCall.client_init, SaslCall.client_new SASL_SERVICE_NAME], by simp,
            fun _ => hn, by simp⟩
        · split at hc
          · simp [SaslOutcome.conn_of] at hc
          · rename_i mech hmech
            split at hc
            · simp [SaslOutcome.conn_of] at hc
            · rename_i r calls hrun
              obtain ⟨new, h1, _, h3⟩ := sasl_run_calls _ _ _ _ _ _ _ _ _ hrun
              have hcc : c.sasl_calls = calls := by
                split at hc
                · simp only [SaslOutcome.conn_of, Option.some.injEq] at hc
                  subst hc; rfl
                · simp only [SaslOutcome.conn_of, Option.some.injEq] at hc
                  subst hc; rfl
              refine ⟨[SaslCall.client_init, SaslCall.client_new SASL_SERVICE_NAME,
                SaslCall.setprop] ++ new, ?_, fun _ => hn, ?_⟩
              · rw [hcc, h1]; simp
              · intro hapd m i hm
                rw [hapd, c_string_terminated auth_plugin_data conn_salt_after h0] at hmech
                simp only [Option.some.injEq] at hmech
                simp only [List.cons_append, List.nil_append, List.mem_cons] at hm
                rcases hm with hm | hm | hm | hm
                · cases hm
                · cases hm
                · cases hm
                · obtain ⟨j, hj⟩ := h3 _ hm
                  injection hj with hj1 _
                  rw [hj1, hmech]

/-- C24, the code at the failing input.  The function reads salt buffers as C strings
that hold no NUL of their own, so that what it does depends on the memory behind them.
First: the salt is the 11 bytes of `SCRAM-SHA-1`, a NUL follows the buffer handed to
the function (as in the first iteration of `mysqlnd_run_authentication`), and the byte
`x` and a NUL follow the copy of exactly 11 bytes in `conn->authentication_plugin_data.s`:
a session is created and `sasl_client_start` is called with the mechanism name
`SCRAM-SHA-1x`, which is neither of the two names; the same through
`mysqlnd_run_authentication`.  Second: the salt is the 9 bytes of `SCRAM-SHA`, a proper
prefix of the name, in a buffer of exactly 9 bytes (as after an auth switch request)
that is followed in memory by the bytes of `-1` and a NUL: the function creates a
session and returns an initial response.  Third: the same salt followed in memory by a
NUL ends in the fatal error without a session. -/
theorem ldap_sasl_unterminated_salt :
    ((mysqlnd_ldap_sasl__get_auth_data sample_sasl 5 [0] [120, 0]
        { authentication_plugin_data := SASL_SCRAM_SHA1 } [117] [115] 1 SASL_SCRAM_SHA1
        11).result.map (fun r => (r.auth_data_len, r.conn.sasl_connection, r.conn.sasl_calls))
      = some (3, some { state := 1 },
          [SaslCall.client_init, SaslCall.client_new "ldap", SaslCall.setprop,
            SaslCall.client_start (SASL_SCRAM_SHA1 ++ [120]) []])) ∧
    (SASL_SCRAM_SHA1 ++ [120] ≠ SASL_SCRAM_SHA1 ∧
      SASL_SCRAM_SHA1 ++ [120] ≠ SASL_SCRAM_SHA256 ∧ SASL_SCRAM_SHA1.length = 11) ∧
    ((mysqlnd_run_authentication (ldap_sasl_env_at 5 [0] [120, 0]) 5
        { incoming := [sasl_packet [114, 61], sasl_packet [118, 61], ok_packet] }
        sample_args SASL_SCRAM_SHA1 (some "authentication_ldap_sasl_client")).map
        (fun r => (r.1, r.2.sasl_calls.take 4))
      = some (enum_func_status.PASS,
          [SaslCall.client_init, SaslCall.client_new "ldap", SaslCall.setprop,
            SaslCall.client_start (SASL_SCRAM_SHA1 ++ [120]) []])) ∧
    ((mysqlnd_ldap_sasl__get_auth_data sample_sasl 5 [45, 49, 0] [45, 49, 0]
        { authentication_plugin_data := SASL_SCRAM_SHA1.take 9 } [117] [115] 1
        (SASL_SCRAM_SHA1.take 9) 9).result.map
        (fun r => (r.auth_data_len, r.conn.sasl_connection, r.conn.sasl_calls.length))
      = some (3, some { state := 1 }, 4)) ∧
    (SASL_SCRAM_SHA1.take 9 ≠ SASL_SCRAM_SHA1 ∧ SASL_SCRAM_SHA1.take 9 ≠ SASL_SCRAM_SHA256 ∧
      SASL_SCRAM_SHA1.take 9 ++ [45, 49] = SASL_SCRAM_SHA1) ∧
    ((mysqlnd_ldap_sasl__get_auth_data sample_sasl 5 [0] [0]
        { authentication_plugin_data := SASL_SCRAM_SHA1.take 9 } [117] [115] 1
        (SASL_SCRAM_SHA1.take 9) 9).conn_of (fun r => r.conn)).map
        (fun c => (c.sasl_connection, c.sasl_calls))
      = some (none, []) ∧
    ((mysqlnd_ldap_sasl__get_auth_data sample_sasl 5 [0] [0]
        { authentication_plugin_data := SASL_SCRAM_SHA1.take 9 } [117] [115] 1
        (SASL_SCRAM_SHA1.take 9) 9).result).isNone = true :=
  ⟨by decide, by decide, by decide, by decide, by decide, by decide, by decide⟩

/-! ### C27: termination of `mysqlnd_run_authentication` -/

/-- The loop of `sasl_auth_exchange` with nothing to send (`sasl_client_output_len` 0), an
empty server packet (`pkt_len` 0) and `rc_sasl` still `SASL_CONTINUE` from the step
before: neither the exchange with the server nor `sasl_step` is entered, no variable
changes, and the loop does not end, however many rounds it is given. -/
theorem sasl_auth_exchange_loop_stuck (sasl : SaslEnv) (user passwd : List Nat)
    (fuel_step : Nat) :
    ∀ (fuel : Nat) (server_packet : List Nat) (conn : MYSQLND_CONN_DATA)
      (connection : sasl_conn_t),
      sasl_auth_exchange_loop sasl user passwd fuel_step fuel false none 0 server_packet 0
        SASL_CONTINUE conn connection = SaslOutcome.no_return := by
  intro fuel
  induction fuel with
  | zero => intro _ _ _; rfl
  | succ n ih =>
    intro server_packet conn connection
    rw [sasl_auth_exchange_loop]
    simp only [gt_iff_lt, lt_self_iff_false, and_false, if_false, ite_true]
    exact ih server_packet conn connection

/-- The loop of `sasl_auth_exchange` after a step that asked to continue and left a blob
to send: when the server answers that blob with an empty SASL packet, the loop does not
end, whatever the library is. -/
theorem sasl_auth_exchange_loop_empty_answer (sasl : SaslEnv) (user passwd : List Nat)
    (fuel_step fuel : Nat) (out : Option (List Nat)) (out_len : Nat)
    (server_packet : List Nat) (pkt_len : Int) (conn : MYSQLND_CONN_DATA)
    (connection : sasl_conn_t) (rest : List ServerPacket)
    (hout : 0 < out_len)
    (hin : conn.incoming = sasl_packet [] :: rest)
    (hw : conn.write_results = []) :
    sasl_auth_exchange_loop sasl user passwd fuel_step fuel false out out_len server_packet
      pkt_len SASL_CONTINUE conn connection = SaslOutcome.no_return := by
  cases fuel with
  | zero => rfl
  | succ n =>
    rw [sasl_auth_exchange_loop]
    have hc : sasl_server_comm conn out out_len server_packet SASL_MAX_PKT_SIZE false
        = { rc := 0, response := [],
            conn := (PACKET_READ (PACKET_WRITE conn
              (ClientPacket.sasl_pk_request out out_len)).2
              PacketKind.sasl_pk_request_response).2.2 } := by
      simp [sasl_server_comm, PACKET_WRITE, PACKET_READ, hin, hw, sasl_packet]
    simp only [gt_iff_lt, hout, and_self, if_true, hc, lt_self_iff_false, if_false]
    exact sasl_auth_exchange_loop_stuck sasl user passwd fuel_step n _ _ _

/-- The loop of `sasl_auth_exchange` entered with `second_step` set and a server packet of
at least one byte: when the step on that packet asks to continue and leaves a blob to
send (or does not return), and the server answers the blob with an empty SASL packet,
the loop does not end. -/
theorem sasl_auth_exchange_loop_second_step (sasl : SaslEnv) (user passwd : List Nat)
    (fuel_step fuel : Nat) (out : Option (List Nat)) (out_len : Nat)
    (b : Nat) (d : List Nat) (rc_sasl : Int) (conn : MYSQLND_CONN_DATA)
    (connection : sasl_conn_t) (rest : List ServerPacket)
    (hin : conn.incoming = sasl_packet [] :: rest)
    (hw : conn.write_results = [])
    (hstep : ∀ r calls, sasl_step sasl fuel_step connection user passwd (some (b :: d))
      (d.length + 1) conn.sasl_calls = some (r, calls) →
      r.rc = SASL_CONTINUE ∧ 0 < r.output_len) :
    sasl_auth_exchange_loop sasl user passwd fuel_step fuel true out out_len (b :: d)
      ((d.length + 1 : Nat) : Int) rc_sasl conn connection = SaslOutcome.no_return := by
  cases fuel with
  | zero => rfl
  | succ n =>
    rw [sasl_auth_exchange_loop]
    have h1 : ¬ (((d.length + 1 : Nat) : Int) < 0) := by omega
    have h2 : ((d.length + 1 : Nat) : Int) > 0 := by omega
    simp only [Bool.true_eq_false, false_and, if_false, h1, h2, if_true, Int.toNat_ofNat]
    split
    · rfl
    · rename_i r calls hs
      obtain ⟨hr, hl⟩ := hstep r calls hs
      rw [if_pos hr, hr]
      exact sasl_auth_exchange_loop_empty_answer sasl user passwd fuel_step n _ _ _ _ _ _ rest
        hl hin hw

/-- The handler of the LDAP SASL mechanism on a connection with a session: when the
server sends a SASL packet of at least one byte and then an empty SASL packet, and the
step on the first packet asks to continue and leaves a blob to send (or does not
return), the handler does not return, however many rounds its loops are given. -/
theorem ldap_sasl_handler_never_returns (sasl : SaslEnv) (fuel : Nat)
    (conn : MYSQLND_CONN_DATA) (salt : List Nat) (salt_len : Nat) (user passwd : List Nat)
    (passwd_len : Nat) (connection : sasl_conn_t)
    (b : Nat) (d : List Nat) (rest : List ServerPacket)
    (hin : conn.incoming = sasl_packet (b :: d) :: sasl_packet [] :: rest)
    (hs : conn.sasl_connection = some connection)
    (hw : conn.write_results = [])
    (hstep : ∀ r calls, sasl_step sasl fuel connection user passwd (some (b :: d))
      (d.length + 1) conn.sasl_calls = some (r, calls) →
      r.rc = SASL_CONTINUE ∧ 0 < r.output_len) :
    mysqlnd_ldap_sasl__handle_server_response sasl fuel conn salt salt_len user passwd
      passwd_len = SaslOutcome.no_return := by
  unfold mysqlnd_ldap_sasl__handle_server_response
  have hc : sasl_server_comm conn none 0 [] SASL_MAX_PKT_SIZE true
      = { rc := ((d.length + 1 : Nat) : Int), response := b :: d,
          conn := (PACKET_READ conn PacketKind.sasl_pk_request_response).2.2 } := by
    simp [sasl_server_comm, PACKET_READ, hin, sasl_packet]
  simp only [hc]
  have hs2 : (PACKET_READ conn PacketKind.sasl_pk_request_response).2.2.sasl_connection
      = some connection := by
    rw [PACKET_READ_eq]; exact hs
  rw [hs2]
  simp only []
  have h1 : ¬ (((d.length + 1 : Nat) : Int) < 0) := by omega
  have hx : sasl_auth_exchange sasl fuel
      (PACKET_READ conn PacketKind.sasl_pk_request_response).2.2 connection user passwd (b :: d)
      ((d.length + 1 : Nat) : Int) true = SaslOutcome.no_return := by
    unfold sasl_auth_exchange
    simp only [if_true, h1, if_false, Int.toNat_ofNat]
    have ht : List.take (d.length + 1) (b :: d) = b :: d := by
      simp
    rw [ht]
    refine sasl_auth_exchange_loop_second_step sasl user passwd fuel fuel _ _ b d _ _ _ rest
      ?_ ?_ ?_
    · simp [PACKET_READ, hin]
    · simp [PACKET_READ, hin, hw]
    · intro r calls h
      refine hstep r calls ?_
      simpa [PACKET_READ, hin] using h
  rw [hx]

/-- The step of `sample_sasl` on the first server message asks to continue and leaves a
blob to send. -/
theorem sample_sasl_first_step (fuel : Nat) (user passwd : List Nat) (b : Nat) (d : List Nat)
    (len : Nat) (calls0 : List SaslCall) (r : SaslResult) (calls : List SaslCall)
    (h : sasl_step sample_sasl fuel { state := 1 } user passwd (some (b :: d)) len calls0
      = some (r, calls)) :
    r.rc = SASL_CONTINUE ∧ 0 < r.output_len := by
  cases fuel with
  | zero => simp [sasl_step, sasl_step_loop] at h
  | succ k =>
    simp only [sasl_step, sasl_step_loop, sample_sasl, if_true] at h
    rw [if_neg (by decide)] at h
    simp only [Option.some.injEq, Prod.mk.injEq] at h
    rw [← h.1]
    exact ⟨rfl, by decide⟩

/-- The first method of the LDAP SASL mechanism over `sample_sasl` on the salt
`SCRAM-SHA-1`, in a memory where a NUL follows each of the two salt buffers: with no
round for the loop of `sasl_run` it does not return, otherwise it returns the first
client message and leaves a session in the connection. -/
theorem sample_sasl_get_auth_data (fuel : Nat) (conn : MYSQLND_CONN_DATA)
    (user passwd : List Nat) (passwd_len salt_len : Nat)
    (hapd : conn.authentication_plugin_data = SASL_SCRAM_SHA1) :
    (mysqlnd_ldap_sasl__get_auth_data sample_sasl fuel [0] [0] conn user passwd passwd_len
        SASL_SCRAM_SHA1 salt_len).result = none ∨
    ∃ sd, (mysqlnd_ldap_sasl__get_auth_data sample_sasl fuel [0] [0] conn user passwd
        passwd_len SASL_SCRAM_SHA1 salt_len).result = some sd ∧
      sd.ret = some [110, 44, 44] ∧ sd.auth_data_len = 3 ∧
      sd.conn.sasl_connection = some { state := 1 } ∧
      sd.conn.sasl_calls = conn.sasl_calls ++ [SaslCall.client_init,
        SaslCall.client_new SASL_SERVICE_NAME, SaslCall.setprop,
        SaslCall.client_start SASL_SCRAM_SHA1 []] ∧
      sd.conn.incoming = conn.incoming ∧ sd.conn.write_results = conn.write_results ∧
      sd.conn.error_info = conn.error_info ∧ sd.conn.trace = conn.trace := by
  have h1 : sasl_method_not_supported (SASL_SCRAM_SHA1 ++ [0]) = some false := by decide
  have h2 : c_string (SASL_SCRAM_SHA1 ++ [0]) = some SASL_SCRAM_SHA1 := by decide
  cases fuel with
  | zero =>
    left
    unfold mysqlnd_ldap_sasl__get_auth_data
    rw [h1]
    simp [hapd, h2, sample_sasl, SASL_OK, sasl_run, sasl_run_loop, SaslOutcome.result]
  | succ k =>
    right
    unfold mysqlnd_ldap_sasl__get_auth_data
    rw [h1]
    simp [hapd, h2, sample_sasl, SASL_OK, SASL_CONTINUE, SASL_INTERACT, SASL_NOMECH,
      sasl_run, sasl_run_loop, SaslOutcome.result]

/-- The first pass of the loop of `mysqlnd_run_authentication` on `empty_answer_conn` under
the LDAP SASL mechanism over `sample_sasl` does not return, however many rounds the
loops of the mechanism are given. -/
theorem ldap_sasl_pass_never_returns (fuel_mech : Nat) :
    run_authentication_body (ldap_sasl_env fuel_mech) sample_args
      (run_authentication_entry empty_answer_conn SASL_SCRAM_SHA1
        (some "authentication_ldap_sasl_client")) = none := by
  unfold run_authentication_body
  simp only [run_authentication_entry, ldap_sasl_env, if_true, Option.isNone_some,
    Bool.false_eq_true, false_and, if_false, call_get_auth_data, mysqlnd_ldap_sasl_auth_plugin]
  rcases sample_sasl_get_auth_data fuel_mech
    { empty_answer_conn with authentication_plugin_data := SASL_SCRAM_SHA1 }
    sample_args.user sample_args.passwd sample_args.passwd_len SASL_SCRAM_SHA1.length rfl with
    h | ⟨sd, h, _, _, hs, _, hin, hw, he, _⟩
  · rw [h]
  · rw [h]
    simp only []
    have he0 : sd.conn.error_info.error_no = 0 := by rw [he]; rfl
    rw [if_neg (by rw [he0]; decide)]
    simp only [sample_args, if_true]
    unfold mysqlnd_auth_handshake
    have hwt : sd.conn.write_results.headD true = true := by rw [hw]; rfl
    simp only [PACKET_WRITE_eq, hwt, if_true]
    rw [if_neg (by decide)]
    simp only [call_handle_server_response, auth_handshake_payload]
    rw [ldap_sasl_handler_never_returns sample_sasl fuel_mech _ _ _ _ _ _ { state := 1 }
      114 [61] [] (by simp [hin, empty_answer_conn]) (by simp [hs])
      (by simp [hw, empty_answer_conn])
      (fun r calls hs => sample_sasl_first_step fuel_mech _ _ _ _ _ _ r calls hs)]
    rfl

/-- C27, evaluated. A connect under `authentication_ldap_sasl_client` (the library
behaving as a SCRAM client, salt `SCRAM-SHA-1`) to a server that sends a SASL packet of
two bytes and then an empty SASL packet, a finite sequence of two packets:
`mysqlnd_run_authentication` does not return, whatever number of rounds its loop
(`fuel`) and the loops of the mechanism (`fuel_mech`) are given. -/
theorem run_authentication_never_returns (fuel_mech fuel : Nat) :
    mysqlnd_run_authentication (ldap_sasl_env fuel_mech) fuel empty_answer_conn sample_args
      SASL_SCRAM_SHA1 (some "authentication_ldap_sasl_client") = none := by
  cases fuel with
  | zero => rfl
  | succ n =>
    unfold mysqlnd_run_authentication run_authentication_from
    rw [run_authentication_loop, ldap_sasl_pass_never_returns]

/-- The LDAP SASL mechanism over `sample_sasl` on concrete inputs.  With the salt
`SCRAM-SHA-1` followed by a NUL, a server that sends both SCRAM messages and then OK:
the run returns `PASS`, the library calls are init, new session for `ldap`, setprop,
start with the salt string, two steps and dispose, and the packets are the
HandshakeResponse, a read, a SASL packet and two reads.  With a server that stops after
its first message the handler ends in the fatal error.  With the salt `GSSAPI` the first
method has no result and the record of calls stays empty. -/
theorem ldap_sasl_sample_runs :
    (mysqlnd_run_authentication (ldap_sasl_env 5) 5
        { incoming := [sasl_packet [114, 61], sasl_packet [118, 61], ok_packet] }
        sample_args (SASL_SCRAM_SHA1 ++ [0]) (some "authentication_ldap_sasl_client")).map
        (fun r => (r.1, r.2.sasl_calls, r.2.trace.map is_write, r.2.sasl_connection,
          r.2.error_info.error_no))
      = some (enum_func_status.PASS,
          [SaslCall.client_init, SaslCall.client_new "ldap", SaslCall.setprop,
            SaslCall.client_start SASL_SCRAM_SHA1 [],
            SaslCall.client_step (some [114, 61]) 2 [],
            SaslCall.client_step (some [118, 61]) 2 [], SaslCall.dispose],
          [true, false, true, false, false], none, 0) ∧
    mysqlnd_run_authentication (ldap_sasl_env 5) 5
        { incoming := [sasl_packet [114, 61]] }
        sample_args SASL_SCRAM_SHA1 (some "authentication_ldap_sasl_client") = none ∧
    ((mysqlnd_ldap_sasl__get_auth_data sample_sasl 5 [0] [0] {} [117] [115] 1 SASL_GSSAPI
        6).conn_of
        (fun r => r.conn)).map (fun c => (c.sasl_calls, c.sasl_connection)) = some ([], none) ∧
    ((mysqlnd_ldap_sasl__get_auth_data sample_sasl 5 [0] [0] {} [117] [115] 1 SASL_GSSAPI
        6).result).isNone
      = true :=
  ⟨by decide, by decide, by decide, by decide⟩

/-! ### The handlers of the source file leave the recorded credentials alone -/

theorem recorded_credentials_SET_CLIENT_ERROR (c : MYSQLND_CONN_DATA) (n : Nat)
    (s e : String) : recorded_credentials (SET_CLIENT_ERROR c n s e) = recorded_credentials c := by
  unfold SET_CLIENT_ERROR; split <;> rfl

theorem recorded_credentials_PACKET_READ (c : MYSQLND_CONN_DATA) (k : PacketKind) :
    recorded_credentials (PACKET_READ c k).2.2 = recorded_credentials c := by
  rw [PACKET_READ_eq]; rfl

theorem recorded_credentials_PACKET_WRITE (c : MYSQLND_CONN_DATA) (p : ClientPacket) :
    recorded_credentials (PACKET_WRITE c p).2 = recorded_credentials c := by
  simp [recorded_credentials]

theorem recorded_credentials_request_server_public_key (env : CryptoEnv)
    (c : MYSQLND_CONN_DATA) (req : ClientPacket) :
    recorded_credentials (request_server_public_key env c req).2 = recorded_credentials c := by
  unfold request_server_public_key
  simp only []
  split
  · exact recorded_credentials_PACKET_WRITE c req
  · split
    · exact (recorded_credentials_PACKET_READ _ _).trans (recorded_credentials_PACKET_WRITE c req)
    · exact (recorded_credentials_PACKET_READ _ _).trans (recorded_credentials_PACKET_WRITE c req)

theorem recorded_credentials_caching_sha2_get_key (env : CryptoEnv) (c : MYSQLND_CONN_DATA) :
    recorded_credentials (mysqlnd_caching_sha2_get_key env c).2 = recorded_credentials c := by
  unfold mysqlnd_caching_sha2_get_key
  split
  · exact recorded_credentials_request_server_public_key env c _
  · split
    · exact recorded_credentials_request_server_public_key env c _
    · rfl

theorem recorded_credentials_caching_sha2_get_and_use_key (env : CryptoEnv)
    (c : MYSQLND_CONN_DATA) (salt : List Nat) (salt_len : Nat) (crypted : Option (List Nat))
    (passwd : List Nat) (passwd_len : Nat) (u : CryptedPassword)
    (h : mysqlnd_caching_sha2_get_and_use_key env c salt salt_len crypted passwd passwd_len
      = some u) :
    recorded_credentials u.conn = recorded_credentials c := by
  unfold mysqlnd_caching_sha2_get_and_use_key at h
  simp only [] at h
  split at h
  · split at h
    · cases h
    · simp only [Option.some.injEq] at h
      subst h
      unfold mysqlnd_caching_sha2_public_encrypt
      simp only []
      split
      · exact (recorded_credentials_SET_CLIENT_ERROR _ _ _ _).trans
          (recorded_credentials_caching_sha2_get_key env c)
      · exact recorded_credentials_caching_sha2_get_key env c
  · simp only [Option.some.injEq] at h
    subst h
    exact recorded_credentials_caching_sha2_get_key env c

theorem recorded_credentials_caching_sha2_handler (env : CryptoEnv)
    (c : MYSQLND_CONN_DATA) (salt : List Nat) (salt_len : Nat) (user passwd : List Nat)
    (passwd_len : Nat) (r : ServerResponse)
    (h : mysqlnd_caching_sha2_handle_server_response env c salt salt_len user passwd passwd_len
      = some r) :
    recorded_credentials r.conn = recorded_credentials c := by
  unfold mysqlnd_caching_sha2_handle_server_response at h
  have hrd := recorded_credentials_PACKET_READ c PacketKind.cached_sha2_result
  split at h
  · simp only [Option.some.injEq] at h; subst h; rfl
  · simp only [] at h
    split at h
    · simp only [Option.some.injEq] at h; subst h; exact hrd
    · split at h
      · simp only [Option.some.injEq] at h; subst h
        refine (recorded_credentials_SET_CLIENT_ERROR _ _ _ _).trans ?_
        split
        · exact hrd
        · exact hrd
      · split at h
        · simp only [Option.some.injEq] at h; subst h; exact hrd
        · split at h
          · simp only [Option.some.injEq] at h; subst h; exact hrd
          · split at h
            · split at h
              · simp only [Option.some.injEq] at h; subst h
                exact (recorded_credentials_PACKET_WRITE _ _).trans hrd
              · split at h
                · cases h
                · rename_i u hu
                  simp only [Option.some.injEq] at h; subst h
                  exact (recorded_credentials_PACKET_WRITE _ _).trans
                    ((recorded_credentials_caching_sha2_get_and_use_key env _ _ _ _ _ _ u hu).trans
                      hrd)
            · simp only [Option.some.injEq] at h; subst h; exact hrd

/-- Every mechanism of the source file with a `handle_server_response` over the
stand-in environments, `caching_sha2_password`, satisfies `KeepsCredentials`. -/
theorem caching_sha2_keeps_credentials (SHA256 : List Nat → List Nat) (env : CryptoEnv) :
    KeepsCredentials (mysqlnd_caching_sha2_auth_plugin SHA256 env) := by
  constructor
  intro f hf conn salt salt_len user passwd passwd_len r hr
  simp only [mysqlnd_caching_sha2_auth_plugin, Option.some.injEq] at hf
  subst hf
  have := recorded_credentials_caching_sha2_handler env conn salt salt_len user passwd
    passwd_len r hr
  simp only [recorded_credentials, Prod.mk.injEq] at this
  exact this

theorem recorded_credentials_sasl_comm_read (w : MYSQLND_CONN_DATA) (response : List Nat) :
    recorded_credentials
      (match (PACKET_READ w PacketKind.sasl_pk_request_response).2.1.data with
       | some data =>
         if (PACKET_READ w PacketKind.sasl_pk_request_response).1 = enum_func_status.FAIL then
           ({ rc := SASL_FAIL, response := response,
              conn := SET_CONNECTION_STATE
                (PACKET_READ w PacketKind.sasl_pk_request_response).2.2
                mysqlnd_connection_state.CONN_QUIT_SENT } : SaslComm)
         else { rc := (data.length : Int), response := data,
                conn := (PACKET_READ w PacketKind.sasl_pk_request_response).2.2 }
       | none =>
         { rc := SASL_FAIL, response := response,
           conn := SET_CONNECTION_STATE (PACKET_READ w PacketKind.sasl_pk_request_response).2.2
             mysqlnd_connection_state.CONN_QUIT_SENT }).conn
      = recorded_credentials w := by
  split
  · split
    · exact recorded_credentials_PACKET_READ _ _
    · exact recorded_credentials_PACKET_READ _ _
  · exact recorded_credentials_PACKET_READ _ _

theorem recorded_credentials_sasl_server_comm (c : MYSQLND_CONN_DATA)
    (request : Option (List Nat)) (request_len : Nat) (response : List Nat)
    (response_len : Nat) (only_resp : Bool) :
    recorded_credentials (sasl_server_comm c request request_len response response_len
      only_resp).conn = recorded_credentials c := by
  unfold sasl_server_comm
  cases only_resp with
  | true =>
    simp only [Bool.true_eq_false, if_false]
    exact recorded_credentials_sasl_comm_read c response
  | false =>
    simp only [if_true]
    split
    · exact recorded_credentials_PACKET_WRITE c (ClientPacket.sasl_pk_request request request_len)
    · exact (recorded_credentials_sasl_comm_read _ response).trans
        (recorded_credentials_PACKET_WRITE c (ClientPacket.sasl_pk_request request request_len))

theorem recorded_credentials_sasl_auth_exchange_loop (sasl : SaslEnv) (user passwd : List Nat)
    (fuel_step : Nat) :
    ∀ (fuel : Nat) (second_step : Bool) (out : Option (List Nat)) (out_len : Nat)
      (server_packet : List Nat) (pkt_len rc_sasl : Int) (c : MYSQLND_CONN_DATA)
      (connection : sasl_conn_t) (x : SaslExchange),
      sasl_auth_exchange_loop sasl user passwd fuel_step fuel second_step out out_len
        server_packet pkt_len rc_sasl c connection = SaslOutcome.returned x →
      recorded_credentials x.conn = recorded_credentials c := by
  intro fuel
  induction fuel with
  | zero =>
    intro second_step out out_len server_packet pkt_len rc_sasl c connection x h
    simp [sasl_auth_exchange_loop] at h
  | succ n ih =>
    intro second_step out out_len server_packet pkt_len rc_sasl c connection x h
    rw [sasl_auth_exchange_loop] at h
    have hc : recorded_credentials
        (if second_step = false ∧ out_len > 0 then
          sasl_server_comm c out out_len server_packet SASL_MAX_PKT_SIZE false
         else { rc := pkt_len, response := server_packet, conn := c }).conn
        = recorded_credentials c := by
      split
      · exact recorded_credentials_sasl_server_comm _ _ _ _ _ _
      · rfl
    simp only [] at h
    generalize (if second_step = false ∧ out_len > 0 then
          sasl_server_comm c out out_len server_packet SASL_MAX_PKT_SIZE false
         else { rc := pkt_len, response := server_packet, conn := c }) = cc at h hc
    split at h
    · cases h
    · split at h
      · split at h
        · cases h
        · split at h
          · exact (ih _ _ _ _ _ _ _ _ _ h).trans hc
          · simp only [SaslOutcome.returned.injEq] at h
            subst h
            exact hc
      · split at h
        · exact (ih _ _ _ _ _ _ _ _ _ h).trans hc
        · simp only [SaslOutcome.returned.injEq] at h
          subst h
          exact hc

theorem recorded_credentials_ldap_sasl_handler (sasl : SaslEnv) (fuel : Nat)
    (c : MYSQLND_CONN_DATA) (salt : List Nat) (salt_len : Nat) (user passwd : List Nat)
    (passwd_len : Nat) (r : ServerResponse)
    (h : (mysqlnd_ldap_sasl__handle_server_response sasl fuel c salt salt_len user passwd
      passwd_len).result = some r) :
    recorded_credentials r.conn = recorded_credentials c := by
  unfold mysqlnd_ldap_sasl__handle_server_response at h
  have hc := recorded_credentials_sasl_server_comm c none 0 [] SASL_MAX_PKT_SIZE true
  simp only [] at h
  split at h
  · split at h
    · rename_i x hx
      simp only [SaslOutcome.result, Option.some.injEq] at h
      subst h
      unfold sasl_auth_exchange at hx
      have hx2 : recorded_credentials x.conn
          = recorded_credentials (sasl_server_comm c none 0 [] SASL_MAX_PKT_SIZE true).conn := by
        simp only [if_true] at hx
        split at hx
        · cases hx
        · exact recorded_credentials_sasl_auth_exchange_loop _ _ _ _ _ _ _ _ _ _ _ _ _ x hx
      exact hx2.trans hc
    · simp [SaslOutcome.result] at h
    · simp [SaslOutcome.result] at h
  · simp only [SaslOutcome.result, Option.some.injEq] at h
    subst h
    exact hc

/-- The LDAP SASL mechanism satisfies `KeepsCredentials`, whatever the library and the
memory behind the salt buffers are. -/
theorem ldap_sasl_keeps_credentials (sasl : SaslEnv) (fuel : Nat)
    (salt_after conn_salt_after : List Nat) :
    KeepsCredentials (mysqlnd_ldap_sasl_auth_plugin sasl fuel salt_after conn_salt_after) := by
  constructor
  intro f hf conn salt salt_len user passwd passwd_len r hr
  simp only [mysqlnd_ldap_sasl_auth_plugin, Option.some.injEq] at hf
  subst hf
  have := recorded_credentials_ldap_sasl_handler sasl fuel conn salt salt_len user passwd
    passwd_len r hr
  simp only [recorded_credentials, Prod.mk.injEq] at this
  exact this

/-- The mechanisms without a `handle_server_response` satisfy `KeepsCredentials`. -/
theorem no_handler_keeps_credentials (p : st_mysqlnd_authentication_plugin)
    (h : p.handle_server_response = none) : KeepsCredentials p := by
  constructor
  intro f hf
  rw [h] at hf
  cases hf

/-! ### C28: the recorded credentials when `mysqlnd_auth_change_user` fails -/

/-- The statement that ends `mysqlnd_auth_change_user`, when it leaves FAIL: either the
recorded credentials are as they were before it, or the result was PASS before it,
the server is older than 5.1.23, the credentials were replaced and the `set_charset`
that followed failed. -/
theorem auth_change_user_finish_credentials (env : AuthEnv) (user : List Nat)
    (user_len : Nat) (passwd : List Nat) (old_cs : Option MYSQLND_CHARSET) (b : Bool)
    (s2 x : AuthExchange)
    (hx : auth_change_user_finish env user user_len passwd old_cs b s2 = some x)
    (hfail : x.ret = enum_func_status.FAIL) :
    (x.conn.username = s2.conn.username ∧ x.conn.password = s2.conn.password) ∨
    (s2.ret = enum_func_status.PASS ∧ s2.conn.server_version < 50123 ∧
      ∃ cs, old_cs = some cs ∧
        (set_charset env
          { s2.conn with username := some (mnd_pestrndup user user_len)
                         password := some (mnd_pestrdup passwd)
                         last_message := none
                         upsert_status := {} } cs.name).1 = enum_func_status.FAIL ∧
        x.conn = (set_charset env
          { s2.conn with username := some (mnd_pestrndup user user_len)
                         password := some (mnd_pestrdup passwd)
                         last_message := none
                         upsert_status := {} } cs.name).2 ∧
        x.conn.username = some (mnd_pestrndup user user_len) ∧
        x.conn.password = some (mnd_pestrdup passwd)) := by
  unfold auth_change_user_finish at hx
  split at hx
  · rename_i hp
    simp only [] at hx
    split at hx
    · rename_i hv
      cases old_cs with
      | none => cases hx
      | some cs =>
        simp only [Option.some.injEq] at hx
        subst hx
        right
        refine ⟨hp, hv, cs, rfl, hfail, rfl, ?_, ?_⟩
        · exact (set_charset_credentials env _ _).1
        · exact (set_charset_credentials env _ _).2
    · simp only [Option.some.injEq] at hx
      subst hx
      rw [hp] at hfail
      cases hfail
  · left
    split at hx
    · simp only [Option.some.injEq] at hx
      subst hx
      exact SET_CLIENT_ERROR_credentials _ _ _ _
    · simp only [Option.some.injEq] at hx
      subst hx
      exact ⟨rfl, rfl⟩

/-- C28, amended. For every call of `mysqlnd_auth_change_user` that returns FAIL, with a
mechanism whose `handle_server_response` leaves the recorded credentials and the server
version alone: the recorded username and password are as they were at entry, unless
the server is older than 5.1.23 (version below 50123), the change-user itself was
accepted (the mechanism's `handle_server_response` left `r` without failing, and the
response read after it was read with success, is no auth switch request and carries
no error) and only the `set_charset` that follows, called with the credentials already
replaced, failed; in that case the connection is the one `set_charset` left, the
recorded username is the first `user_len` bytes of the user argument and the recorded
password is the copy of the password argument. -/
theorem change_user_failure_credentials (env : AuthEnv) (conn : MYSQLND_CONN_DATA)
    (user : List Nat) (user_len : Nat) (passwd : List Nat) (passwd_len : Nat)
    (db : Option (List Nat)) (db_len : Nat) (silent use_full : Bool) (auth_protocol : String)
    (auth_plugin : Option st_mysqlnd_authentication_plugin)
    (salt : List Nat) (salt_len : Nat) (auth_data : Option (List Nat)) (auth_data_len : Nat)
    (x : AuthExchange)
    (hplugin : ∀ p, auth_plugin = some p → KeepsCredentials p)
    (hx : mysqlnd_auth_change_user env conn user user_len passwd passwd_len db db_len silent
      use_full auth_protocol auth_plugin salt salt_len auth_data auth_data_len = some x)
    (hfail : x.ret = enum_func_status.FAIL) :
    (x.conn.username = conn.username ∧ x.conn.password = conn.password) ∨
    (conn.server_version < 50123 ∧
      ∃ w r cs,
        auth_change_user_payload conn user db db_len silent use_full auth_protocol auth_data
          auth_data_len = some w ∧
        call_handle_server_response auth_plugin (PACKET_WRITE conn w).2 salt salt_len user
          passwd passwd_len = some r ∧
        r.ret ≠ enum_func_status.FAIL ∧
        conn.charset = some cs ∧
        (PACKET_READ r.conn PacketKind.chg_user_response).1 = enum_func_status.PASS ∧
        (PACKET_READ r.conn PacketKind.chg_user_response).2.1.response_code ≠ 0xFE ∧
        (PACKET_READ r.conn PacketKind.chg_user_response).2.1.error_info.error_no = 0 ∧
        (set_charset env
          { (auth_change_user_switch r
              (PACKET_READ r.conn PacketKind.chg_user_response)).conn with
            username := some (mnd_pestrndup user user_len)
            password := some (mnd_pestrdup passwd)
            last_message := none
            upsert_status := {} } cs.name).1 = enum_func_status.FAIL ∧
        x.conn = (set_charset env
          { (auth_change_user_switch r
              (PACKET_READ r.conn PacketKind.chg_user_response)).conn with
            username := some (mnd_pestrndup user user_len)
            password := some (mnd_pestrdup passwd)
            last_message := none
            upsert_status := {} } cs.name).2 ∧
        x.conn.username = some (mnd_pestrndup user user_len) ∧
        x.conn.password = some (mnd_pestrdup passwd)) := by
  unfold mysqlnd_auth_change_user at hx
  simp only [] at hx
  cases hw : auth_change_user_payload conn user db db_len silent use_full auth_protocol
    auth_data auth_data_len with
  | none => rw [hw] at hx; cases hx
  | some w =>
  rw [hw] at hx
  simp only [] at hx
  split at hx
  · simp only [Option.some.injEq] at hx
    subst hx
    left
    have := SET_CLIENT_ERROR_credentials
      (SET_CONNECTION_STATE (PACKET_WRITE conn w).2 mysqlnd_connection_state.CONN_QUIT_SENT)
      CR_SERVER_GONE_ERROR UNKNOWN_SQLSTATE mysqlnd_server_gone
    refine ⟨this.1.trans ?_, this.2.trans ?_⟩
    · exact PACKET_WRITE_username conn w
    · exact PACKET_WRITE_password conn w
  · cases hr : call_handle_server_response auth_plugin (PACKET_WRITE conn w).2 salt salt_len
      user passwd passwd_len with
    | none => rw [hr] at hx; cases hx
    | some r =>
      rw [hr] at hx
      simp only [] at hx
      have hkeep : r.conn.username = conn.username ∧ r.conn.password = conn.password ∧
          r.conn.server_version = conn.server_version := by
        cases auth_plugin with
        | none =>
          simp only [call_handle_server_response, Option.some.injEq] at hr
          subst hr
          simp
        | some p =>
          simp only [call_handle_server_response] at hr
          split at hr
          · simp only [Option.some.injEq] at hr
            subst hr
            simp
          · rename_i h hh
            have hk := (hplugin p rfl).handle_server_response h hh _ _ _ _ _ _ r hr
            simp only [PACKET_WRITE_username, PACKET_WRITE_password,
              PACKET_WRITE_server_version] at hk
            exact hk
      split at hx
      · simp only [Option.some.injEq] at hx
        subst hx
        left
        exact ⟨hkeep.1, hkeep.2.1⟩
      · rename_i hrf
        unfold auth_change_user_read_response at hx
        simp only [] at hx
        have hsw := auth_change_user_switch_credentials r
          (PACKET_READ r.conn PacketKind.chg_user_response)
        have hsc := auth_change_user_switch_conn r
          (PACKET_READ r.conn PacketKind.chg_user_response)
        have hec := auth_change_user_error_check_credentials
          (auth_change_user_switch r (PACKET_READ r.conn PacketKind.chg_user_response))
        have hrd : (PACKET_READ r.conn PacketKind.chg_user_response).2.2.username
            = r.conn.username ∧
            (PACKET_READ r.conn PacketKind.chg_user_response).2.2.password = r.conn.password ∧
            (PACKET_READ r.conn PacketKind.chg_user_response).2.2.server_version
              = r.conn.server_version := by
          rw [PACKET_READ_eq]; exact ⟨rfl, rfl, rfl⟩
        rcases auth_change_user_finish_credentials env user user_len passwd conn.charset _ _ x
          hx hfail with h | h
        · left
          rw [h.1, h.2, hec.1, hec.2.1, hsw.1, hsw.2, hrd.1, hrd.2.1]
          exact ⟨hkeep.1, hkeep.2.1⟩
        · right
          obtain ⟨hpass, hver, cs, hcs, hscf, hxc, hun, hpw⟩ := h
          have hacc := (auth_change_user_error_check_pass r
            (PACKET_READ r.conn PacketKind.chg_user_response)).mp hpass
          have hs2 : auth_change_user_error_check (auth_change_user_switch r
              (PACKET_READ r.conn PacketKind.chg_user_response))
              = auth_change_user_switch r (PACKET_READ r.conn PacketKind.chg_user_response) := by
            unfold auth_change_user_error_check
            rw [if_neg (by simp [hacc.2.2])]
          rw [hs2] at hscf hxc
          have hpe : (PACKET_READ r.conn PacketKind.chg_user_response).2.1.error_info.error_no
              = 0 := by
            by_contra hne
            exact (hsc.2.2.mpr (Or.inl hne)) hacc.2.2
          refine ⟨?_, w, r, cs, rfl, hr, hrf, hcs, hacc.1, hacc.2.1, hpe, hscf, hxc, hun, hpw⟩
          rw [hec.2.2, hsc.1, hrd.2.2, hkeep.2.2] at hver
          exact hver

/-- Counterexample to C28 as stated: a change-user on a connection to a server of version
5.1.0 with the character set `utf8` in use and the user `o` with the password `p` on
record.  The server answers OK, after which the response to `SET NAMES` cannot be read.
The call returns FAIL, and the recorded username and password are the new ones, not
those at entry; the same through `mysqlnd_run_authentication`. -/
theorem change_user_failure_credentials_counterexample :
    (mysqlnd_auth_change_user native_only_env (old_server_conn [ok_packet])
        [117] 1 [115] 1 none 0 false true "mysql_native_password"
        (some (mysqlnd_native_auth_plugin sample_hash20)) (List.range 20) 20
        (some (php_mysqlnd_scramble sample_hash20 (List.range 20) [115] 1)) 20).map
        (fun x => (x.ret, x.conn.username, x.conn.password, x.conn.trace.map is_write))
      = some (enum_func_status.FAIL, some [117], some [115], [true, false, true, false]) ∧
    (mysqlnd_run_authentication native_only_env 5 (old_server_conn [ok_packet])
        { user := [117], passwd := [115], passwd_len := 1, is_change_user := true }
        (List.range 20) (some "mysql_native_password")).map
        (fun r => (r.1, r.2.username, r.2.password))
      = some (enum_func_status.FAIL, some [117], some [115]) ∧
    ((old_server_conn [ok_packet]).username, (old_server_conn [ok_packet]).password,
      (old_server_conn [ok_packet]).charset, (old_server_conn [ok_packet]).server_version)
      = (some [111], some [112], some { nr := 33, name := "utf8" }, 50100) :=
  ⟨by decide, by decide, by decide⟩

/-- The amended C28 at a concrete input, under `caching_sha2_password`: the server of
version 5.1.0 answers the change-user with the result byte `0x03` and OK, and the
response to `SET NAMES` cannot be read.  The call returns FAIL with the new username
and password on record (the second case). -/
theorem change_user_failure_credentials_witness :
    (change_user_result (old_server_conn [cached_sha2_result_packet 3, ok_packet])).ret
      = enum_func_status.FAIL ∧
    (((change_user_result
          (old_server_conn [cached_sha2_result_packet 3, ok_packet])).conn.username
        = (old_server_conn [cached_sha2_result_packet 3, ok_packet]).username ∧
      (change_user_result
          (old_server_conn [cached_sha2_result_packet 3, ok_packet])).conn.password
        = (old_server_conn [cached_sha2_result_packet 3, ok_packet]).password) ∨
     ((old_server_conn [cached_sha2_result_packet 3, ok_packet]).server_version < 50123 ∧
      (change_user_result
          (old_server_conn [cached_sha2_result_packet 3, ok_packet])).conn.username
        = some (mnd_pestrndup [117] 1) ∧
      (change_user_result
          (old_server_conn [cached_sha2_result_packet 3, ok_packet])).conn.password
        = some (mnd_pestrdup [115]))) ∧
    (change_user_result
        (old_server_conn [cached_sha2_result_packet 3, ok_packet])).conn.username
      = some [117] :=
  ⟨by decide,
   (change_user_failure_credentials caching_sha2_only_env
      (old_server_conn [cached_sha2_result_packet 3, ok_packet])
      [117] 1 [115] 1 none 0 false true "caching_sha2_password"
      (some (mysqlnd_caching_sha2_auth_plugin sample_hash32 sample_crypto_env)) (List.range 20)
      20 (some (php_mysqlnd_scramble_sha2 sample_hash32 (List.range 20) [115] 1)) 32
      (change_user_result (old_server_conn [cached_sha2_result_packet 3, ok_packet]))
      (fun p hp => by
        simp only [Option.some.injEq] at hp
        subst hp
        exact caching_sha2_keeps_credentials sample_hash32 sample_crypto_env)
      rfl (by decide)).imp id
     (fun h => by
        obtain ⟨hv, _, _, _, _, _, _, _, _, _, _, _, _, hu, hp⟩ := h
        exact ⟨hv, hu, hp⟩),
   by decide⟩

/-! ### The loop of `mysqlnd_run_authentication` itself is bounded

The engine's own loop ends on every finite server script when the methods of the
registered mechanisms return: each pass that is followed by another one has taken a
packet from the script. -/

theorem PACKET_WRITE_incoming (c : MYSQLND_CONN_DATA) (p : ClientPacket) :
    (PACKET_WRITE c p).2.incoming = c.incoming := by
  unfold PACKET_WRITE
  cases c.write_results.headD true <;> rfl

theorem PACKET_READ_incoming (c : MYSQLND_CONN_DATA) (k : PacketKind) :
    (PACKET_READ c k).2.2.incoming = c.incoming.tail := by
  rw [PACKET_READ_eq]

theorem PACKET_READ_exhausted (c : MYSQLND_CONN_DATA) (k : PacketKind) (h : c.incoming = []) :
    (PACKET_READ c k).1 = enum_func_status.FAIL ∧ (PACKET_READ c k).2.1 = {} := by
  rw [PACKET_READ_eq, h]
  exact ⟨rfl, rfl⟩

theorem set_charset_incoming (env : AuthEnv) (c : MYSQLND_CONN_DATA) (n : String) :
    (set_charset env c n).2.incoming.length ≤ c.incoming.length := by
  unfold set_charset
  simp only []
  split
  · rw [PACKET_WRITE_incoming]
  · split
    · rw [PACKET_READ_incoming, PACKET_WRITE_incoming]
      simp
    · simp only []
      rw [PACKET_READ_incoming, PACKET_WRITE_incoming]
      simp

/-- The last part of `mysqlnd_auth_handshake` takes one packet from the script; when the
script is exhausted, the switch it leaves is the one the handler stored. -/
theorem auth_handshake_read_response_incoming (r : ServerResponse) :
    (auth_handshake_read_response r).conn.incoming = r.conn.incoming.tail ∧
    (r.conn.incoming = [] →
      (auth_handshake_read_response r).switch_to_auth_protocol = r.new_auth_protocol) := by
  have hi := PACKET_READ_incoming r.conn PacketKind.auth_response
  constructor
  · unfold auth_handshake_read_response
    simp only []
    split
    · split
      · split
        · simp only [SET_CLIENT_ERROR_incoming]; exact hi
        · exact hi
      · split
        · simp only [SET_CLIENT_ERROR_incoming]
          split
          · exact hi
          · exact hi
        · exact hi
    · exact hi
  · intro he
    obtain ⟨h1, h2⟩ := PACKET_READ_exhausted r.conn PacketKind.auth_response he
    unfold auth_handshake_read_response
    simp only [h1, h2]
    simp

theorem auth_change_user_switch_incoming (r : ServerResponse)
    (rd : enum_func_status × ServerPacket × MYSQLND_CONN_DATA) :
    (auth_change_user_switch r rd).conn.incoming = rd.2.2.incoming ∧
    (rd.2.1 = {} → (auth_change_user_switch r rd).switch_to_auth_protocol
      = r.new_auth_protocol) := by
  constructor
  · unfold auth_change_user_switch COPY_CLIENT_ERROR
    simp only []
    split
    · split <;> simp only [SET_CLIENT_ERROR_incoming]
    · simp only [SET_CLIENT_ERROR_incoming]
  · intro h
    unfold auth_change_user_switch
    simp [h]

theorem auth_change_user_error_check_incoming (s1 : AuthExchange) :
    (auth_change_user_error_check s1).conn.incoming.length ≤ s1.conn.incoming.length ∧
    (auth_change_user_error_check s1).switch_to_auth_protocol = s1.switch_to_auth_protocol := by
  unfold auth_change_user_error_check
  split
  · split
    · refine ⟨?_, rfl⟩
      simp only [PACKET_READ_incoming]
      simp
    · exact ⟨le_refl _, rfl⟩
  · exact ⟨le_refl _, rfl⟩

theorem SET_CLIENT_ERROR_charset (c : MYSQLND_CONN_DATA) (n : Nat) (s e : String) :
    (SET_CLIENT_ERROR c n s e).charset = c.charset := by
  unfold SET_CLIENT_ERROR; split <;> rfl

theorem PACKET_READ_charset (c : MYSQLND_CONN_DATA) (k : PacketKind) :
    (PACKET_READ c k).2.2.charset = c.charset := by
  rw [PACKET_READ_eq]

theorem set_charset_charset (env : AuthEnv) (c : MYSQLND_CONN_DATA) (n : String)
    (h : (set_charset env c n).1 = enum_func_status.FAIL) :
    (set_charset env c n).2.charset = c.charset := by
  unfold set_charset at h ⊢
  simp only [] at h ⊢
  split
  · exact PACKET_WRITE_charset _ _
  · rename_i hw
    rw [if_neg hw] at h
    split
    · rw [PACKET_READ_charset, PACKET_WRITE_charset]
    · rename_i hr
      rw [if_neg hr] at h
      cases h

theorem auth_change_user_switch_charset (r : ServerResponse)
    (rd : enum_func_status × ServerPacket × MYSQLND_CONN_DATA) :
    (auth_change_user_switch r rd).conn.charset = rd.2.2.charset := by
  unfold auth_change_user_switch COPY_CLIENT_ERROR
  simp only []
  split
  · split <;> simp only [SET_CLIENT_ERROR_charset]
  · simp only [SET_CLIENT_ERROR_charset]

theorem auth_change_user_error_check_charset (s1 : AuthExchange) :
    (auth_change_user_error_check s1).conn.charset = s1.conn.charset := by
  unfold auth_change_user_error_check
  split
  · split
    · simp only [PACKET_READ_charset]
    · rfl
  · rfl

theorem auth_change_user_finish_incoming (env : AuthEnv) (user : List Nat) (user_len : Nat)
    (passwd : List Nat) (old_cs : Option MYSQLND_CHARSET) (b : Bool) (s2 x : AuthExchange)
    (hx : auth_change_user_finish env user user_len passwd old_cs b s2 = some x) :
    x.conn.incoming.length ≤ s2.conn.incoming.length ∧
    x.switch_to_auth_protocol = s2.switch_to_auth_protocol ∧
    (x.ret = enum_func_status.FAIL → x.conn.charset = s2.conn.charset) := by
  unfold auth_change_user_finish at hx
  split at hx
  · simp only [] at hx
    split at hx
    · cases old_cs with
      | none => cases hx
      | some cs =>
        simp only [Option.some.injEq] at hx
        subst hx
        exact ⟨set_charset_incoming env _ _, rfl, fun hf => set_charset_charset env _ _ hf⟩
    · simp only [Option.some.injEq] at hx
      subst hx
      exact ⟨le_refl _, rfl, fun _ => rfl⟩
  · split at hx
    · simp only [Option.some.injEq] at hx
      subst hx
      refine ⟨?_, rfl, fun _ => SET_CLIENT_ERROR_charset _ _ _ _⟩
      simp only [SET_CLIENT_ERROR_incoming]
      exact le_refl _
    · simp only [Option.some.injEq] at hx
      subst hx
      exact ⟨le_refl _, rfl, fun _ => rfl⟩

/-- The last part of `mysqlnd_auth_change_user` takes one packet from the script at least
(if there is one); when the script is exhausted, the switch it leaves is the one the
handler stored; and when it leaves FAIL, `conn->charset` is as it was. -/
theorem auth_change_user_read_response_incoming (env : AuthEnv) (user : List Nat)
    (user_len : Nat) (passwd : List Nat) (old_cs : Option MYSQLND_CHARSET)
    (r : ServerResponse) (x : AuthExchange)
    (hx : auth_change_user_read_response env user user_len passwd old_cs r = some x) :
    x.conn.incoming.length ≤ r.conn.incoming.tail.length ∧
    (r.conn.incoming = [] → x.switch_to_auth_protocol = r.new_auth_protocol) ∧
    (x.ret = enum_func_status.FAIL → x.conn.charset = r.conn.charset) := by
  unfold auth_change_user_read_response at hx
  simp only [] at hx
  have h1 := auth_change_user_switch_incoming r (PACKET_READ r.conn PacketKind.chg_user_response)
  have h2 := auth_change_user_error_check_incoming
    (auth_change_user_switch r (PACKET_READ r.conn PacketKind.chg_user_response))
  have h3 := auth_change_user_finish_incoming env user user_len passwd old_cs
    (PACKET_READ r.conn PacketKind.chg_user_response).2.1.server_asked_323_auth
    (auth_change_user_error_check
      (auth_change_user_switch r (PACKET_READ r.conn PacketKind.chg_user_response))) x hx
  refine ⟨?_, ?_, ?_⟩
  · calc _ ≤ _ := h3.1
      _ ≤ _ := h2.1
      _ = _ := by rw [h1.1, PACKET_READ_incoming]
  · intro he
    rw [h3.2.1, h2.2]
    exact h1.2 (PACKET_READ_exhausted r.conn PacketKind.chg_user_response he).2
  · intro hf
    rw [h3.2.2 hf, auth_change_user_error_check_charset, auth_change_user_switch_charset,
      PACKET_READ_charset]

/-- The call of `handle_server_response` through the plugin returns under `ReadsScript`. -/
theorem call_handle_server_response_reads (auth_plugin : Option st_mysqlnd_authentication_plugin)
    (hp : ∀ p, auth_plugin = some p → ReadsScript p)
    (conn : MYSQLND_CONN_DATA) (salt : List Nat) (salt_len : Nat) (user passwd : List Nat)
    (passwd_len : Nat) :
    ∃ r, call_handle_server_response auth_plugin conn salt salt_len user passwd passwd_len
        = some r ∧
      r.conn.incoming.length ≤ conn.incoming.length ∧
      (r.new_auth_protocol ≠ none → r.conn.incoming.length < conn.incoming.length) ∧
      r.conn.charset = conn.charset := by
  cases auth_plugin with
  | none => exact ⟨_, rfl, le_refl _, fun h => absurd rfl h, rfl⟩
  | some p =>
    simp only [call_handle_server_response]
    cases hh : p.handle_server_response with
    | none => exact ⟨_, rfl, le_refl _, fun h => absurd rfl h, rfl⟩
    | some f =>
      simp only []
      exact (hp p rfl).handle_server_response f hh conn salt salt_len user passwd passwd_len

/-- The call of `get_auth_data` through the plugin returns under `ReadsScript`. -/
theorem call_get_auth_data_reads (auth_plugin : Option st_mysqlnd_authentication_plugin)
    (hp : ∀ p, auth_plugin = some p → ReadsScript p)
    (conn : MYSQLND_CONN_DATA) (user passwd : List Nat) (passwd_len : Nat) (salt : List Nat)
    (salt_len : Nat) (so : MYSQLND_SESSION_OPTIONS) (fl : Nat) :
    ∃ sd, call_get_auth_data auth_plugin conn user passwd passwd_len salt salt_len so fl
        = some sd ∧
      sd.conn.incoming.length ≤ conn.incoming.length ∧ sd.conn.charset = conn.charset := by
  cases auth_plugin with
  | none => exact ⟨_, rfl, le_refl _, rfl⟩
  | some p =>
    simp only [call_get_auth_data]
    exact (hp p rfl).get_auth_data conn user passwd passwd_len salt salt_len so fl

/-- Under `ReadsScript`, `mysqlnd_auth_handshake` returns, adds nothing to the script, and
has taken a packet from it when it leaves a switch. -/
theorem mysqlnd_auth_handshake_reads (env : AuthEnv) (conn : MYSQLND_CONN_DATA)
    (user passwd : List Nat) (passwd_len : Nat) (db : Option (List Nat)) (db_len : Nat)
    (so : MYSQLND_SESSION_OPTIONS) (mysql_flags server_charset_no : Nat)
    (use_full : Bool) (auth_protocol : String)
    (auth_plugin : Option st_mysqlnd_authentication_plugin)
    (hp : ∀ p, auth_plugin = some p → ReadsScript p)
    (salt : List Nat) (salt_len : Nat)
    (auth_data : Option (List Nat)) (auth_data_len : Nat) :
    ∃ x, mysqlnd_auth_handshake env conn user passwd passwd_len db db_len so mysql_flags
        server_charset_no use_full auth_protocol auth_plugin salt salt_len auth_data
        auth_data_len = some x ∧
      x.conn.incoming.length ≤ conn.incoming.length ∧
      (x.switch_to_auth_protocol ≠ none → x.conn.incoming.length < conn.incoming.length) := by
  unfold mysqlnd_auth_handshake
  simp only []
  have hwi := PACKET_WRITE_incoming conn (auth_handshake_payload env conn user db db_len so
    mysql_flags server_charset_no use_full auth_protocol auth_data auth_data_len)
  generalize auth_handshake_payload env conn user db db_len so
    mysql_flags server_charset_no use_full auth_protocol auth_data auth_data_len = w at hwi ⊢
  generalize PACKET_WRITE conn w = wr at hwi ⊢
  obtain ⟨ok, c⟩ := wr
  simp only [] at hwi ⊢
  cases ok
  · simp only [if_true]
    split
    · refine ⟨_, rfl, ?_, fun h => absurd rfl h⟩
      simp only [SET_CLIENT_ERROR_incoming, SET_CONNECTION_STATE]
      rw [hwi]
    · refine ⟨_, rfl, ?_, fun h => absurd rfl h⟩
      simp only []
      rw [hwi]
  · simp only [Bool.true_eq_false, if_false]
    have hsent : ∀ sent : MYSQLND_CONN_DATA, sent.incoming = conn.incoming →
        ∃ x, (match call_handle_server_response auth_plugin sent salt salt_len user passwd
            passwd_len with
          | none => none
          | some r =>
            if r.ret = enum_func_status.FAIL then
              some { ret := enum_func_status.FAIL,
                     switch_to_auth_protocol := r.new_auth_protocol,
                     switch_to_auth_protocol_data := r.new_auth_protocol_data, conn := r.conn }
            else some (auth_handshake_read_response r)) = some x ∧
          x.conn.incoming.length ≤ conn.incoming.length ∧
          (x.switch_to_auth_protocol ≠ none →
            x.conn.incoming.length < conn.incoming.length) := by
      intro sent hs
      obtain ⟨r, hr, hle, hlt, _⟩ := call_handle_server_response_reads auth_plugin hp sent salt
        salt_len user passwd passwd_len
      rw [hs] at hle hlt
      rw [hr]
      simp only []
      split
      · exact ⟨_, rfl, hle, hlt⟩
      · refine ⟨_, rfl, ?_, ?_⟩
        · rw [(auth_handshake_read_response_incoming r).1]
          exact le_trans (by simp) hle
        · intro hsw
          rw [(auth_handshake_read_response_incoming r).1]
          cases hri : r.conn.incoming with
          | nil =>
            have := hlt (by rw [← (auth_handshake_read_response_incoming r).2 hri]; exact hsw)
            rw [hri] at this
            simpa using this
          | cons p rest =>
            rw [hri] at hle
            simp only [List.tail_cons]
            simp only [List.length_cons] at hle
            omega
    cases use_full
    · simp only [Bool.false_eq_true, if_false]
      exact hsent c hwi
    · simp only [if_true]
      cases w <;> simp only [] <;> exact hsent _ hwi

/-- Under `ReadsScript`, on a connection with a character set, `mysqlnd_auth_change_user`
returns, adds nothing to the script, has taken a packet from it when it leaves a switch,
and leaves `conn->charset` as it was when it returns FAIL. -/
theorem mysqlnd_auth_change_user_reads (env : AuthEnv) (conn : MYSQLND_CONN_DATA)
    (user : List Nat) (user_len : Nat) (passwd : List Nat) (passwd_len : Nat)
    (db : Option (List Nat)) (db_len : Nat) (silent : Bool)
    (use_full : Bool) (auth_protocol : String)
    (auth_plugin : Option st_mysqlnd_authentication_plugin)
    (hp : ∀ p, auth_plugin = some p → ReadsScript p)
    (salt : List Nat) (salt_len : Nat)
    (auth_data : Option (List Nat)) (auth_data_len : Nat)
    (hcs : conn.charset ≠ none) :
    ∃ x, mysqlnd_auth_change_user env conn user user_len passwd passwd_len db db_len silent
        use_full auth_protocol auth_plugin salt salt_len auth_data auth_data_len = some x ∧
      x.conn.incoming.length ≤ conn.incoming.length ∧
      (x.switch_to_auth_protocol ≠ none → x.conn.incoming.length < conn.incoming.length) ∧
      (x.ret = enum_func_status.FAIL → x.conn.charset = conn.charset) := by
  obtain ⟨w, hw⟩ := auth_change_user_payload_isSome conn user db db_len silent use_full
    auth_protocol auth_data auth_data_len (fun _ _ => hcs)
  unfold mysqlnd_auth_change_user
  simp only [hw]
  have hwi := PACKET_WRITE_incoming conn w
  have hwc := PACKET_WRITE_charset conn w
  generalize PACKET_WRITE conn w = wr at hwi hwc ⊢
  obtain ⟨ok, c⟩ := wr
  simp only [] at hwi hwc ⊢
  cases ok
  · simp only [if_true]
    refine ⟨_, rfl, ?_, fun h => absurd rfl h, fun _ => ?_⟩
    · simp only [SET_CLIENT_ERROR_incoming, SET_CONNECTION_STATE]
      rw [hwi]
    · simp only [SET_CLIENT_ERROR_charset, SET_CONNECTION_STATE]
      exact hwc
  · simp only [Bool.true_eq_false, if_false]
    obtain ⟨r, hr, hle, hlt, hrc⟩ := call_handle_server_response_reads auth_plugin hp c salt
      salt_len user passwd passwd_len
    rw [hwi] at hle hlt
    rw [hwc] at hrc
    rw [hr]
    simp only []
    split
    · exact ⟨_, rfl, hle, hlt, fun _ => hrc⟩
    · obtain ⟨x, hx⟩ := auth_change_user_read_response_isSome env user user_len passwd
        conn.charset r hcs
      have hrr := auth_change_user_read_response_incoming env user user_len passwd conn.charset
        r x hx
      refine ⟨x, hx, ?_, ?_, fun hf => (hrr.2.2 hf).trans hrc⟩
      · exact le_trans hrr.1 (le_trans (by simp) hle)
      · intro hsw
        cases hri : r.conn.incoming with
        | nil =>
          have := hlt (by rw [← hrr.2.1 hri]; exact hsw)
          have h1 := hrr.1
          rw [hri] at this h1
          simp only [List.tail_nil, List.length_nil, Nat.le_zero_eq] at h1
          rw [h1]
          simpa using this
        | cons p rest =>
          have h1 := hrr.1
          rw [hri] at hle h1
          simp only [List.tail_cons] at h1
          simp only [List.length_cons] at hle
          omega

/-- Under `ReadsScript` for every registered mechanism, one pass through the loop body
returns (on change-user: when the connection has a character set); it adds nothing to
the server script, when it leaves a switch it has taken a packet from the script, and
a pass of a change-user that ends with FAIL leaves the character set as it was. -/
theorem run_authentication_body_reads (env : AuthEnv)
    (henv : ∀ name p, env.fetch_auth_plugin_by_name name = some p → ReadsScript p)
    (a : AuthArgs) (st : AuthLoop)
    (hcs : a.is_change_user = true → st.conn.charset ≠ none) :
    ∃ b st1, run_authentication_body env a st = some (b, st1) ∧
      st1.conn.incoming.length ≤ st.conn.incoming.length ∧
      (b = false → st1.switch_to_auth_protocol ≠ none →
        st1.conn.incoming.length < st.conn.incoming.length) ∧
      (b = false → a.is_change_user = true → st1.ret = enum_func_status.FAIL →
        st1.conn.charset ≠ none) := by
  unfold run_authentication_body
  simp only []
  split
  · refine ⟨true, _, rfl, ?_, fun h => Bool.noConfusion h, fun h => Bool.noConfusion h⟩
    simp only [SET_CLIENT_ERROR_incoming]
    exact le_refl _
  · obtain ⟨sd, hsd, hle, hsc⟩ := call_get_auth_data_reads
      (env.fetch_auth_plugin_by_name st.requested_protocol) (henv st.requested_protocol)
      { st.conn with authentication_plugin_data := st.plugin_data } a.user a.passwd
      a.passwd_len st.plugin_data st.plugin_data.length a.session_options a.mysql_flags
    rw [hsd]
    simp only []
    split
    · exact ⟨true, _, rfl, hle, fun h => Bool.noConfusion h, fun h => Bool.noConfusion h⟩
    · have hex : ∃ x, (if a.is_change_user = false then
            mysqlnd_auth_handshake env sd.conn a.user a.passwd a.passwd_len a.db a.db_len
              a.session_options a.mysql_flags a.charset_no st.first_call
              (if (env.fetch_auth_plugin_by_name st.requested_protocol).isNone
                then MYSQLND_DEFAULT_AUTH_PROTOCOL else st.requested_protocol)
              (env.fetch_auth_plugin_by_name st.requested_protocol)
              st.plugin_data st.plugin_data.length sd.ret sd.auth_data_len
          else
            mysqlnd_auth_change_user env sd.conn a.user (strlen a.user) a.passwd a.passwd_len
              a.db a.db_len a.silent st.first_call
              (if (env.fetch_auth_plugin_by_name st.requested_protocol).isNone
                then MYSQLND_DEFAULT_AUTH_PROTOCOL else st.requested_protocol)
              (env.fetch_auth_plugin_by_name st.requested_protocol)
              st.plugin_data st.plugin_data.length sd.ret sd.auth_data_len) = some x ∧
          x.conn.incoming.length ≤ sd.conn.incoming.length ∧
          (x.switch_to_auth_protocol ≠ none →
            x.conn.incoming.length < sd.conn.incoming.length) ∧
          (a.is_change_user = true → x.ret = enum_func_status.FAIL →
            x.conn.charset ≠ none) := by
        split
        · rename_i hc
          obtain ⟨x, hx, h1, h2⟩ := mysqlnd_auth_handshake_reads env sd.conn a.user a.passwd
            a.passwd_len a.db a.db_len a.session_options a.mysql_flags a.charset_no
            st.first_call
            (if (env.fetch_auth_plugin_by_name st.requested_protocol).isNone
                then MYSQLND_DEFAULT_AUTH_PROTOCOL else st.requested_protocol)
            (env.fetch_auth_plugin_by_name st.requested_protocol) (henv st.requested_protocol)
            st.plugin_data st.plugin_data.length sd.ret sd.auth_data_len
          exact ⟨x, hx, h1, h2, fun hcu => by rw [hc] at hcu; cases hcu⟩
        · rename_i hc
          have hcu : a.is_change_user = true := by
            cases hcu : a.is_change_user
            · exact absurd hcu hc
            · rfl
          have hsdc : sd.conn.charset ≠ none := by
            rw [hsc]
            exact hcs hcu
          obtain ⟨x, hx, h1, h2, h3⟩ := mysqlnd_auth_change_user_reads env sd.conn a.user
            (strlen a.user) a.passwd a.passwd_len a.db a.db_len a.silent st.first_call
            (if (env.fetch_auth_plugin_by_name st.requested_protocol).isNone
                then MYSQLND_DEFAULT_AUTH_PROTOCOL else st.requested_protocol)
            (env.fetch_auth_plugin_by_name st.requested_protocol) (henv st.requested_protocol)
            st.plugin_data st.plugin_data.length sd.ret sd.auth_data_len hsdc
          exact ⟨x, hx, h1, h2, fun _ hf => by rw [h3 hf]; exact hsdc⟩
      obtain ⟨x, hx, hxle, hxlt, hxc⟩ := hex
      rw [hx]
      exact ⟨false, _, rfl, le_trans hxle hle, fun _ h => lt_of_lt_of_le (hxlt h) hle,
        fun _ hcu hf => hxc hcu hf⟩

/-- Under `ReadsScript` for every registered mechanism, the loop of
`mysqlnd_run_authentication` ends within one round more than the script has packets
(on change-user: when the connection has a character set). -/
theorem run_authentication_loop_terminates (env : AuthEnv)
    (henv : ∀ name p, env.fetch_auth_plugin_by_name name = some p → ReadsScript p)
    (a : AuthArgs) :
    ∀ (n : Nat) (st : AuthLoop), st.conn.incoming.length ≤ n →
      (a.is_change_user = true → st.conn.charset ≠ none) →
      ∃ r, run_authentication_loop env a (n + 1) st = some r := by
  intro n
  induction n with
  | zero =>
    intro st hn hcs
    obtain ⟨b, st1, hb, hle, hlt, _⟩ := run_authentication_body_reads env henv a st hcs
    rw [run_authentication_loop, hb]
    cases b with
    | true => exact ⟨_, rfl⟩
    | false =>
      simp only []
      split
      · rename_i hc
        have := hlt rfl hc.2.2
        omega
      · exact ⟨_, rfl⟩
  | succ k ih =>
    intro st hn hcs
    obtain ⟨b, st1, hb, hle, hlt, hch⟩ := run_authentication_body_reads env henv a st hcs
    rw [run_authentication_loop, hb]
    cases b with
    | true => exact ⟨_, rfl⟩
    | false =>
      simp only []
      split
      · rename_i hc
        have := hlt rfl hc.2.2
        exact ih st1 (by omega) (fun hcu => hch rfl hcu hc.1)
      · exact ⟨_, rfl⟩

/-- Under `ReadsScript` for every registered mechanism (in particular: their methods
return), `mysqlnd_run_authentication` returns on every finite server script, within one
iteration more than the script has packets.  On change-user the connection has a
character set: `mysqlnd_auth_change_user` dereferences `conn->charset`. -/
theorem run_authentication_terminates (env : AuthEnv)
    (henv : ∀ name p, env.fetch_auth_plugin_by_name name = some p → ReadsScript p)
    (conn : MYSQLND_CONN_DATA) (a : AuthArgs) (auth_plugin_data : List Nat)
    (auth_protocol : Option String)
    (hcs : a.is_change_user = true → conn.charset ≠ none) :
    ∃ r, mysqlnd_run_authentication env (conn.incoming.length + 1) conn a auth_plugin_data
      auth_protocol = some r := by
  unfold mysqlnd_run_authentication run_authentication_from
  obtain ⟨r, hr⟩ := run_authentication_loop_terminates env henv a conn.incoming.length
    (run_authentication_entry conn auth_plugin_data auth_protocol) (le_refl _) hcs
  rw [hr]
  obtain ⟨g, st1⟩ := r
  simp only []
  split
  · exact ⟨_, rfl⟩
  · exact ⟨_, rfl⟩

theorem switch_count_append (l1 l2 : List WireEvent) :
    switch_count (l1 ++ l2) = switch_count l1 + switch_count l2 := by
  simp [switch_count]

theorem switch_count_pos (l : List WireEvent) (s : String × List Nat)
    (h : last_switch l = some s) : 0 < switch_count l := by
  obtain ⟨pre, e, post, hl, he, _⟩ := last_switch_some l s h
  rw [hl, switch_count_append]
  have : 0 < switch_count (e :: post) := by
    simp [switch_count, List.filter_cons, he]
  omega

/-- More rounds do not change the result of the loop. -/
theorem run_authentication_loop_mono (env : AuthEnv) (a : AuthArgs) :
    ∀ (n : Nat) (st : AuthLoop) (r : Bool × AuthLoop) (m : Nat),
      run_authentication_loop env a n st = some r → n ≤ m →
      run_authentication_loop env a m st = some r := by
  intro n
  induction n with
  | zero => intro st r m h; simp [run_authentication_loop] at h
  | succ k ih =>
    intro st r m h hm
    obtain ⟨j, rfl⟩ : ∃ j, m = j + 1 := ⟨m - 1, by omega⟩
    rw [run_authentication_loop] at h ⊢
    split at h
    · cases h
    · exact h
    · rename_i st1 hb
      split at h
      · rename_i hc
        rw [if_pos hc]
        exact ih st1 r j h (by omega)
      · rename_i hc
        rw [if_neg hc]
        exact h

/-- The number of iterations of the loop of `mysqlnd_run_authentication` is at most one
more than the number of auth switch requests read: when the loop ends, it ends with the
same result within that many rounds.  An iteration is followed by another one only if
`ret` is `FAIL`, no client error is recorded and an auth switch request was read during
it. -/
theorem run_authentication_loop_bound (env : AuthEnv)
    (henv : ∀ name p, env.fetch_auth_plugin_by_name name = some p → SwitchFromWire p)
    (a : AuthArgs) :
    ∀ (fuel : Nat) (st : AuthLoop) (r : Bool × AuthLoop),
      run_authentication_loop env a fuel st = some r →
      ∃ evs, r.2.conn.trace = st.conn.trace ++ evs ∧
        run_authentication_loop env a (switch_count evs + 1) st = some r := by
  intro fuel
  induction fuel with
  | zero => intro st r h; simp [run_authentication_loop] at h
  | succ k ih =>
    intro st r h
    rw [run_authentication_loop] at h
    split at h
    · cases h
    · rename_i st1 hb
      simp only [Option.some.injEq] at h
      subst h
      obtain ⟨evs, ht, _⟩ := run_authentication_body_switch env henv a st true st1 hb
      refine ⟨evs, ht, ?_⟩
      rw [run_authentication_loop, hb]
    · rename_i st1 hb
      obtain ⟨evs1, ht1, _, hsw⟩ := run_authentication_body_switch env henv a st false st1 hb
      split at h
      · rename_i hc
        obtain ⟨evs2, ht2, hl2⟩ := ih st1 r h
        refine ⟨evs1 ++ evs2, ?_, ?_⟩
        · rw [ht2, ht1, List.append_assoc]
        · have hpos : 0 < switch_count evs1 := by
            have := hsw rfl
            cases hs : st1.switch_to_auth_protocol with
            | none => exact absurd hs hc.2.2
            | some n =>
              rw [hs] at this
              exact switch_count_pos evs1 _ this.1
          rw [switch_count_append, run_authentication_loop, hb]
          simp only []
          rw [if_pos hc]
          exact run_authentication_loop_mono env a _ st1 r _ hl2 (by omega)
      · rename_i hc
        simp only [Option.some.injEq] at h
        subst h
        refine ⟨evs1, ht1, ?_⟩
        rw [run_authentication_loop, hb]
        simp only []
        rw [if_neg hc]

/-- A pass through the loop body is followed by another one only if `ret` is `FAIL`, no
client error is recorded, and an auth switch request (a packet with the response code
`0xFE` and a plugin name) was read during the pass. -/
theorem run_authentication_continues_only_after_switch (env : AuthEnv)
    (henv : ∀ name p, env.fetch_auth_plugin_by_name name = some p → SwitchFromWire p)
    (a : AuthArgs) (st st1 : AuthLoop)
    (hb : run_authentication_body env a st = some (false, st1))
    (hc : st1.ret = enum_func_status.FAIL ∧ st1.conn.error_info.error_no = 0 ∧
      st1.switch_to_auth_protocol ≠ none) :
    ∃ evs k pkt n, st1.conn.trace = st.conn.trace ++ evs ∧ WireEvent.read k pkt ∈ evs ∧
      pkt.response_code = 0xFE ∧ pkt.new_auth_protocol = some n ∧
      st1.switch_to_auth_protocol = some n := by
  obtain ⟨evs, ht, _, hsw⟩ := run_authentication_body_switch env henv a st false st1 hb
  have := hsw rfl
  cases hs : st1.switch_to_auth_protocol with
  | none => exact absurd hs hc.2.2
  | some n =>
    rw [hs] at this
    obtain ⟨pre, e, post, hl, he, _⟩ := last_switch_some evs _ this.1
    obtain ⟨k, pkt, hek, hcode, hname, _⟩ := switch_of_some e n _ he
    refine ⟨evs, k, pkt, n, ht, ?_, hcode, hname, rfl⟩
    rw [hl, ← hek]
    simp

/-- The mechanisms `mysql_native_password` and `mysql_clear_password` satisfy
`ReadsScript`: their one method returns and leaves the script and the character set
alone. -/
theorem native_and_pam_read_script (SHA1 : List Nat → List Nat) :
    ReadsScript (mysqlnd_native_auth_plugin SHA1) ∧
    ReadsScript mysqlnd_pam_authentication_plugin := by
  constructor
  · constructor
    · intro conn user passwd passwd_len salt salt_len so fl
      refine ⟨_, rfl, ?_⟩
      unfold mysqlnd_native_auth_get_auth_data
      split
      · simp only [SET_CLIENT_ERROR_incoming, SET_CLIENT_ERROR_charset, le_refl, and_self]
      · split <;> exact ⟨le_refl _, rfl⟩
    · intro h hh
      simp [mysqlnd_native_auth_plugin] at hh
  · constructor
    · intro conn user passwd passwd_len salt salt_len so fl
      exact ⟨_, rfl, le_refl _, rfl⟩
    · intro h hh
      simp [mysqlnd_pam_authentication_plugin] at hh

/-- With `mysql_native_password` alone in the registry, `mysqlnd_run_authentication`
returns on every finite server script. -/
theorem native_only_run_terminates (conn : MYSQLND_CONN_DATA) (a : AuthArgs)
    (auth_plugin_data : List Nat) (auth_protocol : Option String)
    (hcs : a.is_change_user = true → conn.charset ≠ none) :
    ∃ r, mysqlnd_run_authentication native_only_env (conn.incoming.length + 1) conn a
      auth_plugin_data auth_protocol = some r := by
  refine run_authentication_terminates _ ?_ _ _ _ _ hcs
  intro name p hp
  simp only [native_only_env] at hp
  split at hp
  · simp only [Option.some.injEq] at hp
    subst hp
    exact (native_and_pam_read_script sample_hash20).1
  · cases hp

end MysqlndAuth
